import Mathlib

/-!
# Connection-oriented ONC RPC client transport (`src/clnt_vc.c`)

A shallow embedding of `clnt_vc_call`, `clnt_vc_control`, `clnt_vc_geterr` and
`time_not_ok`.

* The record stream (`XDR_PUTBYTES`, `XDR_PUTINT32`, `xdrrec_endofrecord`,
  `xdrrec_skiprecord`, `xdr_dplx_msg`, `xdr_opaque_auth`), the authentication
  handle (`AUTH_MARSHALL`, `AUTH_WRAP`, `AUTH_VALIDATE`, `AUTH_UNWRAP`,
  `AUTH_REFRESH`), the reply classification `_seterr_reply` and the duplex
  dispatch callback are collaborators declared outside `clnt_vc.c`.  They are
  taken as a parameter `Env σ`: deterministic operations over a collaborator
  state `σ` which may also rewrite `ct_error` (this is what `read_vc` and
  `write_vc` do on behalf of the record stream).
* Every collaborator invocation is appended to a chronological `trace`, so that
  statements such as "REFRESH is invoked at most twice" can be expressed.
* The receive loop `while (TRUE)` is driven by a fuel argument; running out of
  fuel is a separate outcome, never a returned status.
* Machine words are natural numbers reduced modulo `2 ^ 32`; the header buffer
  is a list of bytes and the byte order of the host is a parameter.
-/

namespace ClntVc


/-! ## Plain data -/

/-- Byte order of the host the client runs on. -/
inductive Endian where
  | big
  | little
deriving DecidableEq, Repr

/-- Counterpart of `struct timeval`: both fields are signed machine integers. -/
structure timeval where
  tv_sec : Int
  tv_usec : Int
deriving DecidableEq, Repr

/-- Counterpart of `enum clnt_stat`, the status vocabulary of the client. -/
inductive clnt_stat where
  | RPC_SUCCESS
  | RPC_CANTENCODEARGS
  | RPC_CANTDECODERES
  | RPC_CANTSEND
  | RPC_CANTRECV
  | RPC_TIMEDOUT
  | RPC_VERSMISMATCH
  | RPC_AUTHERROR
  | RPC_PROGUNAVAIL
  | RPC_PROGVERSMISMATCH
  | RPC_PROCUNAVAIL
  | RPC_CANTDECODEARGS
  | RPC_SYSTEMERROR
  | RPC_FAILED
deriving DecidableEq, Repr

/-- Counterpart of `enum auth_stat`, the sub-reason of an authentication error. -/
inductive auth_stat where
  | AUTH_OK
  | AUTH_BADCRED
  | AUTH_REJECTEDCRED
  | AUTH_BADVERF
  | AUTH_REJECTEDVERF
  | AUTH_TOOWEAK
  | AUTH_INVALIDRESP
  | AUTH_FAILED
deriving DecidableEq, Repr

/-- Counterpart of `struct rpc_err`: status, OS error number and the
authentication sub-reason. -/
structure rpc_err where
  re_status : clnt_stat
  re_errno : Int
  re_why : auth_stat
deriving DecidableEq, Repr

/-- Counterpart of `struct opaque_auth`; `oa_base = none` is the null pointer. -/
structure opaque_auth where
  oa_flavor : Nat
  oa_base : Option (List Nat)
deriving DecidableEq, Repr

/-- The constant `_null_auth`. -/
def _null_auth : opaque_auth := { oa_flavor := 0, oa_base := none }

/-- Message direction `CALL` of `enum msg_type`. -/
def CALL : Nat := 0

/-- Message direction `REPLY` of `enum msg_type`. -/
def REPLY : Nat := 1

/-- Identifier of an XDR routine (`xdrproc_t`); a null routine is `none`. -/
abbrev xdrproc_t := Nat

/-- The routine `xdr_void`. -/
def xdr_void : xdrproc_t := 0

/-- The parts of `struct rpc_msg` that `clnt_vc_call` reads or writes.  The
reply body is kept as the raw discriminants; it is interpreted only by
`_seterr_reply`. -/
structure rpc_msg where
  rm_xid : Nat
  rm_direction : Nat
  rp_stat : Nat
  ar_stat : Nat
  rj_stat : Nat
  ar_verf : opaque_auth
  ar_results_where : Option Nat
  ar_results_proc : xdrproc_t
deriving DecidableEq, Repr

/-- Counterpart of `enum xdr_op`. -/
inductive xdr_op where
  | XDR_ENCODE
  | XDR_DECODE
  | XDR_FREE
deriving DecidableEq, Repr

/-- Counterpart of `struct netbuf`. -/
structure netbuf where
  maxlen : Nat
  len : Nat
  buf : List Nat
deriving DecidableEq, Repr

/-- Counterpart of `struct ct_data`.  `ct_mcallc` is the byte view of the union
`ct_u`; its word view `ct_mcalli` is `ct_mcalli_get`.  The two flag bits of
`ct_duplex.ct_flags` are kept as two booleans; a duplex handle is assumed to
carry a non-null `ct_xprt`, as the code asserts. -/
structure ct_data where
  ct_fd : Int
  ct_closeit : Bool
  ct_wait : timeval
  ct_waitset : Bool
  ct_addr : netbuf
  ct_error : rpc_err
  ct_mcallc : List Nat
  ct_mpos : Nat
  x_op : xdr_op
  CT_FLAG_DUPLEX : Bool
  CT_FLAG_EVENTS_BLOCKED : Bool
deriving DecidableEq, Repr

/-! ## Byte order -/

/-- Value of a four-byte sequence read most significant byte first. -/
def be32 (bs : List Nat) : Nat :=
  bs.getD 0 0 * 2 ^ 24 + bs.getD 1 0 * 2 ^ 16 + bs.getD 2 0 * 2 ^ 8 + bs.getD 3 0

/-- Value of a four-byte sequence read least significant byte first. -/
def le32 (bs : List Nat) : Nat :=
  bs.getD 3 0 * 2 ^ 24 + bs.getD 2 0 * 2 ^ 16 + bs.getD 1 0 * 2 ^ 8 + bs.getD 0 0

/-- The four bytes of a 32-bit word, most significant first. -/
def bytes_be (v : Nat) : List Nat :=
  [v / 2 ^ 24 % 256, v / 2 ^ 16 % 256, v / 2 ^ 8 % 256, v % 256]

/-- The four bytes of a 32-bit word, least significant first. -/
def bytes_le (v : Nat) : List Nat :=
  [v % 256, v / 2 ^ 8 % 256, v / 2 ^ 16 % 256, v / 2 ^ 24 % 256]

/-- Load of a `u_int32_t` from memory on a host of byte order `e`. -/
def load32 (e : Endian) (bs : List Nat) : Nat :=
  match e with
  | .big => be32 bs
  | .little => le32 bs

/-- Store of a `u_int32_t` to memory on a host of byte order `e`. -/
def store32 (e : Endian) (v : Nat) : List Nat :=
  match e with
  | .big => bytes_be v
  | .little => bytes_le v

/-- Byte reversal of a 32-bit word. -/
def bswap32 (v : Nat) : Nat := be32 (bytes_le v)

/-- `ntohl`: the identity on a big-endian host, a byte reversal otherwise. -/
def ntohl (e : Endian) (v : Nat) : Nat :=
  match e with
  | .big => v % 2 ^ 32
  | .little => bswap32 v

/-- `htonl`: the identity on a big-endian host, a byte reversal otherwise. -/
def htonl (e : Endian) (v : Nat) : Nat :=
  match e with
  | .big => v % 2 ^ 32
  | .little => bswap32 v

/-- Read of the word `ct_u.ct_mcalli`, overlaid on the first four header bytes. -/
def ct_mcalli_get (e : Endian) (ct : ct_data) : Nat :=
  load32 e (ct.ct_mcallc.take 4)

/-- Write of the word `ct_u.ct_mcalli`: replaces the first four header bytes. -/
def ct_mcalli_set (e : Endian) (ct : ct_data) (v : Nat) : ct_data :=
  { ct with ct_mcallc := store32 e v ++ ct.ct_mcallc.drop 4 }

/-- Read of the 32-bit word at byte offset `off` of the header buffer. -/
def mcallc_word_get (e : Endian) (ct : ct_data) (off : Nat) : Nat :=
  load32 e ((ct.ct_mcallc.drop off).take 4)

/-- Write of the 32-bit word at byte offset `off` of the header buffer. -/
def mcallc_word_set (e : Endian) (ct : ct_data) (off : Nat) (v : Nat) : ct_data :=
  { ct with ct_mcallc := ct.ct_mcallc.take off ++ store32 e v ++ ct.ct_mcallc.drop (off + 4) }

/-- The constant `BYTES_PER_XDR_UNIT`. -/
def BYTES_PER_XDR_UNIT : Nat := 4

/-! ## `time_not_ok` -/

/-- Embedding of `time_not_ok`: `TRUE` means the timeval is rejected. -/
def time_not_ok (t : timeval) : Bool :=
  decide (t.tv_sec ≤ -1) || decide (t.tv_sec > 100000000) ||
    decide (t.tv_usec ≤ -1) || decide (t.tv_usec > 1000000)

/-- The validity test as the specification words it: seconds in
`[0, 100000000]` and microseconds in the half-open range `[0, 1000000)`. -/
def spec_timeval_ok (t : timeval) : Bool :=
  decide (0 ≤ t.tv_sec) && decide (t.tv_sec ≤ 100000000) &&
    decide (0 ≤ t.tv_usec) && decide (t.tv_usec < 1000000)

/-! ## Collaborators, state and trace -/

/-- Result of a collaborator operation: its boolean result, the collaborator
state afterwards and the error record as the operation left it. -/
structure OpRes (σ : Type) where
  ok : Bool
  w : σ
  err : rpc_err

/-- Result of a collaborator operation that also fills or replaces the
message buffer (`xdr_dplx_msg`, `AUTH_REFRESH`). -/
structure MsgRes (σ : Type) where
  ok : Bool
  msg : rpc_msg
  w : σ
  err : rpc_err

/-- Result of the dispatch callback `xp_dispatch(duplex_xprt, &msg)`: the
message buffer it hands back, the collaborator state, and the value it leaves
in the events-blocked flag of the duplex linkage.  The callback is given the
server transport `duplex_xprt`, through which it reads the field `x_id` of the
connection data `cd` (first argument of `Env.xp_dispatch`), the message, the
collaborator state and the events-blocked flag. -/
structure DispRes (σ : Type) where
  msg : rpc_msg
  w : σ
  events_blocked : Bool

/-- The collaborators of `clnt_vc.c`, none of which is defined in that file. -/
structure Env (σ : Type) where
  XDR_PUTBYTES : List Nat → σ → rpc_err → OpRes σ
  XDR_PUTINT32 : Nat → σ → rpc_err → OpRes σ
  AUTH_MARSHALL : σ → rpc_err → OpRes σ
  AUTH_WRAP : Option xdrproc_t → Nat → σ → rpc_err → OpRes σ
  xdrrec_endofrecord : Bool → σ → rpc_err → OpRes σ
  xdrrec_skiprecord : σ → rpc_err → OpRes σ
  xdr_dplx_msg : rpc_msg → σ → rpc_err → MsgRes σ
  xp_dispatch : Nat → rpc_msg → σ → Bool → DispRes σ
  _seterr_reply : rpc_msg → rpc_err → rpc_err
  AUTH_VALIDATE : opaque_auth → σ → rpc_err → OpRes σ
  AUTH_UNWRAP : Option xdrproc_t → Nat → σ → rpc_err → OpRes σ
  xdr_opaque_auth : opaque_auth → σ → σ
  AUTH_REFRESH : rpc_msg → σ → rpc_err → MsgRes σ

/-- Observable events, in the order the code performs them. -/
inductive Ev where
  | vc_fd_lock
  | vc_fd_unlock
  | block_events
  | unblock_events
  | putbytes (bs : List Nat) (ok : Bool)
  | putint32 (v : Nat) (ok : Bool)
  | marshall (ok : Bool)
  | wrap (ok : Bool)
  | endofrecord (flush : Bool) (ok : Bool)
  | skiprecord (ok : Bool)
  | dplx_msg (ok : Bool) (m : rpc_msg)
  | dispatch (xid : Nat)
  | seterr_reply (m : rpc_msg) (st : clnt_stat)
  | validate (ok : Bool)
  | unwrap (ok : Bool)
  | free_verf
  | refresh (ok : Bool)
deriving DecidableEq, Repr

/-- Everything a call or control request can read or change: the private data
of the handle, the collaborator state, the message buffer of the running call,
the `x_id` field of the paired server transport, and the trace. -/
structure State (σ : Type) where
  ct : ct_data
  w : σ
  msg : rpc_msg
  cd_x_id : Nat
  trace : List Ev

/-- Arguments of `clnt_vc_call` other than the handle. -/
structure call_args where
  proc : Nat
  xdr_args : Option xdrproc_t
  args_ptr : Nat
  xdr_results : Option xdrproc_t
  results_ptr : Nat
  timeout : timeval

variable {σ : Type}

/-- Append one event to the trace. -/
def State.log (s : State σ) (ev : Ev) : State σ :=
  { s with trace := s.trace ++ [ev] }

/-- Set `ct_error.re_status`. -/
def State.set_status (s : State σ) (st : clnt_stat) : State σ :=
  { s with ct := { s.ct with ct_error := { s.ct.ct_error with re_status := st } } }

/-- Set `xdrs->x_op`. -/
def State.set_x_op (s : State σ) (op : xdr_op) : State σ :=
  { s with ct := { s.ct with x_op := op } }

/-- Record the effect of a collaborator operation. -/
def State.op (s : State σ) (r : OpRes σ) (ev : Ev) : State σ :=
  { s with w := r.w, ct := { s.ct with ct_error := r.err }, trace := s.trace ++ [ev] }

/-- Record the effect of a collaborator operation that returns a message. -/
def State.op_msg (s : State σ) (r : MsgRes σ) (ev : Ev) : State σ :=
  { s with w := r.w, msg := r.msg, ct := { s.ct with ct_error := r.err },
           trace := s.trace ++ [ev] }

/-- The status currently stored in `ct_error.re_status`. -/
def State.status (s : State σ) : clnt_stat := s.ct.ct_error.re_status

/-! ## Event blocking -/

/-- Embedding of `cond_block_events_client`. -/
def cond_block_events_client (s : State σ) : Bool × State σ :=
  if s.ct.CT_FLAG_DUPLEX && !s.ct.CT_FLAG_EVENTS_BLOCKED then
    (true, { s with ct := { s.ct with CT_FLAG_EVENTS_BLOCKED := true },
                    trace := s.trace ++ [Ev.block_events] })
  else
    (false, s)

/-- Embedding of `cond_unblock_events_client`. -/
def cond_unblock_events_client (s : State σ) : State σ :=
  if s.ct.CT_FLAG_EVENTS_BLOCKED then
    { s with ct := { s.ct with CT_FLAG_EVENTS_BLOCKED := false },
             trace := s.trace ++ [Ev.unblock_events] }
  else
    s

/-! ## `clnt_vc_call` -/

/-- Lines 396-398: `x_op = XDR_ENCODE`, `re_status = RPC_SUCCESS` and the
pre-decrement `--(*msg_x_id)` of the word overlaid on the header. -/
def begin_attempt (e : Endian) (s : State σ) : State σ :=
  let s0 := (s.set_x_op xdr_op.XDR_ENCODE).set_status clnt_stat.RPC_SUCCESS
  { s0 with ct := ct_mcalli_set e s0.ct ((ct_mcalli_get e s0.ct + 2 ^ 32 - 1) % 2 ^ 32) }

/-- The local `x_id = ntohl(--(*msg_x_id))`: the value of the pre-decrement
expression, computed from the state in which the attempt starts. -/
def attempt_x_id (e : Endian) (s : State σ) : Nat :=
  ntohl e ((ct_mcalli_get e s.ct + 2 ^ 32 - 1) % 2 ^ 32)

/-- Lines 400-403: the four encode steps joined by `||`; the result is `true`
when all four succeeded. -/
def encode_call (E : Env σ) (a : call_args) (s : State σ) : Bool × State σ :=
  let hdr := s.ct.ct_mcallc.take s.ct.ct_mpos
  let r1 := E.XDR_PUTBYTES hdr s.w s.ct.ct_error
  let s1 := s.op r1 (Ev.putbytes hdr r1.ok)
  if !r1.ok then (false, s1) else
  let r2 := E.XDR_PUTINT32 a.proc s1.w s1.ct.ct_error
  let s2 := s1.op r2 (Ev.putint32 a.proc r2.ok)
  if !r2.ok then (false, s2) else
  let r3 := E.AUTH_MARSHALL s2.w s2.ct.ct_error
  let s3 := s2.op r3 (Ev.marshall r3.ok)
  if !r3.ok then (false, s3) else
  let r4 := E.AUTH_WRAP a.xdr_args a.args_ptr s3.w s3.ct.ct_error
  let s4 := s3.op r4 (Ev.wrap r4.ok)
  (r4.ok, s4)

/-- Lines 427-430: the three message fields are reset and the stream skips to
the next record; the flag is the result of `xdrrec_skiprecord`. -/
def skip_record (E : Env σ) (s : State σ) : Bool × State σ :=
  let s0 : State σ :=
    { s with msg := { s.msg with ar_verf := _null_auth, ar_results_where := none,
                                 ar_results_proc := xdr_void } }
  let r := E.xdrrec_skiprecord s0.w s0.ct.ct_error
  (r.ok, s0.op r (Ev.skiprecord r.ok))

/-- Line 436: the message header is decoded; the flag is the result of
`xdr_dplx_msg`. -/
def decode_header (E : Env σ) (s : State σ) : Bool × State σ :=
  let d := E.xdr_dplx_msg s.msg s.w s.ct.ct_error
  (d.ok, s.op_msg d (Ev.dplx_msg d.ok d.msg))

/-- What one pass of the receive loop obtains from the record stream: the
result of `xdrrec_skiprecord`, the result of `xdr_dplx_msg` (`false` when it
was not reached) and the state after these calls. -/
structure Fetched (σ : Type) where
  skip_ok : Bool
  decode_ok : Bool
  s : State σ

/-- Lines 427-436: skip to the next record and, if that worked, decode the
message header. -/
def fetch_record (E : Env σ) (s : State σ) : Fetched σ :=
  let k := skip_record E s
  if !k.1 then { skip_ok := false, decode_ok := false, s := k.2 } else
  let d := decode_header E k.2
  { skip_ok := true, decode_ok := d.1, s := d.2 }

/-- Lines 460-468: an intercepted CALL on a duplex handle records the incoming
transaction id on the paired server transport (`cd->x_id = msg->rm_xid`) and
then invokes its dispatch callback, which finds the transport with that id
recorded. -/
def dispatch_call (E : Env σ) (s : State σ) : State σ :=
  let s3 : State σ := { s with cd_x_id := s.msg.rm_xid }
  let p := E.xp_dispatch s3.cd_x_id s3.msg s3.w s3.ct.CT_FLAG_EVENTS_BLOCKED
  { s3 with msg := p.msg, w := p.w,
            ct := { s3.ct with CT_FLAG_EVENTS_BLOCKED := p.events_blocked },
            trace := s3.trace ++ [Ev.dispatch s3.cd_x_id] }

/-- Outcome of one pass of the receive loop body (lines 427-472). -/
inductive Step (σ : Type) where
  | next (s : State σ)
  | replied (s : State σ)
  | ret (r : clnt_stat) (s : State σ)

/-- One pass of the body of `while (TRUE)`. -/
def recv_body (E : Env σ) (x_id : Nat) (duplex : Bool) (s : State σ) : Step σ :=
  let f := fetch_record E s
  if !f.skip_ok then Step.ret f.s.status f.s
  else if !f.decode_ok then
    if f.s.status = clnt_stat.RPC_SUCCESS then Step.next f.s else Step.ret f.s.status f.s
  else if f.s.msg.rm_direction = REPLY then
    if f.s.msg.rm_xid = x_id then Step.replied f.s else Step.next f.s
  else if f.s.msg.rm_direction = CALL then
    if duplex then Step.next (dispatch_call E f.s) else Step.next f.s
  else Step.next f.s

/-- Outcome of the receive loop. -/
inductive RecvRes (σ : Type) where
  | replied (s : State σ)
  | ret (r : clnt_stat) (s : State σ)
  | out_of_fuel (s : State σ)

/-- The receive loop `while (TRUE)`, at most `fuel` passes. -/
def recv_loop (E : Env σ) (x_id : Nat) (duplex : Bool) : Nat → State σ → RecvRes σ
  | 0, s => RecvRes.out_of_fuel s
  | fuel + 1, s =>
    match recv_body E x_id duplex s with
    | Step.next s1 => recv_loop E x_id duplex fuel s1
    | Step.replied s1 => RecvRes.replied s1
    | Step.ret r s1 => RecvRes.ret r s1

/-- Outcome of reply processing (label `replied`, lines 479-499). -/
inductive ReplyRes (σ : Type) where
  | completed (s : State σ)
  | unsuccessful (s : State σ)

/-- Reply processing up to the refresh decision: classification by
`_seterr_reply`; on `RPC_SUCCESS` validation, unwrapping and the release of
the verifier; otherwise the branch that may refresh. -/
def process_reply (E : Env σ) (a : call_args) (s : State σ) : ReplyRes σ :=
  let err := E._seterr_reply s.msg s.ct.ct_error
  let s1 : State σ :=
    { s with ct := { s.ct with ct_error := err },
             trace := s.trace ++ [Ev.seterr_reply s.msg err.re_status] }
  if s1.status = clnt_stat.RPC_SUCCESS then
    let v := E.AUTH_VALIDATE s1.msg.ar_verf s1.w s1.ct.ct_error
    let s2 := s1.op v (Ev.validate v.ok)
    let s3 : State σ :=
      if !v.ok then
        { s2 with ct := { s2.ct with ct_error :=
            { s2.ct.ct_error with re_status := clnt_stat.RPC_AUTHERROR,
                                  re_why := auth_stat.AUTH_INVALIDRESP } } }
      else
        let u := E.AUTH_UNWRAP a.xdr_results a.results_ptr s2.w s2.ct.ct_error
        let s2u := s2.op u (Ev.unwrap u.ok)
        if !u.ok then
          if s2u.status = clnt_stat.RPC_SUCCESS then
            s2u.set_status clnt_stat.RPC_CANTDECODERES
          else s2u
        else s2u
    let s4 : State σ :=
      if s3.msg.ar_verf.oa_base ≠ none then
        { (s3.set_x_op xdr_op.XDR_FREE) with
            w := E.xdr_opaque_auth s3.msg.ar_verf s3.w,
            trace := s3.trace ++ [Ev.free_verf] }
      else s3
    ReplyRes.completed s4
  else
    ReplyRes.unsuccessful s1

/-- Outcome of one pass from `call_again` to the refresh decision. -/
inductive AttemptRes (σ : Type) where
  | done (r : clnt_stat) (s : State σ)
  | unsuccessful (s : State σ)
  | out_of_fuel (s : State σ)

/-- How reply processing ends an attempt: a completed reply returns
`ct_error.re_status` (line 500); an unsuccessful one reaches the refresh
decision. -/
def reply_outcome (r : ReplyRes σ) : AttemptRes σ :=
  match r with
  | ReplyRes.completed s => AttemptRes.done s.status s
  | ReplyRes.unsuccessful s => AttemptRes.unsuccessful s

/-- Lines 425-494: the receive loop followed by reply processing. -/
def receive_reply (E : Env σ) (a : call_args) (x_id : Nat) (duplex : Bool) (fuel : Nat)
    (s : State σ) : AttemptRes σ :=
  match recv_loop E x_id duplex fuel (s.set_x_op xdr_op.XDR_DECODE) with
  | RecvRes.out_of_fuel s3 => AttemptRes.out_of_fuel s3
  | RecvRes.ret r3 s3 => AttemptRes.done r3 s3
  | RecvRes.replied s3 => reply_outcome (process_reply E a s3)

/-- One attempt: lines 396-494, from the label `call_again` up to (not
including) the refresh decision. -/
def attempt (E : Env σ) (e : Endian) (a : call_args) (shipnow duplex : Bool) (fuel : Nat)
    (s : State σ) : AttemptRes σ :=
  let x_id := attempt_x_id e s
  let s1 := begin_attempt e s
  let enc := encode_call E a s1
  if !enc.1 then
    let s2 := if enc.2.status = clnt_stat.RPC_SUCCESS then
                enc.2.set_status clnt_stat.RPC_CANTENCODEARGS else enc.2
    let r := E.xdrrec_endofrecord true s2.w s2.ct.ct_error
    let s3 := s2.op r (Ev.endofrecord true r.ok)
    AttemptRes.done s3.status s3
  else
    let r := E.xdrrec_endofrecord shipnow enc.2.w enc.2.ct.ct_error
    let s2 := enc.2.op r (Ev.endofrecord shipnow r.ok)
    if !r.ok then
      AttemptRes.done clnt_stat.RPC_CANTSEND (s2.set_status clnt_stat.RPC_CANTSEND)
    else if !shipnow then
      AttemptRes.done clnt_stat.RPC_SUCCESS s2
    else if a.timeout.tv_sec = 0 ∧ a.timeout.tv_usec = 0 then
      AttemptRes.done clnt_stat.RPC_TIMEDOUT (s2.set_status clnt_stat.RPC_TIMEDOUT)
    else
      receive_reply E a x_id duplex fuel s2

/-- Outcome of a call: a returned status with the final state, or a receive
loop that was still running when the fuel ran out. -/
inductive Outcome (σ : Type) where
  | done (r : clnt_stat) (s : State σ)
  | out_of_fuel (s : State σ)

/-- The retry structure around `call_again`: after an unsuccessful
classification, `if (refreshes-- && AUTH_REFRESH(cl->cl_auth, &msg)) goto
call_again;` and otherwise the return of `ct_error.re_status`. -/
def call_again (E : Env σ) (e : Endian) (a : call_args) (shipnow duplex : Bool) (fuel : Nat) :
    Nat → State σ → Outcome σ
  | refreshes, s =>
    match attempt E e a shipnow duplex fuel s, refreshes with
    | AttemptRes.done r s1, _ => Outcome.done r s1
    | AttemptRes.out_of_fuel s1, _ => Outcome.out_of_fuel s1
    | AttemptRes.unsuccessful s1, 0 => Outcome.done s1.status s1
    | AttemptRes.unsuccessful s1, n + 1 =>
      let r := E.AUTH_REFRESH s1.msg s1.w s1.ct.ct_error
      let s2 := s1.op_msg r (Ev.refresh r.ok)
      if r.ok then call_again E e a shipnow duplex fuel n s2
      else Outcome.done s2.status s2

/-- The flag `shipnow` (lines 391-393). -/
def shipnow_of (a : call_args) : Bool :=
  if a.xdr_results = none ∧ a.timeout.tv_sec = 0 ∧ a.timeout.tv_usec = 0 then false else true

/-- Lines 385-389: adoption of the per-call timeout. -/
def adopt_timeout (a : call_args) (s : State σ) : State σ :=
  if !s.ct.ct_waitset then
    if time_not_ok a.timeout = false then { s with ct := { s.ct with ct_wait := a.timeout } }
    else s
  else s

/-- Lines 367-389: the per-fd lock is taken, event processing is paused if
needed and the per-call timeout is adopted; the flag is `ev_blocked`. -/
def call_entry (a : call_args) (s : State σ) : Bool × State σ :=
  let b := cond_block_events_client (s.log Ev.vc_fd_lock)
  (b.1, adopt_timeout a b.2)

/-- Lines 502-506, the label `out`: event processing is resumed if this call
paused it and the per-fd lock is released. -/
def call_exit (ev_blocked : Bool) (s : State σ) : State σ :=
  (if ev_blocked then cond_unblock_events_client s else s).log Ev.vc_fd_unlock

/-- Embedding of `clnt_vc_call`; `fuel` bounds each run of the receive loop.
`duplex` is read after the lock is taken, `refreshes` starts at 2. -/
def clnt_vc_call (E : Env σ) (e : Endian) (fuel : Nat) (a : call_args) (s : State σ) :
    Outcome σ :=
  let duplex := s.ct.CT_FLAG_DUPLEX
  let en := call_entry a s
  match call_again E e a (shipnow_of a) duplex fuel 2 en.2 with
  | Outcome.out_of_fuel s4 => Outcome.out_of_fuel s4
  | Outcome.done r s4 => Outcome.done r (call_exit en.1 s4)

/-- Embedding of `clnt_vc_geterr`: a copy of `ct_error`. -/
def clnt_vc_geterr (s : State σ) : rpc_err := s.ct.ct_error

/-- The status a call returned, if it returned. -/
def Outcome.result (o : Outcome σ) : Option clnt_stat :=
  match o with
  | Outcome.done r _ => some r
  | Outcome.out_of_fuel _ => none

/-- The state a call ended in (or was in when the fuel ran out). -/
def Outcome.state (o : Outcome σ) : State σ :=
  match o with
  | Outcome.done _ s => s
  | Outcome.out_of_fuel s => s

/-- The state an attempt ended in. -/
def AttemptRes.state (o : AttemptRes σ) : State σ :=
  match o with
  | AttemptRes.done _ s => s
  | AttemptRes.unsuccessful s => s
  | AttemptRes.out_of_fuel s => s

/-- The state the receive loop ended in. -/
def RecvRes.state (o : RecvRes σ) : State σ :=
  match o with
  | RecvRes.replied s => s
  | RecvRes.ret _ s => s
  | RecvRes.out_of_fuel s => s

/-- The state one pass of the receive loop ended in. -/
def Step.state (o : Step σ) : State σ :=
  match o with
  | Step.next s => s
  | Step.replied s => s
  | Step.ret _ s => s

/-- The state reply processing ended in. -/
def ReplyRes.state (o : ReplyRes σ) : State σ :=
  match o with
  | ReplyRes.completed s => s
  | ReplyRes.unsuccessful s => s

/-- The fields of the private data that no step of a call attempt writes
after the header word has been decremented: header bytes and length, wait
policy, descriptor, close flag, address and the duplex bit. -/
def ct_data.stable (c : ct_data) :
    List Nat × Nat × timeval × Bool × Int × Bool × netbuf × Bool :=
  (c.ct_mcallc, c.ct_mpos, c.ct_wait, c.ct_waitset, c.ct_fd, c.ct_closeit, c.ct_addr,
    c.CT_FLAG_DUPLEX)

/-! ## `clnt_vc_control` -/

/-- The request codes `clnt_vc_control` switches on; `other` stands for every
code outside the handled set. -/
inductive clnt_req where
  | CLSET_FD_CLOSE
  | CLSET_FD_NCLOSE
  | CLSET_TIMEOUT
  | CLGET_TIMEOUT
  | CLGET_SERVER_ADDR
  | CLGET_FD
  | CLGET_SVC_ADDR
  | CLSET_SVC_ADDR
  | CLGET_XID
  | CLSET_XID
  | CLGET_VERS
  | CLSET_VERS
  | CLGET_PROG
  | CLSET_PROG
  | other (code : Nat)
deriving DecidableEq, Repr

/-- The object `info` points to, seen through each of the casts that
`clnt_vc_control` applies to the pointer. -/
structure info_obj where
  as_timeval : timeval
  as_u32 : Nat
  as_int : Int
  as_bytes : List Nat
  as_netbuf : netbuf
deriving DecidableEq, Repr

/-- Result of a control request: the returned `bool_t`, the state afterwards
and the object behind `info` afterwards. -/
structure CtlRes (σ : Type) where
  ret : Bool
  s : State σ
  info : Option info_obj

/-- The second `switch` of `clnt_vc_control`, entered with a non-null `info`:
the returned flag, the private data and the object behind `info`. -/
def control_switch (e : Endian) (ct : ct_data) (request : clnt_req) (i : info_obj) :
    Bool × ct_data × info_obj :=
  match request with
  | .CLSET_TIMEOUT =>
    if time_not_ok i.as_timeval then (false, ct, i)
    else (true, { ct with ct_wait := i.as_timeval, ct_waitset := true }, i)
  | .CLGET_TIMEOUT => (true, ct, { i with as_timeval := ct.ct_wait })
  | .CLGET_SERVER_ADDR =>
    (true, ct, { i with as_bytes := ct.ct_addr.buf.take ct.ct_addr.len ++
                                      i.as_bytes.drop ct.ct_addr.len })
  | .CLGET_FD => (true, ct, { i with as_int := ct.ct_fd })
  | .CLGET_SVC_ADDR => (true, ct, { i with as_netbuf := ct.ct_addr })
  | .CLSET_SVC_ADDR => (false, ct, i)
  | .CLGET_XID => (true, ct, { i with as_u32 := ntohl e (ct_mcalli_get e ct) })
  | .CLSET_XID => (true, ct_mcalli_set e ct (htonl e ((i.as_u32 + 1) % 2 ^ 32)), i)
  | .CLGET_VERS =>
    (true, ct, { i with as_u32 := ntohl e (mcallc_word_get e ct (4 * BYTES_PER_XDR_UNIT)) })
  | .CLSET_VERS =>
    (true, mcallc_word_set e ct (4 * BYTES_PER_XDR_UNIT) (htonl e i.as_u32), i)
  | .CLGET_PROG =>
    (true, ct, { i with as_u32 := ntohl e (mcallc_word_get e ct (3 * BYTES_PER_XDR_UNIT)) })
  | .CLSET_PROG =>
    (true, mcallc_word_set e ct (3 * BYTES_PER_XDR_UNIT) (htonl e i.as_u32), i)
  | _ => (false, ct, i)

/-- Embedding of `clnt_vc_control`.  Every path takes the per-fd lock first and
releases it last. -/
def clnt_vc_control (e : Endian) (s : State σ) (request : clnt_req)
    (info : Option info_obj) : CtlRes σ :=
  let s1 := s.log Ev.vc_fd_lock
  match request with
  | .CLSET_FD_CLOSE =>
    { ret := true, info := info,
      s := ({ s1 with ct := { s1.ct with ct_closeit := true } } : State σ).log Ev.vc_fd_unlock }
  | .CLSET_FD_NCLOSE =>
    { ret := true, info := info,
      s := ({ s1 with ct := { s1.ct with ct_closeit := false } } : State σ).log Ev.vc_fd_unlock }
  | _ =>
    match info with
    | none => { ret := false, s := s1.log Ev.vc_fd_unlock, info := none }
    | some i =>
      let r := control_switch e s1.ct request i
      { ret := r.1, info := some r.2.2,
        s := ({ s1 with ct := r.2.1 } : State σ).log Ev.vc_fd_unlock }

/-! ## Sample data used by the concrete instances -/

/-- A prebuilt call header as `xdr_callhdr` lays it out: transaction id 5,
direction `CALL`, RPC version 2, program 100003, version 3, in a buffer of
`MCALL_MSG_SIZE = 24` bytes. -/
def sample_header : List Nat :=
  [0, 0, 0, 5, 0, 0, 0, 0, 0, 0, 0, 2, 0, 1, 134, 163, 0, 0, 0, 3, 0, 0, 0, 0]

/-- Private data of a freshly created, non-duplex handle. -/
def sample_ct : ct_data :=
  { ct_fd := 7, ct_closeit := false, ct_wait := { tv_sec := 30, tv_usec := 0 },
    ct_waitset := false, ct_addr := { maxlen := 16, len := 4, buf := [10, 0, 0, 1] },
    ct_error := { re_status := clnt_stat.RPC_SUCCESS, re_errno := 0,
                  re_why := auth_stat.AUTH_OK },
    ct_mcallc := sample_header, ct_mpos := 20, x_op := xdr_op.XDR_ENCODE,
    CT_FLAG_DUPLEX := false, CT_FLAG_EVENTS_BLOCKED := false }

/-- An empty message buffer. -/
def sample_msg : rpc_msg :=
  { rm_xid := 0, rm_direction := 0, rp_stat := 0, ar_stat := 0, rj_stat := 0,
    ar_verf := _null_auth, ar_results_where := none, ar_results_proc := xdr_void }

/-- A state around `sample_ct` with collaborator state `w`. -/
def sample_state (w : σ) : State σ :=
  { ct := sample_ct, w := w, msg := sample_msg, cd_x_id := 0, trace := [] }

/-- An object behind `info` holding the timeval `t` and the word `v`. -/
def sample_info (t : timeval) (v : Nat) : info_obj :=
  { as_timeval := t, as_u32 := v, as_int := 0, as_bytes := [],
    as_netbuf := { maxlen := 0, len := 0, buf := [] } }

/-- Arguments of a call that expects a reply and passes a 25 second timeout. -/
def sample_args : call_args :=
  { proc := 1, xdr_args := some 1, args_ptr := 0, xdr_results := some 2, results_ptr := 0,
    timeout := { tv_sec := 25, tv_usec := 0 } }

/-- Arguments of a batched call: no results decoder and a zero timeout. -/
def batched_args : call_args :=
  { proc := 1, xdr_args := some 1, args_ptr := 0, xdr_results := none, results_ptr := 0,
    timeout := { tv_sec := 0, tv_usec := 0 } }

/-- Arguments of a call that expects results but passes a zero timeout. -/
def poll_args : call_args :=
  { proc := 1, xdr_args := some 1, args_ptr := 0, xdr_results := some 2, results_ptr := 0,
    timeout := { tv_sec := 0, tv_usec := 0 } }

/-- A classification in the manner of RFC 5531: an accepted reply with accept
status 0 is a success, other accepted replies and denied replies map to the
corresponding error status. -/
def sample_seterr_reply (m : rpc_msg) (err : rpc_err) : rpc_err :=
  if m.rp_stat = 0 then
    if m.ar_stat = 0 then { err with re_status := clnt_stat.RPC_SUCCESS }
    else if m.ar_stat = 1 then { err with re_status := clnt_stat.RPC_PROGUNAVAIL }
    else if m.ar_stat = 2 then { err with re_status := clnt_stat.RPC_PROGVERSMISMATCH }
    else if m.ar_stat = 3 then { err with re_status := clnt_stat.RPC_PROCUNAVAIL }
    else if m.ar_stat = 4 then { err with re_status := clnt_stat.RPC_CANTDECODEARGS }
    else { err with re_status := clnt_stat.RPC_SYSTEMERROR }
  else if m.rp_stat = 1 then
    if m.rj_stat = 0 then { err with re_status := clnt_stat.RPC_VERSMISMATCH }
    else { err with re_status := clnt_stat.RPC_AUTHERROR }
  else { err with re_status := clnt_stat.RPC_FAILED }

/-- A peer that answers at once: the collaborator state is the transaction id
of the last header handed to the record stream, and every header decode
yields a REPLY carrying that id with reply status `rp`, accept status `ar` and
reject status `rj`.  `validate_ok` and `refresh_ok` are the fixed answers of
`AUTH_VALIDATE` and `AUTH_REFRESH`. -/
def echo_env (rp ar rj : Nat) (validate_ok refresh_ok : Bool) : Env Nat :=
  { XDR_PUTBYTES := fun bs _ err => { ok := true, w := be32 (bs.take 4), err := err }
    XDR_PUTINT32 := fun _ w err => { ok := true, w := w, err := err }
    AUTH_MARSHALL := fun w err => { ok := true, w := w, err := err }
    AUTH_WRAP := fun _ _ w err => { ok := true, w := w, err := err }
    xdrrec_endofrecord := fun _ w err => { ok := true, w := w, err := err }
    xdrrec_skiprecord := fun w err => { ok := true, w := w, err := err }
    xdr_dplx_msg := fun m w err =>
      { ok := true, w := w, err := err,
        msg := { m with rm_xid := w, rm_direction := REPLY, rp_stat := rp, ar_stat := ar,
                        rj_stat := rj, ar_verf := { oa_flavor := 1, oa_base := some [1, 2] } } }
    xp_dispatch := fun _ m w b => { msg := m, w := w, events_blocked := b }
    _seterr_reply := sample_seterr_reply
    AUTH_VALIDATE := fun _ w err => { ok := validate_ok, w := w, err := err }
    AUTH_UNWRAP := fun _ _ w err => { ok := true, w := w, err := err }
    xdr_opaque_auth := fun _ w => w
    AUTH_REFRESH := fun m w err => { ok := refresh_ok, msg := m, w := w, err := err } }

/-- A scripted inbound stream: the collaborator state is the list of records
still to come, each either a decodable message (`some m`) or a record whose
header does not decode (`none`).  Skip-record fails with `RPC_TIMEDOUT` once
the list is exhausted, as `read_vc` does when `poll` times out. -/
def stream_env : Env (List (Option rpc_msg)) :=
  { XDR_PUTBYTES := fun _ w err => { ok := true, w := w, err := err }
    XDR_PUTINT32 := fun _ w err => { ok := true, w := w, err := err }
    AUTH_MARSHALL := fun w err => { ok := true, w := w, err := err }
    AUTH_WRAP := fun _ _ w err => { ok := true, w := w, err := err }
    xdrrec_endofrecord := fun _ w err => { ok := true, w := w, err := err }
    xdrrec_skiprecord := fun w err =>
      match w with
      | [] => { ok := false, w := [], err := { err with re_status := clnt_stat.RPC_TIMEDOUT } }
      | _ :: _ => { ok := true, w := w, err := err }
    xdr_dplx_msg := fun m w err =>
      match w with
      | [] => { ok := false, msg := m, w := [], err := err }
      | none :: rest => { ok := false, msg := m, w := rest, err := err }
      | some r :: rest => { ok := true, msg := r, w := rest, err := err }
    xp_dispatch := fun _ m w b => { msg := m, w := w, events_blocked := b }
    _seterr_reply := sample_seterr_reply
    AUTH_VALIDATE := fun _ w err => { ok := true, w := w, err := err }
    AUTH_UNWRAP := fun _ _ w err => { ok := true, w := w, err := err }
    xdr_opaque_auth := fun _ w => w
    AUTH_REFRESH := fun m w err => { ok := false, msg := m, w := w, err := err } }

/-- An accepted, successful REPLY carrying the transaction id `xid`. -/
def sample_reply (xid : Nat) : rpc_msg :=
  { rm_xid := xid, rm_direction := REPLY, rp_stat := 0, ar_stat := 0, rj_stat := 0,
    ar_verf := _null_auth, ar_results_where := none, ar_results_proc := xdr_void }

/-! ## Classes of events -/

/-- Event of the receive loop: skip-record, header decode, dispatch. -/
def Ev.is_receive : Ev → Bool
  | Ev.skiprecord _ => true
  | Ev.dplx_msg _ _ => true
  | Ev.dispatch _ => true
  | _ => false

/-- Event of reply processing: classification, validation, unwrapping and the
release of the verifier. -/
def Ev.is_reply : Ev → Bool
  | Ev.seterr_reply _ _ => true
  | Ev.validate _ => true
  | Ev.unwrap _ => true
  | Ev.free_verf => true
  | _ => false

/-- Event of the encode steps that follow the header bytes. -/
def Ev.is_encode_tail : Ev → Bool
  | Ev.putint32 _ _ => true
  | Ev.marshall _ => true
  | Ev.wrap _ => true
  | _ => false

/-- The header bytes were handed to the record stream. -/
def Ev.is_putbytes : Ev → Bool
  | Ev.putbytes _ _ => true
  | _ => false

/-- The credential refresh was invoked. -/
def Ev.is_refresh : Ev → Bool
  | Ev.refresh _ => true
  | _ => false

/-- An end-of-record that was not forced. -/
def Ev.is_unforced_flush : Ev → Bool
  | Ev.endofrecord false _ => true
  | _ => false

/-- An end-of-record, forced or not. -/
def Ev.is_endofrecord : Ev → Bool
  | Ev.endofrecord _ _ => true
  | _ => false

/-- The trace of `s2` extends the trace of `s1` by events that all satisfy `P`. -/
def Adds (P : Ev → Prop) (s1 s2 : State σ) : Prop :=
  ∃ l : List Ev, s2.trace = s1.trace ++ l ∧ ∀ ev ∈ l, P ev

/-- Event of the receive side of an attempt: the receive loop or reply
processing. -/
def Ev.is_inbound (ev : Ev) : Bool := ev.is_receive || ev.is_reply

/-- Event of the receive side of an attempt that matches replies against
`x_id`: every classification it contains is of a REPLY carrying `x_id`. -/
def Ev.inbound_for (x_id : Nat) (ev : Ev) : Prop :=
  ev.is_inbound = true ∧
    ∀ m st, ev = Ev.seterr_reply m st → m.rm_direction = REPLY ∧ m.rm_xid = x_id

/-! ## The whole call -/

/-- Event of the bracket around the attempts: lock, unlock, pausing and
resuming of event processing. -/
def Ev.is_bracket : Ev → Bool
  | Ev.vc_fd_lock => true
  | Ev.vc_fd_unlock => true
  | Ev.block_events => true
  | Ev.unblock_events => true
  | _ => false

/-! ## A peer that answers every call -/

/-- A record stream and peer under which every call is sent and answered with
a matching reply: the encode steps, the end-of-record and the skip-record
succeed, and every header decode yields a REPLY that carries the transaction
id of the last header handed to the record stream, which `sent` reads off the
collaborator state. -/
structure AnswersEveryCall (E : Env σ) (sent : σ → Nat) : Prop where
  putbytes_ok : ∀ bs w err, (E.XDR_PUTBYTES bs w err).ok = true
  putbytes_sent : ∀ bs w err, sent (E.XDR_PUTBYTES bs w err).w = be32 (bs.take 4)
  putint32_ok : ∀ v w err, (E.XDR_PUTINT32 v w err).ok = true
  putint32_sent : ∀ v w err, sent (E.XDR_PUTINT32 v w err).w = sent w
  marshall_ok : ∀ w err, (E.AUTH_MARSHALL w err).ok = true
  marshall_sent : ∀ w err, sent (E.AUTH_MARSHALL w err).w = sent w
  wrap_ok : ∀ x p w err, (E.AUTH_WRAP x p w err).ok = true
  wrap_sent : ∀ x p w err, sent (E.AUTH_WRAP x p w err).w = sent w
  endofrecord_ok : ∀ f w err, (E.xdrrec_endofrecord f w err).ok = true
  endofrecord_sent : ∀ f w err, sent (E.xdrrec_endofrecord f w err).w = sent w
  skiprecord_ok : ∀ w err, (E.xdrrec_skiprecord w err).ok = true
  skiprecord_sent : ∀ w err, sent (E.xdrrec_skiprecord w err).w = sent w
  reply_ok : ∀ m w err, (E.xdr_dplx_msg m w err).ok = true
  reply_direction : ∀ m w err, (E.xdr_dplx_msg m w err).msg.rm_direction = REPLY
  reply_xid : ∀ m w err, (E.xdr_dplx_msg m w err).msg.rm_xid = sent w

/-- Milestone of a call: header handed over, classification, validation,
unwrapping, refresh. -/
def Ev.is_milestone : Ev → Bool
  | Ev.putbytes _ _ => true
  | Ev.seterr_reply _ _ => true
  | Ev.validate _ => true
  | Ev.unwrap _ => true
  | Ev.refresh _ => true
  | _ => false

/-! ## Stale replies -/

/-- The state in which the receive loop starts its pass number `j`, counted
from the state `s` in which it starts pass 0. -/
def pass_state (E : Env σ) (x_id : Nat) (duplex : Bool) : Nat → State σ → State σ
  | 0, s => s
  | j + 1, s => pass_state E x_id duplex j (recv_body E x_id duplex s).state

/-- The record at position `j` of the inbound stream, as the receive loop
started in `s` obtains it. -/
def inbound_record (E : Env σ) (x_id : Nat) (duplex : Bool) (s : State σ) (j : Nat) :
    Fetched σ :=
  fetch_record E (pass_state E x_id duplex j s)

/-- Event of reply processing after the classification. -/
def Ev.is_verify : Ev → Bool
  | Ev.validate _ => true
  | Ev.unwrap _ => true
  | Ev.free_verf => true
  | _ => false

/-- The state after the encode steps and the forced end-of-record of an
attempt (lines 396-409 with `shipnow` true). -/
def sent_state (E : Env σ) (e : Endian) (a : call_args) (s : State σ) : State σ :=
  (encode_call E a (begin_attempt e s)).2.op
    (E.xdrrec_endofrecord true (encode_call E a (begin_attempt e s)).2.w
      (encode_call E a (begin_attempt e s)).2.ct.ct_error)
    (Ev.endofrecord true
      (E.xdrrec_endofrecord true (encode_call E a (begin_attempt e s)).2.w
        (encode_call E a (begin_attempt e s)).2.ct.ct_error).ok)

/-- The state in which the receive loop of an attempt starts (line 425). -/
def loop_start (E : Env σ) (e : Endian) (a : call_args) (s : State σ) : State σ :=
  (sent_state E e a s).set_x_op xdr_op.XDR_DECODE

/-- The record at position `j` of the inbound stream of an attempt started in
`s`: what pass `j` of its receive loop obtains, the loop matching replies
against the transaction id the attempt has just sent. -/
def awaited_record (E : Env σ) (e : Endian) (a : call_args) (duplex : Bool) (s : State σ)
    (j : Nat) : Fetched σ :=
  inbound_record E (attempt_x_id e s) duplex (loop_start E e a s) j

/-- A scripted stream: a REPLY for the transaction id 9, a record whose header
does not decode, and a REPLY for the transaction id 4. -/
def sample_stream : List (Option rpc_msg) :=
  [some (sample_reply 9), none, some (sample_reply 4)]

/-! ## Definitions for the wait policy claims -/

/-- The fields of the private data that no step after the adoption of the
per-call timeout writes: header length, wait policy, descriptor, close flag,
address and the duplex bit. -/
def ct_data.settled (c : ct_data) : Nat × timeval × Bool × Int × Bool × netbuf × Bool :=
  c.stable.2

/-- A sequence of calls on one handle, each with its own fuel and arguments;
the state each call ends in is the state the next one starts in. -/
def run_calls (E : Env σ) (e : Endian) : List (Nat × call_args) → State σ → State σ
  | [], s => s
  | c :: rest, s => run_calls E e rest (clnt_vc_call E e c.1 c.2 s).state

/-- Arguments of a call that passes a timeval the validity test rejects. -/
def invalid_timeout_args : call_args :=
  { proc := 1, xdr_args := some 1, args_ptr := 0, xdr_results := some 2, results_ptr := 0,
    timeout := { tv_sec := -1, tv_usec := 0 } }

/-! ## Definitions for the error status claims -/

/-- The record-stream and auth collaborators change the error status only in
operations that report failure: an operation that returns `true` leaves
`re_status` as it found it. -/
structure StatusOnlyOnFailure (E : Env σ) : Prop where
  putbytes : ∀ bs w err, (E.XDR_PUTBYTES bs w err).ok = true →
    (E.XDR_PUTBYTES bs w err).err.re_status = err.re_status
  putint32 : ∀ v w err, (E.XDR_PUTINT32 v w err).ok = true →
    (E.XDR_PUTINT32 v w err).err.re_status = err.re_status
  marshall : ∀ w err, (E.AUTH_MARSHALL w err).ok = true →
    (E.AUTH_MARSHALL w err).err.re_status = err.re_status
  wrap : ∀ x p w err, (E.AUTH_WRAP x p w err).ok = true →
    (E.AUTH_WRAP x p w err).err.re_status = err.re_status
  endofrecord : ∀ f w err, (E.xdrrec_endofrecord f w err).ok = true →
    (E.xdrrec_endofrecord f w err).err.re_status = err.re_status
  skiprecord : ∀ w err, (E.xdrrec_skiprecord w err).ok = true →
    (E.xdrrec_skiprecord w err).err.re_status = err.re_status
  dplx_msg : ∀ m w err, (E.xdr_dplx_msg m w err).ok = true →
    (E.xdr_dplx_msg m w err).err.re_status = err.re_status
  validate : ∀ v w err, (E.AUTH_VALIDATE v w err).ok = true →
    (E.AUTH_VALIDATE v w err).err.re_status = err.re_status
  unwrap : ∀ x p w err, (E.AUTH_UNWRAP x p w err).ok = true →
    (E.AUTH_UNWRAP x p w err).err.re_status = err.re_status
  refresh : ∀ m w err, (E.AUTH_REFRESH m w err).ok = true →
    (E.AUTH_REFRESH m w err).err.re_status = err.re_status

/-! ## Definitions for the reply processing claims -/

/-- The receive loop left through the label `replied`. -/
def RecvRes.is_replied (o : RecvRes σ) : Bool :=
  match o with
  | RecvRes.replied _ => true
  | _ => false

/-- What `AUTH_VALIDATE` returns in reply processing started in `s` (line 481):
it is handed the verifier of the message and finds the error record as
`_seterr_reply` left it. -/
def validate_result (E : Env σ) (s : State σ) : OpRes σ :=
  E.AUTH_VALIDATE s.msg.ar_verf s.w (E._seterr_reply s.msg s.ct.ct_error)

/-- What `AUTH_UNWRAP` returns in reply processing started in `s` (line 484),
which is reached after an accepting `AUTH_VALIDATE`. -/
def unwrap_result (E : Env σ) (a : call_args) (s : State σ) : OpRes σ :=
  E.AUTH_UNWRAP a.xdr_results a.results_ptr (validate_result E s).w (validate_result E s).err

/-- The state in which the receive loop of an attempt started in `s` ends:
the state reply processing starts in when the loop found the reply. -/
def replied_state (E : Env σ) (e : Endian) (a : call_args) (duplex : Bool) (fuel : Nat)
    (s : State σ) : State σ :=
  (recv_loop E (attempt_x_id e s) duplex fuel (loop_start E e a s)).state

/-- The echoing peer with an auth handle whose `AUTH_UNWRAP` fails to decode
the results and leaves the error record as it found it. -/
def undecodable_env : Env Nat :=
  { echo_env 0 0 0 true true with
    AUTH_UNWRAP := fun _ _ w err => { ok := false, w := w, err := err } }

/-! ## Definitions for the encode failure claim -/

/-- The echoing peer with an auth handle whose `AUTH_MARSHALL` fails and
leaves the error record as it found it. -/
def unmarshallable_env : Env Nat :=
  { echo_env 0 0 0 true true with
    AUTH_MARSHALL := fun w err => { ok := false, w := w, err := err } }

/-- The error record after lines 404-405: `RPC_CANTENCODEARGS` replaces a
status that is still `RPC_SUCCESS` after the failed encode steps. -/
def encode_failure_error (E : Env σ) (e : Endian) (a : call_args) (s : State σ) : rpc_err :=
  if (encode_call E a (begin_attempt e s)).2.status = clnt_stat.RPC_SUCCESS then
    { (encode_call E a (begin_attempt e s)).2.ct.ct_error with
        re_status := clnt_stat.RPC_CANTENCODEARGS }
  else (encode_call E a (begin_attempt e s)).2.ct.ct_error

/-! ## Definitions for the duplex claims -/

/-- An invocation of the dispatch callback. -/
def Ev.is_dispatch : Ev → Bool
  | Ev.dispatch _ => true
  | _ => false

/-- A successful header decode that yielded a CALL message. -/
def Ev.is_decoded_call : Ev → Bool
  | Ev.dplx_msg true m => decide (m.rm_direction = CALL)
  | _ => false

/-- The sample handle with the duplex bit set. -/
def duplex_state (w : σ) : State σ :=
  { sample_state w with ct := { sample_ct with CT_FLAG_DUPLEX := true } }

/-- A CALL message carrying the transaction id `xid`. -/
def sample_call (xid : Nat) : rpc_msg :=
  { sample_reply xid with rm_direction := CALL }

/-- The events `l` hold one invocation of the dispatch callback per decoded
CALL when the handle is duplex, and no invocation when it is not. -/
def DispatchesEachCall (duplex : Bool) (l : List Ev) : Prop :=
  l.countP Ev.is_dispatch = if duplex = true then l.countP Ev.is_decoded_call else 0

/-- The state `s2` extends the trace of `s1` by events that dispatch each decoded CALL. -/
def Dispatched (duplex : Bool) (s1 s2 : State σ) : Prop :=
  ∃ l : List Ev, s2.trace = s1.trace ++ l ∧ DispatchesEachCall duplex l

/-! ## `clnt_vc_create2` -/

/-- Counterpart of `struct rpc_createerr`, the process-wide creation error. -/
structure rpc_createerr_t where
  cf_stat : clnt_stat
  cf_error : rpc_err
deriving DecidableEq, Repr

/-- A signal set: the full set that `sigfillset` produces, or another set. -/
inductive sigset_t where
  | full
  | set (id : Nat)
deriving DecidableEq, Repr

/-- Observable steps of a handle creation, in the order the code performs
them.  `sigmask_fill` and `sigmask_restore` are the two calls of
`thr_sigsetmask` of `clnt_vc_create2` itself (line 238, and lines 251, 258 and
267), `mutex_lock` and `mutex_unlock` its use of `clnt_fd_lock`; the four
steps `ops_...` are the calls of `thr_sigsetmask` and the use of `ops_lock`
inside `clnt_vc_ops` (lines 817-818 and 828-829). -/
inductive CEv where
  | syslog
  | sigmask_fill
  | mutex_lock
  | getpeername (r : Int)
  | connect (r : Int)
  | mutex_unlock
  | fd2sockinfo (ok : Bool)
  | sigmask_restore
  | gettimeofday
  | close (fd : Int)
  | ops_sigmask_fill
  | ops_mutex_lock
  | ops_mutex_unlock
  | ops_sigmask_restore
  | vc_lock_init_cl
  | authnone_create
  | xdrrec_create (sendsz recvsz : Nat)
  | mem_free_addr (len : Nat)
  | mem_free_ct
  | mem_free_cl
deriving DecidableEq, Repr

/-- The state outside the handle that a creation reads and writes: the static
counter `disrupt`, the global `rpc_createerr`, the signal mask of the calling
thread, whether the static table `ops` of `clnt_vc_ops` is filled
(`ops.cl_call != NULL`), and the trace of the steps taken. -/
structure proc_state where
  disrupt : Nat
  rpc_createerr : rpc_createerr_t
  sigmask : sigset_t
  ops_filled : Bool
  trace : List CEv
deriving DecidableEq, Repr

/-- The fields of the call message that `clnt_vc_create2` fills in before it
hands the message to `xdr_callhdr`. -/
structure call_hdr where
  rm_xid : Nat
  rm_direction : Nat
  cb_rpcvers : Nat
  cb_prog : Nat
  cb_vers : Nat
deriving DecidableEq, Repr

/-- What the system and the helpers outside `clnt_vc.c` answer during one
creation: the two handle allocations (`ct_alloc` is the content of the fresh
block, `none` a null pointer), `errno` after a failed allocation, the result
and `errno` of `getpeername` and of `connect`, the constant `ENOTCONN`, the
address family and protocol found by `__rpc_fd2sockinfo` (`none` when it
fails), the allocation of the address buffer, the time of day, the macro
`__RPC_GETXID`, the constants `MCALL_MSG_SIZE` and `RPC_MSG_VERSION`, the
bytes `xdr_callhdr` writes into a buffer of the given size (`none` when it
fails) and `__rpc_get_t_size`. -/
structure CreateEnv where
  cl_alloc : Bool
  ct_alloc : Option ct_data
  alloc_errno : Int
  getpeername : Int × Int
  connect : Int × Int
  ENOTCONN : Int
  __rpc_fd2sockinfo : Option (Nat × Nat)
  addr_alloc : Nat → Option (List Nat)
  now : timeval
  __RPC_GETXID : timeval → Nat
  MCALL_MSG_SIZE : Nat
  RPC_MSG_VERSION : Nat
  xdr_callhdr : Nat → call_hdr → Option (List Nat)
  __rpc_get_t_size : Nat → Nat → Nat → Nat

/-- The parts of the `CLIENT` handle that `clnt_vc_create2` fills in: the
private data, the auth handle (always `authnone`) and the buffer sizes given
to `xdrrec_create`. -/
structure CLIENT where
  cl_private : ct_data
  sendsz : Nat
  recvsz : Nat
deriving DecidableEq, Repr

/-- Append one step to the creation trace. -/
def proc_state.log (g : proc_state) (ev : CEv) : proc_state :=
  { g with trace := g.trace ++ [ev] }

/-- The two assignments `rpc_createerr.cf_stat = RPC_SYSTEMERROR;
rpc_createerr.cf_error.re_errno = errno;`. -/
def proc_state.set_createerr (g : proc_state) (errno : Int) : proc_state :=
  { g with rpc_createerr :=
      { cf_stat := clnt_stat.RPC_SYSTEMERROR,
        cf_error := { g.rpc_createerr.cf_error with re_errno := errno } } }

/-- The label `err` (lines 331-341): with a non-null `cl`, a non-null `ct` is
freed, its address buffer first when `ct_addr.len` is non-zero, and then `cl`
is freed; with a null `cl` nothing is freed. -/
def create_err (cl : Bool) (ct : Option ct_data) (g : proc_state) : proc_state :=
  if cl then
    let g1 := match ct with
      | some c =>
        (if c.ct_addr.len ≠ 0 then g.log (CEv.mem_free_addr c.ct_addr.len) else g).log
          CEv.mem_free_ct
      | none => g
    g1.log CEv.mem_free_cl
  else g

/-- The call `thr_sigsetmask(SIG_SETMASK, &newmask, &mask)` after
`sigfillset(&newmask)`: the thread's mask becomes the full set; the mask it
replaces is what the caller keeps in its local `mask`. -/
def proc_state.fill_sigmask (g : proc_state) : proc_state :=
  { g with sigmask := sigset_t.full }

/-- The call `thr_sigsetmask(SIG_SETMASK, &(mask), NULL)`: the thread's mask
becomes the saved `mask`. -/
def proc_state.restore_sigmask (g : proc_state) (mask : sigset_t) : proc_state :=
  { g with sigmask := mask }

/-- Embedding of `clnt_vc_ops` (lines 807-831): it saves the thread's mask in
its own local `mask` and replaces it by the full set, takes `ops_lock`, fills
the static table `ops` if `ops.cl_call` is still null, releases `ops_lock` and
restores the mask it saved. -/
def clnt_vc_ops (g : proc_state) : proc_state :=
  let mask := g.sigmask
  let g1 := (g.fill_sigmask.log CEv.ops_sigmask_fill).log CEv.ops_mutex_lock
  let g2 : proc_state := if !g1.ops_filled then { g1 with ops_filled := true } else g1
  ((g2.log CEv.ops_mutex_unlock).restore_sigmask mask).log CEv.ops_sigmask_restore

/-- The failing branches of the connect block (lines 248-252 and 255-259):
the creation error is recorded, the mutex released, the signal mask saved in
`mask` restored, and control goes to `err`. -/
def connect_failed (errno : Int) (mask : sigset_t) (ct : ct_data) (g : proc_state) :
    Option CLIENT × proc_state :=
  (none, create_err true (some ct)
    ((((g.set_createerr errno).log CEv.mutex_unlock).restore_sigmask mask).log
      CEv.sigmask_restore))

/-- Lines 264-329: from `mutex_unlock` to the return of the handle; `mask` is
the local of `clnt_vc_create2` that holds the signal mask saved at line 238.
The assignment `cl->cl_ops = clnt_vc_ops()` (line 312) runs `clnt_vc_ops`. -/
def create_tail (K : CreateEnv) (fd : Int) (raddr : netbuf) (prog vers sendsz recvsz : Nat)
    (mask : sigset_t) (ct0 : ct_data) (g : proc_state) : Option CLIENT × proc_state :=
  let g1 := g.log CEv.mutex_unlock
  match K.__rpc_fd2sockinfo with
  | none => (none, create_err true (some ct0) (g1.log (CEv.fd2sockinfo false)))
  | some si =>
    let g2 := ((g1.log (CEv.fd2sockinfo true)).restore_sigmask mask).log CEv.sigmask_restore
    let ct1 : ct_data :=
      { ct0 with ct_closeit := false, ct_fd := fd,
                 ct_wait := { ct0.ct_wait with tv_usec := 0 }, ct_waitset := false }
    match K.addr_alloc raddr.maxlen with
    | none => (none, create_err true (some ct1) g2)
    | some fresh_buf =>
      let ct2 : ct_data :=
        { ct1 with ct_addr := { buf := raddr.buf.take raddr.len ++ fresh_buf.drop raddr.len,
                                len := raddr.len, maxlen := raddr.maxlen } }
      let g3 := g2.log CEv.gettimeofday
      let g4 : proc_state := { g3 with disrupt := (g3.disrupt + 1) % 2 ^ 32 }
      let call_msg : call_hdr :=
        { rm_xid := (g4.disrupt ^^^ K.__RPC_GETXID K.now) % 2 ^ 32,
          rm_direction := CALL, cb_rpcvers := K.RPC_MSG_VERSION,
          cb_prog := prog % 2 ^ 32, cb_vers := vers % 2 ^ 32 }
      let ct3 : ct_data := { ct2 with x_op := xdr_op.XDR_ENCODE }
      match K.xdr_callhdr K.MCALL_MSG_SIZE call_msg with
      | none =>
        (none, create_err true (some ct3)
          (if ct3.ct_closeit then g4.log (CEv.close fd) else g4))
      | some bytes =>
        let ct4 : ct_data :=
          { ct3 with ct_mcallc := bytes ++ ct3.ct_mcallc.drop bytes.length,
                     ct_mpos := bytes.length }
        let g5 := ((clnt_vc_ops g4).log CEv.vc_lock_init_cl).log CEv.authnone_create
        let ssz := K.__rpc_get_t_size si.1 si.2 sendsz
        let rsz := K.__rpc_get_t_size si.1 si.2 recvsz
        (some { cl_private := ct4, sendsz := ssz, recvsz := rsz },
          g5.log (CEv.xdrrec_create ssz rsz))

/-- Embedding of `clnt_vc_create2`.  `raddr_ptr` is the value of the pointer
`raddr`, `connect_flag` the bit `CLNT_CREATE_FLAG_CONNECT` of `flags`; a null
`ct_addr.buf` is the empty buffer. -/
def clnt_vc_create2 (K : CreateEnv) (g : proc_state) (fd : Int) (raddr_ptr : Nat)
    (raddr : netbuf) (prog vers sendsz recvsz : Nat) (connect_flag : Bool) :
    Option CLIENT × proc_state :=
  let g0 : proc_state := if g.disrupt = 0 then { g with disrupt := raddr_ptr % 2 ^ 32 } else g
  match K.ct_alloc with
  | none => (none, create_err K.cl_alloc none ((g0.log CEv.syslog).set_createerr K.alloc_errno))
  | some fresh =>
    if !K.cl_alloc then
      (none, create_err false (some fresh) ((g0.log CEv.syslog).set_createerr K.alloc_errno))
    else
      let ct0 : ct_data := { fresh with ct_addr := { fresh.ct_addr with buf := [] } }
      let mask := g0.sigmask
      let g1 := (g0.fill_sigmask.log CEv.sigmask_fill).log CEv.mutex_lock
      if connect_flag then
        let g2 := g1.log (CEv.getpeername K.getpeername.1)
        if K.getpeername.1 < 0 then
          if K.getpeername.2 ≠ K.ENOTCONN then connect_failed K.getpeername.2 mask ct0 g2
          else
            let g3 := g2.log (CEv.connect K.connect.1)
            if K.connect.1 < 0 then connect_failed K.connect.2 mask ct0 g3
            else create_tail K fd raddr prog vers sendsz recvsz mask ct0 g3
        else create_tail K fd raddr prog vers sendsz recvsz mask ct0 g2
      else create_tail K fd raddr prog vers sendsz recvsz mask ct0 g1

/-- Modelled from the spec: the helper `xdr_callhdr` is not part of
`clnt_vc.c`.  The call header is the transaction id, the message direction,
the RPC version constant, the program number and the version number, five
32-bit words, all big-endian on the wire; the encoding fails when the buffer
cannot hold them. -/
def xdr_callhdr (size : Nat) (m : call_hdr) : Option (List Nat) :=
  if size < 20 then none
  else some (bytes_be m.rm_xid ++ bytes_be m.rm_direction ++ bytes_be m.cb_rpcvers ++
    bytes_be m.cb_prog ++ bytes_be m.cb_vers)

/-- A block of zero bytes, as a zero-filling allocator returns it. -/
def zero_ct : ct_data :=
  { ct_fd := 0, ct_closeit := false, ct_wait := { tv_sec := 0, tv_usec := 0 },
    ct_waitset := false, ct_addr := { maxlen := 0, len := 0, buf := [] },
    ct_error := { re_status := clnt_stat.RPC_SUCCESS, re_errno := 0,
                  re_why := auth_stat.AUTH_OK },
    ct_mcallc := List.replicate 24 0, ct_mpos := 0, x_op := xdr_op.XDR_ENCODE,
    CT_FLAG_DUPLEX := false, CT_FLAG_EVENTS_BLOCKED := false }

/-- A creation in which every allocation and system call succeeds: the socket
is already connected, the header buffer has 24 bytes, the RPC version is 2 and
the time-derived quantity is 4660. -/
def sample_create_env : CreateEnv :=
  { cl_alloc := true, ct_alloc := some zero_ct, alloc_errno := 12,
    getpeername := (0, 0), connect := (0, 0), ENOTCONN := 107,
    __rpc_fd2sockinfo := some (2, 6),
    addr_alloc := fun n => some (List.replicate n 0),
    now := { tv_sec := 1000, tv_usec := 5 },
    __RPC_GETXID := fun _ => 4660,
    MCALL_MSG_SIZE := 24, RPC_MSG_VERSION := 2,
    xdr_callhdr := xdr_callhdr,
    __rpc_get_t_size := fun _ _ sz => if sz = 0 then 65536 else sz }

/-- A process in which no handle was created yet, in a thread whose signal
mask is some set other than the full one. -/
def sample_proc : proc_state :=
  { disrupt := 0,
    rpc_createerr :=
      { cf_stat := clnt_stat.RPC_SUCCESS,
        cf_error := { re_status := clnt_stat.RPC_SUCCESS, re_errno := 0,
                      re_why := auth_stat.AUTH_OK } },
    sigmask := sigset_t.set 0, ops_filled := false,
    trace := [] }

/-- A peer address of 4 bytes in a buffer of 16. -/
def sample_raddr : netbuf :=
  { maxlen := 16, len := 4, buf := [10, 0, 0, 1, 0, 0, 0, 0, 0, 0, 0, 0, 0, 0, 0, 0] }

/-- The handle the sample creation returns for descriptor 7, the sample peer
address, program 100003 and version 3. -/
def sample_client : CLIENT :=
  { cl_private :=
      { ct_fd := 7, ct_closeit := false, ct_wait := { tv_sec := 0, tv_usec := 0 },
        ct_waitset := false,
        ct_addr := { maxlen := 16, len := 4,
                     buf := [10, 0, 0, 1, 0, 0, 0, 0, 0, 0, 0, 0, 0, 0, 0, 0] },
        ct_error := { re_status := clnt_stat.RPC_SUCCESS, re_errno := 0,
                      re_why := auth_stat.AUTH_OK },
        ct_mcallc := [0, 0, 2, 53, 0, 0, 0, 0, 0, 0, 0, 2, 0, 1, 134, 163, 0, 0, 0, 3,
                      0, 0, 0, 0],
        ct_mpos := 20, x_op := xdr_op.XDR_ENCODE,
        CT_FLAG_DUPLEX := false, CT_FLAG_EVENTS_BLOCKED := false },
    sendsz := 65536, recvsz := 65536 }

/-- A state around the private data of a handle, with collaborator state `w`. -/
def client_state (cl : CLIENT) (w : σ) : State σ :=
  { ct := cl.cl_private, w := w, msg := sample_msg, cd_x_id := 0, trace := [] }

/-! ## `clnt_vc_destroy` -/

/-- Observable steps of `clnt_vc_destroy`, in the order the code performs
them. -/
inductive DEv where
  | sigmask_fill
  | vc_fd_wait_c
  | close (fd : Int)
  | XDR_DESTROY
  | free_addr
  | vc_fd_signal_c
  | vc_lock_unref_clnt
  | mem_free_ct
  | mem_free_netid
  | mem_free_tp
  | mem_free_cl
  | mutex_unlock
  | sigmask_restore
deriving DecidableEq, Repr

/-- Embedding of `clnt_vc_destroy` (lines 684-717) as the list of its steps.
`cl_netid` and `cl_tp` are the two strings of the handle (`none` is a null
pointer, the list holds the bytes before the terminator); a null
`ct_addr.buf` is the empty buffer. -/
def clnt_vc_destroy (ct : ct_data) (cl_netid cl_tp : Option (List Nat)) : List DEv :=
  [DEv.sigmask_fill, DEv.vc_fd_wait_c] ++
  (if ct.ct_closeit && decide (ct.ct_fd ≠ -1) then [DEv.close ct.ct_fd] else []) ++
  [DEv.XDR_DESTROY] ++
  (if ct.ct_addr.buf ≠ [] then [DEv.free_addr] else []) ++
  [DEv.vc_fd_signal_c, DEv.vc_lock_unref_clnt, DEv.mem_free_ct] ++
  (match cl_netid with
    | some (_ :: _) => [DEv.mem_free_netid]
    | _ => []) ++
  (match cl_tp with
    | some (_ :: _) => [DEv.mem_free_tp]
    | _ => []) ++
  [DEv.mem_free_cl, DEv.mutex_unlock, DEv.sigmask_restore]

/-- The step of `clnt_vc_destroy` that closes a descriptor. -/
def DEv.is_close : DEv → Bool
  | DEv.close _ => true
  | _ => false

/-- One operation on a handle between its creation and its destruction: a
control request or a call. -/
inductive handle_op where
  | control (request : clnt_req) (info : Option info_obj)
  | call (fuel : Nat) (a : call_args)

/-- A sequence of operations on one handle, oldest first; each starts in the
state the previous one ended in. -/
def run_ops (E : Env σ) (e : Endian) : List handle_op → State σ → State σ
  | [], s => s
  | handle_op.control request info :: rest, s =>
    run_ops E e rest (clnt_vc_control e s request info).s
  | handle_op.call fuel a :: rest, s => run_ops E e rest (clnt_vc_call E e fuel a s).state

/-- What an operation asks about closing on destroy: `some true` for
`CLSET_FD_CLOSE`, `some false` for `CLSET_FD_NCLOSE`, `none` for every other
operation. -/
def handle_op.fd_close_request : handle_op → Option Bool
  | handle_op.control clnt_req.CLSET_FD_CLOSE _ => some true
  | handle_op.control clnt_req.CLSET_FD_NCLOSE _ => some false
  | _ => none

/-- The most recent `CLSET_FD_CLOSE` / `CLSET_FD_NCLOSE` request of a sequence
of operations (oldest first): `some true` when it was `CLSET_FD_CLOSE`,
`some false` when it was `CLSET_FD_NCLOSE`, `none` when neither was issued. -/
def last_fd_close_request : List handle_op → Option Bool
  | [] => none
  | op :: rest =>
    match last_fd_close_request rest with
    | some b => some b
    | none => op.fd_close_request

/-- A history of the sample handle: close-on-destroy is requested with a null
`info`, a call is made, the request is withdrawn, and it is made again. -/
def sample_ops : List handle_op :=
  [handle_op.control clnt_req.CLSET_FD_CLOSE none,
   handle_op.call 1 sample_args,
   handle_op.control clnt_req.CLSET_FD_NCLOSE none,
   handle_op.control clnt_req.CLGET_FD (some (sample_info { tv_sec := 0, tv_usec := 0 } 0)),
   handle_op.control clnt_req.CLSET_FD_CLOSE (some (sample_info { tv_sec := 0, tv_usec := 0 } 0))]

/-- The sample creation with an allocator that cannot provide the address
buffer: `mem_alloc(raddr->maxlen)` returns a null pointer. -/
def addr_alloc_fails_env : CreateEnv :=
  { sample_create_env with addr_alloc := fun _ => none }

/-- The sample creation with an `xdr_callhdr` that fails. -/
def callhdr_fails_env : CreateEnv :=
  { sample_create_env with xdr_callhdr := fun _ _ => none }

/-- The sample creation with an allocator that cannot provide the private
data: `mem_alloc(sizeof (*ct))` returns a null pointer. -/
def ct_alloc_fails_env : CreateEnv :=
  { sample_create_env with ct_alloc := none }

/-- The sample creation on a descriptor for which `__rpc_fd2sockinfo` fails. -/
def sockinfo_fails_env : CreateEnv :=
  { sample_create_env with __rpc_fd2sockinfo := none }

/-- The sample creation on an unconnected descriptor whose `connect` fails
with `errno` 111. -/
def connect_fails_env : CreateEnv :=
  { sample_create_env with getpeername := (-1, 107), connect := (-1, 111) }

/-- The step of `clnt_vc_create2` itself (lines 237-238) that saves the signal
mask of the thread in its local `mask` and replaces it by the full mask; the
replacement that `clnt_vc_ops` makes under its own local (lines 816-817) is
the step `ops_sigmask_fill`. -/
def CEv.is_fill : CEv → Bool
  | CEv.sigmask_fill => true
  | _ => false

/-- The step of `clnt_vc_create2` itself (lines 251, 258, 267) that restores
the mask saved in its local `mask`; the restore that `clnt_vc_ops` makes of
its own saved mask (line 829) is the step `ops_sigmask_restore`. -/
def CEv.is_restore : CEv → Bool
  | CEv.sigmask_restore => true
  | _ => false

/-- The step of the creation in which `__rpc_fd2sockinfo` fails. -/
def CEv.is_sockinfo_failure : CEv → Bool
  | CEv.fd2sockinfo false => true
  | _ => false

/-- Modelled from the spec: the macro `__RPC_GETXID` is defined in `rpc_com.h`,
outside `clnt_vc.c`.  It is the process id XOR `tv_sec` XOR `tv_usec`, each
converted to an unsigned 32-bit value. -/
def __RPC_GETXID (pid : Nat) (now : timeval) : Nat :=
  (pid % 2 ^ 32) ^^^ (now.tv_sec % 2 ^ 32).toNat ^^^ (now.tv_usec % 2 ^ 32).toNat

/-- The time of day one microsecond after `t`: the microseconds go up by one,
and from 999999 they go to zero of the next second. -/
def next_usec (t : timeval) : timeval :=
  if t.tv_usec + 1 < 1000000 then { t with tv_usec := t.tv_usec + 1 }
  else { tv_sec := t.tv_sec + 1, tv_usec := 0 }

/-- The sample creation in process 4242 at the time `now`, with the macro
`__RPC_GETXID` as `rpc_com.h` defines it. -/
def getxid_env (now : timeval) : CreateEnv :=
  { sample_create_env with now := now, __RPC_GETXID := __RPC_GETXID 4242 }

/-- The handle of the sample creation with the bytes `w` as the transaction id
in its header. -/
def xid_client (w : List Nat) : CLIENT :=
  { sample_client with
    cl_private :=
      { sample_client.cl_private with
        ct_mcallc := w ++ sample_client.cl_private.ct_mcallc.drop 4 } }

end ClntVc

/-! # The tracepoint generator (`src/lttng/generator`) -/

namespace trace_generator

deriving instance DecidableEq for Except

/-- Counterpart of `TracepointLocation`: the file and the line of a
tracepoint. -/
structure TracepointLocation where
  filePath_ : String
  line_ : Nat
deriving DecidableEq, Repr

/-- Embedding of `TracepointLocation::operator==`: equal lines and equal file
paths. -/
def TracepointLocation.operator_eq (self location : TracepointLocation) : Bool :=
  self.line_ = location.line_ && self.filePath_ = location.filePath_

/-- Embedding of `TracepointLocation::operator!=`. -/
def TracepointLocation.operator_ne (self location : TracepointLocation) : Bool :=
  !self.operator_eq location

/-- The errors `TracepointInfo` raises as a `ParsingError`, one constructor for
each message: the first argument is not a string literal; the format is
invalid; the format specifies `numArgs` arguments and the code provides
`codeArguments`; the tracepoint has `numLttngArgs` LTTNG arguments, more than
allowed; a `runtime_error` of the generation, raised again as a
`ParsingError`. -/
inductive ParsingError where
  | first_argument_not_a_format
  | invalid_format
  | wrong_number_of_arguments (numArgs codeArguments : Nat)
  | too_many_arguments (numLttngArgs : Nat)
  | generation_failed (what : String)
deriving DecidableEq, Repr

/-- What `TracepointInfo` reads of a `TracepointArgument`: the string of its
type (`argType_.getAsString()`) and, when the object is a
`StringLiteralTracepointArgument`, the value of the literal. -/
structure TracepointArgument where
  typeString : String
  value_ : Option String
deriving DecidableEq, Repr

/-- Embedding of `TracepointArgument::getNumLttngArgs`: a variable length
struct counts as two arguments, data and length. -/
def TracepointArgument.getNumLttngArgs (a : TracepointArgument) : Nat :=
  if a.typeString = "struct lttng_generator_variable_len_int_arr" ∨
      a.typeString = "struct lttng_generator_variable_len_uint_arr" ∨
      a.typeString = "struct lttng_generator_variable_len_byte_arr" ∨
      a.typeString = "struct lttng_generator_variable_len_str" then 2
  else 1

/-- The character that opens a placeholder. -/
def lbrace : Char := Char.ofNat 123

/-- The character that closes a placeholder. -/
def rbrace : Char := Char.ofNat 125

/-- The loop of `getNumArgsInFormatString` over the characters from index `i`
on.  `skip` is set by `i++; continue;`, which passes over the character after
the current one; `next` is the character after the current one, or the zero
character at the end of the format.  The counters are `unsigned`; a format is
shorter than 2^32 characters, so they do not wrap. -/
def getNumArgsInFormatString.loop (skip inParenthesis : Bool) (numArgs : Nat) :
    List Char → Except ParsingError Nat
  | [] => if inParenthesis then Except.error ParsingError.invalid_format else Except.ok numArgs
  | curr :: rest =>
    if skip then getNumArgsInFormatString.loop false inParenthesis numArgs rest
    else
      let next := rest.headD (Char.ofNat 0)
      if curr = lbrace then
        if next = lbrace then getNumArgsInFormatString.loop true inParenthesis numArgs rest
        else if inParenthesis then Except.error ParsingError.invalid_format
        else getNumArgsInFormatString.loop false true numArgs rest
      else if curr = rbrace then
        if next = rbrace then getNumArgsInFormatString.loop true inParenthesis numArgs rest
        else if !inParenthesis then Except.error ParsingError.invalid_format
        else getNumArgsInFormatString.loop false false (numArgs + 1) rest
      else if inParenthesis then Except.error ParsingError.invalid_format
      else getNumArgsInFormatString.loop false inParenthesis numArgs rest

/-- Embedding of `TracepointInfo::getNumArgsInFormatString`. -/
def getNumArgsInFormatString (format : String) : Except ParsingError Nat :=
  getNumArgsInFormatString.loop false false 0 format.data

/-- The format grammar in the words of the specification: read left to right,
a format is a sequence of ordinary characters (not braces), escaped braces
(two opening or two closing braces) and empty placeholders (an opening brace
followed by a closing brace).  The result is the number of placeholders, or
`none` for a string that is not such a sequence. -/
def spec_placeholders : List Char → Option Nat
  | [] => some 0
  | [c] => if c = lbrace ∨ c = rbrace then none else some 0
  | c :: d :: rest =>
    if c = lbrace ∧ d = lbrace then spec_placeholders rest
    else if c = rbrace ∧ d = rbrace then spec_placeholders rest
    else if c = lbrace ∧ d = rbrace then (spec_placeholders rest).map (fun n => n + 1)
    else if c = lbrace ∨ c = rbrace then none
    else spec_placeholders (d :: rest)

/-- What `generateTracepointData` reads of a `TracepointInfo`: the arguments of
the tracepoint, the format first.  The provider, the event, the log level and
the location only appear in the generated text and in the error messages. -/
structure TracepointInfo where
  arguments_ : List TracepointArgument
deriving DecidableEq, Repr

/-- The constant `MAX_LTTNG_TRACE_ARGUMENTS`. -/
def MAX_LTTNG_TRACE_ARGUMENTS : Nat := 10

/-- Embedding of `TracepointInfo::getNumLttngArgs`: the loop that adds up
`getNumLttngArgs` of every argument, the format included.  The counter is
`unsigned`; a call has far fewer than 2^31 arguments, so it does not wrap. -/
def TracepointInfo.getNumLttngArgs (t : TracepointInfo) : Nat :=
  t.arguments_.foldl (fun numArgs arg => numArgs + arg.getNumLttngArgs) 0

/-- Embedding of `TracepointInfo::verifyTracepoint`.  The generator always
puts the format first; for an empty argument vector, on which `arguments_[0]`
is undefined, the model raises the first error. -/
def TracepointInfo.verifyTracepoint (t : TracepointInfo) : Except ParsingError Unit :=
  match t.arguments_.head? with
  | none => Except.error ParsingError.first_argument_not_a_format
  | some formatArg =>
    match formatArg.value_ with
    | none => Except.error ParsingError.first_argument_not_a_format
    | some format =>
      match getNumArgsInFormatString format with
      | Except.error e => Except.error e
      | Except.ok numArgs =>
        let codeArguments := t.arguments_.length - 1
        if numArgs ≠ codeArguments then
          Except.error (ParsingError.wrong_number_of_arguments numArgs codeArguments)
        else Except.ok ()

/-- The `try` block of `generateTracepointData`.  `generate` is the outcome of
the three text generators called in it (`generateDefs`,
`generateTracepointEvent`, `generateTracepointLogLevel`): the text, or the
message of the `runtime_error` one of them throws, which is raised again as a
`ParsingError`. -/
def try_generate (generate : Except String String) : Except ParsingError String :=
  match generate with
  | Except.error what => Except.error (ParsingError.generation_failed what)
  | Except.ok data => Except.ok data

/-- Embedding of `TracepointInfo::generateTracepointData`. -/
def TracepointInfo.generateTracepointData (t : TracepointInfo)
    (generate : Except String String) : Except ParsingError String :=
  match t.verifyTracepoint with
  | Except.error e => Except.error e
  | Except.ok _ =>
    if t.getNumLttngArgs > MAX_LTTNG_TRACE_ARGUMENTS then
      Except.error (ParsingError.too_many_arguments t.getNumLttngArgs)
    else try_generate generate

/-- A format argument: a string literal, whose type is an array of
characters. -/
def format_argument (format : String) : TracepointArgument :=
  { typeString := "char[" ++ toString (format.length + 1) ++ "]", value_ := some format }

/-- An argument of type `int` that is not a string literal. -/
def int_argument : TracepointArgument := { typeString := "int", value_ := none }

/-- The argument a variable length wrapper macro of `lttng_generator.h`
expands to, by the name of its struct. -/
def wrapper_argument (struct_name : String) : TracepointArgument :=
  { typeString := "struct " ++ struct_name, value_ := none }

/-- The tracepoint `max_args` of `test/test_code.c`: nine placeholders and nine
integers. -/
def max_args : TracepointInfo :=
  { arguments_ :=
      format_argument
        "Tracepoint with max args: \x7b\x7d \x7b\x7d \x7b\x7d \x7b\x7d \x7b\x7d \x7b\x7d \x7b\x7d \x7b\x7d \x7b\x7d" ::
      List.replicate 9 int_argument }

/-- The tracepoint of `failure_tests/test_code_failure_too_many_arguments.c`:
ten placeholders and ten integers. -/
def too_many_arguments : TracepointInfo :=
  { arguments_ :=
      format_argument
        "Trace with too many arguments \x7b\x7d \x7b\x7d \x7b\x7d \x7b\x7d \x7b\x7d \x7b\x7d \x7b\x7d \x7b\x7d \x7b\x7d \x7b\x7d" ::
      List.replicate 10 int_argument }

/-- The tracepoint of
`failure_tests/test_code_failure_too_many_arguments_with_arrays.c`: six
placeholders, the four variable length wrappers and two integers. -/
def too_many_arguments_with_arrays : TracepointInfo :=
  { arguments_ :=
      [format_argument
        "Trace with too many arguments \x7b\x7d \x7b\x7d \x7b\x7d \x7b\x7d \x7b\x7d \x7b\x7d",
       wrapper_argument "lttng_generator_variable_len_int_arr",
       wrapper_argument "lttng_generator_variable_len_uint_arr",
       wrapper_argument "lttng_generator_variable_len_byte_arr",
       wrapper_argument "lttng_generator_variable_len_str",
       int_argument, int_argument] }

/-- The tracepoint of
`failure_tests/test_code_failure_too_many_arguments_for_format.c`: two
placeholders and three integers. -/
def too_many_arguments_for_format : TracepointInfo :=
  { arguments_ :=
      [format_argument "arg1: \x7b\x7d, arg2: \x7b\x7d", int_argument, int_argument,
        int_argument] }

/-- The type strings of the structs that the variable length wrappers of
`lttng_generator.h` expand to: `TP_INT_ARR`, `TP_UINT_ARR`, `TP_BYTE_ARR` and
`TP_VAR_STR_ARR`, in this order. -/
def variable_len_structs : List String :=
  ["struct lttng_generator_variable_len_int_arr",
   "struct lttng_generator_variable_len_uint_arr",
   "struct lttng_generator_variable_len_byte_arr",
   "struct lttng_generator_variable_len_str"]

/-! ## `TraceGenerator::lookupEvent` -/

/-- Counterpart of `enum LookupEventResult`. -/
inductive LookupEventResult where
  | NEW_EVENT
  | EXISTING_EVENT
deriving DecidableEq, Repr

/-- Counterpart of `unordered_map::find` on a map held as a list of entries,
one for each key: the value of the entry with the key, `none` for `end()`. -/
def unordered_map.find {β : Type} : List (String × β) → String → Option β
  | [], _ => none
  | (k, v) :: t, key => if k = key then some v else unordered_map.find t key

/-- Counterpart of `unordered_map::insert`: a map that has an entry with the
key stays as it is, otherwise the entry is added. -/
def unordered_map.insert {β : Type} (m : List (String × β)) (key : String) (v : β) :
    List (String × β) :=
  if (unordered_map.find m key).isSome then m else m ++ [(key, v)]

/-- Writing through a reference to the value of the entry with the key. -/
def unordered_map.assign {β : Type} : List (String × β) → String → β → List (String × β)
  | [], _, _ => []
  | (k, v) :: t, key, w =>
    if k = key then (k, w) :: t else (k, v) :: unordered_map.assign t key w

/-- Counterpart of the member `eventMap_`: for each provider name the
locations of its events by event name. -/
abbrev EventMap : Type := List (String × List (String × TracepointLocation))

/-- Embedding of `TraceGenerator::lookupEvent`: the result, or the message of
the `runtime_error` it throws, and the event map it leaves.  `operator[]` adds
an empty map for a provider that has none, and `eventsForProvider` is a
reference to the map of the provider, so the insertion changes the event
map. -/
def lookupEvent (eventMap_ : EventMap) (providerName eventName : String)
    (location : TracepointLocation) : Except String LookupEventResult × EventMap :=
  let indexed := unordered_map.insert eventMap_ providerName []
  let eventsForProvider := (unordered_map.find indexed providerName).getD []
  match unordered_map.find eventsForProvider eventName with
  | none =>
    (Except.ok LookupEventResult.NEW_EVENT,
      unordered_map.assign indexed providerName
        (unordered_map.insert eventsForProvider eventName location))
  | some existingLocation =>
    if existingLocation.operator_ne location then
      (Except.error "We found the same event twice in two different locations.", indexed)
    else (Except.ok LookupEventResult.EXISTING_EVENT, indexed)

/-- A sequence of `lookupEvent` calls, each on the event map the one before
left: the results in order, and the final event map. -/
def lookupEvents (eventMap_ : EventMap) :
    List (String × String × TracepointLocation) →
      List (Except String LookupEventResult) × EventMap
  | [] => ([], eventMap_)
  | (providerName, eventName, location) :: calls =>
    let r := lookupEvent eventMap_ providerName eventName location
    let rs := lookupEvents r.2 calls
    (r.1 :: rs.1, rs.2)

/-- The location the event map holds for a provider and an event. -/
def location_of (eventMap_ : EventMap) (providerName eventName : String) :
    Option TracepointLocation :=
  (unordered_map.find eventMap_ providerName).bind
    (fun eventsForProvider => unordered_map.find eventsForProvider eventName)

/-- Four lookups: an event of provider `prov1` at line 80 of `test_code.c`,
the same event at the same location again, the same event at line 91, and an
event of the same name of provider `prov2`. -/
def sample_calls : List (String × String × TracepointLocation) :=
  [("prov1", "event", { filePath_ := "test_code.c", line_ := 80 }),
   ("prov1", "event", { filePath_ := "test_code.c", line_ := 80 }),
   ("prov1", "event", { filePath_ := "test_code.c", line_ := 91 }),
   ("prov2", "event", { filePath_ := "test_code.c", line_ := 95 })]

/-- The location of the first call of a sequence that looks up the provider
and the event, `none` when no call does. -/
def first_sighting (calls : List (String × String × TracepointLocation))
    (providerName eventName : String) : Option TracepointLocation :=
  (calls.find? (fun c => decide (c.1 = providerName ∧ c.2.1 = eventName))).map
    (fun c => c.2.2)

/-- The number of calls of a sequence that look up the provider and the event
and return `NEW_EVENT`, given the results of the calls in order.  The caller
of `lookupEvent` emits the event after `NEW_EVENT` only. -/
def new_events (calls : List (String × String × TracepointLocation))
    (results : List (Except String LookupEventResult)) (providerName eventName : String) :
    Nat :=
  ((calls.zip results).filter (fun cr =>
    decide (cr.1.1 = providerName ∧ cr.1.2.1 = eventName ∧
      cr.2 = Except.ok LookupEventResult.NEW_EVENT))).length

/-! ## `getRelativeHeaderPath` -/

/-- The bytes of a `std::string` that holds the text `s` in UTF-8. -/
def utf8_bytes (s : String) : List Nat :=
  (s.data.flatMap String.utf8EncodeChar).map UInt8.toNat

/-- Embedding of `TraceGeneratorSourceFileCallback::getRelativeHeaderPath`.
A `std::string` is the list of its bytes: `length()` counts bytes, `substr`
and `operator[]` index bytes, and the character `/` is the byte 47.
`getPath` is the list of include-path entries and `headerFullPathStr` the
string of `std::filesystem::canonical(headerFullPath)`; `substr(0, n)` is the
first `n` bytes, `substr(n)` the bytes from index `n` on, and the index
`pathEntry.length() + 1` is inside the string when it is read, because the
length test comes first. -/
def getRelativeHeaderPath : List (List Nat) → List Nat → List Nat
  | [], headerFullPathStr => headerFullPathStr
  | pathEntry :: rest, headerFullPathStr =>
    if headerFullPathStr.take pathEntry.length = pathEntry ∧
        headerFullPathStr.length > pathEntry.length + 1 ∧
        headerFullPathStr.getD (pathEntry.length + 1) 0 = Char.toNat '/' then
      headerFullPathStr.drop (pathEntry.length + 1)
    else getRelativeHeaderPath rest headerFullPathStr

/-! ## `insertCallingFunctionToFormat` -/

/-- The constant `FUNCTION_FORMAT`: an opening brace, `fnc` and a closing
brace. -/
def FUNCTION_FORMAT : List Char := [lbrace, 'f', 'n', 'c', rbrace]

/-- Counterpart of `std::string::find`: the index of the first occurrence of
`pat`, `none` for `npos`. -/
def string_find (pat : List Char) : List Char → Option Nat
  | [] => if pat = [] then some 0 else none
  | c :: rest =>
    if pat.isPrefixOf (c :: rest) then some 0
    else (string_find pat rest).map (fun index => index + 1)

/-- Counterpart of `std::string::replace(index, n, r)`. -/
def string_replace (s : List Char) (index n : Nat) (r : List Char) : List Char :=
  s.take index ++ r ++ s.drop (index + n)

/-- The loop `while (true)` of `insertCallingFunctionToFormat`, at most `fuel`
passes; `none` when the loop is still running after them. -/
def insertCallingFunctionToFormat.loop (funcName : List Char) : Nat → List Char →
    Option (List Char)
  | 0, _ => none
  | fuel + 1, out =>
    match string_find FUNCTION_FORMAT out with
    | none => some out
    | some index =>
      insertCallingFunctionToFormat.loop funcName fuel
        (string_replace out index FUNCTION_FORMAT.length funcName)

/-- Embedding of `TraceGenerator::insertCallingFunctionToFormat`. -/
def insertCallingFunctionToFormat (fuel : Nat) (format funcName : String) : Option String :=
  (insertCallingFunctionToFormat.loop funcName.data fuel format.data).map String.mk

end trace_generator

/-! # Atomic operations (`ntirpc/misc/abstract_atomic.h`) -/

namespace AbstractAtomic

/-- The integer types for which `abstract_atomic.h` provides arithmetic. -/
inductive c_type where
  | int64_t
  | uint64_t
  | int32_t
  | uint32_t
  | int16_t
  | uint16_t
  | int8_t
  | uint8_t
  | size_t
deriving DecidableEq, Repr

/-- Width of a type in bits; `size_t` is that of an LP64 platform. -/
def c_type.bits : c_type → Nat
  | .int64_t => 64
  | .uint64_t => 64
  | .int32_t => 32
  | .uint32_t => 32
  | .int16_t => 16
  | .uint16_t => 16
  | .int8_t => 8
  | .uint8_t => 8
  | .size_t => 64

/-- Whether a type is signed. -/
def c_type.is_signed : c_type → Bool
  | .int64_t => true
  | .int32_t => true
  | .int16_t => true
  | .int8_t => true
  | _ => false

/-- Conversion of an integer value to a type: the value of the type that is
congruent to it modulo `2 ^ bits` (two's complement for a signed type). -/
def c_type.convert (T : c_type) (x : Int) : Int :=
  if T.is_signed then (x + 2 ^ (T.bits - 1)) % 2 ^ T.bits - 2 ^ (T.bits - 1)
  else x % 2 ^ T.bits

/-- The bit pattern of a value in an object of the type. -/
def c_type.to_bits (T : c_type) (x : Int) : Nat := (x % 2 ^ T.bits).toNat

/-- What an atomic operation returns and what it leaves stored, in a
sequential execution. -/
structure atomic_result where
  ret : Int
  stored : Int
deriving DecidableEq, Repr

/-- The compiler builtin `__atomic_add_fetch(ptr, val, memorder)` on an object
of type `T` holding `mem`: `val` is converted to `T`, the sum wraps, and the
new value is returned. -/
def __atomic_add_fetch (T : c_type) (mem val : Int) : atomic_result :=
  { ret := T.convert (mem + T.convert val), stored := T.convert (mem + T.convert val) }

/-- The compiler builtin `__atomic_sub_fetch`. -/
def __atomic_sub_fetch (T : c_type) (mem val : Int) : atomic_result :=
  { ret := T.convert (mem - T.convert val), stored := T.convert (mem - T.convert val) }

/-- The compiler builtin `__atomic_fetch_add`: the old value is returned. -/
def __atomic_fetch_add (T : c_type) (mem val : Int) : atomic_result :=
  { ret := mem, stored := T.convert (mem + T.convert val) }

/-- The compiler builtin `__atomic_fetch_sub`. -/
def __atomic_fetch_sub (T : c_type) (mem val : Int) : atomic_result :=
  { ret := mem, stored := T.convert (mem - T.convert val) }

/-- The compiler builtin `__atomic_and_fetch`, on bit patterns. -/
def __atomic_and_fetch (T : c_type) (mem val : Int) : atomic_result :=
  { ret := T.convert (Int.ofNat (T.to_bits mem &&& T.to_bits val)),
    stored := T.convert (Int.ofNat (T.to_bits mem &&& T.to_bits val)) }

/-- The compiler builtin `__atomic_or_fetch`, on bit patterns. -/
def __atomic_or_fetch (T : c_type) (mem val : Int) : atomic_result :=
  { ret := T.convert (Int.ofNat (T.to_bits mem ||| T.to_bits val)),
    stored := T.convert (Int.ofNat (T.to_bits mem ||| T.to_bits val)) }

/-- The compiler builtin `__atomic_fetch_and`. -/
def __atomic_fetch_and (T : c_type) (mem val : Int) : atomic_result :=
  { ret := mem, stored := T.convert (Int.ofNat (T.to_bits mem &&& T.to_bits val)) }

/-- The compiler builtin `__atomic_fetch_or`. -/
def __atomic_fetch_or (T : c_type) (mem val : Int) : atomic_result :=
  { ret := mem, stored := T.convert (Int.ofNat (T.to_bits mem ||| T.to_bits val)) }

/-- Embedding of `atomic_add_uint8_t` (lines 535-538): the addend parameter is
declared `int8_t`, so the argument is converted to `int8_t` on the call. -/
def atomic_add_uint8_t (augend addend : Int) : atomic_result :=
  __atomic_add_fetch c_type.uint8_t augend (c_type.int8_t.convert addend)

/-- Embedding of `atomic_postadd_uint8_t` (lines 1104-1107). -/
def atomic_postadd_uint8_t (augend addend : Int) : atomic_result :=
  __atomic_fetch_add c_type.uint8_t augend (c_type.uint8_t.convert addend)

/-- Embedding of the functions `atomic_add_T`: every one declares its addend
as `T` and calls `__atomic_add_fetch`, except `atomic_add_uint8_t`. -/
def atomic_add (T : c_type) (augend addend : Int) : atomic_result :=
  match T with
  | .uint8_t => atomic_add_uint8_t augend addend
  | _ => __atomic_add_fetch T augend (T.convert addend)

/-- Embedding of the functions `atomic_inc_T`. -/
def atomic_inc (T : c_type) (var : Int) : atomic_result := atomic_add T var 1

/-- Embedding of the functions `atomic_sub_T`. -/
def atomic_sub (T : c_type) (minuend subtrahend : Int) : atomic_result :=
  __atomic_sub_fetch T minuend (T.convert subtrahend)

/-- Embedding of the functions `atomic_dec_T`. -/
def atomic_dec (T : c_type) (var : Int) : atomic_result := atomic_sub T var 1

/-- Embedding of the functions `atomic_postadd_T`. -/
def atomic_postadd (T : c_type) (augend addend : Int) : atomic_result :=
  match T with
  | .uint8_t => atomic_postadd_uint8_t augend addend
  | _ => __atomic_fetch_add T augend (T.convert addend)

/-- Embedding of the functions `atomic_postinc_T`. -/
def atomic_postinc (T : c_type) (var : Int) : atomic_result := atomic_postadd T var 1

/-- Embedding of the functions `atomic_postsub_T`. -/
def atomic_postsub (T : c_type) (minuend subtrahend : Int) : atomic_result :=
  __atomic_fetch_sub T minuend (T.convert subtrahend)

/-- Embedding of the functions `atomic_postdec_T`. -/
def atomic_postdec (T : c_type) (var : Int) : atomic_result := atomic_postsub T var 1

/-- The types for which the bit mask functions are provided: `uint64_t`,
`uint32_t`, `uint16_t` and `uint8_t`. -/
def c_type.has_bit_functions : c_type → Bool
  | .uint64_t => true
  | .uint32_t => true
  | .uint16_t => true
  | .uint8_t => true
  | _ => false

/-- Embedding of the functions `atomic_clear_T_bits`.  The complement `~bits`
of a value `x` is `-x - 1`, in the type itself and after integer promotion
alike. -/
def atomic_clear_bits (T : c_type) (var bits : Int) : atomic_result :=
  __atomic_and_fetch T var (-(T.convert bits) - 1)

/-- Embedding of the functions `atomic_set_T_bits`. -/
def atomic_set_bits (T : c_type) (var bits : Int) : atomic_result :=
  __atomic_or_fetch T var (T.convert bits)

/-- Embedding of the functions `atomic_postclear_T_bits`. -/
def atomic_postclear_bits (T : c_type) (var bits : Int) : atomic_result :=
  __atomic_fetch_and T var (-(T.convert bits) - 1)

/-- Embedding of the functions `atomic_postset_T_bits`. -/
def atomic_postset_bits (T : c_type) (var bits : Int) : atomic_result :=
  __atomic_fetch_or T var (T.convert bits)

end AbstractAtomic

namespace ClntVc

variable {σ : Type}

/-! ## `read_vc` and `write_vc` -/

/-- What the operating system answers to `read_vc` and `write_vc`: the return
value and `errno` of the `k`-th call of `poll`, of the `read` of `len` bytes
and of the `k`-th call of `write` asked for `cnt` bytes, and the constants
`EINTR` and `ECONNRESET`. -/
structure SysEnv where
  poll : Nat → Int × Int
  read : Int → Int × Int
  write : Nat → Int → Int × Int
  EINTR : Int
  ECONNRESET : Int

/-- System calls of `read_vc` and `write_vc` with their return values: `poll`
with its timeout, `read` with the length asked for, `write` with the offset
of its buffer argument in the caller's buffer and the count asked for. -/
inductive SysEv where
  | poll (timeout : Int) (ret : Int)
  | read (len : Int) (ret : Int)
  | write (pos : Int) (cnt : Int) (ret : Int)
deriving DecidableEq, Repr

/-- Outcome of `read_vc` or `write_vc`: the return value (`none` when the loop
was still running as the fuel ran out), the private data and the system calls
made. -/
structure IoRes where
  ret : Option Int
  ct : ct_data
  trace : List SysEv
deriving DecidableEq, Repr

/-- The conversion `(int)` of a 64-bit value: the 32-bit two's complement
value congruent to it. -/
def to_int (x : Int) : Int := (x + 2 ^ 31) % 2 ^ 32 - 2 ^ 31

/-- The local `milliseconds` of `read_vc` (lines 732-733): the sum is
computed in the 64-bit type of `tv_sec` and converted to `int`; the division
truncates. -/
def read_vc.milliseconds (ct : ct_data) : Int :=
  to_int (ct.ct_wait.tv_sec * 1000 + Int.tdiv ct.ct_wait.tv_usec 1000)

/-- Outcome of the poll loop of `read_vc`. -/
inductive Polled where
  | ready (trace : List SysEv)
  | failed (ct : ct_data) (trace : List SysEv)
  | out_of_fuel (trace : List SysEv)

/-- The loop `for (;;)` of `read_vc` (lines 746-760), at most `fuel` passes,
the next call of `poll` being call number `k`. -/
def read_vc.poll_loop (Y : SysEnv) (milliseconds : Int) (ct : ct_data) :
    Nat → Nat → List SysEv → Polled
  | 0, _, tr => Polled.out_of_fuel tr
  | fuel + 1, k, tr =>
    if (Y.poll k).1 = 0 then
      Polled.failed
        { ct with ct_error := { ct.ct_error with re_status := clnt_stat.RPC_TIMEDOUT } }
        (tr ++ [SysEv.poll milliseconds (Y.poll k).1])
    else if (Y.poll k).1 = -1 then
      if (Y.poll k).2 = Y.EINTR then
        read_vc.poll_loop Y milliseconds ct fuel (k + 1)
          (tr ++ [SysEv.poll milliseconds (Y.poll k).1])
      else
        Polled.failed
          { ct with ct_error := { ct.ct_error with re_status := clnt_stat.RPC_CANTRECV,
                                                   re_errno := (Y.poll k).2 } }
          (tr ++ [SysEv.poll milliseconds (Y.poll k).1])
    else Polled.ready (tr ++ [SysEv.poll milliseconds (Y.poll k).1])

/-- Embedding of `read_vc`; `fuel` bounds the poll loop. -/
def read_vc (Y : SysEnv) (fuel : Nat) (ct : ct_data) (len : Int) : IoRes :=
  if len = 0 then { ret := some 0, ct := ct, trace := [] }
  else
    match read_vc.poll_loop Y (read_vc.milliseconds ct) ct fuel 0 [] with
    | Polled.out_of_fuel tr => { ret := none, ct := ct, trace := tr }
    | Polled.failed ct1 tr => { ret := some (-1), ct := ct1, trace := tr }
    | Polled.ready tr =>
      if (Y.read len).1 = 0 then
        { ret := some (-1),
          ct := { ct with ct_error := { ct.ct_error with re_errno := Y.ECONNRESET,
                                                         re_status := clnt_stat.RPC_CANTRECV } },
          trace := tr ++ [SysEv.read len (Y.read len).1] }
      else if (Y.read len).1 = -1 then
        { ret := some (-1),
          ct := { ct with ct_error := { ct.ct_error with re_errno := (Y.read len).2,
                                                         re_status := clnt_stat.RPC_CANTRECV } },
          trace := tr ++ [SysEv.read len (Y.read len).1] }
      else { ret := some (Y.read len).1, ct := ct, trace := tr ++ [SysEv.read len (Y.read len).1] }

/-- The loop of `write_vc` (lines 788-794), at most `fuel` passes: `cnt` bytes
remain, `pos` is the offset of `buf` in the caller's buffer, and the next call
of `write` is call number `k`. -/
def write_vc.loop (Y : SysEnv) (len : Int) (ct : ct_data) :
    Nat → Nat → Int → Int → List SysEv → IoRes
  | 0, _, _, _, tr => { ret := none, ct := ct, trace := tr }
  | fuel + 1, k, cnt, pos, tr =>
    if cnt > 0 then
      if (Y.write k cnt).1 = -1 then
        { ret := some (-1),
          ct := { ct with ct_error := { ct.ct_error with re_errno := (Y.write k cnt).2,
                                                         re_status := clnt_stat.RPC_CANTSEND } },
          trace := tr ++ [SysEv.write pos cnt (Y.write k cnt).1] }
      else
        write_vc.loop Y len ct fuel (k + 1) (cnt - (Y.write k cnt).1) (pos + (Y.write k cnt).1)
          (tr ++ [SysEv.write pos cnt (Y.write k cnt).1])
    else { ret := some len, ct := ct, trace := tr }

/-- Embedding of `write_vc`; `fuel` bounds the loop. -/
def write_vc (Y : SysEnv) (fuel : Nat) (ct : ct_data) (len : Int) : IoRes :=
  write_vc.loop Y len ct fuel 0 len 0 []

/-- A call of `write` that failed. -/
def SysEv.is_failed_write : SysEv → Bool
  | SysEv.write _ _ ret => decide (ret = -1)
  | _ => false

/-- A call of `read`. -/
def SysEv.is_read : SysEv → Bool
  | SysEv.read _ _ => true
  | _ => false

/-- The bytes of the caller's buffer `buf` that a system call took: a `write`
that returned the count `ret` took `ret` bytes from the offset of its
argument. -/
def SysEv.accepted (buf : List Nat) : SysEv → List Nat
  | SysEv.write pos _ ret => if ret = -1 then [] else (buf.drop pos.toNat).take ret.toNat
  | _ => []

/-- The bytes the descriptor was passed, in the order of the calls. -/
def sent_bytes (buf : List Nat) (trace : List SysEv) : List Nat :=
  (trace.map (SysEv.accepted buf)).flatten

/-- An operating system on which the first two calls of `poll` are interrupted
and the third reports the descriptor ready, `read` returns 4 bytes, and
`write` takes at most 3 bytes at a time. -/
def sample_sys : SysEnv :=
  { poll := fun k => if k < 2 then (-1, 4) else (1, 0),
    read := fun _ => (4, 0),
    write := fun _ cnt => (if cnt < 3 then cnt else 3, 0),
    EINTR := 4, ECONNRESET := 104 }

/-- An operating system on which the second call of `write` fails with `errno`
32. -/
def broken_pipe_sys : SysEnv :=
  { sample_sys with write := fun k cnt => if k = 1 then (-1, 32) else (if cnt < 3 then cnt else 3, 0) }

/-- The state of a handle that differs from `s` in the stored wait timeout and
the timeout-explicitly-set flag only. -/
def State.with_wait (s : State σ) (w : timeval) (b : Bool) : State σ :=
  { s with ct := { s.ct with ct_wait := w, ct_waitset := b } }

/-! ## Definitions for the claim on SUCCESS returns -/

/-- No collaborator hides a failure behind `RPC_SUCCESS`: a failed
skip-record leaves a status other than `RPC_SUCCESS` in the error record, and
neither the forced end-of-record nor a failed `AUTH_REFRESH` overwrites a
status other than `RPC_SUCCESS` with `RPC_SUCCESS`. -/
structure FailureRecorded (E : Env σ) : Prop where
  skiprecord : ∀ w err, (E.xdrrec_skiprecord w err).ok = false →
    (E.xdrrec_skiprecord w err).err.re_status ≠ clnt_stat.RPC_SUCCESS
  endofrecord : ∀ w err, err.re_status ≠ clnt_stat.RPC_SUCCESS →
    (E.xdrrec_endofrecord true w err).err.re_status ≠ clnt_stat.RPC_SUCCESS
  refresh : ∀ m w err, err.re_status ≠ clnt_stat.RPC_SUCCESS →
    (E.AUTH_REFRESH m w err).ok = false →
    (E.AUTH_REFRESH m w err).err.re_status ≠ clnt_stat.RPC_SUCCESS

/-- The transaction id that the header of the handle carries, as line 398
reads it after the decrement: the id sent in the last attempt. -/
def State.sent_x_id (e : Endian) (s : State σ) : Nat :=
  ntohl e (ct_mcalli_get e s.ct)

/-- The state ends a run in which the message now in the buffer was decoded
as a REPLY carrying the id last sent, was classified as success and was
accepted by `AUTH_VALIDATE` and `AUTH_UNWRAP`, these four events following
each other; afterwards only the verifier was released and the exit steps
ran. -/
def State.accepted_reply (e : Endian) (s : State σ) : Prop :=
  s.msg.rm_direction = REPLY ∧ s.msg.rm_xid = s.sent_x_id e ∧
  ∃ pre post : List Ev,
    s.trace = pre ++ [Ev.dplx_msg true s.msg, Ev.seterr_reply s.msg clnt_stat.RPC_SUCCESS,
      Ev.validate true, Ev.unwrap true] ++ post ∧
    ∀ ev ∈ post, ev = Ev.free_verf ∨ ev.is_bracket = true

/-- The echoing peer with a record stream whose skip-record fails and leaves
the error record as it found it. -/
def silent_skip_env : Env Nat :=
  { echo_env 0 0 0 true true with
    xdrrec_skiprecord := fun w err => { ok := false, w := w, err := err } }

/-! ## Definitions for the termination claim -/

/-- The inbound stream holds finitely many records and nothing refills it:
`remaining` reads off the collaborator state how many records the stream can
still deliver.  A successful skip-record followed by the header decode
consumes at least one record (so skip-record fails once none is left), and
no encode step, end-of-record, auth operation or dispatch callback adds a
record.  Nothing is assumed about the results these operations return or
about what they do to the error record. -/
structure FiniteInbound (E : Env σ) (remaining : σ → Nat) : Prop where
  record : ∀ m w err, (E.xdrrec_skiprecord w err).ok = true →
    remaining (E.xdr_dplx_msg m (E.xdrrec_skiprecord w err).w
      (E.xdrrec_skiprecord w err).err).w < remaining w
  putbytes : ∀ bs w err, remaining (E.XDR_PUTBYTES bs w err).w ≤ remaining w
  putint32 : ∀ v w err, remaining (E.XDR_PUTINT32 v w err).w ≤ remaining w
  marshall : ∀ w err, remaining (E.AUTH_MARSHALL w err).w ≤ remaining w
  wrap : ∀ x p w err, remaining (E.AUTH_WRAP x p w err).w ≤ remaining w
  endofrecord : ∀ f w err, remaining (E.xdrrec_endofrecord f w err).w ≤ remaining w
  dispatch : ∀ x m w b, remaining (E.xp_dispatch x m w b).w ≤ remaining w
  validate : ∀ v w err, remaining (E.AUTH_VALIDATE v w err).w ≤ remaining w
  unwrap : ∀ x p w err, remaining (E.AUTH_UNWRAP x p w err).w ≤ remaining w
  free_verf : ∀ v w, remaining (E.xdr_opaque_auth v w) ≤ remaining w
  refresh : ∀ m w err, remaining (E.AUTH_REFRESH m w err).w ≤ remaining w

/-- The receive loop returned or reached the label `replied`. -/
def RecvRes.is_finished (o : RecvRes σ) : Bool :=
  match o with
  | RecvRes.out_of_fuel _ => false
  | _ => true

/-- The attempt returned a status or reached the refresh decision. -/
def AttemptRes.is_finished (o : AttemptRes σ) : Bool :=
  match o with
  | AttemptRes.out_of_fuel _ => false
  | _ => true

/-- A skip-record event. -/
def Ev.is_skiprecord : Ev → Bool
  | Ev.skiprecord _ => true
  | _ => false

/-! ## Definitions for the dispatch claims: callbacks that use the transport -/

/-- The scripted stream with a dispatch callback that reports what it finds on
the server transport: it hands back the message with the field `rp_stat` set
to the transaction id recorded in the connection data. -/
def cd_reading_env : Env (List (Option rpc_msg)) :=
  { stream_env with
    xp_dispatch := fun x m w b => { msg := { m with rp_stat := x }, w := w, events_blocked := b } }

/-- The scripted stream with a dispatch callback that resumes event processing
itself and clears the events-blocked flag. -/
def flag_clearing_env : Env (List (Option rpc_msg)) :=
  { stream_env with
    xp_dispatch := fun _ m w _ => { msg := m, w := w, events_blocked := false } }

/-! ## Definitions for the encode failure claim: the flush and `write_vc` -/

/-- The forced end-of-record writes the error record only through `write_vc`,
which `clnt_vc_create2` installs as the write callback of the record stream
(lines 327-328): the error record it leaves is the one that a run of
`write_vc` leaves which found the record handed to the end-of-record. -/
def FlushesThroughWriteVc (E : Env σ) : Prop :=
  ∀ w err, ∃ (Y : SysEnv) (fuel : Nat) (ct : ct_data) (len : Int),
    ct.ct_error = err ∧
    (E.xdrrec_endofrecord true w err).err = (write_vc Y fuel ct len).ct.ct_error

/-- The echoing peer with an auth handle whose `AUTH_MARSHALL` fails and a
record stream whose forced end-of-record fails in `write_vc`, where `write`
fails with `errno` 32. -/
def unflushable_env : Env Nat :=
  { unmarshallable_env with
    xdrrec_endofrecord := fun _ w err =>
      { ok := false, w := w,
        err := { err with re_errno := 32, re_status := clnt_stat.RPC_CANTSEND } } }

/-! ## Definitions for the locking claim: the steps of a call in program order -/

/-- What `time_not_ok` computes: a timeval is accepted exactly when both
fields lie in the closed ranges the four comparisons leave. -/
theorem time_not_ok_eq_false_iff (t : timeval) :
    time_not_ok t = false ↔
      (0 ≤ t.tv_sec ∧ t.tv_sec ≤ 100000000) ∧ (0 ≤ t.tv_usec ∧ t.tv_usec ≤ 1000000) := by
  unfold time_not_ok
  simp only [Bool.or_eq_false_iff, decide_eq_false_iff_not, not_le, gt_iff_lt, not_lt]
  constructor
  · rintro ⟨⟨⟨h1, h2⟩, h3⟩, h4⟩
    exact ⟨⟨by omega, h2⟩, ⟨by omega, h4⟩⟩
  · rintro ⟨⟨h1, h2⟩, ⟨h3, h4⟩⟩
    exact ⟨⟨⟨by omega, h2⟩, by omega⟩, h4⟩

/-- C9 (evaluation at the failing input): `time_not_ok` returns FALSE, that is
accepts, the timeval with `tv_sec = 0` and `tv_usec = 1000000`, although its
microseconds lie outside the half-open range [0,1000000) of the stated
validity test. -/
theorem time_not_ok_accepts_full_second :
    time_not_ok { tv_sec := 0, tv_usec := 1000000 } = false ∧
      spec_timeval_ok { tv_sec := 0, tv_usec := 1000000 } = false := by
  constructor
  · decide
  · decide

/-- C10: a `CLSET_TIMEOUT` request whose timeval the validity test rejects
returns FALSE and leaves the private data of the handle, in particular the
stored wait timeout and the timeout-explicitly-set flag, exactly as it was. -/
theorem clset_timeout_rejected_keeps_wait (e : Endian) (s : State σ) (i : info_obj)
    (h : time_not_ok i.as_timeval = true) :
    (clnt_vc_control e s clnt_req.CLSET_TIMEOUT (some i)).ret = false ∧
      (clnt_vc_control e s clnt_req.CLSET_TIMEOUT (some i)).s.ct.ct_wait = s.ct.ct_wait ∧
      (clnt_vc_control e s clnt_req.CLSET_TIMEOUT (some i)).s.ct.ct_waitset = s.ct.ct_waitset ∧
      (clnt_vc_control e s clnt_req.CLSET_TIMEOUT (some i)).s.ct = s.ct := by
  simp [clnt_vc_control, control_switch, h, State.log]

/-- C10 at `tv_sec = -5`: the validity test rejects the timeval, the request
on the sample handle fails and the stored wait policy is untouched. -/
theorem clset_timeout_rejected_keeps_wait_witness :
    time_not_ok { tv_sec := -5, tv_usec := 0 } = true ∧
    ((clnt_vc_control Endian.little (sample_state ()) clnt_req.CLSET_TIMEOUT
        (some (sample_info { tv_sec := -5, tv_usec := 0 } 0))).ret = false ∧
      (clnt_vc_control Endian.little (sample_state ()) clnt_req.CLSET_TIMEOUT
        (some (sample_info { tv_sec := -5, tv_usec := 0 } 0))).s.ct.ct_wait
          = (sample_state ()).ct.ct_wait ∧
      (clnt_vc_control Endian.little (sample_state ()) clnt_req.CLSET_TIMEOUT
        (some (sample_info { tv_sec := -5, tv_usec := 0 } 0))).s.ct.ct_waitset
          = (sample_state ()).ct.ct_waitset ∧
      (clnt_vc_control Endian.little (sample_state ()) clnt_req.CLSET_TIMEOUT
        (some (sample_info { tv_sec := -5, tv_usec := 0 } 0))).s.ct = (sample_state ()).ct) :=
  ⟨by decide,
   clset_timeout_rejected_keeps_wait Endian.little (sample_state ())
     (sample_info { tv_sec := -5, tv_usec := 0 } 0) (by decide)⟩

/-! ## Byte order of the transaction id word -/

theorem be32_bytes_be (v : Nat) (h : v < 2 ^ 32) : be32 (bytes_be v) = v := by
  simp only [be32, bytes_be, List.getD_cons_zero, List.getD_cons_succ]
  norm_num at h ⊢
  omega

theorem le32_bytes_le (v : Nat) (h : v < 2 ^ 32) : le32 (bytes_le v) = v := by
  simp only [le32, bytes_le, List.getD_cons_zero, List.getD_cons_succ]
  norm_num at h ⊢
  omega

theorem load32_store32 (e : Endian) (v : Nat) (h : v < 2 ^ 32) :
    load32 e (store32 e v) = v := by
  cases e
  · exact be32_bytes_be v h
  · exact le32_bytes_le v h

theorem store32_length (e : Endian) (v : Nat) : (store32 e v).length = 4 := by
  cases e <;> rfl

theorem take_four_store32 (e : Endian) (v : Nat) (rest : List Nat) :
    (store32 e v ++ rest).take 4 = store32 e v := by
  have h := store32_length e v
  rw [List.take_append_of_le_length (by omega)]
  exact List.take_of_length_le (by omega)

/-- On either host, `ntohl` of a word is the big-endian value of the bytes the
host stores for it. -/
theorem ntohl_eq_be32_store32 (e : Endian) (v : Nat) (h : v < 2 ^ 32) :
    ntohl e v = be32 (store32 e v) := by
  cases e
  · simp only [ntohl, store32]
    rw [be32_bytes_be v h, Nat.mod_eq_of_lt h]
  · rfl

theorem decremented_lt (v : Nat) : (v + 2 ^ 32 - 1) % 2 ^ 32 < 2 ^ 32 :=
  Nat.mod_lt _ (by norm_num)

/-! ## Frame lemmas: what the steps of an attempt leave untouched -/

theorem encode_call_stable (E : Env σ) (a : call_args) (s : State σ) :
    (encode_call E a s).2.ct.stable = s.ct.stable := by
  unfold encode_call
  simp only []
  split_ifs <;> rfl

theorem skip_record_stable (E : Env σ) (s : State σ) :
    (skip_record E s).2.ct.stable = s.ct.stable := rfl

theorem decode_header_stable (E : Env σ) (s : State σ) :
    (decode_header E s).2.ct.stable = s.ct.stable := rfl

theorem fetch_record_stable (E : Env σ) (s : State σ) :
    (fetch_record E s).s.ct.stable = s.ct.stable := by
  unfold fetch_record
  dsimp only
  split_ifs
  · exact skip_record_stable E s
  · rw [decode_header_stable, skip_record_stable]

theorem dispatch_call_stable (E : Env σ) (s : State σ) :
    (dispatch_call E s).ct.stable = s.ct.stable := rfl

theorem recv_body_stable (E : Env σ) (x_id : Nat) (duplex : Bool) (s : State σ) :
    (recv_body E x_id duplex s).state.ct.stable = s.ct.stable := by
  unfold recv_body
  simp only []
  split_ifs <;>
    simp only [Step.state, dispatch_call_stable, fetch_record_stable]

theorem recv_loop_stable (E : Env σ) (x_id : Nat) (duplex : Bool) (fuel : Nat) (s : State σ) :
    (recv_loop E x_id duplex fuel s).state.ct.stable = s.ct.stable := by
  induction fuel generalizing s with
  | zero => rfl
  | succ n ih =>
    have hb := recv_body_stable E x_id duplex s
    unfold recv_loop
    cases hstep : recv_body E x_id duplex s with
    | next s1 =>
      rw [hstep] at hb
      simp only [Step.state] at hb
      simp only [ih s1, hb]
    | replied s1 =>
      rw [hstep] at hb
      simpa [RecvRes.state, Step.state] using hb
    | ret r s1 =>
      rw [hstep] at hb
      simpa [RecvRes.state, Step.state] using hb

theorem process_reply_stable (E : Env σ) (a : call_args) (s : State σ) :
    (process_reply E a s).state.ct.stable = s.ct.stable := by
  unfold process_reply
  simp only []
  split_ifs <;> rfl

theorem reply_outcome_state (r : ReplyRes σ) : (reply_outcome r).state = r.state := by
  cases r <;> rfl

theorem receive_reply_stable (E : Env σ) (a : call_args) (x_id : Nat) (duplex : Bool)
    (fuel : Nat) (s : State σ) :
    (receive_reply E a x_id duplex fuel s).state.ct.stable = s.ct.stable := by
  have hl := recv_loop_stable E x_id duplex fuel (s.set_x_op xdr_op.XDR_DECODE)
  unfold receive_reply
  cases hr : recv_loop E x_id duplex fuel (s.set_x_op xdr_op.XDR_DECODE) with
  | out_of_fuel s3 =>
    rw [hr] at hl
    simpa [AttemptRes.state, RecvRes.state, State.set_x_op, ct_data.stable] using hl
  | ret r3 s3 =>
    rw [hr] at hl
    simpa [AttemptRes.state, RecvRes.state, State.set_x_op, ct_data.stable] using hl
  | replied s3 =>
    rw [hr] at hl
    simp only [reply_outcome_state, process_reply_stable]
    simpa [RecvRes.state, State.set_x_op, ct_data.stable] using hl

/-- Once the header word has been decremented, the rest of the attempt leaves
the stable fields, the header among them, as `begin_attempt` produced them. -/
theorem attempt_stable (E : Env σ) (e : Endian) (a : call_args) (shipnow duplex : Bool)
    (fuel : Nat) (s : State σ) :
    (attempt E e a shipnow duplex fuel s).state.ct.stable = (begin_attempt e s).ct.stable := by
  have henc := encode_call_stable E a (begin_attempt e s)
  unfold attempt
  simp only []
  split_ifs
  · rw [← henc]; rfl
  · rw [← henc]; rfl
  · rw [← henc]; rfl
  · rw [← henc]; rfl
  · rw [← henc]; rfl
  · rw [receive_reply_stable, ← henc]; rfl

theorem Adds.refl (P : Ev → Prop) (s : State σ) : Adds P s s :=
  ⟨[], by simp, by simp⟩

theorem Adds.trans {P : Ev → Prop} {s1 s2 s3 : State σ} (h12 : Adds P s1 s2)
    (h23 : Adds P s2 s3) : Adds P s1 s3 := by
  obtain ⟨l1, e1, p1⟩ := h12
  obtain ⟨l2, e2, p2⟩ := h23
  refine ⟨l1 ++ l2, by rw [e2, e1, List.append_assoc], ?_⟩
  intro ev hev
  rcases List.mem_append.mp hev with h | h
  · exact p1 ev h
  · exact p2 ev h

theorem Adds.mono {P Q : Ev → Prop} {s1 s2 : State σ} (h : Adds P s1 s2)
    (hPQ : ∀ ev, P ev → Q ev) : Adds Q s1 s2 := by
  obtain ⟨l, e, p⟩ := h
  exact ⟨l, e, fun ev hev => hPQ ev (p ev hev)⟩

theorem Adds.of_same_trace {P : Ev → Prop} {s1 s2 : State σ} (h : s2.trace = s1.trace) :
    Adds P s1 s2 :=
  ⟨[], by simp [h], by simp⟩

theorem Adds.one {P : Ev → Prop} {s1 s2 : State σ} (ev : Ev) (h : s2.trace = s1.trace ++ [ev])
    (hP : P ev) : Adds P s1 s2 :=
  ⟨[ev], h, by simpa using hP⟩

theorem skip_record_adds (E : Env σ) (s : State σ) :
    Adds (fun ev => ev.is_receive = true) s (skip_record E s).2 :=
  Adds.one _ rfl rfl

theorem decode_header_adds (E : Env σ) (s : State σ) :
    Adds (fun ev => ev.is_receive = true) s (decode_header E s).2 :=
  Adds.one _ rfl rfl

theorem fetch_record_adds (E : Env σ) (s : State σ) :
    Adds (fun ev => ev.is_receive = true) s (fetch_record E s).s := by
  unfold fetch_record
  dsimp only
  split_ifs
  · exact skip_record_adds E s
  · exact Adds.trans (skip_record_adds E s) (decode_header_adds E _)

theorem dispatch_call_adds (E : Env σ) (s : State σ) :
    Adds (fun ev => ev.is_receive = true) s (dispatch_call E s) :=
  Adds.one _ rfl rfl

theorem recv_body_adds (E : Env σ) (x_id : Nat) (duplex : Bool) (s : State σ) :
    Adds (fun ev => ev.is_receive = true) s (recv_body E x_id duplex s).state := by
  have hf := fetch_record_adds E s
  unfold recv_body
  simp only []
  split_ifs <;> simp only [Step.state] <;>
    first
      | exact hf
      | exact Adds.trans hf (dispatch_call_adds E _)

theorem recv_loop_adds (E : Env σ) (x_id : Nat) (duplex : Bool) (fuel : Nat) (s : State σ) :
    Adds (fun ev => ev.is_receive = true) s (recv_loop E x_id duplex fuel s).state := by
  induction fuel generalizing s with
  | zero => exact Adds.refl _ _
  | succ n ih =>
    have hb := recv_body_adds E x_id duplex s
    unfold recv_loop
    cases hstep : recv_body E x_id duplex s with
    | next s1 =>
      rw [hstep] at hb
      exact Adds.trans hb (ih s1)
    | replied s1 =>
      rw [hstep] at hb
      exact hb
    | ret r s1 =>
      rw [hstep] at hb
      exact hb

theorem Adds.of_prefix_drop {P : Ev → Prop} {s1 s2 : State σ} (h1 : s1.trace <+: s2.trace)
    (h2 : ∀ ev ∈ s2.trace.drop s1.trace.length, P ev) : Adds P s1 s2 := by
  obtain ⟨l, hl⟩ := h1
  refine ⟨l, hl.symm, ?_⟩
  rw [← hl] at h2
  simpa using h2

@[simp] theorem State.op_trace (s : State σ) (r : OpRes σ) (ev : Ev) :
    (s.op r ev).trace = s.trace ++ [ev] := rfl

@[simp] theorem State.op_msg_trace (s : State σ) (r : MsgRes σ) (ev : Ev) :
    (s.op_msg r ev).trace = s.trace ++ [ev] := rfl

@[simp] theorem State.log_trace (s : State σ) (ev : Ev) :
    (s.log ev).trace = s.trace ++ [ev] := rfl

@[simp] theorem State.set_status_trace (s : State σ) (st : clnt_stat) :
    (s.set_status st).trace = s.trace := rfl

@[simp] theorem State.set_x_op_trace (s : State σ) (op : xdr_op) :
    (s.set_x_op op).trace = s.trace := rfl

/-- The encode steps append the header event first and then only events of
the later encode steps. -/
theorem encode_call_trace (E : Env σ) (a : call_args) (s : State σ) :
    ∃ l : List Ev,
      (encode_call E a s).2.trace =
        s.trace ++ Ev.putbytes (s.ct.ct_mcallc.take s.ct.ct_mpos)
          (E.XDR_PUTBYTES (s.ct.ct_mcallc.take s.ct.ct_mpos) s.w s.ct.ct_error).ok :: l ∧
      ∀ ev ∈ l, ev.is_encode_tail = true := by
  have key : Adds (fun ev => ev.is_encode_tail = true)
      (s.op (E.XDR_PUTBYTES (s.ct.ct_mcallc.take s.ct.ct_mpos) s.w s.ct.ct_error)
        (Ev.putbytes (s.ct.ct_mcallc.take s.ct.ct_mpos)
          (E.XDR_PUTBYTES (s.ct.ct_mcallc.take s.ct.ct_mpos) s.w s.ct.ct_error).ok))
      (encode_call E a s).2 := by
    apply Adds.of_prefix_drop
    · unfold encode_call
      dsimp only
      split_ifs <;> simp
    · unfold encode_call
      dsimp only
      split_ifs <;> simp [Ev.is_encode_tail]
  obtain ⟨l, hl, hp⟩ := key
  exact ⟨l, by rw [hl]; simp, hp⟩

theorem process_reply_adds (E : Env σ) (a : call_args) (s : State σ) :
    Adds (fun ev => ev.is_reply = true) s (process_reply E a s).state := by
  apply Adds.of_prefix_drop
  · unfold process_reply
    dsimp only
    split_ifs <;> simp [ReplyRes.state, State.status]
  · unfold process_reply
    dsimp only
    split_ifs <;> simp [ReplyRes.state, State.status, Ev.is_reply]

theorem is_inbound_of_is_receive (ev : Ev) (h : ev.is_receive = true) :
    ev.is_inbound = true := by
  simp [Ev.is_inbound, h]

theorem is_inbound_of_is_reply (ev : Ev) (h : ev.is_reply = true) :
    ev.is_inbound = true := by
  simp [Ev.is_inbound, h]

theorem receive_reply_adds (E : Env σ) (a : call_args) (x_id : Nat) (duplex : Bool)
    (fuel : Nat) (s : State σ) :
    Adds (fun ev => ev.is_inbound = true) s (receive_reply E a x_id duplex fuel s).state := by
  have h0 : Adds (fun ev => ev.is_inbound = true) s (s.set_x_op xdr_op.XDR_DECODE) :=
    Adds.of_same_trace rfl
  have hl := (recv_loop_adds E x_id duplex fuel (s.set_x_op xdr_op.XDR_DECODE)).mono
    is_inbound_of_is_receive
  unfold receive_reply
  cases hr : recv_loop E x_id duplex fuel (s.set_x_op xdr_op.XDR_DECODE) with
  | out_of_fuel s3 =>
    rw [hr] at hl
    exact Adds.trans h0 hl
  | ret r3 s3 =>
    rw [hr] at hl
    exact Adds.trans h0 hl
  | replied s3 =>
    rw [hr] at hl
    have hp := (process_reply_adds E a s3).mono is_inbound_of_is_reply
    dsimp only
    rw [reply_outcome_state]
    exact Adds.trans h0 (Adds.trans hl hp)

/-! ## Which reply is processed -/

theorem recv_body_replied (E : Env σ) (x_id : Nat) (duplex : Bool) (s s1 : State σ)
    (h : recv_body E x_id duplex s = Step.replied s1) :
    s1 = (fetch_record E s).s ∧ (fetch_record E s).skip_ok = true ∧
      (fetch_record E s).decode_ok = true ∧ s1.msg.rm_direction = REPLY ∧
      s1.msg.rm_xid = x_id := by
  unfold recv_body at h
  dsimp only at h
  split_ifs at h with h1 h2 h3 h4 h5 h6 h7
  · injection h with h
    subst h
    simp only [Bool.not_eq_true, Bool.not_eq_eq_eq_not, Bool.not_true, Bool.not_false,
      Bool.not_eq_false] at h1 h2
    exact ⟨rfl, h1, h2, h4, h5⟩

/-- The receive loop leaves through `replied` only with a decoded REPLY whose
transaction id equals `x_id`. -/
theorem recv_loop_replied (E : Env σ) (x_id : Nat) (duplex : Bool) (fuel : Nat)
    (s s1 : State σ) (h : recv_loop E x_id duplex fuel s = RecvRes.replied s1) :
    s1.msg.rm_direction = REPLY ∧ s1.msg.rm_xid = x_id := by
  induction fuel generalizing s with
  | zero => simp [recv_loop] at h
  | succ n ih =>
    unfold recv_loop at h
    cases hstep : recv_body E x_id duplex s with
    | next s2 =>
      rw [hstep] at h
      exact ih s2 h
    | replied s2 =>
      rw [hstep] at h
      injection h with h
      subst h
      exact (recv_body_replied E x_id duplex s s2 hstep).2.2.2
    | ret r s2 =>
      rw [hstep] at h
      simp at h

/-- Reply processing classifies the message it was entered with and no other. -/
theorem process_reply_adds_for (E : Env σ) (a : call_args) (s : State σ) :
    Adds (fun ev => ev.is_reply = true ∧ ∀ m st, ev = Ev.seterr_reply m st → m = s.msg) s
      (process_reply E a s).state := by
  apply Adds.of_prefix_drop
  · unfold process_reply
    dsimp only
    split_ifs <;> simp [ReplyRes.state, State.status]
  · unfold process_reply
    dsimp only
    split_ifs <;> simp [ReplyRes.state, State.status, Ev.is_reply]

theorem inbound_for_of_is_receive (x_id : Nat) (ev : Ev) (h : ev.is_receive = true) :
    ev.inbound_for x_id := by
  refine ⟨is_inbound_of_is_receive ev h, ?_⟩
  intro m st hev
  subst hev
  simp [Ev.is_receive] at h

theorem receive_reply_adds_for (E : Env σ) (a : call_args) (x_id : Nat) (duplex : Bool)
    (fuel : Nat) (s : State σ) :
    Adds (Ev.inbound_for x_id) s (receive_reply E a x_id duplex fuel s).state := by
  have h0 : Adds (Ev.inbound_for x_id) s (s.set_x_op xdr_op.XDR_DECODE) :=
    Adds.of_same_trace rfl
  have hl := (recv_loop_adds E x_id duplex fuel (s.set_x_op xdr_op.XDR_DECODE)).mono
    (inbound_for_of_is_receive x_id)
  unfold receive_reply
  cases hr : recv_loop E x_id duplex fuel (s.set_x_op xdr_op.XDR_DECODE) with
  | out_of_fuel s3 =>
    rw [hr] at hl
    exact Adds.trans h0 hl
  | ret r3 s3 =>
    rw [hr] at hl
    exact Adds.trans h0 hl
  | replied s3 =>
    rw [hr] at hl
    have hx := recv_loop_replied E x_id duplex fuel _ s3 hr
    have hp : Adds (Ev.inbound_for x_id) s3 (process_reply E a s3).state :=
      (process_reply_adds_for E a s3).mono (by
        rintro ev ⟨h1, h2⟩
        refine ⟨is_inbound_of_is_reply ev h1, ?_⟩
        intro m st hev
        rw [h2 m st hev]
        exact hx)
    dsimp only
    rw [reply_outcome_state]
    exact Adds.trans h0 (Adds.trans hl hp)

/-- After the encode steps an attempt issues exactly one end-of-record, forced
unless it is the regular flush of a call with `shipnow` false, and then only
events of the receive side. -/
theorem attempt_after_encode (E : Env σ) (e : Endian) (a : call_args)
    (shipnow duplex : Bool) (fuel : Nat) (s : State σ) :
    ∃ (flush ok : Bool) (l : List Ev),
      (attempt E e a shipnow duplex fuel s).state.trace =
        (encode_call E a (begin_attempt e s)).2.trace ++ Ev.endofrecord flush ok :: l ∧
      (flush = true ∨ flush = shipnow) ∧ ∀ ev ∈ l, ev.inbound_for (attempt_x_id e s) := by
  unfold attempt
  dsimp only
  split_ifs with h1 h2 h3 h4 h5
  · exact ⟨true, _, [], rfl, Or.inl rfl, by simp⟩
  · exact ⟨true, _, [], rfl, Or.inl rfl, by simp⟩
  · exact ⟨shipnow, _, [], rfl, Or.inr rfl, by simp⟩
  · exact ⟨shipnow, _, [], rfl, Or.inr rfl, by simp⟩
  · exact ⟨shipnow, _, [], rfl, Or.inr rfl, by simp⟩
  · obtain ⟨l, hl, hp⟩ := receive_reply_adds_for E a (attempt_x_id e s) duplex fuel
      ((encode_call E a (begin_attempt e s)).2.op
        (E.xdrrec_endofrecord shipnow (encode_call E a (begin_attempt e s)).2.w
          (encode_call E a (begin_attempt e s)).2.ct.ct_error)
        (Ev.endofrecord shipnow
          (E.xdrrec_endofrecord shipnow (encode_call E a (begin_attempt e s)).2.w
            (encode_call E a (begin_attempt e s)).2.ct.ct_error).ok))
    refine ⟨shipnow, (E.xdrrec_endofrecord shipnow (encode_call E a (begin_attempt e s)).2.w
      (encode_call E a (begin_attempt e s)).2.ct.ct_error).ok, l, ?_, Or.inr rfl, hp⟩
    rw [hl]
    simp

/-- The events of one attempt, in order: the header bytes, the later encode
steps, one end-of-record, and then only events of the receive side. -/
theorem attempt_trace (E : Env σ) (e : Endian) (a : call_args) (shipnow duplex : Bool)
    (fuel : Nat) (s : State σ) :
    ∃ (l1 : List Ev) (flush ok : Bool) (l2 : List Ev),
      (attempt E e a shipnow duplex fuel s).state.trace =
        s.trace ++ (Ev.putbytes
          ((begin_attempt e s).ct.ct_mcallc.take (begin_attempt e s).ct.ct_mpos)
          (E.XDR_PUTBYTES ((begin_attempt e s).ct.ct_mcallc.take (begin_attempt e s).ct.ct_mpos)
            (begin_attempt e s).w (begin_attempt e s).ct.ct_error).ok :: l1 ++
          Ev.endofrecord flush ok :: l2) ∧
      (∀ ev ∈ l1, ev.is_encode_tail = true) ∧ (flush = true ∨ flush = shipnow) ∧
      ∀ ev ∈ l2, ev.inbound_for (attempt_x_id e s) := by
  obtain ⟨l1, h1, p1⟩ := encode_call_trace E a (begin_attempt e s)
  obtain ⟨flush, ok, l2, h2, hf, p2⟩ := attempt_after_encode E e a shipnow duplex fuel s
  refine ⟨l1, flush, ok, l2, ?_, p1, hf, p2⟩
  rw [h2, h1]
  simp [begin_attempt]

/-! ## Unfolding the retry structure -/

theorem call_again_of_done (E : Env σ) (e : Endian) (a : call_args) (shipnow duplex : Bool)
    (fuel n : Nat) (s s1 : State σ) (r : clnt_stat)
    (h : attempt E e a shipnow duplex fuel s = AttemptRes.done r s1) :
    call_again E e a shipnow duplex fuel n s = Outcome.done r s1 := by
  unfold call_again
  simp only [h]

theorem call_again_of_out_of_fuel (E : Env σ) (e : Endian) (a : call_args)
    (shipnow duplex : Bool) (fuel n : Nat) (s s1 : State σ)
    (h : attempt E e a shipnow duplex fuel s = AttemptRes.out_of_fuel s1) :
    call_again E e a shipnow duplex fuel n s = Outcome.out_of_fuel s1 := by
  unfold call_again
  simp only [h]

theorem call_again_zero_of_unsuccessful (E : Env σ) (e : Endian) (a : call_args)
    (shipnow duplex : Bool) (fuel : Nat) (s s1 : State σ)
    (h : attempt E e a shipnow duplex fuel s = AttemptRes.unsuccessful s1) :
    call_again E e a shipnow duplex fuel 0 s = Outcome.done s1.status s1 := by
  unfold call_again
  simp only [h]

theorem call_again_succ_of_unsuccessful (E : Env σ) (e : Endian) (a : call_args)
    (shipnow duplex : Bool) (fuel n : Nat) (s s1 : State σ)
    (h : attempt E e a shipnow duplex fuel s = AttemptRes.unsuccessful s1) :
    call_again E e a shipnow duplex fuel (n + 1) s =
      if (E.AUTH_REFRESH s1.msg s1.w s1.ct.ct_error).ok then
        call_again E e a shipnow duplex fuel n
          (s1.op_msg (E.AUTH_REFRESH s1.msg s1.w s1.ct.ct_error)
            (Ev.refresh (E.AUTH_REFRESH s1.msg s1.w s1.ct.ct_error).ok))
      else
        Outcome.done
          (s1.op_msg (E.AUTH_REFRESH s1.msg s1.w s1.ct.ct_error)
            (Ev.refresh (E.AUTH_REFRESH s1.msg s1.w s1.ct.ct_error).ok)).status
          (s1.op_msg (E.AUTH_REFRESH s1.msg s1.w s1.ct.ct_error)
            (Ev.refresh (E.AUTH_REFRESH s1.msg s1.w s1.ct.ct_error).ok)) := by
  conv_lhs => unfold call_again
  simp only [h]

/-! ## Counting sends and refreshes -/

theorem countP_eq_zero_of_encode_tail (p : Ev → Bool) (l : List Ev)
    (hp : ∀ ev, ev.is_encode_tail = true → p ev = false)
    (h : ∀ ev ∈ l, ev.is_encode_tail = true) : l.countP p = 0 := by
  rw [List.countP_eq_zero]
  intro ev hev
  simp [hp ev (h ev hev)]

theorem countP_eq_zero_of_inbound (p : Ev → Bool) (l : List Ev)
    (hp : ∀ ev, ev.is_inbound = true → p ev = false)
    (h : ∀ ev ∈ l, ev.is_inbound = true) : l.countP p = 0 := by
  rw [List.countP_eq_zero]
  intro ev hev
  simp [hp ev (h ev hev)]

theorem not_putbytes_of_encode_tail (ev : Ev) (h : ev.is_encode_tail = true) :
    ev.is_putbytes = false := by
  cases ev <;> simp_all [Ev.is_encode_tail, Ev.is_putbytes]

theorem not_refresh_of_encode_tail (ev : Ev) (h : ev.is_encode_tail = true) :
    ev.is_refresh = false := by
  cases ev <;> simp_all [Ev.is_encode_tail, Ev.is_refresh]

theorem not_endofrecord_of_encode_tail (ev : Ev) (h : ev.is_encode_tail = true) :
    ev.is_endofrecord = false := by
  cases ev <;> simp_all [Ev.is_encode_tail, Ev.is_endofrecord]

theorem not_unforced_of_encode_tail (ev : Ev) (h : ev.is_encode_tail = true) :
    ev.is_unforced_flush = false := by
  cases ev <;> simp_all [Ev.is_encode_tail, Ev.is_unforced_flush]

theorem not_putbytes_of_inbound (ev : Ev) (h : ev.is_inbound = true) :
    ev.is_putbytes = false := by
  cases ev <;> simp_all [Ev.is_inbound, Ev.is_receive, Ev.is_reply, Ev.is_putbytes]

theorem not_refresh_of_inbound (ev : Ev) (h : ev.is_inbound = true) :
    ev.is_refresh = false := by
  cases ev <;> simp_all [Ev.is_inbound, Ev.is_receive, Ev.is_reply, Ev.is_refresh]

theorem not_endofrecord_of_inbound (ev : Ev) (h : ev.is_inbound = true) :
    ev.is_endofrecord = false := by
  cases ev <;> simp_all [Ev.is_inbound, Ev.is_receive, Ev.is_reply, Ev.is_endofrecord]

theorem not_unforced_of_inbound (ev : Ev) (h : ev.is_inbound = true) :
    ev.is_unforced_flush = false := by
  cases ev <;> simp_all [Ev.is_inbound, Ev.is_receive, Ev.is_reply, Ev.is_unforced_flush]

/-- One attempt hands the header to the record stream once, ends the record
once, never refreshes, and issues an unforced flush only when `shipnow` is
false. -/
theorem attempt_counts (E : Env σ) (e : Endian) (a : call_args) (shipnow duplex : Bool)
    (fuel : Nat) (s : State σ) :
    ∃ l : List Ev,
      (attempt E e a shipnow duplex fuel s).state.trace = s.trace ++ l ∧
      l.countP Ev.is_putbytes = 1 ∧ l.countP Ev.is_endofrecord = 1 ∧
      l.countP Ev.is_refresh = 0 ∧ (shipnow = true → l.countP Ev.is_unforced_flush = 0) := by
  obtain ⟨l1, flush, ok, l2, ht, p1, hf, p2f⟩ := attempt_trace E e a shipnow duplex fuel s
  have p2 : ∀ ev ∈ l2, ev.is_inbound = true := fun ev hev => (p2f ev hev).1
  refine ⟨_, ht, ?_, ?_, ?_, ?_⟩
  · simp [Ev.is_putbytes, countP_eq_zero_of_encode_tail _ l1 not_putbytes_of_encode_tail p1,
      countP_eq_zero_of_inbound _ l2 not_putbytes_of_inbound p2]
  · simp [Ev.is_endofrecord, countP_eq_zero_of_encode_tail _ l1 not_endofrecord_of_encode_tail p1,
      countP_eq_zero_of_inbound _ l2 not_endofrecord_of_inbound p2]
  · simp [Ev.is_refresh, countP_eq_zero_of_encode_tail _ l1 not_refresh_of_encode_tail p1,
      countP_eq_zero_of_inbound _ l2 not_refresh_of_inbound p2]
  · intro hs
    have hflush : flush = true := by
      rcases hf with h | h
      · exact h
      · rw [h, hs]
    subst hflush
    simp [Ev.is_unforced_flush,
      countP_eq_zero_of_encode_tail _ l1 not_unforced_of_encode_tail p1,
      countP_eq_zero_of_inbound _ l2 not_unforced_of_inbound p2]

/-- With `n` refreshes left, the retry structure refreshes at most `n` times
and encodes and ends the record at most `n + 1` times; with `shipnow` true no
flush is unforced. -/
theorem call_again_counts (E : Env σ) (e : Endian) (a : call_args) (shipnow duplex : Bool)
    (fuel n : Nat) (s : State σ) :
    ∃ l : List Ev,
      (call_again E e a shipnow duplex fuel n s).state.trace = s.trace ++ l ∧
      l.countP Ev.is_putbytes ≤ n + 1 ∧ l.countP Ev.is_endofrecord ≤ n + 1 ∧
      l.countP Ev.is_refresh ≤ n ∧ (shipnow = true → l.countP Ev.is_unforced_flush = 0) := by
  induction n generalizing s with
  | zero =>
    obtain ⟨l, ht, c1, c2, c3, c4⟩ := attempt_counts E e a shipnow duplex fuel s
    cases hatt : attempt E e a shipnow duplex fuel s with
    | done r s1 =>
      rw [call_again_of_done E e a shipnow duplex fuel 0 s s1 r hatt]
      rw [hatt] at ht
      exact ⟨l, ht, by omega, by omega, by omega, c4⟩
    | out_of_fuel s1 =>
      rw [call_again_of_out_of_fuel E e a shipnow duplex fuel 0 s s1 hatt]
      rw [hatt] at ht
      exact ⟨l, ht, by omega, by omega, by omega, c4⟩
    | unsuccessful s1 =>
      rw [call_again_zero_of_unsuccessful E e a shipnow duplex fuel s s1 hatt]
      rw [hatt] at ht
      exact ⟨l, ht, by omega, by omega, by omega, c4⟩
  | succ n ih =>
    obtain ⟨l, ht, c1, c2, c3, c4⟩ := attempt_counts E e a shipnow duplex fuel s
    cases hatt : attempt E e a shipnow duplex fuel s with
    | done r s1 =>
      rw [call_again_of_done E e a shipnow duplex fuel (n + 1) s s1 r hatt]
      rw [hatt] at ht
      exact ⟨l, ht, by omega, by omega, by omega, c4⟩
    | out_of_fuel s1 =>
      rw [call_again_of_out_of_fuel E e a shipnow duplex fuel (n + 1) s s1 hatt]
      rw [hatt] at ht
      exact ⟨l, ht, by omega, by omega, by omega, c4⟩
    | unsuccessful s1 =>
      rw [call_again_succ_of_unsuccessful E e a shipnow duplex fuel n s s1 hatt]
      rw [hatt] at ht
      simp only [AttemptRes.state] at ht
      split_ifs with hok
      · obtain ⟨l2, ht2, d1, d2, d3, d4⟩ := ih
          (s1.op_msg (E.AUTH_REFRESH s1.msg s1.w s1.ct.ct_error)
            (Ev.refresh (E.AUTH_REFRESH s1.msg s1.w s1.ct.ct_error).ok))
        refine ⟨l ++ Ev.refresh (E.AUTH_REFRESH s1.msg s1.w s1.ct.ct_error).ok :: l2,
          ?_, ?_, ?_, ?_, ?_⟩
        · rw [ht2, State.op_msg_trace, ht]
          simp
        · simp [Ev.is_putbytes]
          omega
        · simp [Ev.is_endofrecord]
          omega
        · simp [Ev.is_refresh]
          omega
        · intro hs
          simp [Ev.is_unforced_flush, c4 hs, d4 hs]
      · refine ⟨l ++ [Ev.refresh (E.AUTH_REFRESH s1.msg s1.w s1.ct.ct_error).ok],
          ?_, ?_, ?_, ?_, ?_⟩
        · simp [Outcome.state, ht]
        · simp [Ev.is_putbytes]
          omega
        · simp [Ev.is_endofrecord]
          omega
        · simp [Ev.is_refresh]
          omega
        · intro hs
          simp [Ev.is_unforced_flush, c4 hs]

/-! ## The transaction id of an attempt -/

theorem begin_attempt_header (e : Endian) (s : State σ) :
    (begin_attempt e s).ct.ct_mcallc =
      store32 e ((ct_mcalli_get e s.ct + 2 ^ 32 - 1) % 2 ^ 32) ++ s.ct.ct_mcallc.drop 4 := rfl

theorem begin_attempt_mpos (e : Endian) (s : State σ) :
    (begin_attempt e s).ct.ct_mpos = s.ct.ct_mpos := rfl

theorem begin_attempt_trace (e : Endian) (s : State σ) :
    (begin_attempt e s).trace = s.trace := rfl

/-- The first four bytes of the header an attempt hands to the record stream,
read as a big-endian word, are the `x_id` the attempt matches replies against. -/
theorem be32_sent_header (e : Endian) (s : State σ) (hmpos : 4 ≤ s.ct.ct_mpos) :
    be32 (((begin_attempt e s).ct.ct_mcallc.take (begin_attempt e s).ct.ct_mpos).take 4) =
      attempt_x_id e s := by
  rw [List.take_take, begin_attempt_mpos, Nat.min_eq_left hmpos, begin_attempt_header,
    take_four_store32, attempt_x_id, ntohl_eq_be32_store32 e _ (decremented_lt _)]

/-- The word `CLGET_XID` reads from a header left by `begin_attempt` is the
`x_id` of that attempt. -/
theorem clget_xid_after_attempt (e : Endian) (s : State σ) (ct : ct_data)
    (h : ct.ct_mcallc = (begin_attempt e s).ct.ct_mcallc) :
    ntohl e (ct_mcalli_get e ct) = attempt_x_id e s := by
  rw [ct_mcalli_get, h, begin_attempt_header, take_four_store32,
    load32_store32 e _ (decremented_lt _), attempt_x_id]

/-! ## Transaction id: the byte order claims -/

/-- C7: after an attempt, on a host of either byte order, the big-endian value
of the first four bytes of the header handed to the record stream is the
`x_id` the attempt compares replies against (every reply it classifies is a
REPLY carrying that value), and `CLGET_XID` on the state the attempt ended in
returns the same value. -/
theorem attempt_xid_three_views (E : Env σ) (e : Endian) (a : call_args)
    (shipnow duplex : Bool) (fuel : Nat) (s : State σ) (i : info_obj)
    (hmpos : 4 ≤ s.ct.ct_mpos) :
    ∃ (hdr : List Nat) (ok : Bool) (rest : List Ev),
      (attempt E e a shipnow duplex fuel s).state.trace = s.trace ++ Ev.putbytes hdr ok :: rest ∧
      be32 (hdr.take 4) = attempt_x_id e s ∧
      (∀ m st, Ev.seterr_reply m st ∈ rest →
        m.rm_direction = REPLY ∧ m.rm_xid = be32 (hdr.take 4)) ∧
      (clnt_vc_control e (attempt E e a shipnow duplex fuel s).state clnt_req.CLGET_XID
        (some i)).ret = true ∧
      (clnt_vc_control e (attempt E e a shipnow duplex fuel s).state clnt_req.CLGET_XID
        (some i)).info = some { i with as_u32 := be32 (hdr.take 4) } := by
  obtain ⟨l1, flush, ok, l2, ht, p1, _, p2⟩ := attempt_trace E e a shipnow duplex fuel s
  have hx := be32_sent_header e s hmpos
  have hst := attempt_stable E e a shipnow duplex fuel s
  have hhdr : (attempt E e a shipnow duplex fuel s).state.ct.ct_mcallc =
      (begin_attempt e s).ct.ct_mcallc := congrArg Prod.fst hst
  refine ⟨_, _, _, ht, hx, ?_, rfl, ?_⟩
  · intro m st hmem
    rw [hx]
    rcases List.mem_append.mp hmem with h | h
    · have := p1 _ h
      simp [Ev.is_encode_tail] at this
    · rcases List.mem_cons.mp h with h | h
      · cases h
      · exact (p2 _ h).2 m st rfl
  · simp only [clnt_vc_control, control_switch, State.log, hx]
    rw [clget_xid_after_attempt e s _ hhdr]

/-- C7 on the sample handle, little-endian host, against the echoing peer. -/
theorem attempt_xid_three_views_witness :
    4 ≤ (sample_state 0).ct.ct_mpos ∧
    ∃ (hdr : List Nat) (ok : Bool) (rest : List Ev),
      (attempt (echo_env 0 0 0 true true) Endian.little sample_args true false 1
        (sample_state 0)).state.trace = (sample_state 0).trace ++ Ev.putbytes hdr ok :: rest ∧
      be32 (hdr.take 4) = attempt_x_id Endian.little (sample_state 0) ∧
      (∀ m st, Ev.seterr_reply m st ∈ rest →
        m.rm_direction = REPLY ∧ m.rm_xid = be32 (hdr.take 4)) ∧
      (clnt_vc_control Endian.little
        (attempt (echo_env 0 0 0 true true) Endian.little sample_args true false 1
          (sample_state 0)).state clnt_req.CLGET_XID
        (some (sample_info { tv_sec := 0, tv_usec := 0 } 0))).ret = true ∧
      (clnt_vc_control Endian.little
        (attempt (echo_env 0 0 0 true true) Endian.little sample_args true false 1
          (sample_state 0)).state clnt_req.CLGET_XID
        (some (sample_info { tv_sec := 0, tv_usec := 0 } 0))).info =
          some { sample_info { tv_sec := 0, tv_usec := 0 } 0 with as_u32 := be32 (hdr.take 4) } :=
  ⟨by decide,
   attempt_xid_three_views (echo_env 0 0 0 true true) Endian.little sample_args true false 1
     (sample_state 0) (sample_info { tv_sec := 0, tv_usec := 0 } 0) (by decide)⟩

/-- On a big-endian host an attempt uses the transaction id one less, modulo
`2 ^ 32`, than the big-endian value of the header word it found. -/
theorem attempt_x_id_big_endian (s : State σ) :
    attempt_x_id Endian.big s = (be32 (s.ct.ct_mcallc.take 4) + 2 ^ 32 - 1) % 2 ^ 32 := by
  simp only [attempt_x_id, ntohl, ct_mcalli_get, load32]
  exact Nat.mod_mod _ _

/-- On a big-endian host, `CLSET_XID v` makes the next attempt use `v`. -/
theorem clset_xid_big_endian (s : State σ) (i : info_obj) (hv : i.as_u32 < 2 ^ 32) :
    attempt_x_id Endian.big (clnt_vc_control Endian.big s clnt_req.CLSET_XID (some i)).s =
      i.as_u32 := by
  rw [attempt_x_id_big_endian]
  simp only [clnt_vc_control, control_switch, State.log, ct_mcalli_set, htonl]
  rw [take_four_store32, Nat.mod_mod]
  have h := be32_bytes_be ((i.as_u32 + 1) % 2 ^ 32) (Nat.mod_lt _ (by norm_num))
  simp only [store32]
  rw [h]
  norm_num at hv ⊢
  omega

/-- C6 (evaluation at the failing input): on a little-endian host, after
`CLSET_XID` with the value 5 has returned TRUE on the sample handle, the next
attempt matches replies against 4294967045 (0xFFFFFF05) and the next call
hands the record stream a header that starts with the bytes FF FF FF 05, not
with the value 5. -/
theorem clset_xid_little_endian_next_xid :
    (clnt_vc_control Endian.little (sample_state 0) clnt_req.CLSET_XID
        (some (sample_info { tv_sec := 0, tv_usec := 0 } 5))).ret = true ∧
      attempt_x_id Endian.little
        (clnt_vc_control Endian.little (sample_state 0) clnt_req.CLSET_XID
          (some (sample_info { tv_sec := 0, tv_usec := 0 } 5))).s = 4294967045 ∧
      (begin_attempt Endian.little
        (clnt_vc_control Endian.little (sample_state 0) clnt_req.CLSET_XID
          (some (sample_info { tv_sec := 0, tv_usec := 0 } 5))).s).ct.ct_mcallc.take 4
        = [255, 255, 255, 5] ∧
      attempt_x_id Endian.little
        (clnt_vc_control Endian.little (sample_state 0) clnt_req.CLSET_XID
          (some (sample_info { tv_sec := 0, tv_usec := 0 } 5))).s ≠ 5 ∧
      (clnt_vc_call (echo_env 0 0 0 true true) Endian.little 1 sample_args
        (clnt_vc_control Endian.little (sample_state 0) clnt_req.CLSET_XID
          (some (sample_info { tv_sec := 0, tv_usec := 0 } 5))).s).state.trace.filter
          Ev.is_putbytes =
        [Ev.putbytes [255, 255, 255, 5, 0, 0, 0, 0, 0, 0, 0, 2, 0, 1, 134, 163, 0, 0, 0, 3]
          true] := by
  refine ⟨rfl, ?_, ?_, ?_, ?_⟩
  · decide
  · decide
  · decide
  · decide

/-- C8 (evaluation at the failing input): on a little-endian host, an attempt
on the sample handle, whose header holds the transaction id 5, uses the
transaction id 4294967044 (0xFFFFFF04, header bytes FF FF FF 04) and not
5 - 1 = 4; the attempt after it uses 4278189828 (0xFEFFFF04). -/
theorem attempt_x_id_little_endian_not_decrement :
    be32 ((sample_state 0).ct.ct_mcallc.take 4) = 5 ∧
      attempt_x_id Endian.little (sample_state 0) = 4294967044 ∧
      (begin_attempt Endian.little (sample_state 0)).ct.ct_mcallc.take 4
        = [255, 255, 255, 4] ∧
      attempt_x_id Endian.little (sample_state 0) ≠
        (be32 ((sample_state 0).ct.ct_mcallc.take 4) + 2 ^ 32 - 1) % 2 ^ 32 ∧
      attempt_x_id Endian.little (begin_attempt Endian.little (sample_state 0)) = 4278189828 := by
  refine ⟨?_, ?_, ?_, ?_, ?_⟩
  · decide
  · decide
  · decide
  · decide
  · decide

theorem call_entry_adds (a : call_args) (s : State σ) :
    Adds (fun ev => ev.is_bracket = true) s (call_entry a s).2 := by
  apply Adds.of_prefix_drop
  · unfold call_entry adopt_timeout cond_block_events_client
    dsimp only
    split_ifs <;> simp
  · unfold call_entry adopt_timeout cond_block_events_client
    dsimp only
    split_ifs <;> simp [Ev.is_bracket]

theorem call_exit_adds (b : Bool) (s : State σ) :
    Adds (fun ev => ev.is_bracket = true) s (call_exit b s) := by
  apply Adds.of_prefix_drop
  · unfold call_exit cond_unblock_events_client
    split_ifs <;> simp
  · unfold call_exit cond_unblock_events_client
    split_ifs <;> simp [Ev.is_bracket]

theorem countP_eq_zero_of_bracket (p : Ev → Bool) (l : List Ev)
    (hp : ∀ ev, ev.is_bracket = true → p ev = false)
    (h : ∀ ev ∈ l, ev.is_bracket = true) : l.countP p = 0 := by
  rw [List.countP_eq_zero]
  intro ev hev
  simp [hp ev (h ev hev)]

theorem not_putbytes_of_bracket (ev : Ev) (h : ev.is_bracket = true) :
    ev.is_putbytes = false := by
  cases ev <;> simp_all [Ev.is_bracket, Ev.is_putbytes]

theorem not_refresh_of_bracket (ev : Ev) (h : ev.is_bracket = true) :
    ev.is_refresh = false := by
  cases ev <;> simp_all [Ev.is_bracket, Ev.is_refresh]

theorem not_endofrecord_of_bracket (ev : Ev) (h : ev.is_bracket = true) :
    ev.is_endofrecord = false := by
  cases ev <;> simp_all [Ev.is_bracket, Ev.is_endofrecord]

theorem not_unforced_of_bracket (ev : Ev) (h : ev.is_bracket = true) :
    ev.is_unforced_flush = false := by
  cases ev <;> simp_all [Ev.is_bracket, Ev.is_unforced_flush]

/-- The trace of a call: bracket events, the events of the retry structure,
bracket events. -/
theorem clnt_vc_call_trace (E : Env σ) (e : Endian) (fuel : Nat) (a : call_args)
    (s : State σ) :
    ∃ pre l post : List Ev,
      (clnt_vc_call E e fuel a s).state.trace = s.trace ++ (pre ++ l ++ post) ∧
      (call_again E e a (shipnow_of a) s.ct.CT_FLAG_DUPLEX fuel 2 (call_entry a s).2).state.trace
        = (call_entry a s).2.trace ++ l ∧
      (∀ ev ∈ pre, ev.is_bracket = true) ∧ ∀ ev ∈ post, ev.is_bracket = true := by
  obtain ⟨pre, hpre, ppre⟩ := call_entry_adds a s
  obtain ⟨l, hl, _⟩ := call_again_counts E e a (shipnow_of a) s.ct.CT_FLAG_DUPLEX fuel 2
    (call_entry a s).2
  unfold clnt_vc_call
  dsimp only
  cases hc : call_again E e a (shipnow_of a) s.ct.CT_FLAG_DUPLEX fuel 2 (call_entry a s).2 with
  | out_of_fuel s4 =>
    rw [hc] at hl
    refine ⟨pre, l, [], ?_, hl, ppre, by simp⟩
    simp only [Outcome.state] at hl ⊢
    rw [hl, hpre]
    simp
  | done r s4 =>
    rw [hc] at hl
    obtain ⟨post, hpost, ppost⟩ := call_exit_adds (call_entry a s).1 s4
    refine ⟨pre, l, post, ?_, hl, ppre, ppost⟩
    simp only [Outcome.state] at hl ⊢
    rw [hpost, hl, hpre]
    simp

/-- One call refreshes at most twice and encodes and ends the record at most
three times; unless it is a batched call, none of its flushes is unforced. -/
theorem clnt_vc_call_counts (E : Env σ) (e : Endian) (fuel : Nat) (a : call_args)
    (s : State σ) :
    ∃ l : List Ev,
      (clnt_vc_call E e fuel a s).state.trace = s.trace ++ l ∧
      l.countP Ev.is_putbytes ≤ 3 ∧ l.countP Ev.is_endofrecord ≤ 3 ∧
      l.countP Ev.is_refresh ≤ 2 ∧ (shipnow_of a = true → l.countP Ev.is_unforced_flush = 0) := by
  obtain ⟨pre, l, post, ht, hl, ppre, ppost⟩ := clnt_vc_call_trace E e fuel a s
  obtain ⟨l2, hl2, c1, c2, c3, c4⟩ := call_again_counts E e a (shipnow_of a)
    s.ct.CT_FLAG_DUPLEX fuel 2 (call_entry a s).2
  have hll : l = l2 := List.append_cancel_left (hl.symm.trans hl2)
  subst hll
  refine ⟨_, ht, ?_, ?_, ?_, ?_⟩
  · simp only [List.countP_append,
      countP_eq_zero_of_bracket _ pre not_putbytes_of_bracket ppre,
      countP_eq_zero_of_bracket _ post not_putbytes_of_bracket ppost]
    omega
  · simp only [List.countP_append,
      countP_eq_zero_of_bracket _ pre not_endofrecord_of_bracket ppre,
      countP_eq_zero_of_bracket _ post not_endofrecord_of_bracket ppost]
    omega
  · simp only [List.countP_append,
      countP_eq_zero_of_bracket _ pre not_refresh_of_bracket ppre,
      countP_eq_zero_of_bracket _ post not_refresh_of_bracket ppost]
    omega
  · intro hs
    simp only [List.countP_append,
      countP_eq_zero_of_bracket _ pre not_unforced_of_bracket ppre,
      countP_eq_zero_of_bracket _ post not_unforced_of_bracket ppost, c4 hs]

/-! ## Batched calls and zero timeouts -/

theorem shipnow_of_batched (a : call_args) (hres : a.xdr_results = none)
    (hsec : a.timeout.tv_sec = 0) (husec : a.timeout.tv_usec = 0) : shipnow_of a = false := by
  simp [shipnow_of, hres, hsec, husec]

theorem shipnow_of_not_batched (a : call_args)
    (h : ¬ (a.xdr_results = none ∧ a.timeout.tv_sec = 0 ∧ a.timeout.tv_usec = 0)) :
    shipnow_of a = true := by
  simp [shipnow_of, h]

/-- An attempt with `shipnow` false whose encode steps and end-of-record
succeed returns `RPC_SUCCESS` right after the unforced end-of-record. -/
theorem attempt_batched (E : Env σ) (e : Endian) (a : call_args) (duplex : Bool) (fuel : Nat)
    (s : State σ)
    (henc : (encode_call E a (begin_attempt e s)).1 = true)
    (hflush : (E.xdrrec_endofrecord false (encode_call E a (begin_attempt e s)).2.w
      (encode_call E a (begin_attempt e s)).2.ct.ct_error).ok = true) :
    attempt E e a false duplex fuel s =
      AttemptRes.done clnt_stat.RPC_SUCCESS
        ((encode_call E a (begin_attempt e s)).2.op
          (E.xdrrec_endofrecord false (encode_call E a (begin_attempt e s)).2.w
            (encode_call E a (begin_attempt e s)).2.ct.ct_error)
          (Ev.endofrecord false true)) := by
  unfold attempt
  simp [henc, hflush]

/-- An attempt with `shipnow` true and a zero timeout whose encode steps and
forced end-of-record succeed records and returns `RPC_TIMEDOUT` right after
the end-of-record. -/
theorem attempt_zero_timeout (E : Env σ) (e : Endian) (a : call_args) (duplex : Bool)
    (fuel : Nat) (s : State σ)
    (hsec : a.timeout.tv_sec = 0) (husec : a.timeout.tv_usec = 0)
    (henc : (encode_call E a (begin_attempt e s)).1 = true)
    (hflush : (E.xdrrec_endofrecord true (encode_call E a (begin_attempt e s)).2.w
      (encode_call E a (begin_attempt e s)).2.ct.ct_error).ok = true) :
    attempt E e a true duplex fuel s =
      AttemptRes.done clnt_stat.RPC_TIMEDOUT
        (((encode_call E a (begin_attempt e s)).2.op
          (E.xdrrec_endofrecord true (encode_call E a (begin_attempt e s)).2.w
            (encode_call E a (begin_attempt e s)).2.ct.ct_error)
          (Ev.endofrecord true true)).set_status clnt_stat.RPC_TIMEDOUT) := by
  unfold attempt
  simp [henc, hflush, hsec, husec]

/-- A call whose first attempt returns: the call returns that status after the
epilogue, and its trace is bracket events around the events of the attempt. -/
theorem clnt_vc_call_of_first_attempt_done (E : Env σ) (e : Endian) (fuel : Nat)
    (a : call_args) (s s1 : State σ) (r : clnt_stat) (shipnow : Bool)
    (hs : shipnow_of a = shipnow)
    (h : attempt E e a shipnow s.ct.CT_FLAG_DUPLEX fuel (call_entry a s).2 =
      AttemptRes.done r s1) :
    clnt_vc_call E e fuel a s = Outcome.done r (call_exit (call_entry a s).1 s1) := by
  subst hs
  unfold clnt_vc_call
  dsimp only
  rw [call_again_of_done E e a (shipnow_of a) s.ct.CT_FLAG_DUPLEX fuel 2 _ s1 r h]

theorem not_inbound_of_bracket (ev : Ev) (h : ev.is_bracket = true) :
    ev.is_inbound = false := by
  cases ev <;> simp_all [Ev.is_bracket, Ev.is_inbound, Ev.is_receive, Ev.is_reply]

theorem not_inbound_of_encode_tail (ev : Ev) (h : ev.is_encode_tail = true) :
    ev.is_inbound = false := by
  cases ev <;> simp_all [Ev.is_encode_tail, Ev.is_inbound, Ev.is_receive, Ev.is_reply]

theorem filter_eq_nil_of_bracket (p : Ev → Bool) (l : List Ev)
    (hp : ∀ ev, ev.is_bracket = true → p ev = false)
    (h : ∀ ev ∈ l, ev.is_bracket = true) : l.filter p = [] := by
  rw [List.filter_eq_nil_iff]
  intro ev hev
  simp [hp ev (h ev hev)]

theorem filter_eq_nil_of_encode_tail (p : Ev → Bool) (l : List Ev)
    (hp : ∀ ev, ev.is_encode_tail = true → p ev = false)
    (h : ∀ ev ∈ l, ev.is_encode_tail = true) : l.filter p = [] := by
  rw [List.filter_eq_nil_iff]
  intro ev hev
  simp [hp ev (h ev hev)]

/-- The trace of a call whose first attempt ended right after its
end-of-record `Ev.endofrecord flush true`: no event of the receive side, one
end-of-record. -/
theorem trace_of_call_ended_at_flush (E : Env σ) (e : Endian) (a : call_args)
    (s s1 : State σ) (b flush : Bool)
    (h1 : s1.trace = (encode_call E a (begin_attempt e (call_entry a s).2)).2.trace ++
      [Ev.endofrecord flush true]) :
    ∃ l : List Ev, (call_exit b s1).trace = s.trace ++ l ∧ l.countP Ev.is_inbound = 0 ∧
      l.filter Ev.is_endofrecord = [Ev.endofrecord flush true] := by
  obtain ⟨pre, hpre, ppre⟩ := call_entry_adds a s
  obtain ⟨l1, hl1, p1⟩ := encode_call_trace E a (begin_attempt e (call_entry a s).2)
  obtain ⟨post, hpost, ppost⟩ := call_exit_adds b s1
  refine ⟨pre ++ (Ev.putbytes
      ((begin_attempt e (call_entry a s).2).ct.ct_mcallc.take
        (begin_attempt e (call_entry a s).2).ct.ct_mpos)
      (E.XDR_PUTBYTES ((begin_attempt e (call_entry a s).2).ct.ct_mcallc.take
        (begin_attempt e (call_entry a s).2).ct.ct_mpos) (begin_attempt e (call_entry a s).2).w
        (begin_attempt e (call_entry a s).2).ct.ct_error).ok :: l1 ++
      [Ev.endofrecord flush true]) ++ post, ?_, ?_, ?_⟩
  · rw [hpost, h1, hl1, begin_attempt_trace, hpre]
    simp
  · simp [Ev.is_inbound, Ev.is_receive, Ev.is_reply,
      countP_eq_zero_of_bracket _ pre not_inbound_of_bracket ppre,
      countP_eq_zero_of_bracket _ post not_inbound_of_bracket ppost,
      countP_eq_zero_of_encode_tail _ l1 not_inbound_of_encode_tail p1]
  · simp [Ev.is_endofrecord,
      filter_eq_nil_of_bracket _ pre not_endofrecord_of_bracket ppre,
      filter_eq_nil_of_bracket _ post not_endofrecord_of_bracket ppost,
      filter_eq_nil_of_encode_tail _ l1 not_endofrecord_of_encode_tail p1]

/-- C4: a call `a` with a null results decoder and a timeout of exactly zero
whose encode steps and end-of-record succeed returns `RPC_SUCCESS`; its only
end-of-record is the unforced one and its trace holds no event of the receive
side (skip-record, header decode, dispatch, reply processing).  For a call
`a2` with any other combination of results decoder and timeout, every
end-of-record in the trace is forced. -/
theorem batched_call_success_else_forced_flush (E : Env σ) (e : Endian) (fuel : Nat)
    (a a2 : call_args) (s : State σ)
    (hres : a.xdr_results = none) (hsec : a.timeout.tv_sec = 0) (husec : a.timeout.tv_usec = 0)
    (henc : (encode_call E a (begin_attempt e (call_entry a s).2)).1 = true)
    (hflush : (E.xdrrec_endofrecord false
      (encode_call E a (begin_attempt e (call_entry a s).2)).2.w
      (encode_call E a (begin_attempt e (call_entry a s).2)).2.ct.ct_error).ok = true)
    (hother : ¬ (a2.xdr_results = none ∧ a2.timeout.tv_sec = 0 ∧ a2.timeout.tv_usec = 0)) :
    ((clnt_vc_call E e fuel a s).result = some clnt_stat.RPC_SUCCESS ∧
      ∃ l : List Ev, (clnt_vc_call E e fuel a s).state.trace = s.trace ++ l ∧
        l.countP Ev.is_inbound = 0 ∧
        l.filter Ev.is_endofrecord = [Ev.endofrecord false true]) ∧
    ∃ l2 : List Ev, (clnt_vc_call E e fuel a2 s).state.trace = s.trace ++ l2 ∧
      ∀ flush ok, Ev.endofrecord flush ok ∈ l2 → flush = true := by
  constructor
  · have hship := shipnow_of_batched a hres hsec husec
    have hatt := attempt_batched E e a s.ct.CT_FLAG_DUPLEX fuel (call_entry a s).2 henc hflush
    rw [clnt_vc_call_of_first_attempt_done E e fuel a s _ _ false hship hatt]
    refine ⟨rfl, ?_⟩
    exact trace_of_call_ended_at_flush E e a s _ _ false rfl
  · obtain ⟨l2, ht, _, _, _, c4⟩ := clnt_vc_call_counts E e fuel a2 s
    refine ⟨l2, ht, ?_⟩
    intro flush ok hmem
    have hz := c4 (shipnow_of_not_batched a2 hother)
    rw [List.countP_eq_zero] at hz
    have := hz _ hmem
    cases flush
    · simp [Ev.is_unforced_flush] at this
    · rfl

/-- C5: a call with a non-null results decoder and a timeout of exactly zero
whose encode steps and forced end-of-record succeed returns `RPC_TIMEDOUT`,
leaves `RPC_TIMEDOUT` as the status `clnt_vc_geterr` reads, and its trace
holds no event of the receive side: it does not wait for a reply. -/
theorem zero_timeout_call_times_out (E : Env σ) (e : Endian) (fuel : Nat)
    (a : call_args) (s : State σ)
    (hres : a.xdr_results ≠ none) (hsec : a.timeout.tv_sec = 0) (husec : a.timeout.tv_usec = 0)
    (henc : (encode_call E a (begin_attempt e (call_entry a s).2)).1 = true)
    (hflush : (E.xdrrec_endofrecord true
      (encode_call E a (begin_attempt e (call_entry a s).2)).2.w
      (encode_call E a (begin_attempt e (call_entry a s).2)).2.ct.ct_error).ok = true) :
    (clnt_vc_call E e fuel a s).result = some clnt_stat.RPC_TIMEDOUT ∧
      (clnt_vc_geterr (clnt_vc_call E e fuel a s).state).re_status = clnt_stat.RPC_TIMEDOUT ∧
      ∃ l : List Ev, (clnt_vc_call E e fuel a s).state.trace = s.trace ++ l ∧
        l.countP Ev.is_inbound = 0 ∧
        l.filter Ev.is_endofrecord = [Ev.endofrecord true true] := by
  have hship : shipnow_of a = true := shipnow_of_not_batched a (fun h => hres h.1)
  have hatt := attempt_zero_timeout E e a s.ct.CT_FLAG_DUPLEX fuel (call_entry a s).2 hsec husec
    henc hflush
  rw [clnt_vc_call_of_first_attempt_done E e fuel a s _ _ true hship hatt]
  refine ⟨rfl, ?_, ?_⟩
  · simp only [Outcome.state, clnt_vc_geterr, call_exit, cond_unblock_events_client]
    split_ifs <;> rfl
  · exact trace_of_call_ended_at_flush E e a s _ _ true rfl

theorem encode_call_answered (E : Env σ) (sent : σ → Nat) (H : AnswersEveryCall E sent)
    (a : call_args) (s : State σ) :
    (encode_call E a s).1 = true ∧
      sent (encode_call E a s).2.w = be32 ((s.ct.ct_mcallc.take s.ct.ct_mpos).take 4) ∧
      (encode_call E a s).2.trace =
        s.trace ++ [Ev.putbytes (s.ct.ct_mcallc.take s.ct.ct_mpos) true, Ev.putint32 a.proc true,
          Ev.marshall true, Ev.wrap true] := by
  unfold encode_call
  simp [H.putbytes_ok, H.putint32_ok, H.marshall_ok, H.wrap_ok, H.putbytes_sent,
    H.putint32_sent, H.marshall_sent, H.wrap_sent, State.op]

/-- Against an answering peer the first pass of the receive loop ends it: the
record skipped to decodes as the matching REPLY. -/
theorem recv_loop_answered (E : Env σ) (sent : σ → Nat) (H : AnswersEveryCall E sent)
    (x_id : Nat) (duplex : Bool) (fuel : Nat) (t : State σ) (hsent : sent t.w = x_id) :
    recv_loop E x_id duplex (fuel + 1) t = RecvRes.replied (fetch_record E t).s ∧
      (fetch_record E t).s.msg.rm_direction = REPLY ∧
      (fetch_record E t).s.msg.rm_xid = x_id ∧
      (fetch_record E t).s.trace =
        t.trace ++ [Ev.skiprecord true, Ev.dplx_msg true (fetch_record E t).s.msg] ∧
      ∃ m w err, (fetch_record E t).s.msg = (E.xdr_dplx_msg m w err).msg := by
  have hf : (fetch_record E t).skip_ok = true ∧ (fetch_record E t).decode_ok = true ∧
      (fetch_record E t).s.msg.rm_direction = REPLY ∧
      (fetch_record E t).s.msg.rm_xid = x_id ∧
      (fetch_record E t).s.trace =
        t.trace ++ [Ev.skiprecord true, Ev.dplx_msg true (fetch_record E t).s.msg] := by
    unfold fetch_record skip_record decode_header
    simp [H.skiprecord_ok, H.reply_ok, H.reply_direction, H.reply_xid, H.skiprecord_sent,
      State.op, State.op_msg, hsent]
  have hm : ∃ m w err, (fetch_record E t).s.msg = (E.xdr_dplx_msg m w err).msg := by
    unfold fetch_record skip_record decode_header
    simp only [H.skiprecord_ok, Bool.not_true, Bool.false_eq_true, if_false]
    exact ⟨_, _, _, rfl⟩
  obtain ⟨h1, h2, h3, h4, h5⟩ := hf
  refine ⟨?_, h3, h4, h5, hm⟩
  unfold recv_loop recv_body
  simp [h1, h2, h3, h4]

/-- Against an answering peer, an attempt of a call that waits for its reply
reaches reply processing with the matching REPLY after one receive pass. -/
theorem attempt_answered (E : Env σ) (sent : σ → Nat) (H : AnswersEveryCall E sent)
    (e : Endian) (a : call_args) (duplex : Bool) (fuel : Nat) (s : State σ)
    (hmpos : 4 ≤ s.ct.ct_mpos)
    (htime : ¬ (a.timeout.tv_sec = 0 ∧ a.timeout.tv_usec = 0)) :
    ∃ s3 : State σ,
      attempt E e a true duplex (fuel + 1) s = reply_outcome (process_reply E a s3) ∧
      s3.msg.rm_direction = REPLY ∧ s3.msg.rm_xid = attempt_x_id e s ∧
      s3.ct.ct_mpos = s.ct.ct_mpos ∧
      s3.trace = s.trace ++
        [Ev.putbytes ((begin_attempt e s).ct.ct_mcallc.take s.ct.ct_mpos) true,
          Ev.putint32 a.proc true, Ev.marshall true, Ev.wrap true, Ev.endofrecord true true,
          Ev.skiprecord true, Ev.dplx_msg true s3.msg] ∧
      ∃ m w err, s3.msg = (E.xdr_dplx_msg m w err).msg := by
  obtain ⟨he1, he2, he3⟩ := encode_call_answered E sent H a (begin_attempt e s)
  have hx := be32_sent_header e s hmpos
  rw [← he2] at hx
  have hsent : sent (((encode_call E a (begin_attempt e s)).2.op
      (E.xdrrec_endofrecord true (encode_call E a (begin_attempt e s)).2.w
        (encode_call E a (begin_attempt e s)).2.ct.ct_error)
      (Ev.endofrecord true true)).set_x_op xdr_op.XDR_DECODE).w = attempt_x_id e s := by
    rw [← hx]
    exact H.endofrecord_sent _ _ _
  obtain ⟨hr1, hr2, hr3, hr4, hr5⟩ :=
    recv_loop_answered E sent H (attempt_x_id e s) duplex fuel _ hsent
  refine ⟨_, ?_, hr2, hr3, ?_, ?_, hr5⟩
  · unfold attempt
    simp only [he1, H.endofrecord_ok, htime, Bool.not_true, Bool.false_eq_true, if_false]
    unfold receive_reply
    rw [hr1]
  · have h1 := fetch_record_stable E (((encode_call E a (begin_attempt e s)).2.op
      (E.xdrrec_endofrecord true (encode_call E a (begin_attempt e s)).2.w
        (encode_call E a (begin_attempt e s)).2.ct.ct_error)
      (Ev.endofrecord true true)).set_x_op xdr_op.XDR_DECODE)
    have h2 := encode_call_stable E a (begin_attempt e s)
    have h3 := congrArg (fun p => p.2.1) h1
    have h4 := congrArg (fun p => p.2.1) h2
    simp only [ct_data.stable] at h3 h4
    rw [h3]
    exact h4
  · rw [hr4]
    simp only [State.set_x_op_trace, State.op_trace, he3, begin_attempt_trace,
      begin_attempt_mpos]
    simp

/-- Reply processing of a reply classified as non-success: nothing but the
classification happens and the refresh decision is reached. -/
theorem process_reply_unsuccessful (E : Env σ) (a : call_args) (s : State σ)
    (h : (E._seterr_reply s.msg s.ct.ct_error).re_status ≠ clnt_stat.RPC_SUCCESS) :
    ∃ s4 : State σ, process_reply E a s = ReplyRes.unsuccessful s4 ∧
      s4.status = (E._seterr_reply s.msg s.ct.ct_error).re_status ∧
      s4.ct.ct_mpos = s.ct.ct_mpos ∧
      s4.trace = s.trace ++
        [Ev.seterr_reply s.msg (E._seterr_reply s.msg s.ct.ct_error).re_status] := by
  unfold process_reply
  simp [State.status, h]

/-- Reply processing of a reply classified as success whose verifier
`AUTH_VALIDATE` rejects: the status becomes `RPC_AUTHERROR` with sub-reason
`AUTH_INVALIDRESP`, `AUTH_UNWRAP` is not invoked and the attempt is completed,
not refreshed. -/
theorem process_reply_validate_rejects (E : Env σ) (a : call_args) (s : State σ)
    (h : (E._seterr_reply s.msg s.ct.ct_error).re_status = clnt_stat.RPC_SUCCESS)
    (hval : ∀ v w err, (E.AUTH_VALIDATE v w err).ok = false) :
    ∃ s4 : State σ, process_reply E a s = ReplyRes.completed s4 ∧
      s4.status = clnt_stat.RPC_AUTHERROR ∧
      s4.ct.ct_error.re_why = auth_stat.AUTH_INVALIDRESP ∧
      s4.trace.filter Ev.is_milestone = s.trace.filter Ev.is_milestone ++
        [Ev.seterr_reply s.msg clnt_stat.RPC_SUCCESS, Ev.validate false] ∧
      ∃ l, s4.trace = s.trace ++ l := by
  unfold process_reply
  simp only [State.status, h, hval, if_true, Bool.not_false]
  split_ifs <;>
    simp [State.op, State.set_x_op, Ev.is_milestone, h]

/-- An answered attempt whose reply is classified as non-success reaches the
refresh decision; its milestones are the header and the classification. -/
theorem attempt_answered_unsuccessful (E : Env σ) (sent : σ → Nat)
    (H : AnswersEveryCall E sent) (e : Endian) (a : call_args) (duplex : Bool) (fuel : Nat)
    (s : State σ) (hmpos : 4 ≤ s.ct.ct_mpos)
    (htime : ¬ (a.timeout.tv_sec = 0 ∧ a.timeout.tv_usec = 0))
    (hclass : ∀ m w err err2,
      (E._seterr_reply (E.xdr_dplx_msg m w err).msg err2).re_status ≠ clnt_stat.RPC_SUCCESS) :
    ∃ (s4 : State σ) (hdr : List Nat) (m : rpc_msg) (l : List Ev),
      attempt E e a true duplex (fuel + 1) s = AttemptRes.unsuccessful s4 ∧
      s4.status ≠ clnt_stat.RPC_SUCCESS ∧ s4.ct.ct_mpos = s.ct.ct_mpos ∧
      m.rm_direction = REPLY ∧ m.rm_xid = attempt_x_id e s ∧
      s4.trace = s.trace ++ l ∧
      l.filter Ev.is_milestone = [Ev.putbytes hdr true, Ev.seterr_reply m s4.status] := by
  obtain ⟨s3, hatt, hdir, hxid, hmp, htr, m0, w0, err0, hm⟩ :=
    attempt_answered E sent H e a duplex fuel s hmpos htime
  have hne : (E._seterr_reply s3.msg s3.ct.ct_error).re_status ≠ clnt_stat.RPC_SUCCESS := by
    rw [hm]
    exact hclass m0 w0 err0 _
  obtain ⟨s4, hp, hst, hmp4, htr4⟩ := process_reply_unsuccessful E a s3 hne
  refine ⟨s4, (begin_attempt e s).ct.ct_mcallc.take s.ct.ct_mpos, s3.msg,
    [Ev.putbytes ((begin_attempt e s).ct.ct_mcallc.take s.ct.ct_mpos) true,
      Ev.putint32 a.proc true, Ev.marshall true, Ev.wrap true, Ev.endofrecord true true,
      Ev.skiprecord true, Ev.dplx_msg true s3.msg] ++
    [Ev.seterr_reply s3.msg (E._seterr_reply s3.msg s3.ct.ct_error).re_status],
    ?_, ?_, ?_, hdir, hxid, ?_, ?_⟩
  · rw [hatt, hp]
    rfl
  · rw [hst]
    exact hne
  · rw [hmp4, hmp]
  · rw [htr4, htr, List.append_assoc]
  · rw [hst]
    simp [Ev.is_milestone]

/-- Against an answering peer whose replies are all classified as non-success,
with a refresh that always reports success, the retry structure started with
two refreshes left runs three attempts and two refreshes and returns the
classification of the third reply. -/
theorem call_again_refreshes_twice (E : Env σ) (sent : σ → Nat)
    (H : AnswersEveryCall E sent) (e : Endian) (a : call_args) (duplex : Bool) (fuel : Nat)
    (s : State σ) (hmpos : 4 ≤ s.ct.ct_mpos)
    (htime : ¬ (a.timeout.tv_sec = 0 ∧ a.timeout.tv_usec = 0))
    (hclass : ∀ m w err err2,
      (E._seterr_reply (E.xdr_dplx_msg m w err).msg err2).re_status ≠ clnt_stat.RPC_SUCCESS)
    (hrefresh : ∀ m w err, (E.AUTH_REFRESH m w err).ok = true) :
    ∃ (s9 : State σ) (h1 h2 h3 : List Nat) (m1 m2 m3 : rpc_msg) (st1 st2 : clnt_stat)
      (l : List Ev),
      call_again E e a true duplex (fuel + 1) 2 s = Outcome.done s9.status s9 ∧
      s9.status ≠ clnt_stat.RPC_SUCCESS ∧ s9.trace = s.trace ++ l ∧
      l.filter Ev.is_milestone =
        [Ev.putbytes h1 true, Ev.seterr_reply m1 st1, Ev.refresh true,
         Ev.putbytes h2 true, Ev.seterr_reply m2 st2, Ev.refresh true,
         Ev.putbytes h3 true, Ev.seterr_reply m3 s9.status] := by
  obtain ⟨s4, h1, m1, l1, hatt1, hne1, hmp1, _, _, htr1, hf1⟩ :=
    attempt_answered_unsuccessful E sent H e a duplex fuel s hmpos htime hclass
  have hmpos2 : 4 ≤ (s4.op_msg (E.AUTH_REFRESH s4.msg s4.w s4.ct.ct_error)
      (Ev.refresh (E.AUTH_REFRESH s4.msg s4.w s4.ct.ct_error).ok)).ct.ct_mpos := by
    show 4 ≤ s4.ct.ct_mpos
    omega
  obtain ⟨s6, h2, m2, l2, hatt2, hne2, hmp2, _, _, htr2, hf2⟩ :=
    attempt_answered_unsuccessful E sent H e a duplex fuel _ hmpos2 htime hclass
  have hmpos3 : 4 ≤ (s6.op_msg (E.AUTH_REFRESH s6.msg s6.w s6.ct.ct_error)
      (Ev.refresh (E.AUTH_REFRESH s6.msg s6.w s6.ct.ct_error).ok)).ct.ct_mpos := by
    show 4 ≤ s6.ct.ct_mpos
    rw [hmp2]
    exact hmpos2
  obtain ⟨s9, h3, m3, l3, hatt3, hne3, _, _, _, htr3, hf3⟩ :=
    attempt_answered_unsuccessful E sent H e a duplex fuel _ hmpos3 htime hclass
  refine ⟨s9, h1, h2, h3, m1, m2, m3, s4.status, s6.status,
    l1 ++ [Ev.refresh true] ++ l2 ++ [Ev.refresh true] ++ l3, ?_, hne3, ?_, ?_⟩
  · rw [call_again_succ_of_unsuccessful E e a true duplex (fuel + 1) 1 s s4 hatt1,
      if_pos (hrefresh _ _ _),
      call_again_succ_of_unsuccessful E e a true duplex (fuel + 1) 0 _ s6 hatt2,
      if_pos (hrefresh _ _ _),
      call_again_zero_of_unsuccessful E e a true duplex (fuel + 1) _ s9 hatt3]
  · rw [htr3, State.op_msg_trace, htr2, State.op_msg_trace, htr1, hrefresh, hrefresh]
    simp
  · simp [List.filter_append, hf1, hf2, hf3, Ev.is_milestone]

/-! ## Refresh and retry -/

theorem call_entry_mpos (a : call_args) (s : State σ) :
    (call_entry a s).2.ct.ct_mpos = s.ct.ct_mpos := by
  unfold call_entry adopt_timeout cond_block_events_client
  dsimp only
  split_ifs <;> rfl

theorem not_milestone_of_bracket (ev : Ev) (h : ev.is_bracket = true) :
    ev.is_milestone = false := by
  cases ev <;> simp_all [Ev.is_bracket, Ev.is_milestone]

theorem shipnow_of_nonzero_timeout (a : call_args)
    (htime : ¬ (a.timeout.tv_sec = 0 ∧ a.timeout.tv_usec = 0)) : shipnow_of a = true :=
  shipnow_of_not_batched a (fun h => htime h.2)

/-- C2 (as stated, at a concrete input): the auth collaborator rejects every
verifier and its refresh always reports success, the peer answers every call
with a matching accepted reply of accept status SUCCESS; the call returns
`RPC_AUTHERROR` after a single send and never invokes the refresh, so it does
not perform 2 refresh-and-retry cycles. -/
theorem validate_failure_no_refresh_example :
    (clnt_vc_call (echo_env 0 0 0 false true) Endian.little 1 sample_args
        (sample_state 0)).result = some clnt_stat.RPC_AUTHERROR ∧
      (clnt_vc_call (echo_env 0 0 0 false true) Endian.little 1 sample_args
        (sample_state 0)).state.trace.countP Ev.is_refresh = 0 ∧
      (clnt_vc_call (echo_env 0 0 0 false true) Endian.little 1 sample_args
        (sample_state 0)).state.trace.countP Ev.is_putbytes = 1 ∧
      ¬ ((clnt_vc_call (echo_env 0 0 0 false true) Endian.little 1 sample_args
        (sample_state 0)).state.trace.countP Ev.is_refresh = 2) := by
  decide

theorem call_exit_error (b : Bool) (s : State σ) :
    (call_exit b s).ct.ct_error = s.ct.ct_error := by
  unfold call_exit cond_unblock_events_client
  split_ifs <;> rfl

/-- Against an answering peer whose replies are classified as success, with a
validation that rejects every verifier: one send, one classification, one
rejected validation, and the call returns `RPC_AUTHERROR`. -/
theorem clnt_vc_call_validate_rejects (E : Env σ) (sent : σ → Nat)
    (H : AnswersEveryCall E sent) (e : Endian) (fuel : Nat) (a : call_args) (s : State σ)
    (hmpos : 4 ≤ s.ct.ct_mpos)
    (htime : ¬ (a.timeout.tv_sec = 0 ∧ a.timeout.tv_usec = 0))
    (hval : ∀ v w err, (E.AUTH_VALIDATE v w err).ok = false)
    (hclass : ∀ m w err err2,
      (E._seterr_reply (E.xdr_dplx_msg m w err).msg err2).re_status = clnt_stat.RPC_SUCCESS) :
    ∃ (s9 : State σ) (hdr : List Nat) (m : rpc_msg) (l : List Ev),
      clnt_vc_call E e (fuel + 1) a s = Outcome.done clnt_stat.RPC_AUTHERROR s9 ∧
      s9.ct.ct_error.re_status = clnt_stat.RPC_AUTHERROR ∧
      s9.ct.ct_error.re_why = auth_stat.AUTH_INVALIDRESP ∧
      s9.trace = s.trace ++ l ∧
      l.filter Ev.is_milestone =
        [Ev.putbytes hdr true, Ev.seterr_reply m clnt_stat.RPC_SUCCESS, Ev.validate false] := by
  have hmpos0 : 4 ≤ (call_entry a s).2.ct.ct_mpos := by
    rw [call_entry_mpos]
    exact hmpos
  obtain ⟨s3, hatt, _, _, _, htr, m0, w0, err0, hm⟩ :=
    attempt_answered E sent H e a s.ct.CT_FLAG_DUPLEX fuel (call_entry a s).2 hmpos0 htime
  have hok : (E._seterr_reply s3.msg s3.ct.ct_error).re_status = clnt_stat.RPC_SUCCESS := by
    rw [hm]
    exact hclass m0 w0 err0 _
  obtain ⟨s4, hp, hst, hwhy, hfil, l4, htr4⟩ := process_reply_validate_rejects E a s3 hok hval
  obtain ⟨pre, hpre, ppre⟩ := call_entry_adds a s
  obtain ⟨post, hpost, ppost⟩ := call_exit_adds (call_entry a s).1 s4
  have hatt2 : attempt E e a true s.ct.CT_FLAG_DUPLEX (fuel + 1) (call_entry a s).2 =
      AttemptRes.done clnt_stat.RPC_AUTHERROR s4 := by
    rw [hatt, hp]
    show AttemptRes.done s4.status s4 = _
    rw [hst]
  have hl4 : l4.filter Ev.is_milestone =
      [Ev.seterr_reply s3.msg clnt_stat.RPC_SUCCESS, Ev.validate false] := by
    rw [htr4, List.filter_append] at hfil
    exact List.append_cancel_left hfil
  refine ⟨call_exit (call_entry a s).1 s4,
    (begin_attempt e (call_entry a s).2).ct.ct_mcallc.take (call_entry a s).2.ct.ct_mpos, s3.msg,
    pre ++ ([Ev.putbytes
      ((begin_attempt e (call_entry a s).2).ct.ct_mcallc.take (call_entry a s).2.ct.ct_mpos) true,
      Ev.putint32 a.proc true, Ev.marshall true, Ev.wrap true, Ev.endofrecord true true,
      Ev.skiprecord true, Ev.dplx_msg true s3.msg] ++ l4) ++ post, ?_, ?_, ?_, ?_, ?_⟩
  · exact clnt_vc_call_of_first_attempt_done E e (fuel + 1) a s s4 _ true
      (shipnow_of_nonzero_timeout a htime) hatt2
  · rw [call_exit_error]
    exact hst
  · rw [call_exit_error]
    exact hwhy
  · rw [hpost, htr4, htr, hpre]
    simp
  · simp [List.filter_append, hl4, Ev.is_milestone,
      filter_eq_nil_of_bracket _ pre not_milestone_of_bracket ppre,
      filter_eq_nil_of_bracket _ post not_milestone_of_bracket ppost]

/-- Against an answering peer whose replies are all classified as non-success,
with a refresh that always reports success: three sends, two refreshes, and
the call returns the classification of the third reply. -/
theorem clnt_vc_call_refreshes_twice (E : Env σ) (sent : σ → Nat)
    (H : AnswersEveryCall E sent) (e : Endian) (fuel : Nat) (a : call_args) (s : State σ)
    (hmpos : 4 ≤ s.ct.ct_mpos)
    (htime : ¬ (a.timeout.tv_sec = 0 ∧ a.timeout.tv_usec = 0))
    (hclass : ∀ m w err err2,
      (E._seterr_reply (E.xdr_dplx_msg m w err).msg err2).re_status ≠ clnt_stat.RPC_SUCCESS)
    (hrefresh : ∀ m w err, (E.AUTH_REFRESH m w err).ok = true) :
    ∃ (s9 : State σ) (st : clnt_stat) (h1 h2 h3 : List Nat) (m1 m2 m3 : rpc_msg)
      (st1 st2 : clnt_stat) (l : List Ev),
      clnt_vc_call E e (fuel + 1) a s = Outcome.done st s9 ∧
      st ≠ clnt_stat.RPC_SUCCESS ∧ s9.ct.ct_error.re_status = st ∧
      s9.trace = s.trace ++ l ∧
      l.filter Ev.is_milestone =
        [Ev.putbytes h1 true, Ev.seterr_reply m1 st1, Ev.refresh true,
         Ev.putbytes h2 true, Ev.seterr_reply m2 st2, Ev.refresh true,
         Ev.putbytes h3 true, Ev.seterr_reply m3 st] := by
  have hmpos0 : 4 ≤ (call_entry a s).2.ct.ct_mpos := by
    rw [call_entry_mpos]
    exact hmpos
  obtain ⟨s8, h1, h2, h3, m1, m2, m3, st1, st2, l, hcall, hne, htr, hfil⟩ :=
    call_again_refreshes_twice E sent H e a s.ct.CT_FLAG_DUPLEX fuel (call_entry a s).2 hmpos0
      htime hclass hrefresh
  obtain ⟨pre, hpre, ppre⟩ := call_entry_adds a s
  obtain ⟨post, hpost, ppost⟩ := call_exit_adds (call_entry a s).1 s8
  refine ⟨call_exit (call_entry a s).1 s8, s8.status, h1, h2, h3, m1, m2, m3, st1, st2,
    pre ++ l ++ post, ?_, hne, ?_, ?_, ?_⟩
  · unfold clnt_vc_call
    dsimp only
    rw [shipnow_of_nonzero_timeout a htime, hcall]
  · rw [call_exit_error]
    rfl
  · rw [hpost, htr, hpre]
    simp
  · simp [List.filter_append, hfil,
      filter_eq_nil_of_bracket _ pre not_milestone_of_bracket ppre,
      filter_eq_nil_of_bracket _ post not_milestone_of_bracket ppost]

theorem pass_state_succ (E : Env σ) (x_id : Nat) (duplex : Bool) (j : Nat) (s : State σ) :
    pass_state E x_id duplex (j + 1) s =
      (recv_body E x_id duplex (pass_state E x_id duplex j s)).state := by
  induction j generalizing s with
  | zero => rfl
  | succ n ih =>
    show pass_state E x_id duplex (n + 1) (recv_body E x_id duplex s).state = _
    rw [ih]
    rfl

/-- A pass over a delivered record that is not the awaited reply continues the
loop and leaves the error record as the record stream left it. -/
theorem recv_body_discards (E : Env σ) (x_id : Nat) (duplex : Bool) (s : State σ)
    (hskip : (fetch_record E s).skip_ok = true)
    (hfail : (fetch_record E s).decode_ok = false →
      (fetch_record E s).s.status = clnt_stat.RPC_SUCCESS)
    (hstale : (fetch_record E s).decode_ok = true →
      (fetch_record E s).s.msg.rm_direction = REPLY → (fetch_record E s).s.msg.rm_xid ≠ x_id) :
    ∃ s1 : State σ, recv_body E x_id duplex s = Step.next s1 ∧
      s1.ct.ct_error = (fetch_record E s).s.ct.ct_error := by
  unfold recv_body
  dsimp only
  cases hd : (fetch_record E s).decode_ok with
  | false =>
    simp [hskip, hfail hd]
  | true =>
    by_cases hdir : (fetch_record E s).s.msg.rm_direction = REPLY
    · simp [hskip, hdir, hstale hd hdir]
    · by_cases hcall : (fetch_record E s).s.msg.rm_direction = CALL
      · have hne : CALL ≠ REPLY := by decide
        cases duplex
        · simp [hskip, hcall, hne]
        · simp [hskip, hcall, hne, dispatch_call]
      · simp [hskip, hdir, hcall]

theorem recv_body_matches (E : Env σ) (x_id : Nat) (duplex : Bool) (s : State σ)
    (hskip : (fetch_record E s).skip_ok = true) (hdec : (fetch_record E s).decode_ok = true)
    (hdir : (fetch_record E s).s.msg.rm_direction = REPLY)
    (hxid : (fetch_record E s).s.msg.rm_xid = x_id) :
    recv_body E x_id duplex s = Step.replied (fetch_record E s).s := by
  unfold recv_body
  simp [hskip, hdec, hdir, hxid]

/-- The receive loop passes over `k` delivered records that are not the
awaited reply and leaves with the record at position `k`. -/
theorem recv_loop_skips_stale (E : Env σ) (x_id : Nat) (duplex : Bool) (k fuel : Nat)
    (s : State σ) (hfuel : k < fuel)
    (hdeliv : ∀ j < k, (inbound_record E x_id duplex s j).skip_ok = true ∧
      ((inbound_record E x_id duplex s j).decode_ok = false →
        (inbound_record E x_id duplex s j).s.status = clnt_stat.RPC_SUCCESS))
    (hstale : ∀ j < k, (inbound_record E x_id duplex s j).decode_ok = true →
      (inbound_record E x_id duplex s j).s.msg.rm_direction = REPLY →
      (inbound_record E x_id duplex s j).s.msg.rm_xid ≠ x_id)
    (hk : (inbound_record E x_id duplex s k).skip_ok = true ∧
      (inbound_record E x_id duplex s k).decode_ok = true ∧
      (inbound_record E x_id duplex s k).s.msg.rm_direction = REPLY ∧
      (inbound_record E x_id duplex s k).s.msg.rm_xid = x_id) :
    recv_loop E x_id duplex fuel s = RecvRes.replied (inbound_record E x_id duplex s k).s := by
  induction k generalizing s fuel with
  | zero =>
    obtain ⟨f, rfl⟩ : ∃ f, fuel = f + 1 := ⟨fuel - 1, by omega⟩
    unfold recv_loop
    rw [recv_body_matches E x_id duplex s hk.1 hk.2.1 hk.2.2.1 hk.2.2.2]
    rfl
  | succ n ih =>
    obtain ⟨f, rfl⟩ : ∃ f, fuel = f + 1 := ⟨fuel - 1, by omega⟩
    have h0 := hdeliv 0 (by omega)
    obtain ⟨s1, hs1, _⟩ := recv_body_discards E x_id duplex s h0.1 h0.2 (hstale 0 (by omega))
    have hstate : (recv_body E x_id duplex s).state = s1 := by rw [hs1]; rfl
    have hrec : ∀ j, inbound_record E x_id duplex s (j + 1) = inbound_record E x_id duplex s1 j := by
      intro j
      unfold inbound_record
      rw [← hstate]
      rfl
    unfold recv_loop
    rw [hs1]
    dsimp only
    rw [hrec n]
    apply ih f s1 (by omega)
    · intro j hj
      rw [← hrec j]
      exact hdeliv (j + 1) (by omega)
    · intro j hj
      rw [← hrec j]
      exact hstale (j + 1) (by omega)
    · rw [← hrec n]
      exact hk

/-- Reply processing starts with the classification of the message it was
entered with; every later event is a validation, an unwrapping or the release
of the verifier. -/
theorem process_reply_trace (E : Env σ) (a : call_args) (s : State σ) :
    ∃ l : List Ev,
      (process_reply E a s).state.trace =
        s.trace ++ Ev.seterr_reply s.msg (E._seterr_reply s.msg s.ct.ct_error).re_status :: l ∧
      ∀ ev ∈ l, ev.is_verify = true := by
  have key : Adds (fun ev => ev.is_verify = true)
      ({ s with ct := { s.ct with ct_error := E._seterr_reply s.msg s.ct.ct_error },
                trace := s.trace ++
                  [Ev.seterr_reply s.msg (E._seterr_reply s.msg s.ct.ct_error).re_status] } :
        State σ)
      (process_reply E a s).state := by
    apply Adds.of_prefix_drop
    · unfold process_reply
      dsimp only
      split_ifs <;> simp [ReplyRes.state, State.status]
    · unfold process_reply
      dsimp only
      split_ifs <;> simp [ReplyRes.state, State.status, Ev.is_verify]
  obtain ⟨l, hl, hp⟩ := key
  exact ⟨l, by rw [hl]; simp, hp⟩

/-- The receive loop started in `s` (after `x_op` is set to `XDR_DECODE`)
awaits `x_id`; the stream delivers its records up to position `k`, those
before `k` are not the awaited reply and the record at `k` is.  Then only
receive events are appended before message `k` is classified, each pass leaves
the error record as the record stream left it, and the outcome is reply
processing of message `k`. -/
theorem receive_reply_skips_stale (E : Env σ) (a : call_args) (x_id : Nat) (duplex : Bool)
    (k fuel : Nat) (s : State σ) (hfuel : k < fuel)
    (hdeliv : ∀ j < k,
      (inbound_record E x_id duplex (s.set_x_op xdr_op.XDR_DECODE) j).skip_ok = true ∧
      ((inbound_record E x_id duplex (s.set_x_op xdr_op.XDR_DECODE) j).decode_ok = false →
        (inbound_record E x_id duplex (s.set_x_op xdr_op.XDR_DECODE) j).s.status =
          clnt_stat.RPC_SUCCESS))
    (hstale : ∀ j < k,
      (inbound_record E x_id duplex (s.set_x_op xdr_op.XDR_DECODE) j).decode_ok = true →
      (inbound_record E x_id duplex (s.set_x_op xdr_op.XDR_DECODE) j).s.msg.rm_direction = REPLY →
      (inbound_record E x_id duplex (s.set_x_op xdr_op.XDR_DECODE) j).s.msg.rm_xid ≠ x_id)
    (hk : (inbound_record E x_id duplex (s.set_x_op xdr_op.XDR_DECODE) k).skip_ok = true ∧
      (inbound_record E x_id duplex (s.set_x_op xdr_op.XDR_DECODE) k).decode_ok = true ∧
      (inbound_record E x_id duplex (s.set_x_op xdr_op.XDR_DECODE) k).s.msg.rm_direction = REPLY ∧
      (inbound_record E x_id duplex (s.set_x_op xdr_op.XDR_DECODE) k).s.msg.rm_xid = x_id) :
    receive_reply E a x_id duplex fuel s =
        reply_outcome (process_reply E a
          (inbound_record E x_id duplex (s.set_x_op xdr_op.XDR_DECODE) k).s) ∧
      (∃ l1 l2 : List Ev,
        (receive_reply E a x_id duplex fuel s).state.trace =
          s.trace ++ l1 ++
            Ev.seterr_reply (inbound_record E x_id duplex (s.set_x_op xdr_op.XDR_DECODE) k).s.msg
              (E._seterr_reply
                (inbound_record E x_id duplex (s.set_x_op xdr_op.XDR_DECODE) k).s.msg
                (inbound_record E x_id duplex (s.set_x_op xdr_op.XDR_DECODE) k).s.ct.ct_error
                ).re_status :: l2 ∧
        (∀ ev ∈ l1, ev.is_receive = true) ∧ ∀ ev ∈ l2, ev.is_verify = true) ∧
      ∀ j < k,
        (pass_state E x_id duplex (j + 1) (s.set_x_op xdr_op.XDR_DECODE)).ct.ct_error =
          (inbound_record E x_id duplex (s.set_x_op xdr_op.XDR_DECODE) j).s.ct.ct_error := by
  have hloop := recv_loop_skips_stale E x_id duplex k fuel (s.set_x_op xdr_op.XDR_DECODE) hfuel
    hdeliv hstale hk
  have hrr : receive_reply E a x_id duplex fuel s =
      reply_outcome (process_reply E a
        (inbound_record E x_id duplex (s.set_x_op xdr_op.XDR_DECODE) k).s) := by
    unfold receive_reply
    rw [hloop]
  refine ⟨hrr, ?_, ?_⟩
  · obtain ⟨l1, h1, p1⟩ := recv_loop_adds E x_id duplex fuel (s.set_x_op xdr_op.XDR_DECODE)
    rw [hloop] at h1
    obtain ⟨l2, h2, p2⟩ := process_reply_trace E a
      (inbound_record E x_id duplex (s.set_x_op xdr_op.XDR_DECODE) k).s
    refine ⟨l1, l2, ?_, p1, p2⟩
    rw [hrr, reply_outcome_state, h2]
    simp only [RecvRes.state] at h1
    rw [h1]
    rfl
  · intro j hj
    rw [pass_state_succ]
    obtain ⟨s1, hs1, he⟩ := recv_body_discards E x_id duplex
      (pass_state E x_id duplex j (s.set_x_op xdr_op.XDR_DECODE))
      (hdeliv j hj).1 (hdeliv j hj).2 (hstale j hj)
    rw [hs1]
    exact he

/-! ## The refresh claims -/

theorem echo_env_answers (rp ar rj : Nat) (validate_ok refresh_ok : Bool) :
    AnswersEveryCall (echo_env rp ar rj validate_ok refresh_ok) id :=
  { putbytes_ok := fun _ _ _ => rfl
    putbytes_sent := fun _ _ _ => rfl
    putint32_ok := fun _ _ _ => rfl
    putint32_sent := fun _ _ _ => rfl
    marshall_ok := fun _ _ => rfl
    marshall_sent := fun _ _ => rfl
    wrap_ok := fun _ _ _ _ => rfl
    wrap_sent := fun _ _ _ _ => rfl
    endofrecord_ok := fun _ _ _ => rfl
    endofrecord_sent := fun _ _ _ => rfl
    skiprecord_ok := fun _ _ => rfl
    skiprecord_sent := fun _ _ => rfl
    reply_ok := fun _ _ _ => rfl
    reply_direction := fun _ _ _ => rfl
    reply_xid := fun _ _ _ => rfl }

/-- C2 (amended): with a validation that rejects every verifier, a refresh
that always reports success and a peer that answers every call with a
matching reply (`AnswersEveryCall`), a call that waits for its reply behaves
as follows.  If the replies are classified as success, the rejected
validation ends the call: one send, one classification, one validation, no
unwrapping, no refresh, and `RPC_AUTHERROR` with sub-reason
`AUTH_INVALIDRESP` is returned.  If the replies are classified as
non-success, validation is not consulted and the call performs exactly two
refresh-and-retry cycles and returns the classification of the third reply. -/
theorem validate_rejection_is_not_refreshed (E : Env σ) (sent : σ → Nat)
    (H : AnswersEveryCall E sent) (e : Endian) (fuel : Nat) (a : call_args) (s : State σ)
    (hmpos : 4 ≤ s.ct.ct_mpos)
    (htime : ¬ (a.timeout.tv_sec = 0 ∧ a.timeout.tv_usec = 0))
    (hval : ∀ v w err, (E.AUTH_VALIDATE v w err).ok = false)
    (hrefresh : ∀ m w err, (E.AUTH_REFRESH m w err).ok = true) :
    ((∀ m w err err2,
        (E._seterr_reply (E.xdr_dplx_msg m w err).msg err2).re_status = clnt_stat.RPC_SUCCESS) →
      ∃ (s9 : State σ) (hdr : List Nat) (m : rpc_msg) (l : List Ev),
        clnt_vc_call E e (fuel + 1) a s = Outcome.done clnt_stat.RPC_AUTHERROR s9 ∧
        s9.ct.ct_error.re_status = clnt_stat.RPC_AUTHERROR ∧
        s9.ct.ct_error.re_why = auth_stat.AUTH_INVALIDRESP ∧
        s9.trace = s.trace ++ l ∧
        l.filter Ev.is_milestone =
          [Ev.putbytes hdr true, Ev.seterr_reply m clnt_stat.RPC_SUCCESS, Ev.validate false]) ∧
    ((∀ m w err err2,
        (E._seterr_reply (E.xdr_dplx_msg m w err).msg err2).re_status ≠ clnt_stat.RPC_SUCCESS) →
      ∃ (s9 : State σ) (st : clnt_stat) (h1 h2 h3 : List Nat) (m1 m2 m3 : rpc_msg)
        (st1 st2 : clnt_stat) (l : List Ev),
        clnt_vc_call E e (fuel + 1) a s = Outcome.done st s9 ∧
        st ≠ clnt_stat.RPC_SUCCESS ∧ s9.ct.ct_error.re_status = st ∧
        s9.trace = s.trace ++ l ∧
        l.filter Ev.is_milestone =
          [Ev.putbytes h1 true, Ev.seterr_reply m1 st1, Ev.refresh true,
           Ev.putbytes h2 true, Ev.seterr_reply m2 st2, Ev.refresh true,
           Ev.putbytes h3 true, Ev.seterr_reply m3 st]) :=
  ⟨fun hclass => clnt_vc_call_validate_rejects E sent H e fuel a s hmpos htime hval hclass,
   fun hclass => clnt_vc_call_refreshes_twice E sent H e fuel a s hmpos htime hclass hrefresh⟩

/-- C2 (amended) at the echoing peer with accepted, successful replies and a
rejecting validation. -/
theorem validate_rejection_is_not_refreshed_witness :
    ∃ (s9 : State Nat) (hdr : List Nat) (m : rpc_msg) (l : List Ev),
      clnt_vc_call (echo_env 0 0 0 false true) Endian.little (0 + 1) sample_args
        (sample_state 0) = Outcome.done clnt_stat.RPC_AUTHERROR s9 ∧
      s9.ct.ct_error.re_status = clnt_stat.RPC_AUTHERROR ∧
      s9.ct.ct_error.re_why = auth_stat.AUTH_INVALIDRESP ∧
      s9.trace = (sample_state 0).trace ++ l ∧
      l.filter Ev.is_milestone =
        [Ev.putbytes hdr true, Ev.seterr_reply m clnt_stat.RPC_SUCCESS, Ev.validate false] :=
  (validate_rejection_is_not_refreshed (echo_env 0 0 0 false true) id
    (echo_env_answers 0 0 0 false true) Endian.little 0 sample_args (sample_state 0)
    (by decide) (by decide) (fun _ _ _ => rfl) (fun _ _ _ => rfl)).1
    (fun _ _ _ _ => rfl)

/-- C3: whatever the collaborators `E` do, one call `a` invokes the refresh at
most twice and hands the header to the record stream and ends the record at
most three times.  Against collaborators `E2` whose peer answers every call
with a matching reply, whose classification reports every such reply as
non-success and whose refresh always reports success, a call `a2` that waits
for its reply refreshes exactly twice, each refresh being followed by a new
header (a restart from the encode step), and returns the classification of
the third reply. -/
theorem refresh_at_most_twice_exactly_twice (E : Env σ) (e : Endian) (fuel : Nat)
    (a : call_args) (s : State σ)
    (E2 : Env σ) (sent : σ → Nat) (H : AnswersEveryCall E2 sent) (a2 : call_args)
    (hmpos : 4 ≤ s.ct.ct_mpos)
    (htime : ¬ (a2.timeout.tv_sec = 0 ∧ a2.timeout.tv_usec = 0))
    (hclass : ∀ m w err err2,
      (E2._seterr_reply (E2.xdr_dplx_msg m w err).msg err2).re_status ≠ clnt_stat.RPC_SUCCESS)
    (hrefresh : ∀ m w err, (E2.AUTH_REFRESH m w err).ok = true) :
    (∃ l : List Ev, (clnt_vc_call E e fuel a s).state.trace = s.trace ++ l ∧
      l.countP Ev.is_refresh ≤ 2 ∧ l.countP Ev.is_putbytes ≤ 3 ∧
      l.countP Ev.is_endofrecord ≤ 3) ∧
    ∃ (s9 : State σ) (st : clnt_stat) (h1 h2 h3 : List Nat) (m1 m2 m3 : rpc_msg)
      (st1 st2 : clnt_stat) (l : List Ev),
      clnt_vc_call E2 e (fuel + 1) a2 s = Outcome.done st s9 ∧
      st ≠ clnt_stat.RPC_SUCCESS ∧ s9.ct.ct_error.re_status = st ∧
      s9.trace = s.trace ++ l ∧
      l.filter Ev.is_milestone =
        [Ev.putbytes h1 true, Ev.seterr_reply m1 st1, Ev.refresh true,
         Ev.putbytes h2 true, Ev.seterr_reply m2 st2, Ev.refresh true,
         Ev.putbytes h3 true, Ev.seterr_reply m3 st] := by
  constructor
  · obtain ⟨l, ht, c1, c2, c3, _⟩ := clnt_vc_call_counts E e fuel a s
    exact ⟨l, ht, c3, c1, c2⟩
  · exact clnt_vc_call_refreshes_twice E2 sent H e fuel a2 s hmpos htime hclass hrefresh

/-- C3 at the echoing peer whose replies are denied with an authentication
error, on a big-endian host. -/
theorem refresh_at_most_twice_exactly_twice_witness :
    (∃ l : List Ev,
      (clnt_vc_call (echo_env 0 0 0 false true) Endian.big 5 sample_args
        (sample_state 0)).state.trace = (sample_state 0).trace ++ l ∧
      l.countP Ev.is_refresh ≤ 2 ∧ l.countP Ev.is_putbytes ≤ 3 ∧
      l.countP Ev.is_endofrecord ≤ 3) ∧
    ∃ (s9 : State Nat) (st : clnt_stat) (h1 h2 h3 : List Nat) (m1 m2 m3 : rpc_msg)
      (st1 st2 : clnt_stat) (l : List Ev),
      clnt_vc_call (echo_env 1 0 1 true true) Endian.big (5 + 1) sample_args
        (sample_state 0) = Outcome.done st s9 ∧
      st ≠ clnt_stat.RPC_SUCCESS ∧ s9.ct.ct_error.re_status = st ∧
      s9.trace = (sample_state 0).trace ++ l ∧
      l.filter Ev.is_milestone =
        [Ev.putbytes h1 true, Ev.seterr_reply m1 st1, Ev.refresh true,
         Ev.putbytes h2 true, Ev.seterr_reply m2 st2, Ev.refresh true,
         Ev.putbytes h3 true, Ev.seterr_reply m3 st] :=
  refresh_at_most_twice_exactly_twice (echo_env 0 0 0 false true) Endian.big 5 sample_args
    (sample_state 0) (echo_env 1 0 1 true true) id (echo_env_answers 1 0 1 true true)
    sample_args (by decide) (by decide) (fun _ _ _ _ => by simp [echo_env, sample_seterr_reply])
    (fun _ _ _ => rfl)

/-- The run behind the C3 instance, evaluated: the call returns
`RPC_AUTHERROR` after three sends and two refreshes. -/
theorem refresh_twice_example :
    (clnt_vc_call (echo_env 1 0 1 true true) Endian.big 6 sample_args
        (sample_state 0)).result = some clnt_stat.RPC_AUTHERROR ∧
      (clnt_vc_call (echo_env 1 0 1 true true) Endian.big 6 sample_args
        (sample_state 0)).state.trace.countP Ev.is_refresh = 2 ∧
      (clnt_vc_call (echo_env 1 0 1 true true) Endian.big 6 sample_args
        (sample_state 0)).state.trace.countP Ev.is_putbytes = 3 := by
  decide

/-! ## Instances of the batching and zero-timeout claims -/

/-- C4 on the sample handle: the batched call returns `RPC_SUCCESS` without
any receive-side event, and the call with a results decoder and a 25 second
timeout only issues forced flushes. -/
theorem batched_call_success_else_forced_flush_witness :
    ((clnt_vc_call (echo_env 0 0 0 true true) Endian.little 1 batched_args
        (sample_state 0)).result = some clnt_stat.RPC_SUCCESS ∧
      ∃ l : List Ev,
        (clnt_vc_call (echo_env 0 0 0 true true) Endian.little 1 batched_args
          (sample_state 0)).state.trace = (sample_state 0).trace ++ l ∧
        l.countP Ev.is_inbound = 0 ∧
        l.filter Ev.is_endofrecord = [Ev.endofrecord false true]) ∧
    ∃ l2 : List Ev,
      (clnt_vc_call (echo_env 0 0 0 true true) Endian.little 1 sample_args
        (sample_state 0)).state.trace = (sample_state 0).trace ++ l2 ∧
      ∀ flush ok, Ev.endofrecord flush ok ∈ l2 → flush = true :=
  batched_call_success_else_forced_flush (echo_env 0 0 0 true true) Endian.little 1
    batched_args sample_args (sample_state 0) rfl rfl rfl (by decide) (by decide) (by decide)

/-- C5 on the sample handle: a call with a results decoder and a zero timeout
returns `RPC_TIMEDOUT` without any receive-side event. -/
theorem zero_timeout_call_times_out_witness :
    (clnt_vc_call (echo_env 0 0 0 true true) Endian.little 1 poll_args
        (sample_state 0)).result = some clnt_stat.RPC_TIMEDOUT ∧
      (clnt_vc_geterr (clnt_vc_call (echo_env 0 0 0 true true) Endian.little 1 poll_args
        (sample_state 0)).state).re_status = clnt_stat.RPC_TIMEDOUT ∧
      ∃ l : List Ev,
        (clnt_vc_call (echo_env 0 0 0 true true) Endian.little 1 poll_args
          (sample_state 0)).state.trace = (sample_state 0).trace ++ l ∧
        l.countP Ev.is_inbound = 0 ∧
        l.filter Ev.is_endofrecord = [Ev.endofrecord true true] :=
  zero_timeout_call_times_out (echo_env 0 0 0 true true) Endian.little 1 poll_args
    (sample_state 0) (by decide) rfl rfl (by decide) (by decide)

/-! ## The stale reply claim -/

/-- An attempt that waits for its reply and whose encode steps and forced
end-of-record succeed enters the receive loop in `sent_state`. -/
theorem attempt_awaits (E : Env σ) (e : Endian) (a : call_args) (duplex : Bool) (fuel : Nat)
    (s : State σ)
    (henc : (encode_call E a (begin_attempt e s)).1 = true)
    (hflush : (E.xdrrec_endofrecord true (encode_call E a (begin_attempt e s)).2.w
      (encode_call E a (begin_attempt e s)).2.ct.ct_error).ok = true)
    (htime : ¬ (a.timeout.tv_sec = 0 ∧ a.timeout.tv_usec = 0)) :
    attempt E e a true duplex fuel s =
      receive_reply E a (attempt_x_id e s) duplex fuel (sent_state E e a s) := by
  unfold attempt sent_state
  simp [henc, hflush, htime]

/-- C1: take an attempt of a call that waits for its reply, whose encode steps
and forced end-of-record succeed, and let the inbound stream deliver its
records up to position `k`: every record before `k` is skipped to
successfully and, if its header does not decode, leaves the error status at
`RPC_SUCCESS`; every successfully decoded REPLY before `k` carries an id
different from the id just sent; the record at `k` decodes as a REPLY carrying
the id just sent.  Then the records before `k` are discarded: between the
start of the receive loop and the classification of message `k` only
skip-record, decode and dispatch events occur (no classification, VALIDATE or
UNWRAP), each pass leaves the error record as the record stream left it, and
reply processing runs once, on message `k`; its outcome is the outcome of the
attempt, and when it completes in the first attempt of a call, the call
returns the status it left, in the state it left. -/
theorem stale_replies_discarded (E : Env σ) (e : Endian) (a : call_args) (duplex : Bool)
    (k fuel : Nat) (s : State σ) (hfuel : k < fuel)
    (henc : (encode_call E a (begin_attempt e s)).1 = true)
    (hflush : (E.xdrrec_endofrecord true (encode_call E a (begin_attempt e s)).2.w
      (encode_call E a (begin_attempt e s)).2.ct.ct_error).ok = true)
    (htime : ¬ (a.timeout.tv_sec = 0 ∧ a.timeout.tv_usec = 0))
    (hdeliv : ∀ j < k, (awaited_record E e a duplex s j).skip_ok = true ∧
      ((awaited_record E e a duplex s j).decode_ok = false →
        (awaited_record E e a duplex s j).s.status = clnt_stat.RPC_SUCCESS))
    (hstale : ∀ j < k, (awaited_record E e a duplex s j).decode_ok = true →
      (awaited_record E e a duplex s j).s.msg.rm_direction = REPLY →
      (awaited_record E e a duplex s j).s.msg.rm_xid ≠ attempt_x_id e s)
    (hk : (awaited_record E e a duplex s k).skip_ok = true ∧
      (awaited_record E e a duplex s k).decode_ok = true ∧
      (awaited_record E e a duplex s k).s.msg.rm_direction = REPLY ∧
      (awaited_record E e a duplex s k).s.msg.rm_xid = attempt_x_id e s) :
    attempt E e a true duplex fuel s =
        reply_outcome (process_reply E a (awaited_record E e a duplex s k).s) ∧
      (∃ l1 l2 : List Ev,
        (attempt E e a true duplex fuel s).state.trace =
          (loop_start E e a s).trace ++ l1 ++
            Ev.seterr_reply (awaited_record E e a duplex s k).s.msg
              (E._seterr_reply (awaited_record E e a duplex s k).s.msg
                (awaited_record E e a duplex s k).s.ct.ct_error).re_status :: l2 ∧
        (∀ ev ∈ l1, ev.is_receive = true) ∧ ∀ ev ∈ l2, ev.is_verify = true) ∧
      (∀ j < k,
        (pass_state E (attempt_x_id e s) duplex (j + 1) (loop_start E e a s)).ct.ct_error =
          (awaited_record E e a duplex s j).s.ct.ct_error) ∧
      ∀ s0 s4 : State σ, s = (call_entry a s0).2 → duplex = s0.ct.CT_FLAG_DUPLEX →
        process_reply E a (awaited_record E e a duplex s k).s = ReplyRes.completed s4 →
        clnt_vc_call E e fuel a s0 =
          Outcome.done s4.status (call_exit (call_entry a s0).1 s4) := by
  have hatt := attempt_awaits E e a duplex fuel s henc hflush htime
  obtain ⟨h1, h2, h3⟩ := receive_reply_skips_stale E a (attempt_x_id e s) duplex k fuel
    (sent_state E e a s) hfuel hdeliv hstale hk
  refine ⟨hatt.trans h1, ?_, h3, ?_⟩
  · rw [hatt]
    exact h2
  · intro s0 s4 hs hd hp
    subst hs
    subst hd
    refine clnt_vc_call_of_first_attempt_done E e fuel a s0 s4 s4.status true
      (shipnow_of_nonzero_timeout a htime) ?_
    have h := hatt.trans h1
    change attempt E e a true s0.ct.CT_FLAG_DUPLEX fuel (call_entry a s0).2 =
      reply_outcome (process_reply E a
        (awaited_record E e a s0.ct.CT_FLAG_DUPLEX (call_entry a s0).2 k).s) at h
    rw [h, hp]
    rfl

/-- C1 on a scripted stream, big-endian host, first attempt of a call on the
sample handle: the attempt sends the transaction id 4; the stream holds a
REPLY for id 9, a record that does not decode, and then, at position 2, the
REPLY for id 4. -/
theorem stale_replies_discarded_witness :
    attempt stream_env Endian.big sample_args true false 3
        (call_entry sample_args (sample_state sample_stream)).2 =
        reply_outcome (process_reply stream_env sample_args
          (awaited_record stream_env Endian.big sample_args false
            (call_entry sample_args (sample_state sample_stream)).2 2).s) ∧
      (∃ l1 l2 : List Ev,
        (attempt stream_env Endian.big sample_args true false 3
          (call_entry sample_args (sample_state sample_stream)).2).state.trace =
          (loop_start stream_env Endian.big sample_args
            (call_entry sample_args (sample_state sample_stream)).2).trace ++ l1 ++
            Ev.seterr_reply (awaited_record stream_env Endian.big sample_args false
              (call_entry sample_args (sample_state sample_stream)).2 2).s.msg
              (stream_env._seterr_reply
                (awaited_record stream_env Endian.big sample_args false
                  (call_entry sample_args (sample_state sample_stream)).2 2).s.msg
                (awaited_record stream_env Endian.big sample_args false
                  (call_entry sample_args (sample_state sample_stream)).2
                  2).s.ct.ct_error).re_status :: l2 ∧
        (∀ ev ∈ l1, ev.is_receive = true) ∧ ∀ ev ∈ l2, ev.is_verify = true) ∧
      (∀ j < 2,
        (pass_state stream_env
          (attempt_x_id Endian.big (call_entry sample_args (sample_state sample_stream)).2)
          false (j + 1)
          (loop_start stream_env Endian.big sample_args
            (call_entry sample_args (sample_state sample_stream)).2)).ct.ct_error =
          (awaited_record stream_env Endian.big sample_args false
            (call_entry sample_args (sample_state sample_stream)).2 j).s.ct.ct_error) ∧
      ∀ s0 s4 : State (List (Option rpc_msg)),
        (call_entry sample_args (sample_state sample_stream)).2 =
          (call_entry sample_args s0).2 →
        false = s0.ct.CT_FLAG_DUPLEX →
        process_reply stream_env sample_args
          (awaited_record stream_env Endian.big sample_args false
            (call_entry sample_args (sample_state sample_stream)).2 2).s =
          ReplyRes.completed s4 →
        clnt_vc_call stream_env Endian.big 3 sample_args s0 =
          Outcome.done s4.status (call_exit (call_entry sample_args s0).1 s4) :=
  stale_replies_discarded stream_env Endian.big sample_args false 2 3
    (call_entry sample_args (sample_state sample_stream)).2 (by decide)
    (by decide) (by decide) (by decide) (by decide) (by decide) (by decide)

/-- The run behind the C1 instance, evaluated as a whole call: it returns
`RPC_SUCCESS`, classifies one message and invokes VALIDATE and UNWRAP once
each. -/
theorem stale_replies_example :
    (clnt_vc_call stream_env Endian.big 3 sample_args
        (sample_state sample_stream)).result = some clnt_stat.RPC_SUCCESS ∧
      (clnt_vc_call stream_env Endian.big 3 sample_args
        (sample_state sample_stream)).state.trace.filter Ev.is_reply =
        [Ev.seterr_reply (sample_reply 4) clnt_stat.RPC_SUCCESS, Ev.validate true,
          Ev.unwrap true] := by
  decide

/-! ## The wait policy -/

theorem begin_attempt_settled (e : Endian) (s : State σ) :
    (begin_attempt e s).ct.settled = s.ct.settled := rfl

theorem attempt_settled (E : Env σ) (e : Endian) (a : call_args) (shipnow duplex : Bool)
    (fuel : Nat) (s : State σ) :
    (attempt E e a shipnow duplex fuel s).state.ct.settled = s.ct.settled := by
  have h := attempt_stable E e a shipnow duplex fuel s
  have h2 := congrArg Prod.snd h
  exact h2

/-- The retry structure leaves the settled fields, the wait policy among them,
as it found them. -/
theorem call_again_settled (E : Env σ) (e : Endian) (a : call_args) (shipnow duplex : Bool)
    (fuel n : Nat) (s : State σ) :
    (call_again E e a shipnow duplex fuel n s).state.ct.settled = s.ct.settled := by
  induction n generalizing s with
  | zero =>
    have h := attempt_settled E e a shipnow duplex fuel s
    cases hatt : attempt E e a shipnow duplex fuel s with
    | done r s1 =>
      rw [call_again_of_done E e a shipnow duplex fuel 0 s s1 r hatt]
      rw [hatt] at h
      exact h
    | out_of_fuel s1 =>
      rw [call_again_of_out_of_fuel E e a shipnow duplex fuel 0 s s1 hatt]
      rw [hatt] at h
      exact h
    | unsuccessful s1 =>
      rw [call_again_zero_of_unsuccessful E e a shipnow duplex fuel s s1 hatt]
      rw [hatt] at h
      exact h
  | succ n ih =>
    have h := attempt_settled E e a shipnow duplex fuel s
    cases hatt : attempt E e a shipnow duplex fuel s with
    | done r s1 =>
      rw [call_again_of_done E e a shipnow duplex fuel (n + 1) s s1 r hatt]
      rw [hatt] at h
      exact h
    | out_of_fuel s1 =>
      rw [call_again_of_out_of_fuel E e a shipnow duplex fuel (n + 1) s s1 hatt]
      rw [hatt] at h
      exact h
    | unsuccessful s1 =>
      rw [call_again_succ_of_unsuccessful E e a shipnow duplex fuel n s s1 hatt]
      rw [hatt] at h
      simp only [AttemptRes.state] at h
      split_ifs with hok
      · rw [ih]
        exact h
      · exact h

theorem call_exit_settled (b : Bool) (s : State σ) :
    (call_exit b s).ct.settled = s.ct.settled := by
  unfold call_exit cond_unblock_events_client
  split_ifs <;> rfl

/-- A call leaves the settled fields as its prologue (lock, pausing of events,
adoption of the timeout) produced them. -/
theorem clnt_vc_call_settled (E : Env σ) (e : Endian) (fuel : Nat) (a : call_args)
    (s : State σ) :
    (clnt_vc_call E e fuel a s).state.ct.settled = (call_entry a s).2.ct.settled := by
  have h := call_again_settled E e a (shipnow_of a) s.ct.CT_FLAG_DUPLEX fuel 2 (call_entry a s).2
  unfold clnt_vc_call
  dsimp only
  cases hc : call_again E e a (shipnow_of a) s.ct.CT_FLAG_DUPLEX fuel 2 (call_entry a s).2 with
  | out_of_fuel s4 =>
    rw [hc] at h
    exact h
  | done r s4 =>
    rw [hc] at h
    simp only [Outcome.state] at h ⊢
    rw [call_exit_settled]
    exact h

/-- The prologue of a call on a handle whose timeout was not set through
control stores a valid per-call timeout as the wait policy. -/
theorem call_entry_adopts (a : call_args) (s : State σ) (hset : s.ct.ct_waitset = false)
    (hok : time_not_ok a.timeout = false) :
    (call_entry a s).2.ct.ct_wait = a.timeout ∧ (call_entry a s).2.ct.ct_waitset = false := by
  unfold call_entry adopt_timeout cond_block_events_client
  dsimp only
  split_ifs <;> simp_all [State.log]

/-- The prologue of a call leaves the wait policy alone when the timeout was
set through control or the per-call timeout is rejected. -/
theorem call_entry_keeps (a : call_args) (s : State σ)
    (h : s.ct.ct_waitset = true ∨ time_not_ok a.timeout = true) :
    (call_entry a s).2.ct.settled = s.ct.settled := by
  unfold call_entry adopt_timeout cond_block_events_client
  dsimp only
  rcases h with h | h
  · split_ifs <;> simp_all [State.log, ct_data.settled, ct_data.stable]
  · split_ifs <;> simp_all [State.log, ct_data.settled, ct_data.stable]

theorem wait_of_settled (c1 c2 : ct_data) (h : c1.settled = c2.settled) :
    c1.ct_wait = c2.ct_wait ∧ c1.ct_waitset = c2.ct_waitset := by
  simp only [ct_data.settled, ct_data.stable, Prod.mk.injEq] at h
  exact ⟨h.2.1, h.2.2.1⟩

/-- `CLGET_TIMEOUT` returns TRUE and copies the stored wait timeout. -/
theorem clget_timeout (e : Endian) (s : State σ) (i : info_obj) :
    (clnt_vc_control e s clnt_req.CLGET_TIMEOUT (some i)).ret = true ∧
      (clnt_vc_control e s clnt_req.CLGET_TIMEOUT (some i)).info =
        some { i with as_timeval := s.ct.ct_wait } := by
  simp [clnt_vc_control, control_switch, State.log]

/-- C11 (as stated, at a concrete input): the sample handle stores a wait
timeout of 30 seconds that was never set through control; a call passing the
valid timeout of 25 seconds returns, and afterwards the stored wait timeout,
which `CLGET_TIMEOUT` returns, is 25 seconds and no longer 30. -/
theorem adopted_timeout_persists_example :
    (sample_state 0).ct.ct_waitset = false ∧
      (sample_state 0).ct.ct_wait = { tv_sec := 30, tv_usec := 0 } ∧
      time_not_ok sample_args.timeout = false ∧
      (clnt_vc_call (echo_env 0 0 0 true true) Endian.little 1 sample_args
        (sample_state 0)).result = some clnt_stat.RPC_SUCCESS ∧
      (clnt_vc_call (echo_env 0 0 0 true true) Endian.little 1 sample_args
        (sample_state 0)).state.ct.ct_wait = { tv_sec := 25, tv_usec := 0 } ∧
      (clnt_vc_call (echo_env 0 0 0 true true) Endian.little 1 sample_args
        (sample_state 0)).state.ct.ct_wait ≠ (sample_state 0).ct.ct_wait ∧
      (clnt_vc_control Endian.little
        (clnt_vc_call (echo_env 0 0 0 true true) Endian.little 1 sample_args
          (sample_state 0)).state clnt_req.CLGET_TIMEOUT
        (some (sample_info { tv_sec := 0, tv_usec := 0 } 0))).info =
        some (sample_info { tv_sec := 25, tv_usec := 0 } 0) := by
  decide

/-- C11 (amended): on a handle whose timeout was never set through control, a
call `a` passing a valid per-call timeout stores that timeout as the wait
policy and leaves it stored: in the state the call ends in, the stored wait
timeout is the per-call timeout, the timeout-explicitly-set flag is still
false, `CLGET_TIMEOUT` returns the per-call timeout, and a later call `a2`
passing a timeout the validity test rejects runs, from its prologue to its
end, with the timeout adopted by `a`. -/
theorem adopted_timeout_persists (E : Env σ) (e : Endian) (fuel fuel2 : Nat)
    (a a2 : call_args) (s : State σ) (i : info_obj)
    (hset : s.ct.ct_waitset = false) (hok : time_not_ok a.timeout = false)
    (hbad : time_not_ok a2.timeout = true) :
    (clnt_vc_call E e fuel a s).state.ct.ct_wait = a.timeout ∧
      (clnt_vc_call E e fuel a s).state.ct.ct_waitset = false ∧
      (clnt_vc_control e (clnt_vc_call E e fuel a s).state clnt_req.CLGET_TIMEOUT
        (some i)).ret = true ∧
      (clnt_vc_control e (clnt_vc_call E e fuel a s).state clnt_req.CLGET_TIMEOUT
        (some i)).info = some { i with as_timeval := a.timeout } ∧
      (call_entry a2 (clnt_vc_call E e fuel a s).state).2.ct.ct_wait = a.timeout ∧
      (clnt_vc_call E e fuel2 a2 (clnt_vc_call E e fuel a s).state).state.ct.ct_wait =
        a.timeout := by
  obtain ⟨h1, h2⟩ := wait_of_settled _ _ (clnt_vc_call_settled E e fuel a s)
  obtain ⟨h3, h4⟩ := call_entry_adopts a s hset hok
  have hw : (clnt_vc_call E e fuel a s).state.ct.ct_wait = a.timeout := h1.trans h3
  have hk := call_entry_keeps a2 (clnt_vc_call E e fuel a s).state (Or.inr hbad)
  obtain ⟨h5, _⟩ := wait_of_settled _ _ hk
  obtain ⟨h6, _⟩ := wait_of_settled _ _
    (clnt_vc_call_settled E e fuel2 a2 (clnt_vc_call E e fuel a s).state)
  refine ⟨hw, h2.trans h4, (clget_timeout e _ i).1, ?_, h5.trans hw, (h6.trans h5).trans hw⟩
  rw [(clget_timeout e _ i).2, hw]

/-- C11 (amended) on the sample handle: a call with a 25 second timeout,
followed by a call whose timeout has `tv_sec = -1`. -/
theorem adopted_timeout_persists_witness :
    (clnt_vc_call (echo_env 0 0 0 true true) Endian.little 1 sample_args
        (sample_state 0)).state.ct.ct_wait = sample_args.timeout ∧
      (clnt_vc_call (echo_env 0 0 0 true true) Endian.little 1 sample_args
        (sample_state 0)).state.ct.ct_waitset = false ∧
      (clnt_vc_control Endian.little
        (clnt_vc_call (echo_env 0 0 0 true true) Endian.little 1 sample_args
          (sample_state 0)).state clnt_req.CLGET_TIMEOUT
        (some (sample_info { tv_sec := 0, tv_usec := 0 } 0))).ret = true ∧
      (clnt_vc_control Endian.little
        (clnt_vc_call (echo_env 0 0 0 true true) Endian.little 1 sample_args
          (sample_state 0)).state clnt_req.CLGET_TIMEOUT
        (some (sample_info { tv_sec := 0, tv_usec := 0 } 0))).info =
        some { sample_info { tv_sec := 0, tv_usec := 0 } 0 with
          as_timeval := sample_args.timeout } ∧
      (call_entry invalid_timeout_args
        (clnt_vc_call (echo_env 0 0 0 true true) Endian.little 1 sample_args
          (sample_state 0)).state).2.ct.ct_wait = sample_args.timeout ∧
      (clnt_vc_call (echo_env 0 0 0 true true) Endian.little 1 invalid_timeout_args
        (clnt_vc_call (echo_env 0 0 0 true true) Endian.little 1 sample_args
          (sample_state 0)).state).state.ct.ct_wait = sample_args.timeout :=
  adopted_timeout_persists (echo_env 0 0 0 true true) Endian.little 1 1 sample_args
    invalid_timeout_args (sample_state 0) (sample_info { tv_sec := 0, tv_usec := 0 } 0)
    (by decide) (by decide) (by decide)

/-- A sequence of calls on a handle whose timeout was set through control
leaves the settled fields as it found them. -/
theorem run_calls_settled (E : Env σ) (e : Endian) (calls : List (Nat × call_args))
    (s : State σ) (hset : s.ct.ct_waitset = true) :
    (run_calls E e calls s).ct.settled = s.ct.settled := by
  induction calls generalizing s with
  | nil => rfl
  | cons c rest ih =>
    have h1 := clnt_vc_call_settled E e c.1 c.2 s
    have h2 := call_entry_keeps c.2 s (Or.inl hset)
    have h3 : (clnt_vc_call E e c.1 c.2 s).state.ct.settled = s.ct.settled := h1.trans h2
    have hset2 : (clnt_vc_call E e c.1 c.2 s).state.ct.ct_waitset = true :=
      (wait_of_settled _ _ h3).2.trans hset
    show (run_calls E e rest (clnt_vc_call E e c.1 c.2 s).state).ct.settled = _
    rw [ih _ hset2]
    exact h3

/-- C12: for a timeval `t` the validity test accepts, `CLSET_TIMEOUT` returns
TRUE, `CLGET_TIMEOUT` right after it returns `t`, and after any sequence of
later calls, whatever their fuel, arguments and per-call timeouts,
`CLGET_TIMEOUT` still returns `t` and the timeout-explicitly-set flag is still
set: the control-set timeout shadows every per-call timeout. -/
theorem control_timeout_shadows (E : Env σ) (e : Endian) (s : State σ) (i j : info_obj)
    (calls : List (Nat × call_args)) (hok : time_not_ok i.as_timeval = false) :
    (clnt_vc_control e s clnt_req.CLSET_TIMEOUT (some i)).ret = true ∧
      (clnt_vc_control e (clnt_vc_control e s clnt_req.CLSET_TIMEOUT (some i)).s
        clnt_req.CLGET_TIMEOUT (some j)).info = some { j with as_timeval := i.as_timeval } ∧
      (clnt_vc_control e
        (run_calls E e calls (clnt_vc_control e s clnt_req.CLSET_TIMEOUT (some i)).s)
        clnt_req.CLGET_TIMEOUT (some j)).ret = true ∧
      (clnt_vc_control e
        (run_calls E e calls (clnt_vc_control e s clnt_req.CLSET_TIMEOUT (some i)).s)
        clnt_req.CLGET_TIMEOUT (some j)).info = some { j with as_timeval := i.as_timeval } ∧
      (run_calls E e calls
        (clnt_vc_control e s clnt_req.CLSET_TIMEOUT (some i)).s).ct.ct_waitset = true := by
  have hset : (clnt_vc_control e s clnt_req.CLSET_TIMEOUT (some i)).s.ct.ct_waitset = true := by
    simp [clnt_vc_control, control_switch, State.log, hok]
  have hwait : (clnt_vc_control e s clnt_req.CLSET_TIMEOUT (some i)).s.ct.ct_wait =
      i.as_timeval := by
    simp [clnt_vc_control, control_switch, State.log, hok]
  obtain ⟨h1, h2⟩ := wait_of_settled _ _ (run_calls_settled E e calls _ hset)
  refine ⟨?_, ?_, (clget_timeout e _ j).1, ?_, h2.trans hset⟩
  · simp [clnt_vc_control, control_switch, State.log, hok]
  · rw [(clget_timeout e _ j).2, hwait]
  · rw [(clget_timeout e _ j).2, h1, hwait]

/-- C12 on the sample handle: `CLSET_TIMEOUT` of 5 seconds, then a call with a
25 second timeout, a batched call and a call with a zero timeout. -/
theorem control_timeout_shadows_witness :
    (clnt_vc_control Endian.little (sample_state 0) clnt_req.CLSET_TIMEOUT
        (some (sample_info { tv_sec := 5, tv_usec := 0 } 0))).ret = true ∧
      (clnt_vc_control Endian.little
        (clnt_vc_control Endian.little (sample_state 0) clnt_req.CLSET_TIMEOUT
          (some (sample_info { tv_sec := 5, tv_usec := 0 } 0))).s
        clnt_req.CLGET_TIMEOUT (some (sample_info { tv_sec := 0, tv_usec := 0 } 0))).info =
        some { sample_info { tv_sec := 0, tv_usec := 0 } 0 with
          as_timeval := (sample_info { tv_sec := 5, tv_usec := 0 } 0).as_timeval } ∧
      (clnt_vc_control Endian.little
        (run_calls (echo_env 0 0 0 true true) Endian.little
          [(1, sample_args), (1, batched_args), (1, poll_args)]
          (clnt_vc_control Endian.little (sample_state 0) clnt_req.CLSET_TIMEOUT
            (some (sample_info { tv_sec := 5, tv_usec := 0 } 0))).s)
        clnt_req.CLGET_TIMEOUT (some (sample_info { tv_sec := 0, tv_usec := 0 } 0))).ret = true ∧
      (clnt_vc_control Endian.little
        (run_calls (echo_env 0 0 0 true true) Endian.little
          [(1, sample_args), (1, batched_args), (1, poll_args)]
          (clnt_vc_control Endian.little (sample_state 0) clnt_req.CLSET_TIMEOUT
            (some (sample_info { tv_sec := 5, tv_usec := 0 } 0))).s)
        clnt_req.CLGET_TIMEOUT (some (sample_info { tv_sec := 0, tv_usec := 0 } 0))).info =
        some { sample_info { tv_sec := 0, tv_usec := 0 } 0 with
          as_timeval := (sample_info { tv_sec := 5, tv_usec := 0 } 0).as_timeval } ∧
      (run_calls (echo_env 0 0 0 true true) Endian.little
        [(1, sample_args), (1, batched_args), (1, poll_args)]
        (clnt_vc_control Endian.little (sample_state 0) clnt_req.CLSET_TIMEOUT
          (some (sample_info { tv_sec := 5, tv_usec := 0 } 0))).s).ct.ct_waitset = true :=
  control_timeout_shadows (echo_env 0 0 0 true true) Endian.little (sample_state 0)
    (sample_info { tv_sec := 5, tv_usec := 0 } 0) (sample_info { tv_sec := 0, tv_usec := 0 } 0)
    [(1, sample_args), (1, batched_args), (1, poll_args)] (by decide)

/-! ## The returned status and the recorded status -/

theorem op_status (s : State σ) (r : OpRes σ) (ev : Ev) :
    (s.op r ev).status = r.err.re_status := rfl

theorem op_re_status (s : State σ) (r : OpRes σ) (ev : Ev) :
    (s.op r ev).ct.ct_error.re_status = r.err.re_status := rfl

theorem op_msg_status (s : State σ) (r : MsgRes σ) (ev : Ev) :
    (s.op_msg r ev).status = r.err.re_status := rfl

theorem encode_call_status_of_ok (E : Env σ) (H : StatusOnlyOnFailure E) (a : call_args)
    (s : State σ) (hok : (encode_call E a s).1 = true) :
    (encode_call E a s).2.status = s.status := by
  unfold encode_call at hok ⊢
  dsimp only at hok ⊢
  split_ifs at hok ⊢ with h1 h2 h3
  simp only [Bool.not_eq_true, Bool.not_eq_false'] at h1 h2 h3
  rw [op_status, H.wrap _ _ _ _ hok, op_re_status, H.marshall _ _ h3, op_re_status,
    H.putint32 _ _ _ h2, op_re_status, H.putbytes _ _ _ h1]
  rfl

theorem recv_body_ret_status (E : Env σ) (x_id : Nat) (duplex : Bool) (s s1 : State σ)
    (r : clnt_stat) (h : recv_body E x_id duplex s = Step.ret r s1) : s1.status = r := by
  unfold recv_body at h
  dsimp only at h
  split_ifs at h <;> injection h with h1 h2 <;> subst h2 <;> exact h1

theorem recv_loop_ret_status (E : Env σ) (x_id : Nat) (duplex : Bool) (fuel : Nat)
    (s s1 : State σ) (r : clnt_stat) (h : recv_loop E x_id duplex fuel s = RecvRes.ret r s1) :
    s1.status = r := by
  induction fuel generalizing s with
  | zero => simp [recv_loop] at h
  | succ n ih =>
    unfold recv_loop at h
    cases hstep : recv_body E x_id duplex s with
    | next s2 =>
      rw [hstep] at h
      exact ih s2 h
    | replied s2 =>
      rw [hstep] at h
      simp at h
    | ret r2 s2 =>
      rw [hstep] at h
      injection h with h1 h2
      subst h1
      subst h2
      exact recv_body_ret_status E x_id duplex s s2 r2 hstep

theorem receive_reply_done_status (E : Env σ) (a : call_args) (x_id : Nat) (duplex : Bool)
    (fuel : Nat) (s s1 : State σ) (r : clnt_stat)
    (h : receive_reply E a x_id duplex fuel s = AttemptRes.done r s1) : s1.status = r := by
  unfold receive_reply at h
  cases hr : recv_loop E x_id duplex fuel (s.set_x_op xdr_op.XDR_DECODE) with
  | out_of_fuel s3 =>
    rw [hr] at h
    simp at h
  | ret r3 s3 =>
    rw [hr] at h
    injection h with h1 h2
    subst h1
    subst h2
    exact recv_loop_ret_status E x_id duplex fuel _ s3 r3 hr
  | replied s3 =>
    rw [hr] at h
    dsimp only at h
    cases hp : process_reply E a s3 with
    | completed s4 =>
      rw [hp] at h
      simp only [reply_outcome] at h
      injection h with h1 h2
      subst h2
      exact h1
    | unsuccessful s4 =>
      rw [hp] at h
      simp [reply_outcome] at h

/-- Under the proviso, the status an attempt returns is the status it leaves
recorded. -/
theorem attempt_done_status (E : Env σ) (H : StatusOnlyOnFailure E) (e : Endian)
    (a : call_args) (shipnow duplex : Bool) (fuel : Nat) (s s1 : State σ) (r : clnt_stat)
    (h : attempt E e a shipnow duplex fuel s = AttemptRes.done r s1) : s1.status = r := by
  unfold attempt at h
  dsimp only at h
  split_ifs at h with h1 h2 h3 h4 h5
  · injection h with h1 h2
    subst h2
    exact h1
  · injection h with h1 h2
    subst h2
    exact h1
  · injection h with h1 h2
    subst h2
    subst h1
    rfl
  · injection h with hr hs
    subst hs
    subst hr
    simp only [Bool.not_eq_true, Bool.not_eq_false'] at h1 h3
    have he := encode_call_status_of_ok E H a (begin_attempt e s) h1
    simp only [State.status, State.op] at he ⊢
    rw [H.endofrecord _ _ _ h3, he]
    rfl
  · injection h with h1 h2
    subst h2
    subst h1
    rfl
  · exact receive_reply_done_status E a _ duplex fuel _ s1 r h

theorem call_again_done_status (E : Env σ) (H : StatusOnlyOnFailure E) (e : Endian)
    (a : call_args) (shipnow duplex : Bool) (fuel n : Nat) (s s1 : State σ) (r : clnt_stat)
    (h : call_again E e a shipnow duplex fuel n s = Outcome.done r s1) : s1.status = r := by
  induction n generalizing s with
  | zero =>
    cases ha : attempt E e a shipnow duplex fuel s with
    | done r2 s2 =>
      rw [call_again_of_done E e a shipnow duplex fuel 0 s s2 r2 ha] at h
      injection h with h1 h2
      subst h1
      subst h2
      exact attempt_done_status E H e a shipnow duplex fuel s s2 r2 ha
    | out_of_fuel s2 =>
      rw [call_again_of_out_of_fuel E e a shipnow duplex fuel 0 s s2 ha] at h
      simp at h
    | unsuccessful s2 =>
      rw [call_again_zero_of_unsuccessful E e a shipnow duplex fuel s s2 ha] at h
      injection h with h1 h2
      subst h2
      exact h1
  | succ n ih =>
    cases ha : attempt E e a shipnow duplex fuel s with
    | done r2 s2 =>
      rw [call_again_of_done E e a shipnow duplex fuel (n + 1) s s2 r2 ha] at h
      injection h with h1 h2
      subst h1
      subst h2
      exact attempt_done_status E H e a shipnow duplex fuel s s2 r2 ha
    | out_of_fuel s2 =>
      rw [call_again_of_out_of_fuel E e a shipnow duplex fuel (n + 1) s s2 ha] at h
      simp at h
    | unsuccessful s2 =>
      rw [call_again_succ_of_unsuccessful E e a shipnow duplex fuel n s s2 ha] at h
      split_ifs at h with hr
      · exact ih _ h
      · injection h with h1 h2
        subst h2
        exact h1

theorem stream_env_status_only_on_failure : StatusOnlyOnFailure stream_env :=
  { putbytes := fun _ _ _ _ => rfl
    putint32 := fun _ _ _ _ => rfl
    marshall := fun _ _ _ => rfl
    wrap := fun _ _ _ _ _ => rfl
    endofrecord := fun _ _ _ _ => rfl
    skiprecord := fun w err h => by
      cases w with
      | nil => simp [stream_env] at h
      | cons x rest => rfl
    dplx_msg := fun m w err h => by
      cases w with
      | nil => rfl
      | cons x rest => cases x <;> rfl
    validate := fun _ _ _ _ => rfl
    unwrap := fun _ _ _ _ _ => rfl
    refresh := fun _ _ _ _ => rfl }

theorem echo_env_status_only_on_failure (rp ar rj : Nat) (validate_ok refresh_ok : Bool) :
    StatusOnlyOnFailure (echo_env rp ar rj validate_ok refresh_ok) :=
  { putbytes := fun _ _ _ _ => rfl
    putint32 := fun _ _ _ _ => rfl
    marshall := fun _ _ _ => rfl
    wrap := fun _ _ _ _ _ => rfl
    endofrecord := fun _ _ _ _ => rfl
    skiprecord := fun _ _ _ => rfl
    dplx_msg := fun _ _ _ _ => rfl
    validate := fun _ _ _ _ => rfl
    unwrap := fun _ _ _ _ _ => rfl
    refresh := fun _ _ _ _ => rfl }

/-- C13: for every call of `clnt_vc_call` that returns, provided the
record-stream and auth collaborators change the error status only in operations
that report failure, the status `clnt_vc_geterr` reads from the state the call
left equals the status the call returned.  The statement ranges over every
returned status and final state, hence over every exit path. -/
theorem geterr_reads_returned_status (E : Env σ) (H : StatusOnlyOnFailure E) (e : Endian)
    (fuel : Nat) (a : call_args) (s : State σ) (r : clnt_stat)
    (h : (clnt_vc_call E e fuel a s).result = some r) :
    (clnt_vc_geterr (clnt_vc_call E e fuel a s).state).re_status = r := by
  unfold clnt_vc_call at h ⊢
  dsimp only at h ⊢
  cases hc : call_again E e a (shipnow_of a) s.ct.CT_FLAG_DUPLEX fuel 2 (call_entry a s).2 with
  | out_of_fuel s4 =>
    rw [hc] at h
    simp [Outcome.result] at h
  | done r4 s4 =>
    rw [hc] at h
    simp only [Outcome.result, Option.some.injEq] at h
    subst h
    simp only [Outcome.state]
    have hst := call_again_done_status E H e a (shipnow_of a) s.ct.CT_FLAG_DUPLEX fuel 2
      (call_entry a s).2 s4 r4 hc
    unfold clnt_vc_geterr
    rw [call_exit_error]
    exact hst

/-- A call on an exhausted stream: the receive loop fails, the call returns
`RPC_TIMEDOUT` and `clnt_vc_geterr` reads `RPC_TIMEDOUT`. -/
theorem geterr_reads_returned_status_witness :
    (clnt_vc_call stream_env Endian.little 3 sample_args (sample_state [])).result =
        some clnt_stat.RPC_TIMEDOUT ∧
      (clnt_vc_geterr
        (clnt_vc_call stream_env Endian.little 3 sample_args (sample_state [])).state).re_status =
        clnt_stat.RPC_TIMEDOUT :=
  ⟨by decide, geterr_reads_returned_status stream_env stream_env_status_only_on_failure
    Endian.little 3 sample_args (sample_state []) clnt_stat.RPC_TIMEDOUT (by decide)⟩

/-! ## The per-fd lock -/

theorem bracket_false_of_encode_tail (ev : Ev) (h : ev.is_encode_tail = true) :
    ev.is_bracket = false := by
  cases ev <;> simp_all [Ev.is_encode_tail, Ev.is_bracket]

theorem bracket_false_of_inbound (ev : Ev) (h : ev.is_inbound = true) :
    ev.is_bracket = false := by
  cases ev <;> simp_all [Ev.is_inbound, Ev.is_receive, Ev.is_reply, Ev.is_bracket]

/-- One attempt adds no lock, unlock, pause or resume event. -/
theorem attempt_adds_inner (E : Env σ) (e : Endian) (a : call_args) (shipnow duplex : Bool)
    (fuel : Nat) (s : State σ) :
    Adds (fun ev => ev.is_bracket = false) s (attempt E e a shipnow duplex fuel s).state := by
  obtain ⟨l1, flush, ok, l2, ht, p1, _, p2f⟩ := attempt_trace E e a shipnow duplex fuel s
  refine ⟨_, ht, ?_⟩
  intro ev hev
  simp only [List.mem_cons, List.mem_append] at hev
  rcases hev with (h | h) | h | h
  · subst h
    rfl
  · exact bracket_false_of_encode_tail ev (p1 ev h)
  · subst h
    rfl
  · exact bracket_false_of_inbound ev (p2f ev h).1

/-- The retry structure adds no lock, unlock, pause or resume event. -/
theorem call_again_adds_inner (E : Env σ) (e : Endian) (a : call_args) (shipnow duplex : Bool)
    (fuel n : Nat) (s : State σ) :
    Adds (fun ev => ev.is_bracket = false) s
      (call_again E e a shipnow duplex fuel n s).state := by
  induction n generalizing s with
  | zero =>
    have h := attempt_adds_inner E e a shipnow duplex fuel s
    cases hatt : attempt E e a shipnow duplex fuel s with
    | done r s1 =>
      rw [call_again_of_done E e a shipnow duplex fuel 0 s s1 r hatt]
      rw [hatt] at h
      exact h
    | out_of_fuel s1 =>
      rw [call_again_of_out_of_fuel E e a shipnow duplex fuel 0 s s1 hatt]
      rw [hatt] at h
      exact h
    | unsuccessful s1 =>
      rw [call_again_zero_of_unsuccessful E e a shipnow duplex fuel s s1 hatt]
      rw [hatt] at h
      exact h
  | succ n ih =>
    have h := attempt_adds_inner E e a shipnow duplex fuel s
    cases hatt : attempt E e a shipnow duplex fuel s with
    | done r s1 =>
      rw [call_again_of_done E e a shipnow duplex fuel (n + 1) s s1 r hatt]
      rw [hatt] at h
      exact h
    | out_of_fuel s1 =>
      rw [call_again_of_out_of_fuel E e a shipnow duplex fuel (n + 1) s s1 hatt]
      rw [hatt] at h
      exact h
    | unsuccessful s1 =>
      rw [call_again_succ_of_unsuccessful E e a shipnow duplex fuel n s s1 hatt]
      rw [hatt] at h
      have hr : Adds (fun ev => ev.is_bracket = false) s1
          (s1.op_msg (E.AUTH_REFRESH s1.msg s1.w s1.ct.ct_error)
            (Ev.refresh (E.AUTH_REFRESH s1.msg s1.w s1.ct.ct_error).ok)) :=
        Adds.one _ rfl rfl
      split_ifs with hok
      · exact (h.trans hr).trans (ih _)
      · exact h.trans hr

/-- The entry of a call logs the lock and then, exactly when it pauses event
processing, the pause. -/
theorem call_entry_trace (a : call_args) (s : State σ) :
    (call_entry a s).2.trace =
      s.trace ++ Ev.vc_fd_lock :: (if (call_entry a s).1 then [Ev.block_events] else []) := by
  unfold call_entry adopt_timeout cond_block_events_client
  dsimp only
  split_ifs <;> simp_all [State.log]

/-- The flag `ev_blocked`: the handle is duplex and its events-blocked flag was
clear. -/
theorem call_entry_flag (a : call_args) (s : State σ) :
    (call_entry a s).1 = (s.ct.CT_FLAG_DUPLEX && !s.ct.CT_FLAG_EVENTS_BLOCKED) := by
  unfold call_entry cond_block_events_client
  dsimp only
  split_ifs with h
  · simpa [State.log] using h.symm
  · simp only [State.log] at h
    simp only [Bool.not_eq_true] at h
    exact h.symm

/-- The exit of a call logs the resumption, if it resumes, and then the
unlock. -/
theorem call_exit_trace (b : Bool) (s : State σ) :
    (call_exit b s).trace =
      s.trace ++ (if (b && s.ct.CT_FLAG_EVENTS_BLOCKED) = true then [Ev.unblock_events] else [])
        ++ [Ev.vc_fd_unlock] := by
  unfold call_exit cond_unblock_events_client
  split_ifs <;> simp_all [State.log]

theorem recv_loop_of_is_replied (E : Env σ) (x_id : Nat) (duplex : Bool) (fuel : Nat)
    (s : State σ) (h : (recv_loop E x_id duplex fuel s).is_replied = true) :
    recv_loop E x_id duplex fuel s = RecvRes.replied (recv_loop E x_id duplex fuel s).state := by
  cases hr : recv_loop E x_id duplex fuel s with
  | replied s1 => rfl
  | ret r s1 =>
    rw [hr] at h
    simp [RecvRes.is_replied] at h
  | out_of_fuel s1 =>
    rw [hr] at h
    simp [RecvRes.is_replied] at h

/-- Reply processing of a reply classified as success: it completes (the
refresh decision is not reached) and the three cases of validation and
unwrapping leave the statuses and events listed. -/
theorem process_reply_classified_success (E : Env σ) (a : call_args) (s : State σ)
    (h : (E._seterr_reply s.msg s.ct.ct_error).re_status = clnt_stat.RPC_SUCCESS) :
    process_reply E a s = ReplyRes.completed (process_reply E a s).state ∧
    (∃ l : List Ev,
      (process_reply E a s).state.trace =
        s.trace ++ Ev.seterr_reply s.msg clnt_stat.RPC_SUCCESS :: l ∧
      (∀ ev ∈ l, ev.is_verify = true) ∧
      ((validate_result E s).ok = false → l.filter Ev.is_milestone = [Ev.validate false]) ∧
      ((validate_result E s).ok = true → (unwrap_result E a s).ok = false →
        l.filter Ev.is_milestone = [Ev.validate true, Ev.unwrap false]) ∧
      ((validate_result E s).ok = true → (unwrap_result E a s).ok = true →
        l.filter Ev.is_milestone = [Ev.validate true, Ev.unwrap true])) ∧
    ((validate_result E s).ok = false →
      (process_reply E a s).state.status = clnt_stat.RPC_AUTHERROR ∧
      (process_reply E a s).state.ct.ct_error.re_why = auth_stat.AUTH_INVALIDRESP) ∧
    ((validate_result E s).ok = true → (unwrap_result E a s).ok = false →
      (process_reply E a s).state.status =
        if (unwrap_result E a s).err.re_status = clnt_stat.RPC_SUCCESS then
          clnt_stat.RPC_CANTDECODERES
        else (unwrap_result E a s).err.re_status) ∧
    ((validate_result E s).ok = true → (unwrap_result E a s).ok = true →
      (process_reply E a s).state.status = (unwrap_result E a s).err.re_status) := by
  unfold process_reply unwrap_result validate_result
  simp only [State.status, State.op, State.set_status, State.set_x_op, h, if_true]
  cases hv : (E.AUTH_VALIDATE s.msg.ar_verf s.w (E._seterr_reply s.msg s.ct.ct_error)).ok
  · by_cases hb : s.msg.ar_verf.oa_base = none
    · refine ⟨?_, ⟨[Ev.validate false], ?_⟩, ?_⟩ <;>
        simp [hb, ReplyRes.state, Ev.is_verify, Ev.is_milestone]
    · refine ⟨?_, ⟨[Ev.validate false, Ev.free_verf], ?_⟩, ?_⟩ <;>
        simp [hb, ReplyRes.state, Ev.is_verify, Ev.is_milestone]
  · cases hu : (E.AUTH_UNWRAP a.xdr_results a.results_ptr
        (E.AUTH_VALIDATE s.msg.ar_verf s.w (E._seterr_reply s.msg s.ct.ct_error)).w
        (E.AUTH_VALIDATE s.msg.ar_verf s.w (E._seterr_reply s.msg s.ct.ct_error)).err).ok
    · by_cases hst : (E.AUTH_UNWRAP a.xdr_results a.results_ptr
          (E.AUTH_VALIDATE s.msg.ar_verf s.w (E._seterr_reply s.msg s.ct.ct_error)).w
          (E.AUTH_VALIDATE s.msg.ar_verf s.w (E._seterr_reply s.msg s.ct.ct_error)).err
          ).err.re_status = clnt_stat.RPC_SUCCESS <;>
        by_cases hb : s.msg.ar_verf.oa_base = none
      · refine ⟨?_, ⟨[Ev.validate true, Ev.unwrap false], ?_⟩, ?_⟩ <;>
          simp [hb, hu, hst, ReplyRes.state, Ev.is_verify, Ev.is_milestone]
      · refine ⟨?_, ⟨[Ev.validate true, Ev.unwrap false, Ev.free_verf], ?_⟩, ?_⟩ <;>
          simp [hb, hu, hst, ReplyRes.state, Ev.is_verify, Ev.is_milestone]
      · refine ⟨?_, ⟨[Ev.validate true, Ev.unwrap false], ?_⟩, ?_⟩ <;>
          simp [hb, hu, hst, ReplyRes.state, Ev.is_verify, Ev.is_milestone]
      · refine ⟨?_, ⟨[Ev.validate true, Ev.unwrap false, Ev.free_verf], ?_⟩, ?_⟩ <;>
          simp [hb, hu, hst, ReplyRes.state, Ev.is_verify, Ev.is_milestone]
    · by_cases hb : s.msg.ar_verf.oa_base = none
      · refine ⟨?_, ⟨[Ev.validate true, Ev.unwrap true], ?_⟩, ?_⟩ <;>
          simp [hb, hu, ReplyRes.state, Ev.is_verify, Ev.is_milestone]
      · refine ⟨?_, ⟨[Ev.validate true, Ev.unwrap true, Ev.free_verf], ?_⟩, ?_⟩ <;>
          simp [hb, hu, ReplyRes.state, Ev.is_verify, Ev.is_milestone]

/-- An attempt whose send succeeded and whose receive loop found the reply
ends as reply processing of that reply ends. -/
theorem attempt_of_is_replied (E : Env σ) (e : Endian) (a : call_args) (duplex : Bool)
    (fuel : Nat) (s : State σ)
    (henc : (encode_call E a (begin_attempt e s)).1 = true)
    (hflush : (E.xdrrec_endofrecord true (encode_call E a (begin_attempt e s)).2.w
      (encode_call E a (begin_attempt e s)).2.ct.ct_error).ok = true)
    (htime : ¬ (a.timeout.tv_sec = 0 ∧ a.timeout.tv_usec = 0))
    (hrecv : (recv_loop E (attempt_x_id e s) duplex fuel (loop_start E e a s)).is_replied = true) :
    attempt E e a true duplex fuel s =
      reply_outcome (process_reply E a (replied_state E e a duplex fuel s)) := by
  rw [attempt_awaits E e a duplex fuel s henc hflush htime]
  have hloop := recv_loop_of_is_replied E (attempt_x_id e s) duplex fuel (loop_start E e a s) hrecv
  unfold receive_reply
  change (match recv_loop E (attempt_x_id e s) duplex fuel (loop_start E e a s) with
    | RecvRes.out_of_fuel s3 => AttemptRes.out_of_fuel s3
    | RecvRes.ret r3 s3 => AttemptRes.done r3 s3
    | RecvRes.replied s3 => reply_outcome (process_reply E a s3)) = _
  rw [hloop]
  rfl

/-- C15: take an attempt of a call that waits for its reply, whose send
succeeded and whose receive loop found the reply (a REPLY carrying the
transaction id just sent), and let `_seterr_reply` classify that reply as
success.  Then the run from the label `call_again`, with any number `n` of
refreshes left, returns the status left in the error record, and no refresh is
invoked in it.  If `AUTH_VALIDATE` rejects the verifier, `RPC_AUTHERROR` with
sub-reason `AUTH_INVALIDRESP` is returned and `AUTH_UNWRAP` is not invoked.  If
`AUTH_VALIDATE` accepts and `AUTH_UNWRAP` fails, `RPC_CANTDECODERES` is
returned unless the failed `AUTH_UNWRAP` left a non-success status, which is
then returned.  If both succeed, the status that `AUTH_UNWRAP` left is
returned, which is `RPC_SUCCESS` when a successful `AUTH_VALIDATE` and a
successful `AUTH_UNWRAP` leave the status as they found it.  In the first
attempt of a call this is what `clnt_vc_call` returns. -/
theorem classified_success_reply_outcomes (E : Env σ) (e : Endian) (a : call_args)
    (duplex : Bool) (fuel n : Nat) (s : State σ)
    (henc : (encode_call E a (begin_attempt e s)).1 = true)
    (hflush : (E.xdrrec_endofrecord true (encode_call E a (begin_attempt e s)).2.w
      (encode_call E a (begin_attempt e s)).2.ct.ct_error).ok = true)
    (htime : ¬ (a.timeout.tv_sec = 0 ∧ a.timeout.tv_usec = 0))
    (hrecv : (recv_loop E (attempt_x_id e s) duplex fuel (loop_start E e a s)).is_replied = true)
    (hclass : (E._seterr_reply (replied_state E e a duplex fuel s).msg
      (replied_state E e a duplex fuel s).ct.ct_error).re_status = clnt_stat.RPC_SUCCESS) :
    ((replied_state E e a duplex fuel s).msg.rm_direction = REPLY ∧
      (replied_state E e a duplex fuel s).msg.rm_xid = attempt_x_id e s) ∧
    (call_again E e a true duplex fuel n s).result =
      some (call_again E e a true duplex fuel n s).state.status ∧
    (∃ l : List Ev,
      (call_again E e a true duplex fuel n s).state.trace =
        (replied_state E e a duplex fuel s).trace ++
          Ev.seterr_reply (replied_state E e a duplex fuel s).msg clnt_stat.RPC_SUCCESS :: l ∧
      (∀ ev ∈ l, ev.is_verify = true) ∧
      ((validate_result E (replied_state E e a duplex fuel s)).ok = false →
        l.filter Ev.is_milestone = [Ev.validate false]) ∧
      ((validate_result E (replied_state E e a duplex fuel s)).ok = true →
        (unwrap_result E a (replied_state E e a duplex fuel s)).ok = false →
        l.filter Ev.is_milestone = [Ev.validate true, Ev.unwrap false]) ∧
      ((validate_result E (replied_state E e a duplex fuel s)).ok = true →
        (unwrap_result E a (replied_state E e a duplex fuel s)).ok = true →
        l.filter Ev.is_milestone = [Ev.validate true, Ev.unwrap true])) ∧
    (∃ l0 : List Ev,
      (call_again E e a true duplex fuel n s).state.trace = s.trace ++ l0 ∧
      l0.countP Ev.is_refresh = 0) ∧
    ((validate_result E (replied_state E e a duplex fuel s)).ok = false →
      (call_again E e a true duplex fuel n s).result = some clnt_stat.RPC_AUTHERROR ∧
      (call_again E e a true duplex fuel n s).state.ct.ct_error.re_why =
        auth_stat.AUTH_INVALIDRESP) ∧
    ((validate_result E (replied_state E e a duplex fuel s)).ok = true →
      (unwrap_result E a (replied_state E e a duplex fuel s)).ok = false →
      (call_again E e a true duplex fuel n s).result =
        some (if (unwrap_result E a (replied_state E e a duplex fuel s)).err.re_status =
            clnt_stat.RPC_SUCCESS then clnt_stat.RPC_CANTDECODERES
          else (unwrap_result E a (replied_state E e a duplex fuel s)).err.re_status)) ∧
    ((validate_result E (replied_state E e a duplex fuel s)).ok = true →
      (unwrap_result E a (replied_state E e a duplex fuel s)).ok = true →
      (call_again E e a true duplex fuel n s).result =
        some (unwrap_result E a (replied_state E e a duplex fuel s)).err.re_status ∧
      ((∀ v w err, (E.AUTH_VALIDATE v w err).ok = true →
          (E.AUTH_VALIDATE v w err).err.re_status = err.re_status) →
        (∀ x p w err, (E.AUTH_UNWRAP x p w err).ok = true →
          (E.AUTH_UNWRAP x p w err).err.re_status = err.re_status) →
        (call_again E e a true duplex fuel n s).result = some clnt_stat.RPC_SUCCESS)) ∧
    (∀ s0 : State σ, (call_entry a s0).2 = s → s0.ct.CT_FLAG_DUPLEX = duplex → n = 2 →
      (clnt_vc_call E e fuel a s0).result = (call_again E e a true duplex fuel n s).result) := by
  have hatt := attempt_of_is_replied E e a duplex fuel s henc hflush htime hrecv
  have hloop := recv_loop_of_is_replied E (attempt_x_id e s) duplex fuel (loop_start E e a s) hrecv
  obtain ⟨hp, ⟨l, htr, hver, f1, f2, f3⟩, c1, c2, c3⟩ :=
    process_reply_classified_success E a (replied_state E e a duplex fuel s) hclass
  have hatt2 : attempt E e a true duplex fuel s =
      AttemptRes.done (process_reply E a (replied_state E e a duplex fuel s)).state.status
        (process_reply E a (replied_state E e a duplex fuel s)).state := by
    rw [hatt]
    generalize process_reply E a (replied_state E e a duplex fuel s) = p at hp ⊢
    rw [hp]
    rfl
  have hcall := call_again_of_done E e a true duplex fuel n s _ _ hatt2
  obtain ⟨l0, ht0, _, _, cr, _⟩ := attempt_counts E e a true duplex fuel s
  rw [hatt2] at ht0
  rw [hcall]
  simp only [Outcome.result, Outcome.state]
  refine ⟨recv_loop_replied E _ duplex fuel _ _ hloop, trivial, ⟨l, htr, hver, f1, f2, f3⟩,
    ⟨l0, ht0, cr⟩, ?_, ?_, ?_, ?_⟩
  · intro h1
    exact ⟨congrArg some (c1 h1).1, (c1 h1).2⟩
  · intro h1 h2
    exact congrArg some (c2 h1 h2)
  · intro h1 h2
    refine ⟨congrArg some (c3 h1 h2), ?_⟩
    intro hv hu
    rw [c3 h1 h2]
    unfold validate_result at h1
    unfold unwrap_result validate_result at h2 ⊢
    rw [hu _ _ _ _ h2, hv _ _ _ h1, hclass]
  · intro s0 hs0 hd hn
    subst hs0
    subst hd
    subst hn
    unfold clnt_vc_call
    dsimp only
    rw [shipnow_of_nonzero_timeout a htime, hcall]

/-- An accepted, successful reply whose results do not decode: the run returns
`RPC_CANTDECODERES`. -/
theorem classified_success_reply_outcomes_witness :
    (validate_result undecodable_env
        (replied_state undecodable_env Endian.little sample_args false 1 (sample_state 0))).ok =
        true ∧
      (unwrap_result undecodable_env sample_args
        (replied_state undecodable_env Endian.little sample_args false 1 (sample_state 0))).ok =
        false ∧
      (call_again undecodable_env Endian.little sample_args true false 1 2
        (sample_state 0)).result = some clnt_stat.RPC_CANTDECODERES :=
  ⟨by decide, by decide,
    (classified_success_reply_outcomes undecodable_env Endian.little sample_args false 1 2
      (sample_state 0) (by decide) (by decide) (by decide) (by decide)
      (by decide)).2.2.2.2.2.1 (by decide) (by decide)⟩

/-! ## Failure of an encode step -/

/-- The events of a failed `encode_call`: the steps up to and including the
first failing one, in the order header, procedure number, `AUTH_MARSHALL`,
`AUTH_WRAP`. -/
theorem encode_call_failure_shape (E : Env σ) (a : call_args) (s : State σ)
    (h : (encode_call E a s).1 = false) :
    ∃ l : List Ev, (encode_call E a s).2.trace = s.trace ++ l ∧
      (l = [Ev.putbytes (s.ct.ct_mcallc.take s.ct.ct_mpos) false] ∨
       l = [Ev.putbytes (s.ct.ct_mcallc.take s.ct.ct_mpos) true, Ev.putint32 a.proc false] ∨
       l = [Ev.putbytes (s.ct.ct_mcallc.take s.ct.ct_mpos) true, Ev.putint32 a.proc true,
            Ev.marshall false] ∨
       l = [Ev.putbytes (s.ct.ct_mcallc.take s.ct.ct_mpos) true, Ev.putint32 a.proc true,
            Ev.marshall true, Ev.wrap false]) := by
  unfold encode_call at h ⊢
  dsimp only at h ⊢
  split_ifs at h ⊢ with h1 h2 h3
  · simp only [Bool.not_eq_true', Bool.not_eq_false] at h1
    refine ⟨_, ?_, Or.inl rfl⟩
    simp only [State.op_trace]
    rw [h1]
  · simp only [Bool.not_eq_true', Bool.not_eq_false] at h1 h2
    refine ⟨_, ?_, Or.inr (Or.inl rfl)⟩
    simp only [State.op_trace]
    rw [h2, h1]
    simp
  · simp only [Bool.not_eq_true', Bool.not_eq_false] at h1 h2 h3
    refine ⟨_, ?_, Or.inr (Or.inr (Or.inl rfl))⟩
    simp only [State.op_trace]
    rw [h3, h2, h1]
    simp
  · simp only [Bool.not_eq_true', Bool.not_eq_false] at h1 h2 h3
    dsimp only at h
    refine ⟨_, ?_, Or.inr (Or.inr (Or.inr rfl))⟩
    simp only [State.op_trace]
    rw [h, h3, h2, h1]
    simp

/-- An attempt whose encode steps failed: the status fix-up, the forced
end-of-record and the return of the recorded status. -/
theorem attempt_of_encode_failure (E : Env σ) (e : Endian) (a : call_args)
    (shipnow duplex : Bool) (fuel : Nat) (s : State σ)
    (henc : (encode_call E a (begin_attempt e s)).1 = false) :
    attempt E e a shipnow duplex fuel s =
      AttemptRes.done (attempt E e a shipnow duplex fuel s).state.status
        (attempt E e a shipnow duplex fuel s).state ∧
    (attempt E e a shipnow duplex fuel s).state.trace =
      (encode_call E a (begin_attempt e s)).2.trace ++
        [Ev.endofrecord true (E.xdrrec_endofrecord true (encode_call E a (begin_attempt e s)).2.w
          (encode_failure_error E e a s)).ok] ∧
    (attempt E e a shipnow duplex fuel s).state.ct.ct_error =
      (E.xdrrec_endofrecord true (encode_call E a (begin_attempt e s)).2.w
        (encode_failure_error E e a s)).err := by
  unfold attempt encode_failure_error
  simp only [henc, Bool.not_false, if_true]
  split_ifs with h1 <;>
    simp [AttemptRes.state, State.op, State.set_status, State.status]

theorem encode_failure_error_status (E : Env σ) (e : Endian) (a : call_args) (s : State σ) :
    (encode_failure_error E e a s).re_status =
      (if (encode_call E a (begin_attempt e s)).2.status = clnt_stat.RPC_SUCCESS then
        clnt_stat.RPC_CANTENCODEARGS
      else (encode_call E a (begin_attempt e s)).2.status) ∧
    (encode_failure_error E e a s).re_status ≠ clnt_stat.RPC_SUCCESS := by
  unfold encode_failure_error
  split_ifs with h
  · exact ⟨rfl, by simp⟩
  · exact ⟨rfl, h⟩

/-- The error record after `write_vc`: untouched, or `RPC_CANTSEND` recorded
by the failed write (lines 790-793). -/
theorem write_vc_loop_error_record (Y : SysEnv) (len : Int) (ct : ct_data) :
    ∀ (fuel k : Nat) (cnt pos : Int) (tr : List SysEv),
      (write_vc.loop Y len ct fuel k cnt pos tr).ct.ct_error = ct.ct_error ∨
      (write_vc.loop Y len ct fuel k cnt pos tr).ct.ct_error.re_status =
        clnt_stat.RPC_CANTSEND := by
  intro fuel
  induction fuel with
  | zero =>
    intro k cnt pos tr
    exact Or.inl rfl
  | succ fuel ih =>
    intro k cnt pos tr
    rw [write_vc.loop]
    split_ifs
    · exact Or.inr rfl
    · exact ih _ _ _ _
    · exact Or.inl rfl

theorem write_vc_error_record (Y : SysEnv) (fuel : Nat) (ct : ct_data) (len : Int) :
    (write_vc Y fuel ct len).ct.ct_error = ct.ct_error ∨
    (write_vc Y fuel ct len).ct.ct_error.re_status = clnt_stat.RPC_CANTSEND :=
  write_vc_loop_error_record Y len ct fuel 0 len 0 []

/-- An end-of-record that leaves the error record as it found it is a run of
`write_vc` in which no write fails. -/
theorem flushes_through_write_vc_of_keeps (E : Env σ)
    (h : ∀ w err, (E.xdrrec_endofrecord true w err).err = err) : FlushesThroughWriteVc E := by
  intro w err
  refine ⟨sample_sys, 1, { sample_ct with ct_error := err }, 0, rfl, ?_⟩
  rw [h]
  rfl

theorem unflushable_env_flushes_through_write_vc : FlushesThroughWriteVc unflushable_env := by
  intro w err
  refine ⟨{ sample_sys with write := fun _ _ => (-1, 32) }, 1,
    { sample_ct with ct_error := err }, 1, rfl, ?_⟩
  rfl

/-- C16: if one of the four encode steps of an attempt fails (header bytes,
procedure number, `AUTH_MARSHALL`, `AUTH_WRAP`, in this order), the steps after
the failing one are not attempted; the error status becomes
`RPC_CANTENCODEARGS` unless the failed steps left a non-success status; one
end-of-record is issued, forced, with that non-success status recorded, whatever
`shipnow` is; no event of the receive side occurs; and the run from the label
`call_again`, with any number `n` of refreshes left, returns the status that is
in the error record after the end-of-record.  When the end-of-record writes
the error record only through `write_vc`, that status is never `RPC_SUCCESS`:
it is the non-success status above when the flush left the error record, and
`RPC_CANTSEND` when the flush failed in `write_vc`.  In the first attempt of a
call this is what `clnt_vc_call` returns. -/
theorem encode_failure_forced_flush_and_return (E : Env σ) (e : Endian) (a : call_args)
    (shipnow duplex : Bool) (fuel n : Nat) (s : State σ)
    (henc : (encode_call E a (begin_attempt e s)).1 = false) :
    (∃ l : List Ev,
      (l = [Ev.putbytes ((begin_attempt e s).ct.ct_mcallc.take (begin_attempt e s).ct.ct_mpos)
              false] ∨
       l = [Ev.putbytes ((begin_attempt e s).ct.ct_mcallc.take (begin_attempt e s).ct.ct_mpos)
              true, Ev.putint32 a.proc false] ∨
       l = [Ev.putbytes ((begin_attempt e s).ct.ct_mcallc.take (begin_attempt e s).ct.ct_mpos)
              true, Ev.putint32 a.proc true, Ev.marshall false] ∨
       l = [Ev.putbytes ((begin_attempt e s).ct.ct_mcallc.take (begin_attempt e s).ct.ct_mpos)
              true, Ev.putint32 a.proc true, Ev.marshall true, Ev.wrap false]) ∧
      (call_again E e a shipnow duplex fuel n s).state.trace =
        s.trace ++ (l ++ [Ev.endofrecord true
          (E.xdrrec_endofrecord true (encode_call E a (begin_attempt e s)).2.w
            (encode_failure_error E e a s)).ok]) ∧
      (∀ ev ∈ l, ev.is_endofrecord = false ∧ ev.is_inbound = false ∧ ev.is_refresh = false)) ∧
    ((encode_failure_error E e a s).re_status =
        (if (encode_call E a (begin_attempt e s)).2.status = clnt_stat.RPC_SUCCESS then
          clnt_stat.RPC_CANTENCODEARGS
        else (encode_call E a (begin_attempt e s)).2.status) ∧
      (encode_failure_error E e a s).re_status ≠ clnt_stat.RPC_SUCCESS) ∧
    (call_again E e a shipnow duplex fuel n s).state.ct.ct_error =
      (E.xdrrec_endofrecord true (encode_call E a (begin_attempt e s)).2.w
        (encode_failure_error E e a s)).err ∧
    (call_again E e a shipnow duplex fuel n s).result =
      some (E.xdrrec_endofrecord true (encode_call E a (begin_attempt e s)).2.w
        (encode_failure_error E e a s)).err.re_status ∧
    ((E.xdrrec_endofrecord true (encode_call E a (begin_attempt e s)).2.w
        (encode_failure_error E e a s)).err.re_status = (encode_failure_error E e a s).re_status →
      (call_again E e a shipnow duplex fuel n s).result =
        some (encode_failure_error E e a s).re_status) ∧
    (FlushesThroughWriteVc E →
      (call_again E e a shipnow duplex fuel n s).result ≠ some clnt_stat.RPC_SUCCESS ∧
      (((E.xdrrec_endofrecord true (encode_call E a (begin_attempt e s)).2.w
            (encode_failure_error E e a s)).err = encode_failure_error E e a s ∧
          (call_again E e a shipnow duplex fuel n s).result =
            some (encode_failure_error E e a s).re_status) ∨
        ((E.xdrrec_endofrecord true (encode_call E a (begin_attempt e s)).2.w
            (encode_failure_error E e a s)).err.re_status = clnt_stat.RPC_CANTSEND ∧
          (call_again E e a shipnow duplex fuel n s).result =
            some clnt_stat.RPC_CANTSEND))) ∧
    (∀ s0 : State σ, (call_entry a s0).2 = s → s0.ct.CT_FLAG_DUPLEX = duplex →
      shipnow_of a = shipnow → n = 2 →
      (clnt_vc_call E e fuel a s0).result =
        (call_again E e a shipnow duplex fuel n s).result) := by
  obtain ⟨hatt, htr, herr⟩ := attempt_of_encode_failure E e a shipnow duplex fuel s henc
  obtain ⟨l, hl, hshape⟩ := encode_call_failure_shape E a (begin_attempt e s) henc
  have hcall := call_again_of_done E e a shipnow duplex fuel n s _ _ hatt
  have hst : (attempt E e a shipnow duplex fuel s).state.status =
      (E.xdrrec_endofrecord true (encode_call E a (begin_attempt e s)).2.w
        (encode_failure_error E e a s)).err.re_status := by
    unfold State.status
    rw [herr]
  have hne := (encode_failure_error_status E e a s).2
  rw [hcall]
  simp only [Outcome.result, Outcome.state]
  refine ⟨⟨l, hshape, ?_, ?_⟩, encode_failure_error_status E e a s, herr, by rw [hst], ?_, ?_,
    ?_⟩
  · rw [htr, hl, begin_attempt_trace, List.append_assoc]
  · rcases hshape with h | h | h | h <;> subst h <;>
      simp [Ev.is_endofrecord, Ev.is_inbound, Ev.is_receive, Ev.is_reply, Ev.is_refresh]
  · intro hkeep
    rw [hst, hkeep]
  · intro hflush
    obtain ⟨Y, fuel1, ct, len, hct, hw⟩ := hflush (encode_call E a (begin_attempt e s)).2.w
      (encode_failure_error E e a s)
    rw [hst, hw]
    rcases write_vc_error_record Y fuel1 ct len with h | h
    · rw [h, hct]
      exact ⟨by simpa using hne, Or.inl ⟨rfl, rfl⟩⟩
    · rw [h]
      exact ⟨by simp, Or.inr ⟨rfl, rfl⟩⟩
  · intro s0 hs0 hd hsh hn
    subst hs0
    subst hd
    subst hsh
    subst hn
    unfold clnt_vc_call
    dsimp only
    rw [hcall]

/-- An auth handle whose `AUTH_MARSHALL` fails: the third encode step fails and
the run returns `RPC_CANTENCODEARGS` when the forced end-of-record leaves the
error record, and `RPC_CANTSEND` when the forced end-of-record fails in
`write_vc`. -/
theorem encode_failure_forced_flush_and_return_witness :
    (encode_call unmarshallable_env sample_args
        (begin_attempt Endian.little (sample_state 0))).1 = false ∧
      (call_again unmarshallable_env Endian.little sample_args true false 1 2
        (sample_state 0)).result = some clnt_stat.RPC_CANTENCODEARGS ∧
      (call_again unmarshallable_env Endian.little sample_args true false 1 2
        (sample_state 0)).state.trace =
        [Ev.putbytes [255, 255, 255, 4, 0, 0, 0, 0, 0, 0, 0, 2, 0, 1, 134, 163, 0, 0, 0, 3] true,
          Ev.putint32 1 true, Ev.marshall false, Ev.endofrecord true true] ∧
      (call_again unflushable_env Endian.little sample_args true false 1 2
        (sample_state 0)).result ≠ some clnt_stat.RPC_SUCCESS ∧
      (call_again unflushable_env Endian.little sample_args true false 1 2
        (sample_state 0)).result = some clnt_stat.RPC_CANTSEND :=
  ⟨by decide,
    (encode_failure_forced_flush_and_return unmarshallable_env Endian.little sample_args true
      false 1 2 (sample_state 0) (by decide)).2.2.2.2.1 (by decide),
    by decide,
    ((encode_failure_forced_flush_and_return unflushable_env Endian.little sample_args true
      false 1 2 (sample_state 0) (by decide)).2.2.2.2.2.1
        unflushable_env_flushes_through_write_vc).1,
    by decide⟩

/-! ## Intercepted calls on a duplex handle -/

/-- The events of one fetch: the skip-record and, if it succeeded, the header
decode with the message it left. -/
theorem fetch_record_trace (E : Env σ) (s : State σ) :
    (fetch_record E s).s.trace =
      s.trace ++ (if (fetch_record E s).skip_ok = true then
        [Ev.skiprecord true,
          Ev.dplx_msg (fetch_record E s).decode_ok (fetch_record E s).s.msg]
        else [Ev.skiprecord false]) := by
  unfold fetch_record skip_record decode_header
  dsimp only
  split_ifs with h1 h2 h3
  · simp at h2
  · simp only [Bool.not_eq_true', Bool.not_eq_false] at h1
    simp [State.op, h1]
  · simp only [Bool.not_eq_true, Bool.not_eq_false'] at h1
    simp [State.op, State.op_msg, h1]
  · simp at h3

theorem dispatch_call_trace (E : Env σ) (s : State σ) :
    (dispatch_call E s).trace = s.trace ++ [Ev.dispatch s.msg.rm_xid] := rfl

/-- One pass of the receive loop invokes the dispatch callback once for a
decoded CALL on a duplex handle and never otherwise. -/
theorem recv_body_dispatch_count (E : Env σ) (x_id : Nat) (duplex : Bool) (s : State σ) :
    ∃ l : List Ev, (recv_body E x_id duplex s).state.trace = s.trace ++ l ∧
      l.countP Ev.is_dispatch = if duplex = true then l.countP Ev.is_decoded_call else 0 := by
  have hf := fetch_record_trace E s
  have hne : CALL ≠ REPLY := by decide
  cases hs : (fetch_record E s).skip_ok
  · simp only [hs, Bool.false_eq_true, if_false] at hf
    refine ⟨[Ev.skiprecord false], ?_, ?_⟩
    · simp [recv_body, hs, Step.state, hf]
    · cases duplex <;> simp [Ev.is_dispatch, Ev.is_decoded_call]
  · cases hd : (fetch_record E s).decode_ok
    · simp only [hs, hd, if_true] at hf
      refine ⟨[Ev.skiprecord true, Ev.dplx_msg false (fetch_record E s).s.msg], ?_, ?_⟩
      · unfold recv_body
        simp only [hs, hd, Bool.not_true, Bool.not_false, Bool.false_eq_true, if_false, if_true]
        split_ifs <;> simp [Step.state, hf]
      · cases duplex <;> simp [Ev.is_dispatch, Ev.is_decoded_call]
    · simp only [hs, hd, if_true] at hf
      by_cases hr : (fetch_record E s).s.msg.rm_direction = REPLY
      · refine ⟨[Ev.skiprecord true, Ev.dplx_msg true (fetch_record E s).s.msg], ?_, ?_⟩
        · unfold recv_body
          simp only [hs, hd, hr, Bool.not_true, Bool.false_eq_true, if_false, if_true]
          split_ifs <;> simp [Step.state, hf]
        · have hnc : (fetch_record E s).s.msg.rm_direction ≠ CALL := by
            rw [hr]
            exact fun h => hne h.symm
          cases duplex <;> simp [Ev.is_dispatch, Ev.is_decoded_call, hnc]
      · by_cases hc : (fetch_record E s).s.msg.rm_direction = CALL
        · cases duplex
          · refine ⟨[Ev.skiprecord true, Ev.dplx_msg true (fetch_record E s).s.msg], ?_, ?_⟩
            · unfold recv_body
              simp [hs, hd, hc, hne, Step.state, hf]
            · simp [Ev.is_dispatch]
          · refine ⟨[Ev.skiprecord true, Ev.dplx_msg true (fetch_record E s).s.msg,
              Ev.dispatch (fetch_record E s).s.msg.rm_xid], ?_, ?_⟩
            · unfold recv_body
              simp [hs, hd, hc, hne, Step.state, hf, dispatch_call_trace]
            · simp [Ev.is_dispatch, Ev.is_decoded_call, hc]
        · refine ⟨[Ev.skiprecord true, Ev.dplx_msg true (fetch_record E s).s.msg], ?_, ?_⟩
          · unfold recv_body
            simp [hs, hd, hr, hc, Step.state, hf]
          · cases duplex <;> simp [Ev.is_dispatch, Ev.is_decoded_call, hc]

/-- Over the whole receive loop the dispatch callback is invoked once per
decoded CALL on a duplex handle and never on a non-duplex handle. -/
theorem recv_loop_dispatch_count (E : Env σ) (x_id : Nat) (duplex : Bool) (fuel : Nat)
    (s : State σ) :
    ∃ l : List Ev, (recv_loop E x_id duplex fuel s).state.trace = s.trace ++ l ∧
      l.countP Ev.is_dispatch = if duplex = true then l.countP Ev.is_decoded_call else 0 := by
  induction fuel generalizing s with
  | zero => exact ⟨[], by simp [recv_loop, RecvRes.state], by simp⟩
  | succ n ih =>
    obtain ⟨l1, h1, c1⟩ := recv_body_dispatch_count E x_id duplex s
    unfold recv_loop
    cases hstep : recv_body E x_id duplex s with
    | next s1 =>
      rw [hstep] at h1
      simp only [Step.state] at h1
      obtain ⟨l2, h2, c2⟩ := ih s1
      refine ⟨l1 ++ l2, ?_, ?_⟩
      · simp only []
        rw [h2, h1, List.append_assoc]
      · rw [List.countP_append, List.countP_append, c1, c2]
        split_ifs <;> rfl
    | replied s1 =>
      rw [hstep] at h1
      exact ⟨l1, h1, c1⟩
    | ret r s1 =>
      rw [hstep] at h1
      exact ⟨l1, h1, c1⟩

theorem DispatchesEachCall.append {duplex : Bool} {l1 l2 : List Ev}
    (h1 : DispatchesEachCall duplex l1) (h2 : DispatchesEachCall duplex l2) :
    DispatchesEachCall duplex (l1 ++ l2) := by
  unfold DispatchesEachCall at h1 h2 ⊢
  rw [List.countP_append, List.countP_append, h1, h2]
  split_ifs <;> rfl

theorem DispatchesEachCall.of_not_receive (duplex : Bool) (l : List Ev)
    (h : ∀ ev ∈ l, ev.is_receive = false) : DispatchesEachCall duplex l := by
  have h1 : l.countP Ev.is_dispatch = 0 := by
    rw [List.countP_eq_zero]
    intro ev hev
    have := h ev hev
    cases ev <;> simp_all [Ev.is_receive, Ev.is_dispatch]
  have h2 : l.countP Ev.is_decoded_call = 0 := by
    rw [List.countP_eq_zero]
    intro ev hev
    have := h ev hev
    cases ev <;> simp_all [Ev.is_receive, Ev.is_decoded_call]
  unfold DispatchesEachCall
  rw [h1, h2]
  split_ifs <;> rfl

theorem Dispatched.nothing (duplex : Bool) (s : State σ) : Dispatched duplex s s :=
  ⟨[], by simp, by simp [DispatchesEachCall]⟩

theorem Dispatched.chain {duplex : Bool} {s1 s2 s3 : State σ} (h12 : Dispatched duplex s1 s2)
    (h23 : Dispatched duplex s2 s3) : Dispatched duplex s1 s3 := by
  obtain ⟨l1, e1, p1⟩ := h12
  obtain ⟨l2, e2, p2⟩ := h23
  exact ⟨l1 ++ l2, by rw [e2, e1, List.append_assoc], p1.append p2⟩

theorem Dispatched.of_adds {duplex : Bool} {s1 s2 : State σ}
    (h : Adds (fun ev => ev.is_receive = false) s1 s2) : Dispatched duplex s1 s2 := by
  obtain ⟨l, e, p⟩ := h
  exact ⟨l, e, DispatchesEachCall.of_not_receive duplex l p⟩

theorem Dispatched.step {duplex : Bool} {s1 s2 s3 : State σ} (h : Dispatched duplex s1 s2)
    (ev : Ev) (ht : s3.trace = s2.trace ++ [ev]) (hev : ev.is_receive = false) :
    Dispatched duplex s1 s3 :=
  h.chain (Dispatched.of_adds (Adds.one ev ht hev))

theorem receive_false_of_reply (ev : Ev) (h : ev.is_reply = true) : ev.is_receive = false := by
  cases ev <;> simp_all [Ev.is_reply, Ev.is_receive]

theorem receive_false_of_bracket (ev : Ev) (h : ev.is_bracket = true) :
    ev.is_receive = false := by
  cases ev <;> simp_all [Ev.is_bracket, Ev.is_receive]

theorem receive_false_of_encode_tail (ev : Ev) (h : ev.is_encode_tail = true) :
    ev.is_receive = false := by
  cases ev <;> simp_all [Ev.is_encode_tail, Ev.is_receive]

theorem receive_reply_dispatched (E : Env σ) (a : call_args) (x_id : Nat) (duplex : Bool)
    (fuel : Nat) (s : State σ) :
    Dispatched duplex s (receive_reply E a x_id duplex fuel s).state := by
  have hl : Dispatched duplex s
      (recv_loop E x_id duplex fuel (s.set_x_op xdr_op.XDR_DECODE)).state :=
    recv_loop_dispatch_count E x_id duplex fuel (s.set_x_op xdr_op.XDR_DECODE)
  unfold receive_reply
  cases hr : recv_loop E x_id duplex fuel (s.set_x_op xdr_op.XDR_DECODE) with
  | out_of_fuel s3 =>
    rw [hr] at hl
    exact hl
  | ret r3 s3 =>
    rw [hr] at hl
    exact hl
  | replied s3 =>
    rw [hr] at hl
    have hp : Dispatched duplex s3 (process_reply E a s3).state :=
      Dispatched.of_adds ((process_reply_adds E a s3).mono receive_false_of_reply)
    have hst : (reply_outcome (process_reply E a s3)).state = (process_reply E a s3).state := by
      cases process_reply E a s3 <;> rfl
    simp only []
    rw [hst]
    exact hl.chain hp

theorem attempt_dispatched (E : Env σ) (e : Endian) (a : call_args) (shipnow duplex : Bool)
    (fuel : Nat) (s : State σ) :
    Dispatched duplex s (attempt E e a shipnow duplex fuel s).state := by
  have h0 : Dispatched duplex s (encode_call E a (begin_attempt e s)).2 := by
    obtain ⟨l, hl, pl⟩ := encode_call_trace E a (begin_attempt e s)
    refine ⟨_, by rw [hl, begin_attempt_trace], DispatchesEachCall.of_not_receive duplex _ ?_⟩
    intro ev hev
    rcases List.mem_cons.mp hev with h | h
    · subst h
      rfl
    · exact receive_false_of_encode_tail ev (pl ev h)
  unfold attempt
  dsimp only
  split_ifs
  · exact h0.step (Ev.endofrecord true _) rfl rfl
  · exact h0.step (Ev.endofrecord true _) rfl rfl
  · exact h0.step (Ev.endofrecord shipnow _) rfl rfl
  · exact h0.step (Ev.endofrecord shipnow _) rfl rfl
  · exact h0.step (Ev.endofrecord shipnow _) rfl rfl
  · exact (h0.step (Ev.endofrecord shipnow _) rfl rfl).chain
      (receive_reply_dispatched E a _ duplex fuel _)

theorem call_again_dispatched (E : Env σ) (e : Endian) (a : call_args) (shipnow duplex : Bool)
    (fuel n : Nat) (s : State σ) :
    Dispatched duplex s (call_again E e a shipnow duplex fuel n s).state := by
  induction n generalizing s with
  | zero =>
    have h := attempt_dispatched E e a shipnow duplex fuel s
    cases hatt : attempt E e a shipnow duplex fuel s with
    | done r s1 =>
      rw [call_again_of_done E e a shipnow duplex fuel 0 s s1 r hatt]
      rw [hatt] at h
      exact h
    | out_of_fuel s1 =>
      rw [call_again_of_out_of_fuel E e a shipnow duplex fuel 0 s s1 hatt]
      rw [hatt] at h
      exact h
    | unsuccessful s1 =>
      rw [call_again_zero_of_unsuccessful E e a shipnow duplex fuel s s1 hatt]
      rw [hatt] at h
      exact h
  | succ n ih =>
    have h := attempt_dispatched E e a shipnow duplex fuel s
    cases hatt : attempt E e a shipnow duplex fuel s with
    | done r s1 =>
      rw [call_again_of_done E e a shipnow duplex fuel (n + 1) s s1 r hatt]
      rw [hatt] at h
      exact h
    | out_of_fuel s1 =>
      rw [call_again_of_out_of_fuel E e a shipnow duplex fuel (n + 1) s s1 hatt]
      rw [hatt] at h
      exact h
    | unsuccessful s1 =>
      rw [call_again_succ_of_unsuccessful E e a shipnow duplex fuel n s s1 hatt]
      rw [hatt] at h
      have hr : Dispatched duplex s
          (s1.op_msg (E.AUTH_REFRESH s1.msg s1.w s1.ct.ct_error)
            (Ev.refresh (E.AUTH_REFRESH s1.msg s1.w s1.ct.ct_error).ok)) :=
        h.step (Ev.refresh _) rfl rfl
      split_ifs with hok
      · exact hr.chain (ih _)
      · exact hr

/-- Over a whole call the dispatch callback is invoked once per decoded CALL
when the handle is duplex and never when it is not. -/
theorem clnt_vc_call_dispatched (E : Env σ) (e : Endian) (fuel : Nat) (a : call_args)
    (s : State σ) :
    Dispatched s.ct.CT_FLAG_DUPLEX s (clnt_vc_call E e fuel a s).state := by
  have h1 : Dispatched s.ct.CT_FLAG_DUPLEX s (call_entry a s).2 :=
    Dispatched.of_adds ((call_entry_adds a s).mono receive_false_of_bracket)
  have h2 := call_again_dispatched E e a (shipnow_of a) s.ct.CT_FLAG_DUPLEX fuel 2
    (call_entry a s).2
  unfold clnt_vc_call
  dsimp only
  cases hc : call_again E e a (shipnow_of a) s.ct.CT_FLAG_DUPLEX fuel 2 (call_entry a s).2 with
  | out_of_fuel s4 =>
    rw [hc] at h2
    exact h1.chain h2
  | done r s4 =>
    rw [hc] at h2
    exact (h1.chain h2).chain
      (Dispatched.of_adds ((call_exit_adds (call_entry a s).1 s4).mono receive_false_of_bracket))

/-- C17: let one pass of the receive loop, started in `s`, skip to a record
and decode it successfully as a CALL.  On a duplex handle the pass records the
message's transaction id on the paired server transport and then invokes the
dispatch callback once: the callback is applied to the transport on which
that id is already recorded (its first argument is the id of this message,
not the id the transport held before), to the decoded message, the
collaborator state and the flag as the decode left them, and the message
buffer, collaborator state and flag after the pass are the ones the callback
hands back; the loop goes on to its next pass.  On a non-duplex handle the
pass ends in the state the decode left, with no dispatch event, and the loop
goes on to its next pass.  Over a whole call started in any state `s0`, the
dispatch callback is invoked exactly once per successfully decoded CALL when
the handle is duplex, and never when it is not. -/
theorem decoded_call_dispatched_once (E : Env σ) (e : Endian) (a : call_args) (x_id : Nat)
    (fuel fuel0 : Nat) (s s0 : State σ)
    (hskip : (fetch_record E s).skip_ok = true)
    (hdec : (fetch_record E s).decode_ok = true)
    (hcall : (fetch_record E s).s.msg.rm_direction = CALL) :
    (recv_body E x_id true s = Step.next (dispatch_call E (fetch_record E s).s) ∧
      (dispatch_call E (fetch_record E s).s).cd_x_id = (fetch_record E s).s.msg.rm_xid ∧
      (dispatch_call E (fetch_record E s).s).msg =
        (E.xp_dispatch (fetch_record E s).s.msg.rm_xid (fetch_record E s).s.msg
          (fetch_record E s).s.w (fetch_record E s).s.ct.CT_FLAG_EVENTS_BLOCKED).msg ∧
      (dispatch_call E (fetch_record E s).s).w =
        (E.xp_dispatch (fetch_record E s).s.msg.rm_xid (fetch_record E s).s.msg
          (fetch_record E s).s.w (fetch_record E s).s.ct.CT_FLAG_EVENTS_BLOCKED).w ∧
      (dispatch_call E (fetch_record E s).s).ct.CT_FLAG_EVENTS_BLOCKED =
        (E.xp_dispatch (fetch_record E s).s.msg.rm_xid (fetch_record E s).s.msg
          (fetch_record E s).s.w
          (fetch_record E s).s.ct.CT_FLAG_EVENTS_BLOCKED).events_blocked ∧
      (dispatch_call E (fetch_record E s).s).trace =
        s.trace ++ [Ev.skiprecord true, Ev.dplx_msg true (fetch_record E s).s.msg,
          Ev.dispatch (fetch_record E s).s.msg.rm_xid] ∧
      recv_loop E x_id true (fuel + 1) s =
        recv_loop E x_id true fuel (dispatch_call E (fetch_record E s).s)) ∧
    (recv_body E x_id false s = Step.next (fetch_record E s).s ∧
      (fetch_record E s).s.trace =
        s.trace ++ [Ev.skiprecord true, Ev.dplx_msg true (fetch_record E s).s.msg] ∧
      (fetch_record E s).s.cd_x_id = s.cd_x_id ∧
      recv_loop E x_id false (fuel + 1) s = recv_loop E x_id false fuel (fetch_record E s).s) ∧
    (∃ l : List Ev, (clnt_vc_call E e fuel0 a s0).state.trace = s0.trace ++ l ∧
      l.countP Ev.is_dispatch =
        if s0.ct.CT_FLAG_DUPLEX = true then l.countP Ev.is_decoded_call else 0) := by
  have hne : CALL ≠ REPLY := by decide
  have hf := fetch_record_trace E s
  simp only [hskip, hdec, if_true] at hf
  have hb1 : recv_body E x_id true s = Step.next (dispatch_call E (fetch_record E s).s) := by
    unfold recv_body
    simp [hskip, hdec, hcall, hne]
  have hb2 : recv_body E x_id false s = Step.next (fetch_record E s).s := by
    unfold recv_body
    simp [hskip, hdec, hcall, hne]
  have hcd : (fetch_record E s).s.cd_x_id = s.cd_x_id := by
    unfold fetch_record
    dsimp only [skip_record, decode_header, State.op, State.op_msg]
    split_ifs <;> rfl
  refine ⟨⟨hb1, rfl, rfl, rfl, rfl, ?_, ?_⟩, ⟨hb2, hf, hcd, ?_⟩,
    clnt_vc_call_dispatched E e fuel0 a s0⟩
  · rw [dispatch_call_trace, hf]
    simp
  · conv_lhs => unfold recv_loop
    rw [hb1]
  · conv_lhs => unfold recv_loop
    rw [hb2]

/-- A duplex handle whose server transport holds the id 0 and whose stream
delivers a CALL with transaction id 77 and then the awaited reply, with a
dispatch callback that reports the id it finds on the transport: the callback
finds 77, the CALL is dispatched once, and the call returns `RPC_SUCCESS`. -/
theorem decoded_call_dispatched_once_witness :
    (duplex_state [some (sample_call 77), some (sample_reply 4)]).cd_x_id = 0 ∧
      recv_body cd_reading_env 4 true
          (duplex_state [some (sample_call 77), some (sample_reply 4)]) =
        Step.next (dispatch_call cd_reading_env
          (fetch_record cd_reading_env
            (duplex_state [some (sample_call 77), some (sample_reply 4)])).s) ∧
      (dispatch_call cd_reading_env
          (fetch_record cd_reading_env
            (duplex_state [some (sample_call 77), some (sample_reply 4)])).s).msg.rp_stat =
        77 ∧
      (clnt_vc_call cd_reading_env Endian.big 3 sample_args
        (duplex_state [some (sample_call 77), some (sample_reply 4)])).result =
        some clnt_stat.RPC_SUCCESS ∧
      (clnt_vc_call cd_reading_env Endian.big 3 sample_args
        (duplex_state [some (sample_call 77), some (sample_reply 4)])).state.cd_x_id = 77 ∧
      (clnt_vc_call cd_reading_env Endian.big 3 sample_args
        (duplex_state [some (sample_call 77), some (sample_reply 4)])).state.trace.filter
          Ev.is_receive =
        [Ev.skiprecord true, Ev.dplx_msg true (sample_call 77), Ev.dispatch 77,
          Ev.skiprecord true, Ev.dplx_msg true (sample_reply 4)] :=
  ⟨by decide,
    (decoded_call_dispatched_once cd_reading_env Endian.big sample_args 4 3 3
      (duplex_state [some (sample_call 77), some (sample_reply 4)])
      (duplex_state [some (sample_call 77), some (sample_reply 4)])
      (by decide) (by decide) (by decide)).1.1,
    by decide, by decide, by decide, by decide⟩

/-! ## Pausing and resuming of event processing -/

theorem begin_attempt_flag (e : Endian) (s : State σ) :
    (begin_attempt e s).ct.CT_FLAG_EVENTS_BLOCKED = s.ct.CT_FLAG_EVENTS_BLOCKED := rfl

theorem encode_call_flag (E : Env σ) (a : call_args) (s : State σ) :
    (encode_call E a s).2.ct.CT_FLAG_EVENTS_BLOCKED = s.ct.CT_FLAG_EVENTS_BLOCKED := by
  unfold encode_call
  simp only []
  split_ifs <;> rfl

theorem fetch_record_flag (E : Env σ) (s : State σ) :
    (fetch_record E s).s.ct.CT_FLAG_EVENTS_BLOCKED = s.ct.CT_FLAG_EVENTS_BLOCKED := by
  unfold fetch_record
  simp only []
  split_ifs <;> rfl

theorem recv_body_flag (E : Env σ)
    (hdisp : ∀ x m w b, (E.xp_dispatch x m w b).events_blocked = b)
    (x_id : Nat) (duplex : Bool) (s : State σ) :
    (recv_body E x_id duplex s).state.ct.CT_FLAG_EVENTS_BLOCKED =
      s.ct.CT_FLAG_EVENTS_BLOCKED := by
  have hf := fetch_record_flag E s
  unfold recv_body
  simp only []
  split_ifs <;> simp only [Step.state, dispatch_call, hdisp, hf]

theorem recv_loop_flag (E : Env σ)
    (hdisp : ∀ x m w b, (E.xp_dispatch x m w b).events_blocked = b)
    (x_id : Nat) (duplex : Bool) (fuel : Nat) (s : State σ) :
    (recv_loop E x_id duplex fuel s).state.ct.CT_FLAG_EVENTS_BLOCKED =
      s.ct.CT_FLAG_EVENTS_BLOCKED := by
  induction fuel generalizing s with
  | zero => rfl
  | succ n ih =>
    have hb := recv_body_flag E hdisp x_id duplex s
    unfold recv_loop
    cases hstep : recv_body E x_id duplex s with
    | next s1 =>
      rw [hstep] at hb
      simp only []
      rw [ih s1]
      exact hb
    | replied s1 =>
      rw [hstep] at hb
      exact hb
    | ret r s1 =>
      rw [hstep] at hb
      exact hb

theorem process_reply_flag (E : Env σ) (a : call_args) (s : State σ) :
    (process_reply E a s).state.ct.CT_FLAG_EVENTS_BLOCKED = s.ct.CT_FLAG_EVENTS_BLOCKED := by
  unfold process_reply
  simp only []
  split_ifs <;> rfl

theorem receive_reply_flag (E : Env σ)
    (hdisp : ∀ x m w b, (E.xp_dispatch x m w b).events_blocked = b)
    (a : call_args) (x_id : Nat) (duplex : Bool) (fuel : Nat) (s : State σ) :
    (receive_reply E a x_id duplex fuel s).state.ct.CT_FLAG_EVENTS_BLOCKED =
      s.ct.CT_FLAG_EVENTS_BLOCKED := by
  have hl := recv_loop_flag E hdisp x_id duplex fuel (s.set_x_op xdr_op.XDR_DECODE)
  unfold receive_reply
  cases hr : recv_loop E x_id duplex fuel (s.set_x_op xdr_op.XDR_DECODE) with
  | out_of_fuel s3 =>
    rw [hr] at hl
    exact hl
  | ret r3 s3 =>
    rw [hr] at hl
    exact hl
  | replied s3 =>
    rw [hr] at hl
    have hst : (reply_outcome (process_reply E a s3)).state = (process_reply E a s3).state := by
      cases process_reply E a s3 <;> rfl
    simp only []
    rw [hst, process_reply_flag]
    exact hl

theorem attempt_flag (E : Env σ)
    (hdisp : ∀ x m w b, (E.xp_dispatch x m w b).events_blocked = b)
    (e : Endian) (a : call_args) (shipnow duplex : Bool) (fuel : Nat) (s : State σ) :
    (attempt E e a shipnow duplex fuel s).state.ct.CT_FLAG_EVENTS_BLOCKED =
      s.ct.CT_FLAG_EVENTS_BLOCKED := by
  have h0 := encode_call_flag E a (begin_attempt e s)
  rw [begin_attempt_flag] at h0
  unfold attempt
  dsimp only
  split_ifs
  · exact h0
  · exact h0
  · exact h0
  · exact h0
  · exact h0
  · rw [receive_reply_flag E hdisp]
    exact h0

theorem call_again_flag (E : Env σ)
    (hdisp : ∀ x m w b, (E.xp_dispatch x m w b).events_blocked = b)
    (e : Endian) (a : call_args) (shipnow duplex : Bool) (fuel n : Nat) (s : State σ) :
    (call_again E e a shipnow duplex fuel n s).state.ct.CT_FLAG_EVENTS_BLOCKED =
      s.ct.CT_FLAG_EVENTS_BLOCKED := by
  induction n generalizing s with
  | zero =>
    have h := attempt_flag E hdisp e a shipnow duplex fuel s
    cases hatt : attempt E e a shipnow duplex fuel s with
    | done r s1 =>
      rw [call_again_of_done E e a shipnow duplex fuel 0 s s1 r hatt]
      rw [hatt] at h
      exact h
    | out_of_fuel s1 =>
      rw [call_again_of_out_of_fuel E e a shipnow duplex fuel 0 s s1 hatt]
      rw [hatt] at h
      exact h
    | unsuccessful s1 =>
      rw [call_again_zero_of_unsuccessful E e a shipnow duplex fuel s s1 hatt]
      rw [hatt] at h
      exact h
  | succ n ih =>
    have h := attempt_flag E hdisp e a shipnow duplex fuel s
    cases hatt : attempt E e a shipnow duplex fuel s with
    | done r s1 =>
      rw [call_again_of_done E e a shipnow duplex fuel (n + 1) s s1 r hatt]
      rw [hatt] at h
      exact h
    | out_of_fuel s1 =>
      rw [call_again_of_out_of_fuel E e a shipnow duplex fuel (n + 1) s s1 hatt]
      rw [hatt] at h
      exact h
    | unsuccessful s1 =>
      rw [call_again_succ_of_unsuccessful E e a shipnow duplex fuel n s s1 hatt]
      rw [hatt] at h
      split_ifs with hok
      · rw [ih]
        exact h
      · exact h

theorem call_entry_blocked (a : call_args) (s : State σ) :
    (call_entry a s).2.ct.CT_FLAG_EVENTS_BLOCKED =
      ((call_entry a s).1 || s.ct.CT_FLAG_EVENTS_BLOCKED) := by
  unfold call_entry adopt_timeout cond_block_events_client
  dsimp only
  split_ifs <;> simp [State.log]

theorem call_exit_blocked (b : Bool) (s : State σ) :
    (call_exit b s).ct.CT_FLAG_EVENTS_BLOCKED = (s.ct.CT_FLAG_EVENTS_BLOCKED && !b) := by
  unfold call_exit cond_unblock_events_client
  split_ifs <;> simp_all [State.log]

/-- C18 as amended: a call of `clnt_vc_call` that returns pauses event
processing exactly when the handle is duplex and its events-blocked flag is
clear on entry.  In that case the events of the call are the lock, the pause,
events `l` none of which locks, unlocks, pauses or resumes, and then either
the resumption and the unlock or the unlock alone: the call resumes at most
once, right before it unlocks, and it resumes exactly when the events-blocked
flag is still set when the label `out` is reached, which is the case when the
dispatch callback leaves the flag as it finds it.  In every other case (flag
set on entry, or handle not duplex) the events are the lock, `l` and the
unlock: the call neither pauses nor resumes.  With a dispatch callback that
leaves the flag as it finds it, the flag after the call equals the flag
before it. -/
theorem events_paused_and_resumed_once (E : Env σ) (e : Endian) (fuel : Nat) (a : call_args)
    (s : State σ) (r : clnt_stat)
    (hret : (clnt_vc_call E e fuel a s).result = some r) :
    ∃ l : List Ev,
      (∀ ev ∈ l, ev.is_bracket = false) ∧
      ((s.ct.CT_FLAG_DUPLEX = true ∧ s.ct.CT_FLAG_EVENTS_BLOCKED = false) →
        ∃ tail : List Ev,
          (clnt_vc_call E e fuel a s).state.trace =
            s.trace ++ ([Ev.vc_fd_lock, Ev.block_events] ++ l ++ tail) ∧
          (tail = [Ev.unblock_events, Ev.vc_fd_unlock] ∨ tail = [Ev.vc_fd_unlock]) ∧
          (tail = [Ev.unblock_events, Ev.vc_fd_unlock] ↔
            (call_again E e a (shipnow_of a) s.ct.CT_FLAG_DUPLEX fuel 2
              (call_entry a s).2).state.ct.CT_FLAG_EVENTS_BLOCKED = true) ∧
          ((∀ x m w b, (E.xp_dispatch x m w b).events_blocked = b) →
            tail = [Ev.unblock_events, Ev.vc_fd_unlock])) ∧
      (¬ (s.ct.CT_FLAG_DUPLEX = true ∧ s.ct.CT_FLAG_EVENTS_BLOCKED = false) →
        (clnt_vc_call E e fuel a s).state.trace =
          s.trace ++ ([Ev.vc_fd_lock] ++ l ++ [Ev.vc_fd_unlock])) ∧
      ((∀ x m w b, (E.xp_dispatch x m w b).events_blocked = b) →
        (clnt_vc_call E e fuel a s).state.ct.CT_FLAG_EVENTS_BLOCKED =
          s.ct.CT_FLAG_EVENTS_BLOCKED) := by
  obtain ⟨l, hl, pl⟩ := call_again_adds_inner E e a (shipnow_of a) s.ct.CT_FLAG_DUPLEX fuel 2
    (call_entry a s).2
  have hflag := fun hdisp => call_again_flag E hdisp e a (shipnow_of a) s.ct.CT_FLAG_DUPLEX fuel 2
    (call_entry a s).2
  unfold clnt_vc_call at hret ⊢
  dsimp only at hret ⊢
  cases hc : call_again E e a (shipnow_of a) s.ct.CT_FLAG_DUPLEX fuel 2 (call_entry a s).2 with
  | out_of_fuel s4 =>
    rw [hc] at hret
    simp [Outcome.result] at hret
  | done r4 s4 =>
    rw [hc] at hl hflag
    simp only [Outcome.state] at hl hflag ⊢
    refine ⟨l, pl, ?_, ?_, ?_⟩
    · rintro ⟨hd, hb⟩
      have hb1 : (call_entry a s).1 = true := by
        rw [call_entry_flag, hd, hb]
        rfl
      refine ⟨(if ((call_entry a s).1 && s4.ct.CT_FLAG_EVENTS_BLOCKED) = true then
        [Ev.unblock_events] else []) ++ [Ev.vc_fd_unlock], ?_, ?_, ?_, ?_⟩
      · rw [call_exit_trace, hl, call_entry_trace, hb1]
        simp
      · rw [hb1]
        cases s4.ct.CT_FLAG_EVENTS_BLOCKED <;> simp
      · rw [hb1]
        cases s4.ct.CT_FLAG_EVENTS_BLOCKED <;> simp
      · intro hdisp
        rw [hflag hdisp, call_entry_blocked, hb1]
        simp
    · intro hn
      have hb1 : (call_entry a s).1 = false := by
        rw [call_entry_flag]
        cases hd : s.ct.CT_FLAG_DUPLEX <;> cases hb : s.ct.CT_FLAG_EVENTS_BLOCKED <;> simp_all
      rw [call_exit_trace, hl, call_entry_trace, hb1]
      simp
    · intro hdisp
      rw [call_exit_blocked, hflag hdisp, call_entry_blocked, call_entry_flag]
      cases s.ct.CT_FLAG_DUPLEX <;> cases s.ct.CT_FLAG_EVENTS_BLOCKED <;> rfl

/-- A duplex handle with a clear events-blocked flag whose stream delivers a
CALL and then the awaited reply: the call pauses after the lock, resumes right
before the unlock, and leaves the flag clear. -/
theorem events_paused_and_resumed_once_witness :
    (clnt_vc_call stream_env Endian.big 3 sample_args
        (duplex_state [some (sample_call 77), some (sample_reply 4)])).result =
        some clnt_stat.RPC_SUCCESS ∧
      ∃ l : List Ev, (∀ ev ∈ l, ev.is_bracket = false) ∧
        (clnt_vc_call stream_env Endian.big 3 sample_args
          (duplex_state [some (sample_call 77), some (sample_reply 4)])).state.trace =
          (duplex_state [some (sample_call 77), some (sample_reply 4)]).trace ++
            ([Ev.vc_fd_lock, Ev.block_events] ++ l ++ [Ev.unblock_events, Ev.vc_fd_unlock]) ∧
        (clnt_vc_call stream_env Endian.big 3 sample_args
          (duplex_state [some (sample_call 77), some (sample_reply 4)])).state.ct.CT_FLAG_EVENTS_BLOCKED
          = false := by
  refine ⟨by decide, ?_⟩
  obtain ⟨l, pl, h1, _, h3⟩ := events_paused_and_resumed_once stream_env Endian.big 3 sample_args
    (duplex_state [some (sample_call 77), some (sample_reply 4)]) clnt_stat.RPC_SUCCESS
    (by decide)
  obtain ⟨tail, ht, _, _, htl⟩ := h1 ⟨rfl, rfl⟩
  have hdisp : ∀ (x : Nat) (m : rpc_msg) (w : List (Option rpc_msg)) (b : Bool),
      (stream_env.xp_dispatch x m w b).events_blocked = b := fun _ _ _ _ => rfl
  rw [htl hdisp] at ht
  exact ⟨l, pl, ht, h3 hdisp⟩

/-- C18 as stated fails: on a duplex handle with a clear events-blocked flag
the call pauses event processing after the lock; the stream delivers a CALL,
whose dispatch callback clears the events-blocked flag, and then the awaited
reply; at the label `out` `cond_unblock_events_client` finds the flag clear
and does not resume.  The call returns `RPC_SUCCESS` having paused once and
resumed never. -/
theorem paused_and_never_resumed :
    (duplex_state [some (sample_call 77), some (sample_reply 4)]).ct.CT_FLAG_DUPLEX = true ∧
    (duplex_state
      [some (sample_call 77), some (sample_reply 4)]).ct.CT_FLAG_EVENTS_BLOCKED = false ∧
    (clnt_vc_call flag_clearing_env Endian.big 3 sample_args
      (duplex_state [some (sample_call 77), some (sample_reply 4)])).result =
      some clnt_stat.RPC_SUCCESS ∧
    (clnt_vc_call flag_clearing_env Endian.big 3 sample_args
      (duplex_state [some (sample_call 77), some (sample_reply 4)])).state.trace.filter
        Ev.is_bracket = [Ev.vc_fd_lock, Ev.block_events, Ev.vc_fd_unlock] := by
  decide

/-! ## Program and version number in the prebuilt header -/

theorem bswap32_lt (v : Nat) : bswap32 v < 2 ^ 32 := by
  simp only [bswap32, be32, bytes_le, List.getD_cons_zero, List.getD_cons_succ]
  norm_num
  omega

theorem htonl_lt (e : Endian) (v : Nat) : htonl e v < 2 ^ 32 := by
  cases e
  · exact Nat.mod_lt _ (by norm_num)
  · exact bswap32_lt v

/-- On either host, the bytes stored for `htonl v` are the big-endian bytes of `v`. -/
theorem store32_htonl (e : Endian) (v : Nat) (h : v < 2 ^ 32) :
    store32 e (htonl e v) = bytes_be v := by
  cases e
  · simp only [store32, htonl]
    rw [Nat.mod_eq_of_lt h]
  · simp only [store32, htonl, bswap32, be32, bytes_le, bytes_be, List.getD_cons_zero,
      List.getD_cons_succ]
    generalize hb0 : v % 256 = b0
    generalize hb1 : v / 2 ^ 8 % 256 = b1
    generalize hb2 : v / 2 ^ 16 % 256 = b2
    generalize hb3 : v / 2 ^ 24 % 256 = b3
    have h0 : b0 < 256 := by
      rw [← hb0]
      exact Nat.mod_lt _ (by norm_num)
    have h1 : b1 < 256 := by
      rw [← hb1]
      exact Nat.mod_lt _ (by norm_num)
    have h2 : b2 < 256 := by
      rw [← hb2]
      exact Nat.mod_lt _ (by norm_num)
    have h3 : b3 < 256 := by
      rw [← hb3]
      exact Nat.mod_lt _ (by norm_num)
    norm_num
    refine ⟨?_, ?_, ?_, ?_⟩ <;> omega

theorem ntohl_htonl (e : Endian) (v : Nat) (h : v < 2 ^ 32) : ntohl e (htonl e v) = v := by
  rw [ntohl_eq_be32_store32 e _ (htonl_lt e v), store32_htonl e v h, be32_bytes_be v h]

/-- The word read back at the offset it was written to. -/
theorem mcallc_word_get_set (e : Endian) (ct : ct_data) (off v : Nat)
    (hoff : off ≤ ct.ct_mcallc.length) (hv : v < 2 ^ 32) :
    mcallc_word_get e (mcallc_word_set e ct off v) off = v := by
  unfold mcallc_word_get mcallc_word_set
  dsimp only
  have h1 : (ct.ct_mcallc.take off).length = off := by
    rw [List.length_take]
    omega
  rw [List.append_assoc, List.drop_left' h1, List.take_left' (store32_length e v),
    load32_store32 e v hv]

/-- Replacing the four bytes at offset `off` of a buffer keeps the length, the
bytes before `off` and the bytes from `off + 4` on. -/
theorem splice_facts (l b : List Nat) (off : Nat) (hb : b.length = 4)
    (hoff : off + 4 ≤ l.length) :
    (l.take off ++ b ++ l.drop (off + 4)).length = l.length ∧
    (∀ n, n ≤ off → (l.take off ++ b ++ l.drop (off + 4)).take n = l.take n) ∧
    (∀ n, off + 4 ≤ n → (l.take off ++ b ++ l.drop (off + 4)).drop n = l.drop n) ∧
    ((l.take off ++ b ++ l.drop (off + 4)).drop off).take 4 = b := by
  have h1 : (l.take off).length = off := by
    rw [List.length_take]
    omega
  have h2 : (l.take off ++ b).length = off + 4 := by
    rw [List.length_append, h1, hb]
  refine ⟨?_, ?_, ?_, ?_⟩
  · rw [List.length_append, h2, List.length_drop]
    omega
  · intro n hn
    rw [List.append_assoc, List.take_append_of_le_length (by omega), List.take_take,
      Nat.min_eq_left hn]
  · intro n hn
    obtain ⟨k, rfl⟩ : ∃ k, n = (l.take off ++ b).length + k := ⟨n - (off + 4), by omega⟩
    rw [List.drop_append, List.drop_drop, h2]
  · rw [List.append_assoc, List.drop_left' h1, List.take_left' hb]

/-- What `CLSET_PROG` does: bytes 12..15 of the header become the big-endian
bytes of the value; the request returns TRUE. -/
theorem clset_prog_state (e : Endian) (s : State σ) (p : info_obj) (hp : p.as_u32 < 2 ^ 32) :
    clnt_vc_control e s clnt_req.CLSET_PROG (some p) =
      { ret := true, info := some p,
        s := { s with
          ct := { s.ct with
            ct_mcallc := s.ct.ct_mcallc.take 12 ++ bytes_be p.as_u32 ++ s.ct.ct_mcallc.drop 16 },
          trace := s.trace ++ [Ev.vc_fd_lock, Ev.vc_fd_unlock] } } := by
  simp [clnt_vc_control, control_switch, mcallc_word_set, State.log, BYTES_PER_XDR_UNIT,
    store32_htonl e _ hp]

/-- What `CLSET_VERS` does: bytes 16..19 of the header become the big-endian
bytes of the value; the request returns TRUE. -/
theorem clset_vers_state (e : Endian) (s : State σ) (v : info_obj) (hv : v.as_u32 < 2 ^ 32) :
    clnt_vc_control e s clnt_req.CLSET_VERS (some v) =
      { ret := true, info := some v,
        s := { s with
          ct := { s.ct with
            ct_mcallc := s.ct.ct_mcallc.take 16 ++ bytes_be v.as_u32 ++ s.ct.ct_mcallc.drop 20 },
          trace := s.trace ++ [Ev.vc_fd_lock, Ev.vc_fd_unlock] } } := by
  simp [clnt_vc_control, control_switch, mcallc_word_set, State.log, BYTES_PER_XDR_UNIT,
    store32_htonl e _ hv]

theorem ntohl_load32_bytes_be (e : Endian) (v : Nat) (h : v < 2 ^ 32) :
    ntohl e (load32 e (bytes_be v)) = v := by
  rw [← store32_htonl e v h, load32_store32 e _ (htonl_lt e v), ntohl_htonl e v h]

theorem bytes_be_length (v : Nat) : (bytes_be v).length = 4 := rfl

/-- C19: on a host of either byte order, for a header buffer of at least 20
bytes and 32-bit values `p.as_u32` and `v.as_u32`: `CLSET_PROG` returns TRUE
and a following `CLGET_PROG` returns TRUE and reads `p.as_u32`; `CLSET_VERS`
returns TRUE and a following `CLGET_VERS` returns TRUE and reads `v.as_u32`.
`CLSET_PROG` replaces header bytes 12..15 by the big-endian bytes of the value
and `CLSET_VERS` header bytes 16..19; each leaves the length of the header, the
bytes before and after the replaced ones, every other field of the private
data, the collaborator state, the message buffer and the server transport's id
as they were, so `CLGET_XID` reads what it read before and each of the two
getters reads what it read before the other field was set. -/
theorem prog_vers_set_get_round_trip (e : Endian) (s : State σ) (p v i : info_obj)
    (hlen : 20 ≤ s.ct.ct_mcallc.length) (hp : p.as_u32 < 2 ^ 32) (hv : v.as_u32 < 2 ^ 32) :
    ((clnt_vc_control e s clnt_req.CLSET_PROG (some p)).ret = true ∧
      (clnt_vc_control e (clnt_vc_control e s clnt_req.CLSET_PROG (some p)).s
        clnt_req.CLGET_PROG (some i)).ret = true ∧
      (clnt_vc_control e (clnt_vc_control e s clnt_req.CLSET_PROG (some p)).s
        clnt_req.CLGET_PROG (some i)).info = some { i with as_u32 := p.as_u32 } ∧
      (clnt_vc_control e s clnt_req.CLSET_VERS (some v)).ret = true ∧
      (clnt_vc_control e (clnt_vc_control e s clnt_req.CLSET_VERS (some v)).s
        clnt_req.CLGET_VERS (some i)).ret = true ∧
      (clnt_vc_control e (clnt_vc_control e s clnt_req.CLSET_VERS (some v)).s
        clnt_req.CLGET_VERS (some i)).info = some { i with as_u32 := v.as_u32 }) ∧
    ((clnt_vc_control e s clnt_req.CLSET_PROG (some p)).s =
        { s with
          ct := { s.ct with
            ct_mcallc := s.ct.ct_mcallc.take 12 ++ bytes_be p.as_u32 ++ s.ct.ct_mcallc.drop 16 },
          trace := s.trace ++ [Ev.vc_fd_lock, Ev.vc_fd_unlock] } ∧
      (clnt_vc_control e s clnt_req.CLSET_PROG (some p)).s.ct.ct_mcallc.length =
        s.ct.ct_mcallc.length ∧
      (clnt_vc_control e s clnt_req.CLSET_PROG (some p)).s.ct.ct_mcallc.take 12 =
        s.ct.ct_mcallc.take 12 ∧
      (clnt_vc_control e s clnt_req.CLSET_PROG (some p)).s.ct.ct_mcallc.drop 16 =
        s.ct.ct_mcallc.drop 16 ∧
      (clnt_vc_control e (clnt_vc_control e s clnt_req.CLSET_PROG (some p)).s
        clnt_req.CLGET_XID (some i)).info =
        (clnt_vc_control e s clnt_req.CLGET_XID (some i)).info ∧
      (clnt_vc_control e (clnt_vc_control e s clnt_req.CLSET_PROG (some p)).s
        clnt_req.CLGET_VERS (some i)).info =
        (clnt_vc_control e s clnt_req.CLGET_VERS (some i)).info) ∧
    ((clnt_vc_control e s clnt_req.CLSET_VERS (some v)).s =
        { s with
          ct := { s.ct with
            ct_mcallc := s.ct.ct_mcallc.take 16 ++ bytes_be v.as_u32 ++ s.ct.ct_mcallc.drop 20 },
          trace := s.trace ++ [Ev.vc_fd_lock, Ev.vc_fd_unlock] } ∧
      (clnt_vc_control e s clnt_req.CLSET_VERS (some v)).s.ct.ct_mcallc.length =
        s.ct.ct_mcallc.length ∧
      (clnt_vc_control e s clnt_req.CLSET_VERS (some v)).s.ct.ct_mcallc.take 16 =
        s.ct.ct_mcallc.take 16 ∧
      (clnt_vc_control e s clnt_req.CLSET_VERS (some v)).s.ct.ct_mcallc.drop 20 =
        s.ct.ct_mcallc.drop 20 ∧
      (clnt_vc_control e (clnt_vc_control e s clnt_req.CLSET_VERS (some v)).s
        clnt_req.CLGET_XID (some i)).info =
        (clnt_vc_control e s clnt_req.CLGET_XID (some i)).info ∧
      (clnt_vc_control e (clnt_vc_control e s clnt_req.CLSET_VERS (some v)).s
        clnt_req.CLGET_PROG (some i)).info =
        (clnt_vc_control e s clnt_req.CLGET_PROG (some i)).info) := by
  obtain ⟨p1, p2, p3, p4⟩ := splice_facts s.ct.ct_mcallc (bytes_be p.as_u32) 12
    (bytes_be_length _) (by omega)
  obtain ⟨v1, v2, v3, v4⟩ := splice_facts s.ct.ct_mcallc (bytes_be v.as_u32) 16
    (bytes_be_length _) (by omega)
  simp only [Nat.reduceAdd] at p1 p2 p3 p4 v1 v2 v3 v4
  have p5 := p2 4 (by omega)
  have v5 := v2 4 (by omega)
  have p6 := p3 16 (by omega)
  have v6 := v2 12 (by omega)
  have v7 : ((s.ct.ct_mcallc.take 16 ++ bytes_be v.as_u32 ++ s.ct.ct_mcallc.drop 20).drop
      12).take 4 = (s.ct.ct_mcallc.drop 12).take 4 := by
    rw [List.take_drop, List.take_drop]
    congr 1
    exact v2 16 (by omega)
  rw [clset_prog_state e s p hp, clset_vers_state e s v hv]
  refine ⟨⟨rfl, rfl, ?_, rfl, rfl, ?_⟩, ⟨rfl, p1, p2 12 (by omega), p6, ?_, ?_⟩,
    ⟨rfl, v1, v2 16 (by omega), v3 20 (by omega), ?_, ?_⟩⟩
  · simp only [clnt_vc_control, control_switch, mcallc_word_get, State.log, BYTES_PER_XDR_UNIT]
    norm_num
    rw [← List.append_assoc, p4, ntohl_load32_bytes_be e _ hp]
  · simp only [clnt_vc_control, control_switch, mcallc_word_get, State.log, BYTES_PER_XDR_UNIT]
    norm_num
    rw [← List.append_assoc, v4, ntohl_load32_bytes_be e _ hv]
  · simp only [clnt_vc_control, control_switch, ct_mcalli_get, State.log]
    rw [p5]
  · simp only [clnt_vc_control, control_switch, mcallc_word_get, State.log, BYTES_PER_XDR_UNIT]
    norm_num
    rw [← List.append_assoc, p6]
  · simp only [clnt_vc_control, control_switch, ct_mcalli_get, State.log]
    rw [v5]
  · simp only [clnt_vc_control, control_switch, mcallc_word_get, State.log, BYTES_PER_XDR_UNIT]
    norm_num
    rw [← List.append_assoc, v7]

/-- On a little-endian host: program number 400000 and version 4 are set on the
sample handle and read back. -/
theorem prog_vers_set_get_round_trip_witness :
    20 ≤ (sample_state 0).ct.ct_mcallc.length ∧
      (clnt_vc_control Endian.little
        (clnt_vc_control Endian.little (sample_state 0) clnt_req.CLSET_PROG
          (some (sample_info { tv_sec := 0, tv_usec := 0 } 400000))).s
        clnt_req.CLGET_PROG (some (sample_info { tv_sec := 0, tv_usec := 0 } 0))).info =
        some { sample_info { tv_sec := 0, tv_usec := 0 } 0 with
          as_u32 := (sample_info { tv_sec := 0, tv_usec := 0 } 400000).as_u32 } ∧
      (clnt_vc_control Endian.little (sample_state 0) clnt_req.CLSET_PROG
        (some (sample_info { tv_sec := 0, tv_usec := 0 } 400000))).s.ct.ct_mcallc =
        [0, 0, 0, 5, 0, 0, 0, 0, 0, 0, 0, 2, 0, 6, 26, 128, 0, 0, 0, 3, 0, 0, 0, 0] :=
  ⟨by decide,
    (prog_vers_set_get_round_trip Endian.little (sample_state 0)
      (sample_info { tv_sec := 0, tv_usec := 0 } 400000)
      (sample_info { tv_sec := 0, tv_usec := 0 } 4)
      (sample_info { tv_sec := 0, tv_usec := 0 } 0)
      (by decide) (by decide) (by decide)).1.2.2.1,
    by decide⟩

/-! ## The handle a successful creation returns -/

theorem create_err_sigmask (cl : Bool) (ct : Option ct_data) (g : proc_state) :
    (create_err cl ct g).sigmask = g.sigmask := by
  unfold create_err
  cases ct with
  | none =>
    dsimp only
    split_ifs <;> rfl
  | some c =>
    dsimp only
    split_ifs <;> rfl

/-- The steps of `clnt_vc_ops`: it replaces the mask, takes and releases
`ops_lock` and restores the mask it found. -/
theorem clnt_vc_ops_steps (g : proc_state) :
    (clnt_vc_ops g).trace =
      g.trace ++ [CEv.ops_sigmask_fill, CEv.ops_mutex_lock, CEv.ops_mutex_unlock,
        CEv.ops_sigmask_restore] ∧
    (clnt_vc_ops g).sigmask = g.sigmask ∧ (clnt_vc_ops g).disrupt = g.disrupt ∧
    (clnt_vc_ops g).rpc_createerr = g.rpc_createerr := by
  unfold clnt_vc_ops
  dsimp only [proc_state.log, proc_state.fill_sigmask, proc_state.restore_sigmask]
  split_ifs <;> simp

/-- A successful `create_tail` returns private data built from the block it
was given, the arguments, the fresh address buffer and the encoded header. -/
theorem create_tail_some (K : CreateEnv) (fd : Int) (raddr : netbuf)
    (prog vers sendsz recvsz : Nat) (mask : sigset_t) (ct0 : ct_data) (g : proc_state)
    (cl : CLIENT)
    (h : (create_tail K fd raddr prog vers sendsz recvsz mask ct0 g).1 = some cl) :
    ∃ (bytes fresh_buf : List Nat) (xid : Nat),
      K.xdr_callhdr K.MCALL_MSG_SIZE
        { rm_xid := xid, rm_direction := CALL, cb_rpcvers := K.RPC_MSG_VERSION,
          cb_prog := prog % 2 ^ 32, cb_vers := vers % 2 ^ 32 } = some bytes ∧
      cl.cl_private =
        { ct0 with
          ct_closeit := false, ct_fd := fd, ct_wait := { ct0.ct_wait with tv_usec := 0 },
          ct_waitset := false,
          ct_addr := { buf := raddr.buf.take raddr.len ++ fresh_buf.drop raddr.len,
                       len := raddr.len, maxlen := raddr.maxlen },
          x_op := xdr_op.XDR_ENCODE,
          ct_mcallc := bytes ++ ct0.ct_mcallc.drop bytes.length,
          ct_mpos := bytes.length } := by
  unfold create_tail at h
  dsimp only at h
  split at h
  · simp at h
  · split at h
    · simp at h
    · split at h
      · simp at h
      · rename_i bytes h3
        simp only [Option.some.injEq] at h
        exact ⟨bytes, _, _, h3, by rw [← h]⟩

/-- A successful `clnt_vc_create2` went through `create_tail`. -/
theorem clnt_vc_create2_some (K : CreateEnv) (g : proc_state) (fd : Int) (raddr_ptr : Nat)
    (raddr : netbuf) (prog vers sendsz recvsz : Nat) (connect_flag : Bool) (cl : CLIENT)
    (h : (clnt_vc_create2 K g fd raddr_ptr raddr prog vers sendsz recvsz connect_flag).1 =
      some cl) :
    ∃ (mask : sigset_t) (ct0 : ct_data) (g1 : proc_state),
      (create_tail K fd raddr prog vers sendsz recvsz mask ct0 g1).1 = some cl := by
  unfold clnt_vc_create2 at h
  dsimp only at h
  cases h1 : K.ct_alloc with
  | none =>
    rw [h1] at h
    simp at h
  | some fresh =>
    rw [h1] at h
    dsimp only at h
    split_ifs at h <;>
      first
        | exact ⟨_, _, _, h⟩
        | simp [connect_failed] at h

theorem header_words (a b c d w : Nat) (rest : List Nat) :
    ((bytes_be a ++ bytes_be b ++ bytes_be c ++ bytes_be d ++ bytes_be w ++ rest).drop 12).take 4
        = bytes_be d ∧
      ((bytes_be a ++ bytes_be b ++ bytes_be c ++ bytes_be d ++ bytes_be w ++ rest).drop 16).take 4
        = bytes_be w := by
  simp [bytes_be]

/-- C20: let `clnt_vc_create2(fd, raddr, prog, vers, ...)` return a handle
`cl`, with `raddr.len <= raddr.maxlen`, `raddr` holding at least `raddr.len`
bytes, 32-bit `prog` and `vers`, and an `xdr_callhdr` that encodes the header
as the five consecutive big-endian words transaction id, direction, RPC
version, program, version.  Then on a host of either byte order the getters
applied to the private data of `cl` return TRUE and yield what the creator
supplied: `CLGET_FD` yields `fd`; `CLGET_SERVER_ADDR` writes exactly the first
`raddr.len` bytes of `raddr` over the start of the caller's buffer;
`CLGET_SVC_ADDR` reports `raddr.len` and `raddr.maxlen`; `CLGET_PROG` yields
`prog` and `CLGET_VERS` yields `vers`; the close-on-destroy flag and the
timeout-explicitly-set flag are both false. -/
theorem created_handle_getters (K : CreateEnv) (g : proc_state) (fd : Int) (raddr_ptr : Nat)
    (raddr : netbuf) (prog vers sendsz recvsz : Nat) (connect_flag : Bool) (cl : CLIENT)
    (e : Endian) (s : State σ) (i : info_obj)
    (hcreate : (clnt_vc_create2 K g fd raddr_ptr raddr prog vers sendsz recvsz
      connect_flag).1 = some cl)
    (hlen : raddr.len ≤ raddr.maxlen) (hbuf : raddr.len ≤ raddr.buf.length)
    (hprog : prog < 2 ^ 32) (hvers : vers < 2 ^ 32)
    (hhdr : ∀ size m bytes, K.xdr_callhdr size m = some bytes →
      bytes = bytes_be m.rm_xid ++ bytes_be m.rm_direction ++ bytes_be m.cb_rpcvers ++
        bytes_be m.cb_prog ++ bytes_be m.cb_vers)
    (hs : s.ct = cl.cl_private) :
    ((clnt_vc_control e s clnt_req.CLGET_FD (some i)).ret = true ∧
      (clnt_vc_control e s clnt_req.CLGET_FD (some i)).info = some { i with as_int := fd }) ∧
    ((clnt_vc_control e s clnt_req.CLGET_SERVER_ADDR (some i)).ret = true ∧
      (clnt_vc_control e s clnt_req.CLGET_SERVER_ADDR (some i)).info =
        some { i with as_bytes := raddr.buf.take raddr.len ++ i.as_bytes.drop raddr.len }) ∧
    ((clnt_vc_control e s clnt_req.CLGET_SVC_ADDR (some i)).ret = true ∧
      (∃ nb : netbuf,
        (clnt_vc_control e s clnt_req.CLGET_SVC_ADDR (some i)).info =
          some { i with as_netbuf := nb } ∧
        nb.len = raddr.len ∧ nb.maxlen = raddr.maxlen ∧ nb.len ≤ nb.maxlen ∧
        nb.buf.take nb.len = raddr.buf.take raddr.len)) ∧
    ((clnt_vc_control e s clnt_req.CLGET_PROG (some i)).ret = true ∧
      (clnt_vc_control e s clnt_req.CLGET_PROG (some i)).info = some { i with as_u32 := prog }) ∧
    ((clnt_vc_control e s clnt_req.CLGET_VERS (some i)).ret = true ∧
      (clnt_vc_control e s clnt_req.CLGET_VERS (some i)).info = some { i with as_u32 := vers }) ∧
    cl.cl_private.ct_closeit = false ∧ cl.cl_private.ct_waitset = false := by
  obtain ⟨mask, ct0, g1, ht⟩ := clnt_vc_create2_some K g fd raddr_ptr raddr prog vers sendsz
    recvsz connect_flag cl hcreate
  obtain ⟨bytes, fresh_buf, xid, hx, hct⟩ :=
    create_tail_some K fd raddr prog vers sendsz recvsz mask ct0 g1 cl ht
  have hb := hhdr _ _ _ hx
  dsimp only at hb
  rw [Nat.mod_eq_of_lt hprog, Nat.mod_eq_of_lt hvers] at hb
  have htake : (raddr.buf.take raddr.len ++ fresh_buf.drop raddr.len).take raddr.len =
      raddr.buf.take raddr.len := by
    apply List.take_left'
    rw [List.length_take]
    omega
  obtain ⟨w1, w2⟩ := header_words xid CALL K.RPC_MSG_VERSION prog vers
    (ct0.ct_mcallc.drop bytes.length)
  rw [← hb] at w1 w2
  rw [hct] at hs
  refine ⟨⟨rfl, ?_⟩, ⟨rfl, ?_⟩, ⟨rfl, ?_⟩, ⟨rfl, ?_⟩, ⟨rfl, ?_⟩, ?_, ?_⟩
  · simp [clnt_vc_control, control_switch, State.log, hs]
  · simp only [clnt_vc_control, control_switch, State.log, hs]
    rw [htake]
  · refine ⟨_, rfl, ?_, ?_, ?_, ?_⟩
    · simp [State.log, hs]
    · simp [State.log, hs]
    · simp only [State.log, hs]
      exact hlen
    · simp only [State.log, hs]
      exact htake
  · simp only [clnt_vc_control, control_switch, mcallc_word_get, State.log, hs,
      BYTES_PER_XDR_UNIT]
    norm_num
    rw [w1, ntohl_load32_bytes_be e _ hprog]
  · simp only [clnt_vc_control, control_switch, mcallc_word_get, State.log, hs,
      BYTES_PER_XDR_UNIT]
    norm_num
    rw [w2, ntohl_load32_bytes_be e _ hvers]
  · rw [hct]
  · rw [hct]

/-- The header layout of the modelled `xdr_callhdr`. -/
theorem xdr_callhdr_layout (size : Nat) (m : call_hdr) (bytes : List Nat)
    (h : xdr_callhdr size m = some bytes) :
    bytes = bytes_be m.rm_xid ++ bytes_be m.rm_direction ++ bytes_be m.cb_rpcvers ++
      bytes_be m.cb_prog ++ bytes_be m.cb_vers := by
  unfold xdr_callhdr at h
  split_ifs at h
  injection h with h
  exact h.symm

/-- The sample creation on a little-endian host: the handle is returned and
the getters yield descriptor 7, the peer address, program 100003 and
version 3. -/
theorem created_handle_getters_witness :
    (clnt_vc_create2 sample_create_env sample_proc 7 4096 sample_raddr 100003 3 0 0 true).1 =
        some sample_client ∧
      (clnt_vc_control Endian.little (client_state sample_client 0) clnt_req.CLGET_FD
        (some (sample_info { tv_sec := 0, tv_usec := 0 } 0))).info =
        some { sample_info { tv_sec := 0, tv_usec := 0 } 0 with as_int := 7 } ∧
      (clnt_vc_control Endian.little (client_state sample_client 0) clnt_req.CLGET_SERVER_ADDR
        (some (sample_info { tv_sec := 0, tv_usec := 0 } 0))).info =
        some { sample_info { tv_sec := 0, tv_usec := 0 } 0 with
          as_bytes := sample_raddr.buf.take sample_raddr.len ++
            (sample_info { tv_sec := 0, tv_usec := 0 } 0).as_bytes.drop sample_raddr.len } ∧
      (clnt_vc_control Endian.little (client_state sample_client 0) clnt_req.CLGET_PROG
        (some (sample_info { tv_sec := 0, tv_usec := 0 } 0))).info =
        some { sample_info { tv_sec := 0, tv_usec := 0 } 0 with as_u32 := 100003 } ∧
      (clnt_vc_control Endian.little (client_state sample_client 0) clnt_req.CLGET_VERS
        (some (sample_info { tv_sec := 0, tv_usec := 0 } 0))).info =
        some { sample_info { tv_sec := 0, tv_usec := 0 } 0 with as_u32 := 3 } :=
  have h := created_handle_getters sample_create_env sample_proc 7 4096 sample_raddr 100003 3
    0 0 true sample_client Endian.little (client_state sample_client 0)
    (sample_info { tv_sec := 0, tv_usec := 0 } 0) (by decide) (by decide) (by decide)
    (by decide) (by decide) (fun size m bytes hx => xdr_callhdr_layout size m bytes hx) rfl
  ⟨by decide, h.1.2, h.2.1.2, h.2.2.2.1.2, h.2.2.2.2.1.2⟩

/-! ## Control requests that fail -/

/-- C21: `clnt_vc_control` returns FALSE and leaves the private data, the
collaborator state, the message buffer, the server transport's id and the
object behind `info` as they were (the only events are the lock and the
unlock), (a) for every request other than `CLSET_FD_CLOSE` and
`CLSET_FD_NCLOSE` when `info` is null, and (b) for every request code outside
the handled set, whatever `info` is. -/
theorem control_fails_without_change (e : Endian) (s : State σ) (request : clnt_req)
    (code : Nat) (info : Option info_obj)
    (h1 : request ≠ clnt_req.CLSET_FD_CLOSE) (h2 : request ≠ clnt_req.CLSET_FD_NCLOSE) :
    ((clnt_vc_control e s request none).ret = false ∧
      (clnt_vc_control e s request none).info = none ∧
      (clnt_vc_control e s request none).s =
        { s with trace := s.trace ++ [Ev.vc_fd_lock, Ev.vc_fd_unlock] }) ∧
    ((clnt_vc_control e s (clnt_req.other code) info).ret = false ∧
      (clnt_vc_control e s (clnt_req.other code) info).info = info ∧
      (clnt_vc_control e s (clnt_req.other code) info).s =
        { s with trace := s.trace ++ [Ev.vc_fd_lock, Ev.vc_fd_unlock] }) := by
  constructor
  · cases request <;> simp_all [clnt_vc_control, State.log]
  · cases info <;> simp [clnt_vc_control, control_switch, State.log]

/-- A setter with a null `info` and an unknown request code with a non-null
`info`, on the sample handle. -/
theorem control_fails_without_change_witness :
    ((clnt_vc_control Endian.little (sample_state 0) clnt_req.CLSET_XID none).ret = false ∧
      (clnt_vc_control Endian.little (sample_state 0) clnt_req.CLSET_XID none).info = none ∧
      (clnt_vc_control Endian.little (sample_state 0) clnt_req.CLSET_XID none).s =
        { sample_state 0 with
          trace := (sample_state 0).trace ++ [Ev.vc_fd_lock, Ev.vc_fd_unlock] }) ∧
    ((clnt_vc_control Endian.little (sample_state 0) (clnt_req.other 99)
        (some (sample_info { tv_sec := 1, tv_usec := 2 } 3))).ret = false ∧
      (clnt_vc_control Endian.little (sample_state 0) (clnt_req.other 99)
        (some (sample_info { tv_sec := 1, tv_usec := 2 } 3))).info =
        some (sample_info { tv_sec := 1, tv_usec := 2 } 3) ∧
      (clnt_vc_control Endian.little (sample_state 0) (clnt_req.other 99)
        (some (sample_info { tv_sec := 1, tv_usec := 2 } 3))).s =
        { sample_state 0 with
          trace := (sample_state 0).trace ++ [Ev.vc_fd_lock, Ev.vc_fd_unlock] }) :=
  control_fails_without_change Endian.little (sample_state 0) clnt_req.CLSET_XID 99
    (some (sample_info { tv_sec := 1, tv_usec := 2 } 3)) (by decide) (by decide)

/-! ## Closing the descriptor on destroy -/

theorem fd_closeit_of_settled (c1 c2 : ct_data) (h : c1.settled = c2.settled) :
    c1.ct_fd = c2.ct_fd ∧ c1.ct_closeit = c2.ct_closeit := by
  simp only [ct_data.settled, ct_data.stable, Prod.mk.injEq] at h
  exact ⟨h.2.2.2.1, h.2.2.2.2.1⟩

theorem call_entry_fd_closeit (a : call_args) (s : State σ) :
    (call_entry a s).2.ct.ct_fd = s.ct.ct_fd ∧
      (call_entry a s).2.ct.ct_closeit = s.ct.ct_closeit := by
  unfold call_entry adopt_timeout cond_block_events_client
  dsimp only
  split_ifs <;> simp [State.log]

/-- A call leaves the descriptor and the close-on-destroy flag as they were. -/
theorem clnt_vc_call_fd_closeit (E : Env σ) (e : Endian) (fuel : Nat) (a : call_args)
    (s : State σ) :
    (clnt_vc_call E e fuel a s).state.ct.ct_fd = s.ct.ct_fd ∧
      (clnt_vc_call E e fuel a s).state.ct.ct_closeit = s.ct.ct_closeit := by
  obtain ⟨h1, h2⟩ := fd_closeit_of_settled _ _ (clnt_vc_call_settled E e fuel a s)
  obtain ⟨h3, h4⟩ := call_entry_fd_closeit a s
  exact ⟨h1.trans h3, h2.trans h4⟩

/-- A control request leaves the descriptor as it was, and sets the
close-on-destroy flag exactly when it is one of the two flag requests. -/
theorem clnt_vc_control_fd_closeit (e : Endian) (s : State σ) (request : clnt_req)
    (info : Option info_obj) :
    (clnt_vc_control e s request info).s.ct.ct_fd = s.ct.ct_fd ∧
      (clnt_vc_control e s request info).s.ct.ct_closeit =
        ((handle_op.control request info).fd_close_request).getD s.ct.ct_closeit := by
  cases request <;> cases info <;>
    simp [clnt_vc_control, control_switch, State.log, handle_op.fd_close_request,
      ct_mcalli_set, mcallc_word_set]
  split_ifs <;> simp

/-- After any sequence of operations the descriptor is the one the sequence
started with, and the close-on-destroy flag is what the most recent flag
request set, or the flag the sequence started with when there was none. -/
theorem run_ops_fd_closeit (E : Env σ) (e : Endian) (ops : List handle_op) (s : State σ) :
    (run_ops E e ops s).ct.ct_fd = s.ct.ct_fd ∧
      (run_ops E e ops s).ct.ct_closeit =
        (last_fd_close_request ops).getD s.ct.ct_closeit := by
  induction ops generalizing s with
  | nil => exact ⟨rfl, rfl⟩
  | cons op rest ih =>
    have hop : ∃ s1 : State σ, run_ops E e (op :: rest) s = run_ops E e rest s1 ∧
        s1.ct.ct_fd = s.ct.ct_fd ∧
        s1.ct.ct_closeit = (op.fd_close_request).getD s.ct.ct_closeit := by
      cases op with
      | control request info =>
        exact ⟨_, rfl, clnt_vc_control_fd_closeit e s request info⟩
      | call fuel a =>
        exact ⟨_, rfl, clnt_vc_call_fd_closeit E e fuel a s⟩
    obtain ⟨s1, hrun, hfd, hcl⟩ := hop
    obtain ⟨ih1, ih2⟩ := ih s1
    rw [hrun]
    refine ⟨ih1.trans hfd, ?_⟩
    rw [ih2]
    simp only [last_fd_close_request]
    cases last_fd_close_request rest with
    | some b => rfl
    | none => exact hcl

/-- The only step of `clnt_vc_destroy` that closes a descriptor is the guarded
`close(ct->ct_fd)`. -/
theorem clnt_vc_destroy_closes (ct : ct_data) (cl_netid cl_tp : Option (List Nat)) :
    (clnt_vc_destroy ct cl_netid cl_tp).filter DEv.is_close =
      if ct.ct_closeit = true ∧ ct.ct_fd ≠ -1 then [DEv.close ct.ct_fd] else [] := by
  unfold clnt_vc_destroy
  have h1 : (match cl_netid with
      | some (_ :: _) => [DEv.mem_free_netid]
      | _ => []).filter DEv.is_close = [] := by
    rcases cl_netid with _ | (_ | _) <;> rfl
  have h2 : (match cl_tp with
      | some (_ :: _) => [DEv.mem_free_tp]
      | _ => []).filter DEv.is_close = [] := by
    rcases cl_tp with _ | (_ | _) <;> rfl
  simp only [List.filter_append, h1, h2]
  by_cases hc : ct.ct_closeit = true <;> by_cases hf : ct.ct_fd = -1 <;>
    by_cases hb : ct.ct_addr.buf = [] <;> simp [hc, hf, hb, DEv.is_close]

/-- C22: take a handle returned by `clnt_vc_create2` for the descriptor `fd`
and any sequence `ops` of control requests and calls on it.  `clnt_vc_destroy`
then closes the descriptor exactly when the most recent `CLSET_FD_CLOSE` /
`CLSET_FD_NCLOSE` request of `ops` was `CLSET_FD_CLOSE` and `fd` is not -1, and
it closes it once; in particular a handle on which neither request was issued
is not closed, the flag being false after the creation.  Both requests return
TRUE whatever `info` is, null included, and change nothing but the flag (the
only events are the lock and the unlock). -/
theorem destroy_closes_iff_last_request_close (K : CreateEnv) (g : proc_state) (fd : Int)
    (raddr_ptr : Nat) (raddr : netbuf) (prog vers sendsz recvsz : Nat) (connect_flag : Bool)
    (cl : CLIENT) (E : Env σ) (e : Endian) (ops : List handle_op) (s0 s : State σ)
    (info : Option info_obj) (cl_netid cl_tp : Option (List Nat))
    (hcreate : (clnt_vc_create2 K g fd raddr_ptr raddr prog vers sendsz recvsz
      connect_flag).1 = some cl)
    (hs0 : s0.ct = cl.cl_private) :
    ((clnt_vc_destroy (run_ops E e ops s0).ct cl_netid cl_tp).filter DEv.is_close =
      if last_fd_close_request ops = some true ∧ fd ≠ -1 then [DEv.close fd] else []) ∧
    (last_fd_close_request ops = none →
      (clnt_vc_destroy (run_ops E e ops s0).ct cl_netid cl_tp).filter DEv.is_close = []) ∧
    cl.cl_private.ct_closeit = false ∧
    clnt_vc_control e s clnt_req.CLSET_FD_CLOSE info =
      { ret := true, info := info,
        s := { s with ct := { s.ct with ct_closeit := true },
                      trace := s.trace ++ [Ev.vc_fd_lock, Ev.vc_fd_unlock] } } ∧
    clnt_vc_control e s clnt_req.CLSET_FD_NCLOSE info =
      { ret := true, info := info,
        s := { s with ct := { s.ct with ct_closeit := false },
                      trace := s.trace ++ [Ev.vc_fd_lock, Ev.vc_fd_unlock] } } := by
  obtain ⟨mask, ct0, g1, ht⟩ := clnt_vc_create2_some K g fd raddr_ptr raddr prog vers sendsz
    recvsz connect_flag cl hcreate
  obtain ⟨bytes, fresh_buf, xid, _, hct⟩ :=
    create_tail_some K fd raddr prog vers sendsz recvsz mask ct0 g1 cl ht
  have hfd0 : s0.ct.ct_fd = fd := by rw [hs0, hct]
  have hcl0 : s0.ct.ct_closeit = false := by rw [hs0, hct]
  obtain ⟨hfd, hcl⟩ := run_ops_fd_closeit E e ops s0
  rw [hfd0] at hfd
  rw [hcl0] at hcl
  have key : (clnt_vc_destroy (run_ops E e ops s0).ct cl_netid cl_tp).filter DEv.is_close =
      if last_fd_close_request ops = some true ∧ fd ≠ -1 then [DEv.close fd] else [] := by
    rw [clnt_vc_destroy_closes, hfd, hcl]
    cases hl : last_fd_close_request ops with
    | none => simp
    | some b => cases b <;> simp
  refine ⟨key, ?_, ?_, ?_, ?_⟩
  · intro hnone
    rw [key, hnone]
    simp
  · rw [hct]
  · simp [clnt_vc_control, State.log]
  · simp [clnt_vc_control, State.log]

/-- The sample handle after `sample_ops`: the most recent flag request is
`CLSET_FD_CLOSE`, and destroying the handle closes descriptor 7 once. -/
theorem destroy_closes_iff_last_request_close_witness :
    (clnt_vc_create2 sample_create_env sample_proc 7 4096 sample_raddr 100003 3 0 0 true).1 =
        some sample_client ∧
      last_fd_close_request sample_ops = some true ∧
      (clnt_vc_destroy
        (run_ops (echo_env 0 0 0 true true) Endian.little sample_ops
          (client_state sample_client 0)).ct none none).filter DEv.is_close = [DEv.close 7] :=
  ⟨by decide, by decide,
    (destroy_closes_iff_last_request_close sample_create_env sample_proc 7 4096 sample_raddr
      100003 3 0 0 true sample_client (echo_env 0 0 0 true true) Endian.little sample_ops
      (client_state sample_client 0) (client_state sample_client 0) none none none
      (by decide) rfl).1.trans (by decide)⟩

/-! ## Failing creations -/

theorem create_err_createerr (cl : Bool) (ct : Option ct_data) (g : proc_state) :
    (create_err cl ct g).rpc_createerr = g.rpc_createerr := by
  unfold create_err
  cases ct <;> simp only [] <;> split_ifs <;> rfl

/-- From `mutex_unlock` on, no path of the creation assigns `rpc_createerr`:
whether `create_tail` returns a handle or fails at the socket-information
lookup, at the allocation of the address buffer or at `xdr_callhdr`, the
creation error is what it was. -/
theorem create_tail_createerr (K : CreateEnv) (fd : Int) (raddr : netbuf)
    (prog vers sendsz recvsz : Nat) (mask : sigset_t) (ct0 : ct_data) (g : proc_state) :
    (create_tail K fd raddr prog vers sendsz recvsz mask ct0 g).2.rpc_createerr =
      g.rpc_createerr := by
  unfold create_tail
  dsimp only
  cases K.__rpc_fd2sockinfo with
  | none => simp only [create_err_createerr, proc_state.log]
  | some si =>
    dsimp only
    cases K.addr_alloc raddr.maxlen with
    | none => simp only [create_err_createerr, proc_state.log, proc_state.restore_sigmask]
    | some fresh_buf =>
      dsimp only
      cases K.xdr_callhdr K.MCALL_MSG_SIZE _ with
      | none =>
        simp only [create_err_createerr]
        split_ifs <;> rfl
      | some bytes =>
        simp only [proc_state.log, (clnt_vc_ops_steps _).2.2.2]
        rfl

/-- C23 (evaluation at the failing inputs): when the allocation of the copy of
the peer address fails, and when `xdr_callhdr` fails, `clnt_vc_create2` returns
a null handle and leaves `rpc_createerr` as it was, here with `cf_stat` still
`RPC_SUCCESS`; when the allocation of the private data fails it returns a null
handle and sets `cf_stat` to `RPC_SYSTEMERROR` and the error number to
`errno`. -/
theorem create_failure_leaves_createerr :
    ((clnt_vc_create2 addr_alloc_fails_env sample_proc 7 4096 sample_raddr 100003 3 0 0
        true).1 = none ∧
      (clnt_vc_create2 addr_alloc_fails_env sample_proc 7 4096 sample_raddr 100003 3 0 0
        true).2.rpc_createerr = sample_proc.rpc_createerr ∧
      (clnt_vc_create2 addr_alloc_fails_env sample_proc 7 4096 sample_raddr 100003 3 0 0
        true).2.rpc_createerr.cf_stat = clnt_stat.RPC_SUCCESS) ∧
    ((clnt_vc_create2 callhdr_fails_env sample_proc 7 4096 sample_raddr 100003 3 0 0
        true).1 = none ∧
      (clnt_vc_create2 callhdr_fails_env sample_proc 7 4096 sample_raddr 100003 3 0 0
        true).2.rpc_createerr = sample_proc.rpc_createerr ∧
      (clnt_vc_create2 callhdr_fails_env sample_proc 7 4096 sample_raddr 100003 3 0 0
        true).2.rpc_createerr.cf_stat = clnt_stat.RPC_SUCCESS) ∧
    ((clnt_vc_create2 ct_alloc_fails_env sample_proc 7 4096 sample_raddr 100003 3 0 0
        true).1 = none ∧
      (clnt_vc_create2 ct_alloc_fails_env sample_proc 7 4096 sample_raddr 100003 3 0 0
        true).2.rpc_createerr.cf_stat = clnt_stat.RPC_SYSTEMERROR ∧
      (clnt_vc_create2 ct_alloc_fails_env sample_proc 7 4096 sample_raddr 100003 3 0 0
        true).2.rpc_createerr.cf_error.re_errno = 12) := by
  decide

/-! ## The signal mask during a creation -/

/-- The label `err` adds only `mem_free` steps. -/
theorem create_err_countP (p : CEv → Bool) (hp1 : ∀ n, p (CEv.mem_free_addr n) = false)
    (hp2 : p CEv.mem_free_ct = false) (hp3 : p CEv.mem_free_cl = false)
    (cl : Bool) (ct : Option ct_data) (g : proc_state) :
    (create_err cl ct g).trace.countP p = g.trace.countP p := by
  unfold create_err
  cases ct with
  | none =>
    dsimp only
    split_ifs <;> simp [proc_state.log, List.countP_append, hp3]
  | some c =>
    dsimp only
    split_ifs <;> simp [proc_state.log, List.countP_append, hp1, hp2, hp3]

theorem create_err_fills (cl : Bool) (ct : Option ct_data) (g : proc_state) :
    (create_err cl ct g).trace.countP CEv.is_fill = g.trace.countP CEv.is_fill :=
  create_err_countP _ (fun _ => rfl) rfl rfl cl ct g

theorem create_err_restores (cl : Bool) (ct : Option ct_data) (g : proc_state) :
    (create_err cl ct g).trace.countP CEv.is_restore = g.trace.countP CEv.is_restore :=
  create_err_countP _ (fun _ => rfl) rfl rfl cl ct g

theorem create_err_sockinfo_failures (cl : Bool) (ct : Option ct_data) (g : proc_state) :
    (create_err cl ct g).trace.countP CEv.is_sockinfo_failure =
      g.trace.countP CEv.is_sockinfo_failure :=
  create_err_countP _ (fun _ => rfl) rfl rfl cl ct g

/-- From `mutex_unlock` on, the creation itself never replaces the signal
mask, and it restores the mask saved in `mask` once on every path except the
one on which `__rpc_fd2sockinfo` fails, where it does not restore it: there
the thread keeps the mask it had at `mutex_unlock`.  On the other paths the
thread returns with the mask saved in `mask`, also after `clnt_vc_ops`, which
restores the mask it replaces. -/
theorem create_tail_mask (K : CreateEnv) (fd : Int) (raddr : netbuf)
    (prog vers sendsz recvsz : Nat) (mask : sigset_t) (ct0 : ct_data) (g : proc_state) :
    (create_tail K fd raddr prog vers sendsz recvsz mask ct0 g).2.trace.countP CEv.is_fill =
      g.trace.countP CEv.is_fill ∧
    (create_tail K fd raddr prog vers sendsz recvsz mask ct0 g).2.trace.countP CEv.is_restore =
      g.trace.countP CEv.is_restore + (if K.__rpc_fd2sockinfo = none then 0 else 1) ∧
    (create_tail K fd raddr prog vers sendsz recvsz mask ct0 g).2.trace.countP
        CEv.is_sockinfo_failure =
      g.trace.countP CEv.is_sockinfo_failure + (if K.__rpc_fd2sockinfo = none then 1 else 0) ∧
    (create_tail K fd raddr prog vers sendsz recvsz mask ct0 g).2.sigmask =
      (if K.__rpc_fd2sockinfo = none then g.sigmask else mask) ∧
    (K.__rpc_fd2sockinfo = none →
      (create_tail K fd raddr prog vers sendsz recvsz mask ct0 g).1 = none) := by
  unfold create_tail
  dsimp only
  cases K.__rpc_fd2sockinfo with
  | none =>
    simp [create_err_fills, create_err_restores, create_err_sockinfo_failures,
      create_err_sigmask, proc_state.log,
      List.countP_append, CEv.is_fill, CEv.is_restore, CEv.is_sockinfo_failure]
  | some si =>
    dsimp only
    cases K.addr_alloc raddr.maxlen with
    | none =>
      simp [create_err_fills, create_err_restores, create_err_sockinfo_failures,
        create_err_sigmask, proc_state.log, proc_state.restore_sigmask,
        List.countP_append, CEv.is_fill, CEv.is_restore,
        CEv.is_sockinfo_failure]
    | some fresh_buf =>
      dsimp only
      cases K.xdr_callhdr K.MCALL_MSG_SIZE _ with
      | none =>
        simp [create_err_fills, create_err_restores, create_err_sockinfo_failures,
          create_err_sigmask, proc_state.log, proc_state.restore_sigmask, List.countP_append,
          CEv.is_fill, CEv.is_restore, CEv.is_sockinfo_failure]
      | some bytes =>
        simp [proc_state.log, proc_state.restore_sigmask, (clnt_vc_ops_steps _).1,
          (clnt_vc_ops_steps _).2.1, List.countP_append, CEv.is_fill, CEv.is_restore,
          CEv.is_sockinfo_failure]

/-- A creation whose two allocations succeed replaces the signal mask once.
Then either it restores the saved mask once and the thread returns with the
mask it had on entry, or it leaves through the failure of
`__rpc_fd2sockinfo`, restores nothing, and returns the null handle with the
full mask still in place. -/
theorem clnt_vc_create2_mask (K : CreateEnv) (g : proc_state) (fd : Int) (raddr_ptr : Nat)
    (raddr : netbuf) (prog vers sendsz recvsz : Nat) (connect_flag : Bool) (fresh : ct_data)
    (hct : K.ct_alloc = some fresh) (hcl : K.cl_alloc = true) :
    (clnt_vc_create2 K g fd raddr_ptr raddr prog vers sendsz recvsz connect_flag).2.trace.countP
        CEv.is_fill = g.trace.countP CEv.is_fill + 1 ∧
    (clnt_vc_create2 K g fd raddr_ptr raddr prog vers sendsz recvsz connect_flag).2.trace.countP
        CEv.is_restore +
      (clnt_vc_create2 K g fd raddr_ptr raddr prog vers sendsz recvsz
        connect_flag).2.trace.countP CEv.is_sockinfo_failure =
      g.trace.countP CEv.is_restore + g.trace.countP CEv.is_sockinfo_failure + 1 ∧
    (((clnt_vc_create2 K g fd raddr_ptr raddr prog vers sendsz recvsz connect_flag).2.sigmask =
          g.sigmask ∧
        (clnt_vc_create2 K g fd raddr_ptr raddr prog vers sendsz recvsz
          connect_flag).2.trace.countP CEv.is_restore = g.trace.countP CEv.is_restore + 1) ∨
      ((clnt_vc_create2 K g fd raddr_ptr raddr prog vers sendsz recvsz connect_flag).2.sigmask =
          sigset_t.full ∧
        (clnt_vc_create2 K g fd raddr_ptr raddr prog vers sendsz recvsz
          connect_flag).2.trace.countP CEv.is_restore = g.trace.countP CEv.is_restore ∧
        (clnt_vc_create2 K g fd raddr_ptr raddr prog vers sendsz recvsz
          connect_flag).2.trace.countP CEv.is_sockinfo_failure =
          g.trace.countP CEv.is_sockinfo_failure + 1 ∧
        (clnt_vc_create2 K g fd raddr_ptr raddr prog vers sendsz recvsz connect_flag).1 =
          none)) := by
  have hg : ∀ p : CEv → Bool,
      (if g.disrupt = 0 then { g with disrupt := raddr_ptr % 2 ^ 32 } else g).trace.countP p =
        g.trace.countP p := by
    intro p
    split_ifs <;> rfl
  have hm : (if g.disrupt = 0 then { g with disrupt := raddr_ptr % 2 ^ 32 } else g).sigmask =
      g.sigmask := by
    split_ifs <;> rfl
  have htail : ∀ g2 : proc_state,
      g2.trace.countP CEv.is_fill = g.trace.countP CEv.is_fill + 1 →
      g2.trace.countP CEv.is_restore = g.trace.countP CEv.is_restore →
      g2.trace.countP CEv.is_sockinfo_failure = g.trace.countP CEv.is_sockinfo_failure →
      g2.sigmask = sigset_t.full →
      (create_tail K fd raddr prog vers sendsz recvsz g.sigmask
          { fresh with ct_addr := { fresh.ct_addr with buf := [] } } g2).2.trace.countP
        CEv.is_fill = g.trace.countP CEv.is_fill + 1 ∧
      (create_tail K fd raddr prog vers sendsz recvsz g.sigmask
          { fresh with ct_addr := { fresh.ct_addr with buf := [] } } g2).2.trace.countP
        CEv.is_restore +
        (create_tail K fd raddr prog vers sendsz recvsz g.sigmask
          { fresh with ct_addr := { fresh.ct_addr with buf := [] } } g2).2.trace.countP
          CEv.is_sockinfo_failure =
        g.trace.countP CEv.is_restore + g.trace.countP CEv.is_sockinfo_failure + 1 ∧
      (((create_tail K fd raddr prog vers sendsz recvsz g.sigmask
            { fresh with ct_addr := { fresh.ct_addr with buf := [] } } g2).2.sigmask =
            g.sigmask ∧
          (create_tail K fd raddr prog vers sendsz recvsz g.sigmask
            { fresh with ct_addr := { fresh.ct_addr with buf := [] } } g2).2.trace.countP
            CEv.is_restore = g.trace.countP CEv.is_restore + 1) ∨
        ((create_tail K fd raddr prog vers sendsz recvsz g.sigmask
            { fresh with ct_addr := { fresh.ct_addr with buf := [] } } g2).2.sigmask =
            sigset_t.full ∧
          (create_tail K fd raddr prog vers sendsz recvsz g.sigmask
            { fresh with ct_addr := { fresh.ct_addr with buf := [] } } g2).2.trace.countP
            CEv.is_restore = g.trace.countP CEv.is_restore ∧
          (create_tail K fd raddr prog vers sendsz recvsz g.sigmask
            { fresh with ct_addr := { fresh.ct_addr with buf := [] } } g2).2.trace.countP
            CEv.is_sockinfo_failure = g.trace.countP CEv.is_sockinfo_failure + 1 ∧
          (create_tail K fd raddr prog vers sendsz recvsz g.sigmask
            { fresh with ct_addr := { fresh.ct_addr with buf := [] } } g2).1 = none)) := by
    intro g2 h1 h2 h3 h4
    obtain ⟨t1, t2, t3, t4, t5⟩ := create_tail_mask K fd raddr prog vers sendsz recvsz g.sigmask
      { fresh with ct_addr := { fresh.ct_addr with buf := [] } } g2
    rw [t1, t2, t3, t4, h1, h2, h3, h4]
    refine ⟨rfl, ?_, ?_⟩
    · split_ifs <;> omega
    · by_cases hs : K.__rpc_fd2sockinfo = none
      · exact Or.inr ⟨by simp [hs], by simp [hs], by simp [hs], t5 hs⟩
      · exact Or.inl ⟨by simp [hs], by simp [hs]⟩
  have hfail : ∀ (errno : Int) (g2 : proc_state),
      g2.trace.countP CEv.is_fill = g.trace.countP CEv.is_fill + 1 →
      g2.trace.countP CEv.is_restore = g.trace.countP CEv.is_restore →
      g2.trace.countP CEv.is_sockinfo_failure = g.trace.countP CEv.is_sockinfo_failure →
      g2.sigmask = sigset_t.full →
      (connect_failed errno g.sigmask { fresh with ct_addr := { fresh.ct_addr with buf := [] } }
          g2).2.trace.countP CEv.is_fill = g.trace.countP CEv.is_fill + 1 ∧
      (connect_failed errno g.sigmask { fresh with ct_addr := { fresh.ct_addr with buf := [] } }
          g2).2.trace.countP CEv.is_restore +
        (connect_failed errno g.sigmask
          { fresh with ct_addr := { fresh.ct_addr with buf := [] } }
          g2).2.trace.countP CEv.is_sockinfo_failure =
        g.trace.countP CEv.is_restore + g.trace.countP CEv.is_sockinfo_failure + 1 ∧
      (((connect_failed errno g.sigmask
            { fresh with ct_addr := { fresh.ct_addr with buf := [] } } g2).2.sigmask =
            g.sigmask ∧
          (connect_failed errno g.sigmask
            { fresh with ct_addr := { fresh.ct_addr with buf := [] } } g2).2.trace.countP
            CEv.is_restore = g.trace.countP CEv.is_restore + 1) ∨
        ((connect_failed errno g.sigmask
            { fresh with ct_addr := { fresh.ct_addr with buf := [] } } g2).2.sigmask =
            sigset_t.full ∧
          (connect_failed errno g.sigmask
            { fresh with ct_addr := { fresh.ct_addr with buf := [] } } g2).2.trace.countP
            CEv.is_restore = g.trace.countP CEv.is_restore ∧
          (connect_failed errno g.sigmask
            { fresh with ct_addr := { fresh.ct_addr with buf := [] } } g2).2.trace.countP
            CEv.is_sockinfo_failure = g.trace.countP CEv.is_sockinfo_failure + 1 ∧
          (connect_failed errno g.sigmask
            { fresh with ct_addr := { fresh.ct_addr with buf := [] } } g2).1 = none)) := by
    intro errno g2 h1 h2 h3 _
    refine ⟨?_, ?_, Or.inl ⟨?_, ?_⟩⟩ <;>
      simp [connect_failed, create_err_fills, create_err_restores,
        create_err_sockinfo_failures, create_err_sigmask, proc_state.log,
        proc_state.set_createerr, proc_state.restore_sigmask, List.countP_append, CEv.is_fill,
        CEv.is_restore, CEv.is_sockinfo_failure, h1, h2, h3]
    omega
  unfold clnt_vc_create2
  rw [hct]
  simp only [hcl, Bool.not_true, Bool.false_eq_true, if_false, hm]
  split_ifs
  all_goals first
    | apply htail
    | apply hfail
  all_goals simp [proc_state.log, proc_state.fill_sigmask, List.countP_append, CEv.is_fill,
    CEv.is_restore, CEv.is_sockinfo_failure, hg]

/-- Claim C24 fails on the code: when `__rpc_fd2sockinfo` fails, the creation
has replaced the signal mask by the full mask and returns the null handle
without restoring the saved mask, so the thread is left with the full mask;
on the path on which `connect` fails and on the successful path the saved
mask is restored once and the thread returns with the mask it had on entry.
On the successful path `clnt_vc_ops` replaces and restores the mask once more
in between, under its own local: the thread mask is replaced twice and
restored twice in all, once by `clnt_vc_create2` itself and once by
`clnt_vc_ops`, and the two are counted apart. -/
theorem sockinfo_failure_skips_mask_restore :
    sample_proc.sigmask ≠ sigset_t.full ∧
    (clnt_vc_create2 sockinfo_fails_env sample_proc 7 4096 sample_raddr 100003 3 0 0
        true).1 = none ∧
    (clnt_vc_create2 sockinfo_fails_env sample_proc 7 4096 sample_raddr 100003 3 0 0
        true).2.trace =
      [CEv.sigmask_fill, CEv.mutex_lock, CEv.getpeername 0, CEv.mutex_unlock,
        CEv.fd2sockinfo false, CEv.mem_free_ct, CEv.mem_free_cl] ∧
    (clnt_vc_create2 sockinfo_fails_env sample_proc 7 4096 sample_raddr 100003 3 0 0
        true).2.trace.countP CEv.is_fill = 1 ∧
    (clnt_vc_create2 sockinfo_fails_env sample_proc 7 4096 sample_raddr 100003 3 0 0
        true).2.trace.countP CEv.is_restore = 0 ∧
    (clnt_vc_create2 sockinfo_fails_env sample_proc 7 4096 sample_raddr 100003 3 0 0
        true).2.sigmask = sigset_t.full ∧
    (clnt_vc_create2 connect_fails_env sample_proc 7 4096 sample_raddr 100003 3 0 0
        true).1 = none ∧
    (clnt_vc_create2 connect_fails_env sample_proc 7 4096 sample_raddr 100003 3 0 0
        true).2.trace.countP CEv.is_fill = 1 ∧
    (clnt_vc_create2 connect_fails_env sample_proc 7 4096 sample_raddr 100003 3 0 0
        true).2.trace.countP CEv.is_restore = 1 ∧
    (clnt_vc_create2 connect_fails_env sample_proc 7 4096 sample_raddr 100003 3 0 0
        true).2.sigmask = sample_proc.sigmask ∧
    (clnt_vc_create2 sample_create_env sample_proc 7 4096 sample_raddr 100003 3 0 0
        true).2.trace =
      [CEv.sigmask_fill, CEv.mutex_lock, CEv.getpeername 0, CEv.mutex_unlock,
        CEv.fd2sockinfo true, CEv.sigmask_restore, CEv.gettimeofday,
        CEv.ops_sigmask_fill, CEv.ops_mutex_lock, CEv.ops_mutex_unlock,
        CEv.ops_sigmask_restore, CEv.vc_lock_init_cl, CEv.authnone_create,
        CEv.xdrrec_create 65536 65536] ∧
    (clnt_vc_create2 sample_create_env sample_proc 7 4096 sample_raddr 100003 3 0 0
        true).2.trace.countP CEv.is_fill = 1 ∧
    (clnt_vc_create2 sample_create_env sample_proc 7 4096 sample_raddr 100003 3 0 0
        true).2.trace.countP CEv.is_restore = 1 ∧
    (clnt_vc_create2 sample_create_env sample_proc 7 4096 sample_raddr 100003 3 0 0
        true).2.trace.count CEv.ops_sigmask_fill = 1 ∧
    (clnt_vc_create2 sample_create_env sample_proc 7 4096 sample_raddr 100003 3 0 0
        true).2.trace.count CEv.ops_sigmask_restore = 1 ∧
    (clnt_vc_create2 sample_create_env sample_proc 7 4096 sample_raddr 100003 3 0 0
        true).2.sigmask = sample_proc.sigmask := by
  decide

/-! ## The initial transaction id -/

/-- The transaction id in the header of a created handle is the incremented
`disrupt` XOR `__RPC_GETXID(&now)`, cut to 32 bits. -/
theorem create_tail_xid (K : CreateEnv) (fd : Int) (raddr : netbuf)
    (prog vers sendsz recvsz : Nat) (mask : sigset_t) (ct0 : ct_data) (g : proc_state)
    (cl : CLIENT)
    (hhdr : ∀ size m bytes, K.xdr_callhdr size m = some bytes →
      bytes = bytes_be m.rm_xid ++ bytes_be m.rm_direction ++ bytes_be m.cb_rpcvers ++
        bytes_be m.cb_prog ++ bytes_be m.cb_vers)
    (h : (create_tail K fd raddr prog vers sendsz recvsz mask ct0 g).1 = some cl) :
    be32 cl.cl_private.ct_mcallc =
      ((g.disrupt + 1) % 2 ^ 32 ^^^ K.__RPC_GETXID K.now) % 2 ^ 32 := by
  unfold create_tail at h
  dsimp only at h
  split at h
  · simp at h
  · split at h
    · simp at h
    · split at h
      · simp at h
      · rename_i bytes h3
        simp only [Option.some.injEq] at h
        have hb := hhdr _ _ _ h3
        dsimp only [proc_state.log, proc_state.restore_sigmask] at hb
        have hx : ((g.disrupt + 1) % 2 ^ 32 ^^^ K.__RPC_GETXID K.now) % 2 ^ 32 < 2 ^ 32 :=
          Nat.mod_lt _ (by norm_num)
        generalize ((g.disrupt + 1) % 2 ^ 32 ^^^ K.__RPC_GETXID K.now) % 2 ^ 32 = x at hb hx ⊢
        rw [← h, hb]
        refine Eq.trans ?_ (be32_bytes_be x hx)
        simp [be32, bytes_be]

/-- A successful `clnt_vc_create2` went through `create_tail` with the value of
`disrupt` that the first lines of the function left. -/
theorem clnt_vc_create2_disrupt (K : CreateEnv) (g : proc_state) (fd : Int) (raddr_ptr : Nat)
    (raddr : netbuf) (prog vers sendsz recvsz : Nat) (connect_flag : Bool) (cl : CLIENT)
    (h : (clnt_vc_create2 K g fd raddr_ptr raddr prog vers sendsz recvsz connect_flag).1 =
      some cl) :
    ∃ (mask : sigset_t) (ct0 : ct_data) (g1 : proc_state),
      g1.disrupt = (if g.disrupt = 0 then raddr_ptr % 2 ^ 32 else g.disrupt) ∧
      (create_tail K fd raddr prog vers sendsz recvsz mask ct0 g1).1 = some cl := by
  unfold clnt_vc_create2 at h
  dsimp only at h
  cases h1 : K.ct_alloc with
  | none =>
    rw [h1] at h
    simp at h
  | some fresh =>
    rw [h1] at h
    dsimp only at h
    split_ifs at h <;>
      first
        | exact ⟨_, _, _, by simp [proc_state.log, proc_state.fill_sigmask, *], h⟩
        | simp [connect_failed] at h

theorem xor_mod_two_pow (a b n : Nat) : (a ^^^ b) % 2 ^ n = (a % 2 ^ n) ^^^ (b % 2 ^ n) := by
  apply Nat.eq_of_testBit_eq
  intro i
  simp only [Nat.testBit_mod_two_pow, Nat.testBit_xor]
  by_cases h : i < n <;> simp [h]

set_option maxRecDepth 100000 in
theorem xor_succ_low_bits : ∀ r < 1024, r ^^^ ((r + 1) % 1024) ≠ 575 := by decide

/-- A 32-bit value XOR its successor is never 999999: the low ten bits of
999999 are 575, which no value XOR its successor has. -/
theorem xor_succ_ne (a : Nat) : a ^^^ ((a + 1) % 2 ^ 32) ≠ 999999 := by
  intro h
  have h1 := congrArg (fun x => x % 2 ^ 10) h
  simp only [xor_mod_two_pow] at h1
  have h2 : (a + 1) % 2 ^ 32 % 2 ^ 10 = (a % 2 ^ 10 + 1) % 1024 := by
    omega
  rw [h2] at h1
  exact xor_succ_low_bits (a % 2 ^ 10) (Nat.mod_lt _ (by norm_num)) (by simpa using h1)

theorem __RPC_GETXID_lt (pid : Nat) (t : timeval) : __RPC_GETXID pid t < 2 ^ 32 := by
  unfold __RPC_GETXID
  apply Nat.xor_lt_two_pow
  · apply Nat.xor_lt_two_pow
    · exact Nat.mod_lt _ (by norm_num)
    · norm_num
      omega
  · norm_num
    omega

/-- The macro `__RPC_GETXID` gives different values at two times of day one
microsecond apart. -/
theorem __RPC_GETXID_next_usec (pid : Nat) (t : timeval) (h0 : 0 ≤ t.tv_usec)
    (h1 : t.tv_usec < 1000000) : __RPC_GETXID pid t ≠ __RPC_GETXID pid (next_usec t) := by
  intro h
  unfold __RPC_GETXID next_usec at h
  rw [Nat.xor_assoc, Nat.xor_assoc, Nat.xor_right_inj] at h
  split_ifs at h with hu
  · dsimp only at h
    rw [Nat.xor_right_inj] at h
    norm_num at h
    omega
  · dsimp only at h
    have hu2 : t.tv_usec = 999999 := by omega
    rw [hu2] at h
    have hs : ((t.tv_sec + 1) % 2 ^ 32).toNat = ((t.tv_sec % 2 ^ 32).toNat + 1) % 2 ^ 32 := by
      norm_num
      omega
    rw [hs] at h
    generalize (t.tv_sec % 2 ^ 32).toNat = a at h
    have e1 : ((999999 : Int) % 2 ^ 32).toNat = 999999 := by decide
    have e0 : ((0 : Int) % 2 ^ 32).toNat = 0 := by decide
    rw [e1, e0, Nat.xor_zero] at h
    have h3 : a ^^^ ((a + 1) % 2 ^ 32) = 999999 := by
      rw [← h, Nat.xor_cancel_left]
    exact xor_succ_ne a h3

/-- C26: two creations start from the same value of `disrupt` (same process
state `g`, same value of the pointer `raddr`) in the same process `pid`, the
second at the time of day one microsecond after the first (from 999999
microseconds to zero of the next second included); both return a handle, and
`xdr_callhdr` puts the transaction id big-endian at the start of the header.
Then the transaction id in each header is the incremented `disrupt` XOR
`__RPC_GETXID(&now)` in 32 bits, and the two transaction ids differ. -/
theorem initial_xids_differ (K1 K2 : CreateEnv) (g : proc_state) (fd : Int) (raddr_ptr : Nat)
    (raddr : netbuf) (prog vers sendsz recvsz : Nat) (connect_flag : Bool) (pid : Nat)
    (cl1 cl2 : CLIENT)
    (hx1 : K1.__RPC_GETXID = __RPC_GETXID pid) (hx2 : K2.__RPC_GETXID = __RPC_GETXID pid)
    (hhdr1 : ∀ size m bytes, K1.xdr_callhdr size m = some bytes →
      bytes = bytes_be m.rm_xid ++ bytes_be m.rm_direction ++ bytes_be m.cb_rpcvers ++
        bytes_be m.cb_prog ++ bytes_be m.cb_vers)
    (hhdr2 : ∀ size m bytes, K2.xdr_callhdr size m = some bytes →
      bytes = bytes_be m.rm_xid ++ bytes_be m.rm_direction ++ bytes_be m.cb_rpcvers ++
        bytes_be m.cb_prog ++ bytes_be m.cb_vers)
    (h0 : 0 ≤ K1.now.tv_usec) (h1 : K1.now.tv_usec < 1000000)
    (hnow : K2.now = next_usec K1.now)
    (hc1 : (clnt_vc_create2 K1 g fd raddr_ptr raddr prog vers sendsz recvsz connect_flag).1 =
      some cl1)
    (hc2 : (clnt_vc_create2 K2 g fd raddr_ptr raddr prog vers sendsz recvsz connect_flag).1 =
      some cl2) :
    be32 cl1.cl_private.ct_mcallc =
      (((if g.disrupt = 0 then raddr_ptr % 2 ^ 32 else g.disrupt) + 1) % 2 ^ 32 ^^^
        __RPC_GETXID pid K1.now) % 2 ^ 32 ∧
    be32 cl2.cl_private.ct_mcallc =
      (((if g.disrupt = 0 then raddr_ptr % 2 ^ 32 else g.disrupt) + 1) % 2 ^ 32 ^^^
        __RPC_GETXID pid (next_usec K1.now)) % 2 ^ 32 ∧
    be32 cl1.cl_private.ct_mcallc ≠ be32 cl2.cl_private.ct_mcallc := by
  obtain ⟨m1, ct1, g1, hd1, ht1⟩ := clnt_vc_create2_disrupt K1 g fd raddr_ptr raddr prog vers
    sendsz recvsz connect_flag cl1 hc1
  obtain ⟨m2, ct2, g2, hd2, ht2⟩ := clnt_vc_create2_disrupt K2 g fd raddr_ptr raddr prog vers
    sendsz recvsz connect_flag cl2 hc2
  have e1 := create_tail_xid K1 fd raddr prog vers sendsz recvsz m1 ct1 g1 cl1 hhdr1 ht1
  have e2 := create_tail_xid K2 fd raddr prog vers sendsz recvsz m2 ct2 g2 cl2 hhdr2 ht2
  rw [hd1, hx1] at e1
  rw [hd2, hx2, hnow] at e2
  refine ⟨e1, e2, ?_⟩
  rw [e1, e2]
  have b1 := __RPC_GETXID_lt pid K1.now
  have b2 := __RPC_GETXID_lt pid (next_usec K1.now)
  have bd : ((if g.disrupt = 0 then raddr_ptr % 2 ^ 32 else g.disrupt) + 1) % 2 ^ 32 < 2 ^ 32 :=
    Nat.mod_lt _ (by norm_num)
  rw [Nat.mod_eq_of_lt (Nat.xor_lt_two_pow bd b1), Nat.mod_eq_of_lt (Nat.xor_lt_two_pow bd b2)]
  intro h
  exact __RPC_GETXID_next_usec pid K1.now h0 h1 (Nat.xor_right_inj.mp h)

/-- The sample creation in process 4242 at 1000 s 999999 us and at 1001 s 0 us:
the two handles carry the transaction ids 999748 and 890. -/
theorem initial_xids_differ_witness :
    (clnt_vc_create2 (getxid_env { tv_sec := 1000, tv_usec := 999999 }) sample_proc 7 4096
        sample_raddr 100003 3 0 0 true).1 = some (xid_client [0, 15, 65, 68]) ∧
    (clnt_vc_create2 (getxid_env { tv_sec := 1001, tv_usec := 0 }) sample_proc 7 4096
        sample_raddr 100003 3 0 0 true).1 = some (xid_client [0, 0, 3, 122]) ∧
    be32 (xid_client [0, 15, 65, 68]).cl_private.ct_mcallc = 999748 ∧
    be32 (xid_client [0, 0, 3, 122]).cl_private.ct_mcallc = 890 ∧
    be32 (xid_client [0, 15, 65, 68]).cl_private.ct_mcallc ≠
      be32 (xid_client [0, 0, 3, 122]).cl_private.ct_mcallc :=
  ⟨by decide, by decide, by decide, by decide,
    (initial_xids_differ (getxid_env { tv_sec := 1000, tv_usec := 999999 })
      (getxid_env { tv_sec := 1001, tv_usec := 0 }) sample_proc 7 4096 sample_raddr 100003 3 0 0
      true 4242 (xid_client [0, 15, 65, 68]) (xid_client [0, 0, 3, 122]) rfl rfl
      (fun size m bytes hx => xdr_callhdr_layout size m bytes hx)
      (fun size m bytes hx => xdr_callhdr_layout size m bytes hx) (by decide) (by decide)
      (by decide) (by decide) (by decide)).2.2⟩

/-! ## The system calls of `read_vc` and `write_vc` -/

/-- Calls of `poll` that fail with `EINTR` are repeated. -/
theorem poll_loop_interrupted (Y : SysEnv) (ms : Int) (ct : ct_data) :
    ∀ (n fuel k : Nat) (tr : List SysEv),
      (∀ j, j < n → Y.poll (k + j) = (-1, Y.EINTR)) →
      read_vc.poll_loop Y ms ct (fuel + n) k tr =
        read_vc.poll_loop Y ms ct fuel (k + n) (tr ++ List.replicate n (SysEv.poll ms (-1))) := by
  intro n
  induction n with
  | zero =>
    intro fuel k tr _
    simp
  | succ n ih =>
    intro fuel k tr h
    have h0 : Y.poll k = (-1, Y.EINTR) := h 0 (Nat.succ_pos n)
    have hrest : ∀ j, j < n → Y.poll (k + 1 + j) = (-1, Y.EINTR) := by
      intro j hj
      have := h (j + 1) (Nat.succ_lt_succ hj)
      rwa [Nat.add_assoc, Nat.add_comm 1 j]
    rw [← Nat.add_assoc, read_vc.poll_loop]
    simp only [h0, if_true]
    rw [if_neg (by decide), ih fuel (k + 1) _ hrest, List.append_assoc, Nat.add_assoc,
      Nat.add_comm 1 n]
    rfl

/-- C34: `read_vc` with `len = 0` returns 0 and makes no system call.
Otherwise let the first `n` calls of `poll` fail with `EINTR` and call `n` end
otherwise; the calls are repeated, all with the timeout `milliseconds`, and
call `n` decides: the result 0 gives -1 with `RPC_TIMEDOUT`; the result -1
gives -1 with `RPC_CANTRECV` and the `errno` of the call; any other result is
followed by exactly one `read`, whose result 0 gives -1 with `RPC_CANTRECV`
and `ECONNRESET`, whose result -1 gives -1 with `RPC_CANTRECV` and the `errno`
of the `read`, and whose byte count is returned otherwise, the private data
being left as they were. -/
theorem read_vc_outcomes (Y : SysEnv) (ct : ct_data) (len : Int) (n fuel : Nat)
    (hint : ∀ j, j < n → Y.poll j = (-1, Y.EINTR))
    (hdec : ¬((Y.poll n).1 = -1 ∧ (Y.poll n).2 = Y.EINTR))
    (hfuel : n < fuel) :
    read_vc Y fuel ct 0 = { ret := some 0, ct := ct, trace := [] } ∧
    (len ≠ 0 →
      ((Y.poll n).1 = 0 →
        read_vc Y fuel ct len =
          { ret := some (-1),
            ct := { ct with ct_error :=
              { ct.ct_error with re_status := clnt_stat.RPC_TIMEDOUT } },
            trace := List.replicate n (SysEv.poll (read_vc.milliseconds ct) (-1)) ++
              [SysEv.poll (read_vc.milliseconds ct) 0] }) ∧
      ((Y.poll n).1 = -1 →
        read_vc Y fuel ct len =
          { ret := some (-1),
            ct := { ct with ct_error :=
              { ct.ct_error with re_status := clnt_stat.RPC_CANTRECV,
                                 re_errno := (Y.poll n).2 } },
            trace := List.replicate n (SysEv.poll (read_vc.milliseconds ct) (-1)) ++
              [SysEv.poll (read_vc.milliseconds ct) (-1)] }) ∧
      ((Y.poll n).1 ≠ 0 → (Y.poll n).1 ≠ -1 →
        ((Y.read len).1 = 0 →
          read_vc Y fuel ct len =
            { ret := some (-1),
              ct := { ct with ct_error :=
                { ct.ct_error with re_errno := Y.ECONNRESET,
                                   re_status := clnt_stat.RPC_CANTRECV } },
              trace := List.replicate n (SysEv.poll (read_vc.milliseconds ct) (-1)) ++
                [SysEv.poll (read_vc.milliseconds ct) (Y.poll n).1, SysEv.read len 0] }) ∧
        ((Y.read len).1 = -1 →
          read_vc Y fuel ct len =
            { ret := some (-1),
              ct := { ct with ct_error :=
                { ct.ct_error with re_errno := (Y.read len).2,
                                   re_status := clnt_stat.RPC_CANTRECV } },
              trace := List.replicate n (SysEv.poll (read_vc.milliseconds ct) (-1)) ++
                [SysEv.poll (read_vc.milliseconds ct) (Y.poll n).1, SysEv.read len (-1)] }) ∧
        ((Y.read len).1 ≠ 0 → (Y.read len).1 ≠ -1 →
          read_vc Y fuel ct len =
            { ret := some (Y.read len).1, ct := ct,
              trace := List.replicate n (SysEv.poll (read_vc.milliseconds ct) (-1)) ++
                [SysEv.poll (read_vc.milliseconds ct) (Y.poll n).1,
                  SysEv.read len (Y.read len).1] }))) := by
  refine ⟨by simp [read_vc], ?_⟩
  intro hlen
  obtain ⟨f, rfl⟩ : ∃ f, fuel = f + 1 + n := ⟨fuel - n - 1, by omega⟩
  have hloop := poll_loop_interrupted Y (read_vc.milliseconds ct) ct n (f + 1) 0 []
    (by simpa using hint)
  simp only [Nat.zero_add, List.nil_append] at hloop
  refine ⟨?_, ?_, ?_⟩
  · intro h0
    simp [read_vc, hlen, hloop, read_vc.poll_loop, h0]
  · intro h1
    have hne : (Y.poll n).2 ≠ Y.EINTR := fun hc => hdec ⟨h1, hc⟩
    simp [read_vc, hlen, hloop, read_vc.poll_loop, h1, hne]
  · intro h0 h1
    refine ⟨?_, ?_, ?_⟩
    · intro hr
      simp [read_vc, hlen, hloop, read_vc.poll_loop, h0, h1, hr]
    · intro hr
      simp [read_vc, hlen, hloop, read_vc.poll_loop, h0, h1, hr]
    · intro hr0 hr1
      simp [read_vc, hlen, hloop, read_vc.poll_loop, h0, h1, hr0, hr1]

/-- On the sample system a read of 100 bytes polls three times, the first two
calls being interrupted, reads once and returns the 4 bytes read. -/
theorem read_vc_outcomes_witness :
    read_vc sample_sys 3 sample_ct 100 =
      { ret := some 4, ct := sample_ct,
        trace := [SysEv.poll 30000 (-1), SysEv.poll 30000 (-1), SysEv.poll 30000 1,
          SysEv.read 100 4] } :=
  (((read_vc_outcomes sample_sys sample_ct 100 2 3 (by decide) (by decide) (by decide)).2
    (by decide)).2.2 (by decide) (by decide)).2.2 (by decide) (by decide)

/-- For a wait policy of at most 2147482 seconds that `time_not_ok` accepts,
`milliseconds` is the exact number of milliseconds and is not negative. -/
theorem milliseconds_exact (ct : ct_data) (hok : time_not_ok ct.ct_wait = false)
    (hsec : ct.ct_wait.tv_sec ≤ 2147482) :
    read_vc.milliseconds ct = ct.ct_wait.tv_sec * 1000 + ct.ct_wait.tv_usec / 1000 ∧
    0 ≤ read_vc.milliseconds ct := by
  simp only [time_not_ok, Bool.or_eq_false_iff, decide_eq_false_iff_not] at hok
  obtain ⟨⟨⟨h1, _⟩, h3⟩, h4⟩ := hok
  have hdiv : Int.tdiv ct.ct_wait.tv_usec 1000 = ct.ct_wait.tv_usec / 1000 :=
    Int.tdiv_eq_ediv (by omega) (by decide)
  have hs0 : 0 ≤ ct.ct_wait.tv_sec * 1000 + ct.ct_wait.tv_usec / 1000 := by omega
  have hs1 : ct.ct_wait.tv_sec * 1000 + ct.ct_wait.tv_usec / 1000 < 2147483648 := by omega
  simp only [read_vc.milliseconds, to_int, hdiv]
  rw [Int.emod_eq_of_lt (by omega) (by omega)]
  constructor <;> omega

/-- C38 fails on the code: the wait policy of 2147484 seconds passes the
validity test, and `read_vc` computes the negative timeout -2147483296, with
which `poll` waits without limit; the wait policy of 100000000 seconds passes
the test, and the timeout is 1215752192 milliseconds, a shorter wait than the
100000000000 milliseconds configured.  A wait policy of 2147483 seconds is
converted exactly. -/
theorem poll_timeout_overflows_int :
    time_not_ok { tv_sec := 2147484, tv_usec := 0 } = false ∧
    read_vc.milliseconds { sample_ct with ct_wait := { tv_sec := 2147484, tv_usec := 0 } } =
      -2147483296 ∧
    (read_vc sample_sys 3
        { sample_ct with ct_wait := { tv_sec := 2147484, tv_usec := 0 } } 100).trace =
      [SysEv.poll (-2147483296) (-1), SysEv.poll (-2147483296) (-1),
        SysEv.poll (-2147483296) 1, SysEv.read 100 4] ∧
    time_not_ok { tv_sec := 100000000, tv_usec := 0 } = false ∧
    read_vc.milliseconds { sample_ct with ct_wait := { tv_sec := 100000000, tv_usec := 0 } } =
      1215752192 ∧
    read_vc.milliseconds { sample_ct with ct_wait := { tv_sec := 2147483, tv_usec := 0 } } =
      2147483000 := by
  decide

theorem sent_bytes_append (buf : List Nat) (tr : List SysEv) (ev : SysEv) :
    sent_bytes buf (tr ++ [ev]) = sent_bytes buf tr ++ ev.accepted buf := by
  simp [sent_bytes]

/-- The loop of `write_vc` under writes that fail or take between 1 and `cnt`
bytes: it returns, either `len` after it passed on every byte of the buffer
in order, or -1 at the first write that failed. -/
theorem write_vc_loop_spec (Y : SysEnv) (len : Int) (ct : ct_data) (buf : List Nat)
    (hbuf : buf.length = len.toNat)
    (hres : ∀ k cnt, 0 < cnt →
      (Y.write k cnt).1 = -1 ∨ (1 ≤ (Y.write k cnt).1 ∧ (Y.write k cnt).1 ≤ cnt)) :
    ∀ (fuel k : Nat) (cnt pos : Int) (tr : List SysEv),
      0 ≤ cnt → 0 ≤ pos → pos + cnt = len → cnt.toNat < fuel →
      (∀ ev ∈ tr, ev.is_failed_write = false) → sent_bytes buf tr = buf.take pos.toNat →
      tr.length = k →
      ((write_vc.loop Y len ct fuel k cnt pos tr).ret = some len ∧
        (write_vc.loop Y len ct fuel k cnt pos tr).ct = ct ∧
        sent_bytes buf (write_vc.loop Y len ct fuel k cnt pos tr).trace = buf ∧
        ∀ ev ∈ (write_vc.loop Y len ct fuel k cnt pos tr).trace, ev.is_failed_write = false) ∨
      ((write_vc.loop Y len ct fuel k cnt pos tr).ret = some (-1) ∧
        ∃ (tr0 : List SysEv) (p c : Int),
          (write_vc.loop Y len ct fuel k cnt pos tr).trace = tr0 ++ [SysEv.write p c (-1)] ∧
          (∀ ev ∈ tr0, ev.is_failed_write = false) ∧ (Y.write tr0.length c).1 = -1 ∧
          (write_vc.loop Y len ct fuel k cnt pos tr).ct =
            { ct with ct_error :=
              { ct.ct_error with re_errno := (Y.write tr0.length c).2,
                                 re_status := clnt_stat.RPC_CANTSEND } }) := by
  intro fuel
  induction fuel with
  | zero =>
    intro k cnt pos tr _ _ _ hf
    omega
  | succ fuel ih =>
    intro k cnt pos tr hcnt hpos hsum hf hok hsent hk
    rw [write_vc.loop]
    by_cases hc : cnt > 0
    · rw [if_pos hc]
      by_cases hw : (Y.write k cnt).1 = -1
      · rw [if_pos hw]
        right
        refine ⟨rfl, tr, pos, cnt, ?_, hok, ?_, ?_⟩
        · simp [hw]
        · rw [hk, hw]
        · rw [hk]
      · rw [if_neg hw]
        obtain h1 | ⟨h1, h2⟩ := hres k cnt hc
        · exact absurd h1 hw
        · apply ih
          · omega
          · omega
          · omega
          · omega
          · intro ev hev
            rw [List.mem_append, List.mem_singleton] at hev
            obtain hev | rfl := hev
            · exact hok ev hev
            · simp [SysEv.is_failed_write, hw]
          · rw [sent_bytes_append, hsent]
            simp only [SysEv.accepted, if_neg hw]
            have e1 : (pos + (Y.write k cnt).1).toNat = pos.toNat + (Y.write k cnt).1.toNat := by
              omega
            rw [e1, List.take_add]
          · simp [hk]
    · rw [if_neg hc]
      left
      have hc0 : cnt = 0 := by omega
      refine ⟨rfl, rfl, ?_, hok⟩
      show sent_bytes buf tr = buf
      rw [hsent]
      apply List.take_of_length_le
      rw [hbuf]
      have : pos = len := by omega
      rw [this]

/-- C39: for a buffer of `len >= 0` bytes and writes each of which returns -1
or a count between 1 and the count asked for, `write_vc` returns once the loop
may run more than `len` passes.  It returns `len` exactly when no write
failed, and then the bytes the writes took, in the order of the calls, are the
bytes of the buffer and the private data are as they were; otherwise it
returns -1, the failed write is the last system call, and `ct_error` holds
`RPC_CANTSEND` and the `errno` of that write. -/
theorem write_vc_outcomes (Y : SysEnv) (ct : ct_data) (buf : List Nat) (len : Int)
    (fuel : Nat) (hlen : 0 ≤ len) (hbuf : buf.length = len.toNat)
    (hres : ∀ k cnt, 0 < cnt →
      (Y.write k cnt).1 = -1 ∨ (1 ≤ (Y.write k cnt).1 ∧ (Y.write k cnt).1 ≤ cnt))
    (hfuel : len.toNat < fuel) :
    ((write_vc Y fuel ct len).ret = some len ∨ (write_vc Y fuel ct len).ret = some (-1)) ∧
    ((write_vc Y fuel ct len).ret = some len ↔
      ∀ ev ∈ (write_vc Y fuel ct len).trace, ev.is_failed_write = false) ∧
    ((write_vc Y fuel ct len).ret = some len →
      sent_bytes buf (write_vc Y fuel ct len).trace = buf ∧ (write_vc Y fuel ct len).ct = ct) ∧
    ((write_vc Y fuel ct len).ret ≠ some len →
      (write_vc Y fuel ct len).ret = some (-1) ∧
      ∃ (tr0 : List SysEv) (p c : Int),
        (write_vc Y fuel ct len).trace = tr0 ++ [SysEv.write p c (-1)] ∧
        (∀ ev ∈ tr0, ev.is_failed_write = false) ∧ (Y.write tr0.length c).1 = -1 ∧
        (write_vc Y fuel ct len).ct =
          { ct with ct_error :=
            { ct.ct_error with re_errno := (Y.write tr0.length c).2,
                               re_status := clnt_stat.RPC_CANTSEND } }) := by
  have h := write_vc_loop_spec Y len ct buf hbuf hres fuel 0 len 0 [] hlen (Int.le_refl 0)
    (Int.zero_add len) hfuel (fun _ hev => absurd hev (List.not_mem_nil _)) (by simp [sent_bytes])
    rfl
  unfold write_vc
  obtain ⟨h1, h2, h3, h4⟩ | ⟨h1, tr0, p, c, h2, h3, h4, h5⟩ := h
  · exact ⟨Or.inl h1, ⟨fun _ => h4, fun _ => h1⟩, fun _ => ⟨h3, h2⟩, fun hne => absurd h1 hne⟩
  · have hne : (write_vc.loop Y len ct fuel 0 len 0 []).ret ≠ some len := by
      rw [h1]
      intro hc
      have := Option.some.inj hc
      omega
    refine ⟨Or.inr h1, ⟨fun hc => absurd hc hne, ?_⟩, fun hc => absurd hc hne,
      fun _ => ⟨h1, tr0, p, c, h2, h3, h4, h5⟩⟩
    intro hall
    have := hall (SysEv.write p c (-1)) (by rw [h2]; simp)
    simp [SysEv.is_failed_write] at this

/-- On the sample system a buffer of 8 bytes goes out in writes of 3, 3 and 2
bytes and `write_vc` returns 8; when the second write fails with `errno` 32
it returns -1 after that write. -/
theorem write_vc_outcomes_witness :
    (write_vc sample_sys 9 sample_ct 8).ret = some 8 ∧
    (write_vc sample_sys 9 sample_ct 8).trace =
      [SysEv.write 0 8 3, SysEv.write 3 5 3, SysEv.write 6 2 2] ∧
    sent_bytes [1, 2, 3, 4, 5, 6, 7, 8] (write_vc sample_sys 9 sample_ct 8).trace =
      [1, 2, 3, 4, 5, 6, 7, 8] ∧
    (write_vc broken_pipe_sys 9 sample_ct 8).ret = some (-1) ∧
    (write_vc broken_pipe_sys 9 sample_ct 8).trace = [SysEv.write 0 8 3, SysEv.write 3 5 (-1)] ∧
    (write_vc broken_pipe_sys 9 sample_ct 8).ct.ct_error =
      { sample_ct.ct_error with re_errno := 32, re_status := clnt_stat.RPC_CANTSEND } :=
  have hres : ∀ k cnt, 0 < cnt →
      (sample_sys.write k cnt).1 = -1 ∨
        (1 ≤ (sample_sys.write k cnt).1 ∧ (sample_sys.write k cnt).1 ≤ cnt) := by
    intro k cnt h
    right
    simp only [sample_sys]
    split_ifs <;> omega
  have h := write_vc_outcomes sample_sys sample_ct [1, 2, 3, 4, 5, 6, 7, 8] 8 9 (by decide)
    (by decide) hres (by decide)
  ⟨by decide, by decide, (h.2.2.1 (by decide)).1, by decide, by decide, by decide⟩

/-! ## The wait policy and the branches before the receive loop -/

theorem begin_attempt_with_wait (e : Endian) (s : State σ) (w : timeval) (b : Bool) :
    begin_attempt e (s.with_wait w b) = (begin_attempt e s).with_wait w b := rfl

theorem encode_call_with_wait (E : Env σ) (a : call_args) (s : State σ) (w : timeval)
    (b : Bool) :
    encode_call E a (s.with_wait w b) =
      ((encode_call E a s).1, (encode_call E a s).2.with_wait w b) := by
  unfold encode_call
  dsimp only [State.with_wait, State.op]
  split_ifs <;> rfl

theorem with_wait_status (s : State σ) (w : timeval) (b : Bool) :
    (s.with_wait w b).status = s.status := rfl

theorem with_wait_w (s : State σ) (w : timeval) (b : Bool) : (s.with_wait w b).w = s.w := rfl

theorem with_wait_ct_error (s : State σ) (w : timeval) (b : Bool) :
    (s.with_wait w b).ct.ct_error = s.ct.ct_error := rfl

theorem with_wait_trace (s : State σ) (w : timeval) (b : Bool) :
    (s.with_wait w b).trace = s.trace := rfl

theorem op_with_wait (s : State σ) (w : timeval) (b : Bool) (r : OpRes σ) (ev : Ev) :
    (s.with_wait w b).op r ev = (s.op r ev).with_wait w b := rfl

theorem set_status_with_wait (s : State σ) (w : timeval) (b : Bool) (st : clnt_stat) :
    (s.with_wait w b).set_status st = (s.set_status st).with_wait w b := rfl

/-- With a zero timeout an attempt ends before the receive loop, after its
end-of-record, and what it returns and adds to the trace does not depend on
the stored wait policy. -/
theorem attempt_zero_timeout_with_wait (E : Env σ) (e : Endian) (a : call_args)
    (shipnow duplex : Bool) (fuel : Nat) (s : State σ) (w : timeval) (b : Bool)
    (hsec : a.timeout.tv_sec = 0) (husec : a.timeout.tv_usec = 0) :
    ∃ (r : clnt_stat) (s1 : State σ) (flush ok : Bool),
      attempt E e a shipnow duplex fuel s = AttemptRes.done r s1 ∧
      attempt E e a shipnow duplex fuel (s.with_wait w b) =
        AttemptRes.done r (s1.with_wait w b) ∧
      s1.trace = (encode_call E a (begin_attempt e s)).2.trace ++ [Ev.endofrecord flush ok] := by
  unfold attempt
  simp only [begin_attempt_with_wait, encode_call_with_wait, hsec, husec, and_self, if_true,
    with_wait_status, with_wait_w, with_wait_ct_error, op_with_wait, set_status_with_wait]
  split_ifs with h1 h2 h3 h4
  · exact ⟨_, _, true, _, rfl, rfl, rfl⟩
  · exact ⟨_, _, true, _, rfl, rfl, rfl⟩
  · exact ⟨_, _, shipnow, _, rfl, rfl, rfl⟩
  · exact ⟨_, _, shipnow, _, rfl, rfl, rfl⟩
  · exact ⟨_, _, shipnow, _, rfl, rfl, rfl⟩

theorem call_entry_with_wait (a : call_args) (s : State σ) (w : timeval) (b : Bool) :
    (call_entry a (s.with_wait w b)).1 = (call_entry a s).1 ∧
    ∃ w2, (call_entry a (s.with_wait w b)).2 = (call_entry a s).2.with_wait w2 b := by
  unfold call_entry adopt_timeout cond_block_events_client
  dsimp only [State.with_wait, State.log]
  split_ifs <;> exact ⟨rfl, _, rfl⟩

theorem call_exit_with_wait (f : Bool) (s : State σ) (w : timeval) (b : Bool) :
    call_exit f (s.with_wait w b) = (call_exit f s).with_wait w b := by
  unfold call_exit cond_unblock_events_client
  dsimp only [State.with_wait, State.log]
  split_ifs <;> rfl

/-- The trace of a call whose first attempt ended right after its
end-of-record: no event of the receive side. -/
theorem trace_of_call_ended_at_end_of_record (E : Env σ) (e : Endian) (a : call_args)
    (s s1 : State σ) (f flush ok : Bool)
    (h1 : s1.trace = (encode_call E a (begin_attempt e (call_entry a s).2)).2.trace ++
      [Ev.endofrecord flush ok]) :
    ∃ l : List Ev, (call_exit f s1).trace = s.trace ++ l ∧ l.countP Ev.is_inbound = 0 := by
  obtain ⟨pre, hpre, ppre⟩ := call_entry_adds a s
  obtain ⟨l1, hl1, p1⟩ := encode_call_trace E a (begin_attempt e (call_entry a s).2)
  obtain ⟨post, hpost, ppost⟩ := call_exit_adds f s1
  refine ⟨pre ++ (Ev.putbytes
      ((begin_attempt e (call_entry a s).2).ct.ct_mcallc.take
        (begin_attempt e (call_entry a s).2).ct.ct_mpos)
      (E.XDR_PUTBYTES ((begin_attempt e (call_entry a s).2).ct.ct_mcallc.take
        (begin_attempt e (call_entry a s).2).ct.ct_mpos) (begin_attempt e (call_entry a s).2).w
        (begin_attempt e (call_entry a s).2).ct.ct_error).ok :: l1 ++
      [Ev.endofrecord flush ok]) ++ post, ?_, ?_⟩
  · rw [hpost, h1, hl1, begin_attempt_trace, hpre]
    simp
  · simp [Ev.is_inbound, Ev.is_receive, Ev.is_reply,
      countP_eq_zero_of_bracket _ pre not_inbound_of_bracket ppre,
      countP_eq_zero_of_bracket _ post not_inbound_of_bracket ppost,
      countP_eq_zero_of_encode_tail _ l1 not_inbound_of_encode_tail p1]

/-- For a call with a zero timeout, which either batches or fails at once
with `RPC_TIMEDOUT` (or fails in its encode steps or its end-of-record), two
handles that differ only in the stored wait timeout and the
timeout-explicitly-set flag return the same status, add the same events to
the trace, none of them an event of the receive side, and end in states that
differ in the wait policy only.  In particular, on a handle on which
`CLSET_TIMEOUT` stored the valid timeout of `i`, a call with a results decoder
and a zero timeout whose encode steps and end-of-record succeed returns
`RPC_TIMEDOUT` without an event of the receive side. -/
theorem zero_timeout_call_with_wait (E : Env σ) (e : Endian) (fuel : Nat)
    (a : call_args) (s : State σ) (w : timeval) (b : Bool) (i : info_obj)
    (hsec : a.timeout.tv_sec = 0) (husec : a.timeout.tv_usec = 0) :
    ((clnt_vc_call E e fuel a (s.with_wait w b)).result = (clnt_vc_call E e fuel a s).result ∧
      (∃ r, (clnt_vc_call E e fuel a s).result = some r) ∧
      (clnt_vc_call E e fuel a (s.with_wait w b)).state.trace =
        (clnt_vc_call E e fuel a s).state.trace ∧
      (∃ l : List Ev, (clnt_vc_call E e fuel a s).state.trace = s.trace ++ l ∧
        l.countP Ev.is_inbound = 0) ∧
      ∃ w2, (clnt_vc_call E e fuel a (s.with_wait w b)).state =
        (clnt_vc_call E e fuel a s).state.with_wait w2 b) ∧
    (time_not_ok i.as_timeval = false → a.xdr_results ≠ none →
      (encode_call E a (begin_attempt e (call_entry a
        (clnt_vc_control e s clnt_req.CLSET_TIMEOUT (some i)).s).2)).1 = true →
      (E.xdrrec_endofrecord true
        (encode_call E a (begin_attempt e (call_entry a
          (clnt_vc_control e s clnt_req.CLSET_TIMEOUT (some i)).s).2)).2.w
        (encode_call E a (begin_attempt e (call_entry a
          (clnt_vc_control e s clnt_req.CLSET_TIMEOUT (some i)).s).2)).2.ct.ct_error).ok = true →
      (clnt_vc_control e s clnt_req.CLSET_TIMEOUT (some i)).s.ct.ct_wait = i.as_timeval ∧
      (clnt_vc_control e s clnt_req.CLSET_TIMEOUT (some i)).s.ct.ct_waitset = true ∧
      (clnt_vc_call E e fuel a
        (clnt_vc_control e s clnt_req.CLSET_TIMEOUT (some i)).s).result =
        some clnt_stat.RPC_TIMEDOUT ∧
      ∃ l : List Ev,
        (clnt_vc_call E e fuel a
          (clnt_vc_control e s clnt_req.CLSET_TIMEOUT (some i)).s).state.trace =
          (clnt_vc_control e s clnt_req.CLSET_TIMEOUT (some i)).s.trace ++ l ∧
        l.countP Ev.is_inbound = 0) := by
  constructor
  · obtain ⟨hflag, w2, hentry⟩ := call_entry_with_wait a s w b
    obtain ⟨r, s1, flush, ok, h1, h2, h3⟩ := attempt_zero_timeout_with_wait E e a (shipnow_of a)
      s.ct.CT_FLAG_DUPLEX fuel (call_entry a s).2 w2 b hsec husec
    have hc1 : clnt_vc_call E e fuel a s = Outcome.done r (call_exit (call_entry a s).1 s1) := by
      unfold clnt_vc_call
      dsimp only
      rw [call_again_of_done E e a (shipnow_of a) s.ct.CT_FLAG_DUPLEX fuel 2 _ s1 r h1]
    have hc2 : clnt_vc_call E e fuel a (s.with_wait w b) =
        Outcome.done r ((call_exit (call_entry a s).1 s1).with_wait w2 b) := by
      unfold clnt_vc_call
      dsimp only
      rw [hentry, hflag]
      have hd : (s.with_wait w b).ct.CT_FLAG_DUPLEX = s.ct.CT_FLAG_DUPLEX := rfl
      rw [hd, call_again_of_done E e a (shipnow_of a) s.ct.CT_FLAG_DUPLEX fuel 2 _ _ r h2]
      exact congrArg (Outcome.done r) (call_exit_with_wait _ s1 w2 b)
    rw [hc1, hc2]
    refine ⟨rfl, ⟨r, rfl⟩, rfl, ?_, w2, rfl⟩
    exact trace_of_call_ended_at_end_of_record E e a s s1 _ flush ok h3
  · intro hok hres henc hflush
    have hship : shipnow_of a = true := shipnow_of_not_batched a (fun h => hres h.1)
    have hatt := attempt_zero_timeout E e a
      (clnt_vc_control e s clnt_req.CLSET_TIMEOUT (some i)).s.ct.CT_FLAG_DUPLEX fuel
      (call_entry a (clnt_vc_control e s clnt_req.CLSET_TIMEOUT (some i)).s).2 hsec husec
      henc hflush
    rw [clnt_vc_call_of_first_attempt_done E e fuel a _ _ _ true hship hatt]
    refine ⟨?_, ?_, rfl, ?_⟩
    · simp [clnt_vc_control, control_switch, State.log, hok]
    · simp [clnt_vc_control, control_switch, State.log, hok]
    · exact trace_of_call_ended_at_end_of_record E e a _ _ _ true true rfl

/-! ## What a SUCCESS return requires -/

theorem fetch_record_skip_failed (E : Env σ) (H : FailureRecorded E) (s : State σ)
    (h : (fetch_record E s).skip_ok = false) :
    (fetch_record E s).s.status ≠ clnt_stat.RPC_SUCCESS := by
  have hk := H.skiprecord s.w s.ct.ct_error
  cases hs : (E.xdrrec_skiprecord s.w s.ct.ct_error).ok
  · simp only [fetch_record, skip_record, State.op, State.status, hs, Bool.not_false, if_true]
    exact hk hs
  · simp [fetch_record, skip_record, hs] at h

theorem fetch_record_decoded (E : Env σ) (s : State σ)
    (h1 : (fetch_record E s).skip_ok = true) (h2 : (fetch_record E s).decode_ok = true) :
    ∃ pre, (fetch_record E s).s.trace = pre ++ [Ev.dplx_msg true (fetch_record E s).s.msg] := by
  cases hs : (E.xdrrec_skiprecord s.w s.ct.ct_error).ok
  · simp [fetch_record, skip_record, hs] at h1
  · simp only [fetch_record, skip_record, decode_header, State.op, State.op_msg, hs,
      Bool.not_true, Bool.false_eq_true, if_false] at h2 ⊢
    exact ⟨_, by rw [h2]⟩

/-- A pass of the receive loop that reaches `replied` has just decoded a REPLY
carrying the awaited id; a pass that returns does not return `RPC_SUCCESS`
when a failed skip-record records its failure. -/
theorem recv_body_success_free (E : Env σ) (H : FailureRecorded E) (x_id : Nat) (duplex : Bool)
    (s : State σ) :
    (∀ s1, recv_body E x_id duplex s = Step.replied s1 →
      s1.msg.rm_direction = REPLY ∧ s1.msg.rm_xid = x_id ∧
      ∃ pre, s1.trace = pre ++ [Ev.dplx_msg true s1.msg]) ∧
    (∀ r s1, recv_body E x_id duplex s = Step.ret r s1 → r ≠ clnt_stat.RPC_SUCCESS) := by
  have hk := fetch_record_skip_failed E H s
  have hd := fetch_record_decoded E s
  unfold recv_body
  dsimp only
  constructor
  · intro s1 h
    split_ifs at h with c1 c2 c3 c4 c5 c6 c7
    all_goals simp only [Step.replied.injEq] at h
    subst h
    simp only [Bool.not_eq_true', Bool.not_eq_false', Bool.not_eq_false] at c1 c2
    exact ⟨c4, c5, hd c1 c2⟩
  · intro r s1 h
    split_ifs at h with c1 c2 c3 c4 c5 c6 c7
    · simp only [Step.ret.injEq] at h
      simp only [Bool.not_eq_true', Bool.not_eq_false'] at c1
      rw [← h.1]
      exact hk c1
    · simp only [Step.ret.injEq] at h
      rw [← h.1]
      exact c3

theorem recv_loop_success_free (E : Env σ) (H : FailureRecorded E) (x_id : Nat) (duplex : Bool)
    (fuel : Nat) (s : State σ) :
    (∀ s1, recv_loop E x_id duplex fuel s = RecvRes.replied s1 →
      s1.msg.rm_direction = REPLY ∧ s1.msg.rm_xid = x_id ∧
      ∃ pre, s1.trace = pre ++ [Ev.dplx_msg true s1.msg]) ∧
    (∀ r s1, recv_loop E x_id duplex fuel s = RecvRes.ret r s1 → r ≠ clnt_stat.RPC_SUCCESS) := by
  induction fuel generalizing s with
  | zero =>
    unfold recv_loop
    exact ⟨fun s1 h => by simp at h, fun r s1 h => by simp at h⟩
  | succ n ih =>
    obtain ⟨b1, b2⟩ := recv_body_success_free E H x_id duplex s
    unfold recv_loop
    cases hb : recv_body E x_id duplex s with
    | next s1 => exact ih s1
    | replied s1 =>
      refine ⟨fun s2 h => ?_, fun r s2 h => by simp at h⟩
      simp only [RecvRes.replied.injEq] at h
      subst h
      exact b1 s1 hb
    | ret r s1 =>
      refine ⟨fun s2 h => by simp at h, fun r2 s2 h => ?_⟩
      simp only [RecvRes.ret.injEq] at h
      rw [← h.1]
      exact b2 r s1 hb

/-- Reply processing that completes with `RPC_SUCCESS` in the error record has
classified the message as success and had it accepted by `AUTH_VALIDATE` and
`AUTH_UNWRAP`; an unsuccessful classification leaves another status. -/
theorem process_reply_success (E : Env σ) (a : call_args) (s : State σ) :
    (∀ s1, process_reply E a s = ReplyRes.completed s1 →
      s1.status = clnt_stat.RPC_SUCCESS →
      s1.msg = s.msg ∧ s1.ct.ct_mcallc = s.ct.ct_mcallc ∧
      ∃ post, s1.trace = s.trace ++ [Ev.seterr_reply s.msg clnt_stat.RPC_SUCCESS,
          Ev.validate true, Ev.unwrap true] ++ post ∧
        ∀ ev ∈ post, ev = Ev.free_verf) ∧
    (∀ s1, process_reply E a s = ReplyRes.unsuccessful s1 →
      s1.status ≠ clnt_stat.RPC_SUCCESS) := by
  unfold process_reply
  dsimp only [State.op, State.status, State.set_status, State.set_x_op]
  constructor
  · intro s1 h hs
    split_ifs at h
    all_goals simp only [ReplyRes.completed.injEq] at h
    all_goals subst h
    all_goals simp only [State.status] at hs
    all_goals simp_all
  · intro s1 h
    split_ifs at h with c1
    all_goals simp only [ReplyRes.unsuccessful.injEq] at h
    subst h
    exact c1

theorem receive_reply_success (E : Env σ) (H : FailureRecorded E) (a : call_args) (x_id : Nat)
    (duplex : Bool) (fuel : Nat) (s : State σ) :
    (∀ s1, receive_reply E a x_id duplex fuel s =
        AttemptRes.done clnt_stat.RPC_SUCCESS s1 →
      s1.msg.rm_direction = REPLY ∧ s1.msg.rm_xid = x_id ∧
      ∃ pre post, s1.trace = pre ++ [Ev.dplx_msg true s1.msg,
          Ev.seterr_reply s1.msg clnt_stat.RPC_SUCCESS, Ev.validate true, Ev.unwrap true] ++
          post ∧
        ∀ ev ∈ post, ev = Ev.free_verf) ∧
    (∀ s1, receive_reply E a x_id duplex fuel s = AttemptRes.unsuccessful s1 →
      s1.status ≠ clnt_stat.RPC_SUCCESS) := by
  obtain ⟨l1, l2⟩ := recv_loop_success_free E H x_id duplex fuel (s.set_x_op xdr_op.XDR_DECODE)
  unfold receive_reply
  cases hl : recv_loop E x_id duplex fuel (s.set_x_op xdr_op.XDR_DECODE) with
  | out_of_fuel s3 => exact ⟨fun s1 h => by simp at h, fun s1 h => by simp at h⟩
  | ret r3 s3 =>
    refine ⟨fun s1 h => ?_, fun s1 h => by simp at h⟩
    simp only [AttemptRes.done.injEq] at h
    exact absurd h.1 (l2 r3 s3 hl)
  | replied s3 =>
    obtain ⟨d1, d2, pre, d3⟩ := l1 s3 hl
    obtain ⟨p1, p2⟩ := process_reply_success E a s3
    dsimp only
    cases hp : process_reply E a s3 with
    | completed s4 =>
      refine ⟨fun s1 h => ?_, fun s1 h => by simp [reply_outcome] at h⟩
      simp only [reply_outcome, AttemptRes.done.injEq] at h
      obtain ⟨h1, h2⟩ := h
      subst h2
      obtain ⟨e1, _, post, e3, e4⟩ := p1 s4 hp h1
      rw [e1]
      refine ⟨d1, d2, pre, post, ?_, e4⟩
      rw [e3, d3]
      simp
    | unsuccessful s4 =>
      refine ⟨fun s1 h => by simp [reply_outcome] at h, fun s1 h => ?_⟩
      simp only [reply_outcome, AttemptRes.unsuccessful.injEq] at h
      subst h
      exact p2 s4 hp

theorem sent_x_id_begin_attempt (e : Endian) (s : State σ) :
    ntohl e (load32 e ((begin_attempt e s).ct.ct_mcallc.take 4)) = attempt_x_id e s := by
  unfold begin_attempt attempt_x_id
  simp only [ct_mcalli_set, State.set_status, State.set_x_op, ct_mcalli_get]
  rw [take_four_store32, load32_store32 e _ (Nat.mod_lt _ (by norm_num))]

/-- An attempt that waits for its reply returns `RPC_SUCCESS` only with an
accepted reply carrying the id it sent, and reaches the refresh decision only
with another status. -/
theorem attempt_success (E : Env σ) (H : FailureRecorded E) (e : Endian) (a : call_args)
    (duplex : Bool) (fuel : Nat) (s : State σ) :
    (∀ s1, attempt E e a true duplex fuel s = AttemptRes.done clnt_stat.RPC_SUCCESS s1 →
      s1.accepted_reply e) ∧
    (∀ s1, attempt E e a true duplex fuel s = AttemptRes.unsuccessful s1 →
      s1.status ≠ clnt_stat.RPC_SUCCESS) := by
  have hst := attempt_stable E e a true duplex fuel s
  have hx := sent_x_id_begin_attempt e s
  have hf := H.endofrecord
  constructor
  · intro s1 h
    rw [h] at hst
    have hm : s1.ct.ct_mcallc = (begin_attempt e s).ct.ct_mcallc :=
      congrArg (fun p => p.1) hst
    unfold attempt at h
    dsimp only at h
    split_ifs at h with c1 c2 c3 c4 c5
    · simp only [AttemptRes.done.injEq, State.op, State.status, State.set_status] at h
      exact absurd h.1 (hf _ _ (by simp))
    · simp only [AttemptRes.done.injEq, State.op, State.status] at h
      exact absurd h.1 (hf _ _ c2)
    · simp at h
    · simp at c4
    · simp at h
    · obtain ⟨r1, _⟩ := receive_reply_success E H a (attempt_x_id e s) duplex fuel _
      obtain ⟨d1, d2, pre, post, d3, d4⟩ := r1 s1 h
      refine ⟨d1, ?_, pre, post, d3, fun ev hev => Or.inl (d4 ev hev)⟩
      rw [d2, ← hx, ← hm]
      rfl
  · intro s1 h
    unfold attempt at h
    dsimp only at h
    split_ifs at h
    · obtain ⟨_, r2⟩ := receive_reply_success E H a (attempt_x_id e s) duplex fuel _
      exact r2 s1 h

theorem call_again_success (E : Env σ) (H : FailureRecorded E) (e : Endian) (a : call_args)
    (duplex : Bool) (fuel n : Nat) (s s1 : State σ)
    (h : call_again E e a true duplex fuel n s = Outcome.done clnt_stat.RPC_SUCCESS s1) :
    s1.accepted_reply e := by
  induction n generalizing s with
  | zero =>
    obtain ⟨a1, a2⟩ := attempt_success E H e a duplex fuel s
    cases hatt : attempt E e a true duplex fuel s with
    | done r s2 =>
      rw [call_again_of_done E e a true duplex fuel 0 s s2 r hatt] at h
      simp only [Outcome.done.injEq] at h
      obtain ⟨h1, h2⟩ := h
      subst h1 h2
      exact a1 _ hatt
    | out_of_fuel s2 =>
      rw [call_again_of_out_of_fuel E e a true duplex fuel 0 s s2 hatt] at h
      simp at h
    | unsuccessful s2 =>
      rw [call_again_zero_of_unsuccessful E e a true duplex fuel s s2 hatt] at h
      simp only [Outcome.done.injEq] at h
      exact absurd h.1 (a2 s2 hatt)
  | succ n ih =>
    obtain ⟨a1, a2⟩ := attempt_success E H e a duplex fuel s
    cases hatt : attempt E e a true duplex fuel s with
    | done r s2 =>
      rw [call_again_of_done E e a true duplex fuel (n + 1) s s2 r hatt] at h
      simp only [Outcome.done.injEq] at h
      obtain ⟨h1, h2⟩ := h
      subst h1 h2
      exact a1 _ hatt
    | out_of_fuel s2 =>
      rw [call_again_of_out_of_fuel E e a true duplex fuel (n + 1) s s2 hatt] at h
      simp at h
    | unsuccessful s2 =>
      rw [call_again_succ_of_unsuccessful E e a true duplex fuel n s s2 hatt] at h
      split_ifs at h with c
      · exact ih _ h
      · simp only [Outcome.done.injEq, State.op_msg, State.status] at h
        exact absurd h.1 (H.refresh _ _ _ (a2 s2 hatt) (by simpa using c))

theorem accepted_reply_call_exit (e : Endian) (b : Bool) (s : State σ)
    (h : s.accepted_reply e) : (call_exit b s).accepted_reply e := by
  obtain ⟨l, hl, pl⟩ := call_exit_adds b s
  have hm : (call_exit b s).msg = s.msg := by
    unfold call_exit cond_unblock_events_client
    dsimp only [State.log]
    split_ifs <;> rfl
  have hc : (call_exit b s).ct.ct_mcallc = s.ct.ct_mcallc := by
    unfold call_exit cond_unblock_events_client
    dsimp only [State.log]
    split_ifs <;> rfl
  obtain ⟨d1, d2, pre, post, d3, d4⟩ := h
  refine ⟨by rw [hm]; exact d1, ?_, pre, post ++ l, ?_, ?_⟩
  · rw [hm, d2]
    simp only [State.sent_x_id, ct_mcalli_get, hc]
  · rw [hl, d3, hm]
    simp
  · intro ev hev
    rcases List.mem_append.mp hev with h1 | h1
    · exact d4 ev h1
    · exact Or.inr (pl ev h1)

/-- When no collaborator hides a failure behind `RPC_SUCCESS`, a call that
expects a reply returns `RPC_SUCCESS` only after a REPLY carrying the id last
sent was decoded, classified as success and accepted by `AUTH_VALIDATE` and
`AUTH_UNWRAP`. -/
theorem success_requires_accepted_reply (E : Env σ) (H : FailureRecorded E) (e : Endian)
    (fuel : Nat) (a : call_args) (s : State σ) (hexp : shipnow_of a = true)
    (hres : (clnt_vc_call E e fuel a s).result = some clnt_stat.RPC_SUCCESS) :
    (clnt_vc_call E e fuel a s).state.accepted_reply e := by
  unfold clnt_vc_call at hres ⊢
  dsimp only at hres ⊢
  rw [hexp] at hres ⊢
  cases hc : call_again E e a true s.ct.CT_FLAG_DUPLEX fuel 2 (call_entry a s).2 with
  | out_of_fuel s4 =>
    rw [hc] at hres
    simp [Outcome.result] at hres
  | done r s4 =>
    rw [hc] at hres
    simp only [Outcome.result, Option.some.injEq] at hres
    subst hres
    exact accepted_reply_call_exit e _ s4
      (call_again_success E H e a s.ct.CT_FLAG_DUPLEX fuel 2 _ s4 hc)

/-- The echoing peer hides no failure. -/
theorem echo_env_failure_recorded (rp ar rj : Nat) (validate_ok refresh_ok : Bool) :
    FailureRecorded (echo_env rp ar rj validate_ok refresh_ok) where
  skiprecord := by
    intro w err h
    simp [echo_env] at h
  endofrecord := fun _ _ h => h
  refresh := fun _ _ _ h _ => h

/-! ## The return after a failed skip-record -/

/-- Lines 430-434: when the first skip-record of a call fails, the call
returns the status stored in the error record at that moment, whatever it
is, and ends in the state the skip-record left (after the exit steps). -/
theorem failed_skip_returns_stored_status (E : Env σ) (e : Endian) (fuel : Nat)
    (a : call_args) (s : State σ)
    (henc : (encode_call E a (begin_attempt e (call_entry a s).2)).1 = true)
    (hflush : (E.xdrrec_endofrecord true
      (encode_call E a (begin_attempt e (call_entry a s).2)).2.w
      (encode_call E a (begin_attempt e (call_entry a s).2)).2.ct.ct_error).ok = true)
    (htime : ¬ (a.timeout.tv_sec = 0 ∧ a.timeout.tv_usec = 0))
    (hskip : (skip_record E (loop_start E e a (call_entry a s).2)).1 = false) :
    clnt_vc_call E e (fuel + 1) a s =
      Outcome.done (skip_record E (loop_start E e a (call_entry a s).2)).2.status
        (call_exit (call_entry a s).1
          (skip_record E (loop_start E e a (call_entry a s).2)).2) := by
  have hs : shipnow_of a = true := by
    unfold shipnow_of
    rw [if_neg (fun h => htime h.2)]
  apply clnt_vc_call_of_first_attempt_done E e (fuel + 1) a s _ _ true hs
  rw [attempt_awaits E e a _ _ _ henc hflush htime]
  unfold receive_reply
  change (match recv_loop E _ _ (fuel + 1) (loop_start E e a (call_entry a s).2) with
    | RecvRes.out_of_fuel s3 => AttemptRes.out_of_fuel s3
    | RecvRes.ret r3 s3 => AttemptRes.done r3 s3
    | RecvRes.replied s3 => reply_outcome (process_reply E a s3)) = _
  simp [recv_loop, recv_body, fetch_record, hskip]

/-- C36 (the claim fails on the code): a call that expects a reply (results
decoder set, timeout of 25 seconds) is sent in full, and the first
skip-record fails without recording an error.  The call returns
`RPC_SUCCESS`: line 433 returns `ct_error.re_status`, which line 397 set to
`RPC_SUCCESS`, and nothing on this path replaces a status that is still
`RPC_SUCCESS`.  The whole trace of the call is lock, the four encode steps,
the forced end-of-record, the failed skip-record and unlock: no header was
decoded, nothing was classified, VALIDATE and UNWRAP never ran.  The sibling
failure paths do replace the status: a failed encode step returns
`RPC_CANTENCODEARGS` (lines 404-405) and a failed UNWRAP returns
`RPC_CANTDECODERES` (lines 486-487). -/
theorem failed_skiprecord_returns_success :
    sample_args.xdr_results ≠ none ∧
    ¬ (sample_args.timeout.tv_sec = 0 ∧ sample_args.timeout.tv_usec = 0) ∧
    (clnt_vc_call silent_skip_env Endian.big 5 sample_args (sample_state 0)).result =
      some clnt_stat.RPC_SUCCESS ∧
    (clnt_vc_call silent_skip_env Endian.big 5 sample_args (sample_state 0)).state.trace =
      [Ev.vc_fd_lock,
       Ev.putbytes [0, 0, 0, 4, 0, 0, 0, 0, 0, 0, 0, 2, 0, 1, 134, 163, 0, 0, 0, 3] true,
       Ev.putint32 1 true, Ev.marshall true, Ev.wrap true, Ev.endofrecord true true,
       Ev.skiprecord false, Ev.vc_fd_unlock] ∧
    (clnt_vc_call unmarshallable_env Endian.big 5 sample_args (sample_state 0)).result =
      some clnt_stat.RPC_CANTENCODEARGS ∧
    (clnt_vc_call undecodable_env Endian.big 5 sample_args (sample_state 0)).result =
      some clnt_stat.RPC_CANTDECODERES := by
  decide

/-! ## Termination on a finite inbound stream -/

theorem encode_call_remaining (E : Env σ) (remaining : σ → Nat)
    (H : FiniteInbound E remaining) (a : call_args) (s : State σ) :
    remaining (encode_call E a s).2.w ≤ remaining s.w := by
  have h1 := H.putbytes (s.ct.ct_mcallc.take s.ct.ct_mpos) s.w s.ct.ct_error
  have h2 := fun w err => H.putint32 a.proc w err
  have h3 := H.marshall
  have h4 := H.wrap a.xdr_args a.args_ptr
  unfold encode_call
  dsimp only [State.op]
  split_ifs
  · exact h1
  · exact (h2 _ _).trans h1
  · exact (h3 _ _).trans ((h2 _ _).trans h1)
  · exact (h4 _ _).trans ((h3 _ _).trans ((h2 _ _).trans h1))

/-- Each pass of the receive loop whose skip-record succeeds consumes a
record, however the pass ends. -/
theorem recv_body_remaining (E : Env σ) (remaining : σ → Nat)
    (H : FiniteInbound E remaining) (x_id : Nat) (duplex : Bool) (s : State σ)
    (hskip : (fetch_record E s).skip_ok = true) :
    remaining (recv_body E x_id duplex s).state.w < remaining s.w := by
  have hk : (skip_record E s).1 = true := by
    by_contra hk
    simp [fetch_record, hk] at hskip
  have hf : remaining (fetch_record E s).s.w < remaining s.w := by
    simp only [fetch_record, hk, Bool.not_true, Bool.false_eq_true, if_false]
    simp only [skip_record] at hk
    exact H.record _ _ _ hk
  have hd := H.dispatch (fetch_record E s).s.msg.rm_xid (fetch_record E s).s.msg
    (fetch_record E s).s.w
    (fetch_record E s).s.ct.CT_FLAG_EVENTS_BLOCKED
  unfold recv_body
  dsimp only
  split_ifs <;> simp only [Step.state, dispatch_call] <;> omega

/-- A pass that continues the loop has consumed a record. -/
theorem recv_body_next_remaining (E : Env σ) (remaining : σ → Nat)
    (H : FiniteInbound E remaining) (x_id : Nat) (duplex : Bool) (s s1 : State σ)
    (h : recv_body E x_id duplex s = Step.next s1) :
    remaining s1.w < remaining s.w := by
  have hskip : (fetch_record E s).skip_ok = true := by
    by_contra hk
    unfold recv_body at h
    simp [hk] at h
  have := recv_body_remaining E remaining H x_id duplex s hskip
  rw [h] at this
  exact this

theorem recv_body_replied_remaining (E : Env σ) (remaining : σ → Nat)
    (H : FiniteInbound E remaining) (x_id : Nat) (duplex : Bool) (s s1 : State σ)
    (h : recv_body E x_id duplex s = Step.replied s1) :
    remaining s1.w < remaining s.w := by
  have hskip : (fetch_record E s).skip_ok = true := by
    by_contra hk
    unfold recv_body at h
    simp [hk] at h
  have := recv_body_remaining E remaining H x_id duplex s hskip
  rw [h] at this
  exact this

/-- With more fuel than records left, the receive loop ends by itself, and a
loop that reaches `replied` has not added records. -/
theorem recv_loop_finishes (E : Env σ) (remaining : σ → Nat)
    (H : FiniteInbound E remaining) (x_id : Nat) (duplex : Bool) (fuel : Nat) (s : State σ)
    (hfuel : remaining s.w < fuel) :
    (recv_loop E x_id duplex fuel s).is_finished = true ∧
    ∀ s1, recv_loop E x_id duplex fuel s = RecvRes.replied s1 →
      remaining s1.w ≤ remaining s.w := by
  induction fuel generalizing s with
  | zero => omega
  | succ n ih =>
    unfold recv_loop
    cases hb : recv_body E x_id duplex s with
    | next s1 =>
      have h1 := recv_body_next_remaining E remaining H x_id duplex s s1 hb
      obtain ⟨i1, i2⟩ := ih s1 (by omega)
      refine ⟨i1, fun s2 h2 => ?_⟩
      have := i2 s2 h2
      omega
    | replied s1 =>
      have h1 := recv_body_replied_remaining E remaining H x_id duplex s s1 hb
      refine ⟨rfl, fun s2 h2 => ?_⟩
      simp only [RecvRes.replied.injEq] at h2
      subst h2
      omega
    | ret r s1 =>
      exact ⟨rfl, fun s2 h2 => by simp at h2⟩

theorem process_reply_remaining (E : Env σ) (remaining : σ → Nat)
    (H : FiniteInbound E remaining) (a : call_args) (s : State σ) :
    remaining (process_reply E a s).state.w ≤ remaining s.w := by
  have hv := H.validate
  have hu := H.unwrap a.xdr_results a.results_ptr
  have hfr := H.free_verf
  unfold process_reply
  dsimp only [State.op, State.status, State.set_status, State.set_x_op]
  split_ifs <;> simp only [ReplyRes.state] <;>
    first
    | exact le_refl _
    | exact hv _ _ _
    | exact (hu _ _).trans (hv _ _ _)
    | exact (hfr _ _).trans (hv _ _ _)
    | exact (hfr _ _).trans ((hu _ _).trans (hv _ _ _))

theorem receive_reply_finishes (E : Env σ) (remaining : σ → Nat)
    (H : FiniteInbound E remaining) (a : call_args) (x_id : Nat) (duplex : Bool) (fuel : Nat)
    (s : State σ) (hfuel : remaining s.w < fuel) :
    (receive_reply E a x_id duplex fuel s).is_finished = true ∧
    ∀ s1, receive_reply E a x_id duplex fuel s = AttemptRes.unsuccessful s1 →
      remaining s1.w ≤ remaining s.w := by
  obtain ⟨h1, h2⟩ := recv_loop_finishes E remaining H x_id duplex fuel
    (s.set_x_op xdr_op.XDR_DECODE) hfuel
  unfold receive_reply
  cases hl : recv_loop E x_id duplex fuel (s.set_x_op xdr_op.XDR_DECODE) with
  | out_of_fuel s3 =>
    rw [hl] at h1
    simp [RecvRes.is_finished] at h1
  | ret r3 s3 =>
    exact ⟨rfl, fun s1 h => by simp at h⟩
  | replied s3 =>
    have h3 : remaining s3.w ≤ remaining s.w := h2 s3 hl
    have h4 := process_reply_remaining E remaining H a s3
    dsimp only
    cases hp : process_reply E a s3 with
    | completed s4 =>
      exact ⟨rfl, fun s1 h => by simp [reply_outcome] at h⟩
    | unsuccessful s4 =>
      refine ⟨rfl, fun s1 h => ?_⟩
      simp only [reply_outcome, AttemptRes.unsuccessful.injEq] at h
      subst h
      rw [hp] at h4
      exact h4.trans h3

/-- With more fuel than records left, an attempt ends by itself, and an
attempt that reaches the refresh decision has not added records. -/
theorem attempt_finishes (E : Env σ) (remaining : σ → Nat)
    (H : FiniteInbound E remaining) (e : Endian) (a : call_args) (shipnow duplex : Bool)
    (fuel : Nat) (s : State σ) (hfuel : remaining s.w < fuel) :
    (attempt E e a shipnow duplex fuel s).is_finished = true ∧
    ∀ s1, attempt E e a shipnow duplex fuel s = AttemptRes.unsuccessful s1 →
      remaining s1.w ≤ remaining s.w := by
  have h1 : remaining (encode_call E a (begin_attempt e s)).2.w ≤ remaining s.w :=
    encode_call_remaining E remaining H a (begin_attempt e s)
  have h2 := H.endofrecord shipnow (encode_call E a (begin_attempt e s)).2.w
    (encode_call E a (begin_attempt e s)).2.ct.ct_error
  unfold attempt
  dsimp only
  split_ifs
  · exact ⟨rfl, fun s1 h => by simp at h⟩
  · exact ⟨rfl, fun s1 h => by simp at h⟩
  · exact ⟨rfl, fun s1 h => by simp at h⟩
  · exact ⟨rfl, fun s1 h => by simp at h⟩
  · exact ⟨rfl, fun s1 h => by simp at h⟩
  · obtain ⟨i1, i2⟩ := receive_reply_finishes E remaining H a (attempt_x_id e s) duplex fuel
      ((encode_call E a (begin_attempt e s)).2.op
        (E.xdrrec_endofrecord shipnow (encode_call E a (begin_attempt e s)).2.w
          (encode_call E a (begin_attempt e s)).2.ct.ct_error)
        (Ev.endofrecord shipnow
          (E.xdrrec_endofrecord shipnow (encode_call E a (begin_attempt e s)).2.w
            (encode_call E a (begin_attempt e s)).2.ct.ct_error).ok))
      (by simp only [State.op]; omega)
    refine ⟨i1, fun s1 h => ?_⟩
    have := i2 s1 h
    simp only [State.op] at this
    omega

/-- With more fuel than records left, the retry structure returns a status. -/
theorem call_again_terminates (E : Env σ) (remaining : σ → Nat)
    (H : FiniteInbound E remaining) (e : Endian) (a : call_args) (shipnow duplex : Bool)
    (fuel n : Nat) (s : State σ) (hfuel : remaining s.w < fuel) :
    ∃ r, (call_again E e a shipnow duplex fuel n s).result = some r := by
  induction n generalizing s with
  | zero =>
    obtain ⟨h1, h2⟩ := attempt_finishes E remaining H e a shipnow duplex fuel s hfuel
    cases hatt : attempt E e a shipnow duplex fuel s with
    | done r s1 =>
      rw [call_again_of_done E e a shipnow duplex fuel 0 s s1 r hatt]
      exact ⟨r, rfl⟩
    | out_of_fuel s1 =>
      rw [hatt] at h1
      simp [AttemptRes.is_finished] at h1
    | unsuccessful s1 =>
      rw [call_again_zero_of_unsuccessful E e a shipnow duplex fuel s s1 hatt]
      exact ⟨_, rfl⟩
  | succ n ih =>
    obtain ⟨h1, h2⟩ := attempt_finishes E remaining H e a shipnow duplex fuel s hfuel
    cases hatt : attempt E e a shipnow duplex fuel s with
    | done r s1 =>
      rw [call_again_of_done E e a shipnow duplex fuel (n + 1) s s1 r hatt]
      exact ⟨r, rfl⟩
    | out_of_fuel s1 =>
      rw [hatt] at h1
      simp [AttemptRes.is_finished] at h1
    | unsuccessful s1 =>
      rw [call_again_succ_of_unsuccessful E e a shipnow duplex fuel n s s1 hatt]
      have h3 := h2 s1 hatt
      have h4 := H.refresh s1.msg s1.w s1.ct.ct_error
      split_ifs
      · exact ih _ (by simp only [State.op_msg]; omega)
      · exact ⟨_, rfl⟩

/-- With more fuel than records left, `clnt_vc_call` returns a status. -/
theorem clnt_vc_call_terminates (E : Env σ) (remaining : σ → Nat)
    (H : FiniteInbound E remaining) (e : Endian) (fuel : Nat) (a : call_args) (s : State σ)
    (hfuel : remaining s.w < fuel) :
    ∃ r, (clnt_vc_call E e fuel a s).result = some r := by
  have hw : (call_entry a s).2.w = s.w := by
    unfold call_entry adopt_timeout cond_block_events_client
    dsimp only [State.log]
    split_ifs <;> rfl
  obtain ⟨r, hr⟩ := call_again_terminates E remaining H e a (shipnow_of a)
    s.ct.CT_FLAG_DUPLEX fuel 2 (call_entry a s).2 (by rw [hw]; exact hfuel)
  unfold clnt_vc_call
  dsimp only
  cases hc : call_again E e a (shipnow_of a) s.ct.CT_FLAG_DUPLEX fuel 2 (call_entry a s).2 with
  | out_of_fuel s4 =>
    rw [hc] at hr
    simp [Outcome.result] at hr
  | done r1 s4 => exact ⟨r1, rfl⟩

/-! ## The number of passes of the receive loop -/

theorem encode_call_skips (E : Env σ) (a : call_args) (s : State σ) :
    (encode_call E a s).2.trace.countP Ev.is_skiprecord =
      s.trace.countP Ev.is_skiprecord := by
  unfold encode_call
  dsimp only [State.op]
  split_ifs <;> simp [Ev.is_skiprecord]

/-- Every pass of the receive loop performs one skip-record. -/
theorem recv_body_skips (E : Env σ) (x_id : Nat) (duplex : Bool) (s : State σ) :
    (recv_body E x_id duplex s).state.trace.countP Ev.is_skiprecord =
      s.trace.countP Ev.is_skiprecord + 1 := by
  unfold recv_body fetch_record
  dsimp only [skip_record, decode_header, State.op, State.op_msg]
  split_ifs <;> simp [Step.state, dispatch_call, Ev.is_skiprecord]

theorem process_reply_skips (E : Env σ) (a : call_args) (s : State σ) :
    (process_reply E a s).state.trace.countP Ev.is_skiprecord =
      s.trace.countP Ev.is_skiprecord := by
  unfold process_reply
  dsimp only [State.op, State.status, State.set_status, State.set_x_op]
  split_ifs <;> simp [ReplyRes.state, Ev.is_skiprecord]

/-- The receive loop performs at most one skip-record more than there are
records left, whatever the fuel; a loop that reaches `replied` has consumed a
record for each of its skip-records. -/
theorem recv_loop_skips (E : Env σ) (remaining : σ → Nat)
    (H : FiniteInbound E remaining) (x_id : Nat) (duplex : Bool) (fuel : Nat) (s : State σ) :
    (recv_loop E x_id duplex fuel s).state.trace.countP Ev.is_skiprecord ≤
      s.trace.countP Ev.is_skiprecord + remaining s.w + 1 ∧
    ∀ s1, recv_loop E x_id duplex fuel s = RecvRes.replied s1 →
      s1.trace.countP Ev.is_skiprecord + remaining s1.w ≤
        s.trace.countP Ev.is_skiprecord + remaining s.w := by
  induction fuel generalizing s with
  | zero =>
    unfold recv_loop
    exact ⟨by simp only [RecvRes.state]; omega, fun s1 h => by simp at h⟩
  | succ n ih =>
    have hc := recv_body_skips E x_id duplex s
    unfold recv_loop
    cases hb : recv_body E x_id duplex s with
    | next s1 =>
      have h1 := recv_body_next_remaining E remaining H x_id duplex s s1 hb
      rw [hb] at hc
      simp only [Step.state] at hc
      obtain ⟨i1, i2⟩ := ih s1
      refine ⟨?_, fun s2 h2 => ?_⟩
      · dsimp only
        omega
      · have := i2 s2 h2
        omega
    | replied s1 =>
      have h1 := recv_body_replied_remaining E remaining H x_id duplex s s1 hb
      rw [hb] at hc
      simp only [Step.state] at hc
      refine ⟨?_, fun s2 h2 => ?_⟩
      · simp only [RecvRes.state]
        omega
      · simp only [RecvRes.replied.injEq] at h2
        subst h2
        omega
    | ret r s1 =>
      rw [hb] at hc
      simp only [Step.state] at hc
      refine ⟨?_, fun s2 h2 => by simp at h2⟩
      simp only [RecvRes.state]
      omega

theorem receive_reply_skips (E : Env σ) (remaining : σ → Nat)
    (H : FiniteInbound E remaining) (a : call_args) (x_id : Nat) (duplex : Bool) (fuel : Nat)
    (s : State σ) :
    (receive_reply E a x_id duplex fuel s).state.trace.countP Ev.is_skiprecord ≤
      s.trace.countP Ev.is_skiprecord + remaining s.w + 1 ∧
    ∀ s1, receive_reply E a x_id duplex fuel s = AttemptRes.unsuccessful s1 →
      s1.trace.countP Ev.is_skiprecord + remaining s1.w ≤
        s.trace.countP Ev.is_skiprecord + remaining s.w := by
  obtain ⟨h1, h2⟩ := recv_loop_skips E remaining H x_id duplex fuel
    (s.set_x_op xdr_op.XDR_DECODE)
  have e1 : (s.set_x_op xdr_op.XDR_DECODE).trace = s.trace := rfl
  have e2 : (s.set_x_op xdr_op.XDR_DECODE).w = s.w := rfl
  rw [e1, e2] at h1 h2
  unfold receive_reply
  cases hl : recv_loop E x_id duplex fuel (s.set_x_op xdr_op.XDR_DECODE) with
  | out_of_fuel s3 =>
    rw [hl] at h1
    exact ⟨h1, fun s1 h => by simp at h⟩
  | ret r3 s3 =>
    rw [hl] at h1
    exact ⟨h1, fun s1 h => by simp at h⟩
  | replied s3 =>
    have h3 := h2 s3 hl
    have h4 := process_reply_remaining E remaining H a s3
    have h5 := process_reply_skips E a s3
    dsimp only
    cases hp : process_reply E a s3 with
    | completed s4 =>
      rw [hp] at h4 h5
      simp only [ReplyRes.state] at h4 h5
      refine ⟨?_, fun s1 h => by simp [reply_outcome] at h⟩
      simp only [reply_outcome, AttemptRes.state]
      omega
    | unsuccessful s4 =>
      rw [hp] at h4 h5
      simp only [ReplyRes.state] at h4 h5
      refine ⟨?_, fun s1 h => ?_⟩
      · simp only [reply_outcome, AttemptRes.state]
        omega
      · simp only [reply_outcome, AttemptRes.unsuccessful.injEq] at h
        subst h
        omega

theorem attempt_skips (E : Env σ) (remaining : σ → Nat)
    (H : FiniteInbound E remaining) (e : Endian) (a : call_args) (shipnow duplex : Bool)
    (fuel : Nat) (s : State σ) :
    (attempt E e a shipnow duplex fuel s).state.trace.countP Ev.is_skiprecord ≤
      s.trace.countP Ev.is_skiprecord + remaining s.w + 1 ∧
    ∀ s1, attempt E e a shipnow duplex fuel s = AttemptRes.unsuccessful s1 →
      s1.trace.countP Ev.is_skiprecord + remaining s1.w ≤
        s.trace.countP Ev.is_skiprecord + remaining s.w := by
  have h1 : remaining (encode_call E a (begin_attempt e s)).2.w ≤ remaining s.w :=
    encode_call_remaining E remaining H a (begin_attempt e s)
  have h2 := H.endofrecord shipnow (encode_call E a (begin_attempt e s)).2.w
    (encode_call E a (begin_attempt e s)).2.ct.ct_error
  have h3 : (encode_call E a (begin_attempt e s)).2.trace.countP Ev.is_skiprecord =
      s.trace.countP Ev.is_skiprecord := encode_call_skips E a (begin_attempt e s)
  unfold attempt
  dsimp only
  split_ifs
  · refine ⟨?_, fun s1 h => by simp at h⟩
    simp only [AttemptRes.state, State.op, State.set_status, List.countP_append,
      List.countP_cons, List.countP_nil, Ev.is_skiprecord, Bool.false_eq_true, if_false, h3]
    omega
  · refine ⟨?_, fun s1 h => by simp at h⟩
    simp only [AttemptRes.state, State.op, State.set_status, List.countP_append,
      List.countP_cons, List.countP_nil, Ev.is_skiprecord, Bool.false_eq_true, if_false, h3]
    omega
  · refine ⟨?_, fun s1 h => by simp at h⟩
    simp only [AttemptRes.state, State.op, State.set_status, List.countP_append,
      List.countP_cons, List.countP_nil, Ev.is_skiprecord, Bool.false_eq_true, if_false, h3]
    omega
  · refine ⟨?_, fun s1 h => by simp at h⟩
    simp only [AttemptRes.state, State.op, State.set_status, List.countP_append,
      List.countP_cons, List.countP_nil, Ev.is_skiprecord, Bool.false_eq_true, if_false, h3]
    omega
  · refine ⟨?_, fun s1 h => by simp at h⟩
    simp only [AttemptRes.state, State.op, State.set_status, List.countP_append,
      List.countP_cons, List.countP_nil, Ev.is_skiprecord, Bool.false_eq_true, if_false, h3]
    omega
  · obtain ⟨i1, i2⟩ := receive_reply_skips E remaining H a (attempt_x_id e s) duplex fuel
      ((encode_call E a (begin_attempt e s)).2.op
        (E.xdrrec_endofrecord shipnow (encode_call E a (begin_attempt e s)).2.w
          (encode_call E a (begin_attempt e s)).2.ct.ct_error)
        (Ev.endofrecord shipnow
          (E.xdrrec_endofrecord shipnow (encode_call E a (begin_attempt e s)).2.w
            (encode_call E a (begin_attempt e s)).2.ct.ct_error).ok))
    have ew : remaining ((encode_call E a (begin_attempt e s)).2.op
        (E.xdrrec_endofrecord shipnow (encode_call E a (begin_attempt e s)).2.w
          (encode_call E a (begin_attempt e s)).2.ct.ct_error)
        (Ev.endofrecord shipnow
          (E.xdrrec_endofrecord shipnow (encode_call E a (begin_attempt e s)).2.w
            (encode_call E a (begin_attempt e s)).2.ct.ct_error).ok)).w ≤ remaining s.w := by
      simp only [State.op]
      omega
    have et : ((encode_call E a (begin_attempt e s)).2.op
        (E.xdrrec_endofrecord shipnow (encode_call E a (begin_attempt e s)).2.w
          (encode_call E a (begin_attempt e s)).2.ct.ct_error)
        (Ev.endofrecord shipnow
          (E.xdrrec_endofrecord shipnow (encode_call E a (begin_attempt e s)).2.w
            (encode_call E a (begin_attempt e s)).2.ct.ct_error).ok)).trace.countP
          Ev.is_skiprecord = s.trace.countP Ev.is_skiprecord := by
      simp only [State.op, List.countP_append, List.countP_cons, List.countP_nil,
        Ev.is_skiprecord, Bool.false_eq_true, if_false, h3]
      omega
    rw [et] at i1 i2
    refine ⟨?_, fun s1 h => ?_⟩
    · omega
    · have := i2 s1 h
      omega

/-- The retry structure performs at most one skip-record more than there are
records left, whatever the fuel and the number of refreshes. -/
theorem call_again_skips (E : Env σ) (remaining : σ → Nat)
    (H : FiniteInbound E remaining) (e : Endian) (a : call_args) (shipnow duplex : Bool)
    (fuel n : Nat) (s : State σ) :
    (call_again E e a shipnow duplex fuel n s).state.trace.countP Ev.is_skiprecord ≤
      s.trace.countP Ev.is_skiprecord + remaining s.w + 1 := by
  induction n generalizing s with
  | zero =>
    obtain ⟨h1, h2⟩ := attempt_skips E remaining H e a shipnow duplex fuel s
    cases hatt : attempt E e a shipnow duplex fuel s with
    | done r s1 =>
      rw [call_again_of_done E e a shipnow duplex fuel 0 s s1 r hatt]
      rw [hatt] at h1
      exact h1
    | out_of_fuel s1 =>
      rw [call_again_of_out_of_fuel E e a shipnow duplex fuel 0 s s1 hatt]
      rw [hatt] at h1
      exact h1
    | unsuccessful s1 =>
      rw [call_again_zero_of_unsuccessful E e a shipnow duplex fuel s s1 hatt]
      rw [hatt] at h1
      exact h1
  | succ n ih =>
    obtain ⟨h1, h2⟩ := attempt_skips E remaining H e a shipnow duplex fuel s
    cases hatt : attempt E e a shipnow duplex fuel s with
    | done r s1 =>
      rw [call_again_of_done E e a shipnow duplex fuel (n + 1) s s1 r hatt]
      rw [hatt] at h1
      exact h1
    | out_of_fuel s1 =>
      rw [call_again_of_out_of_fuel E e a shipnow duplex fuel (n + 1) s s1 hatt]
      rw [hatt] at h1
      exact h1
    | unsuccessful s1 =>
      rw [call_again_succ_of_unsuccessful E e a shipnow duplex fuel n s s1 hatt]
      have h3 := h2 s1 hatt
      have h4 := H.refresh s1.msg s1.w s1.ct.ct_error
      split_ifs
      · have := ih (s1.op_msg (E.AUTH_REFRESH s1.msg s1.w s1.ct.ct_error)
          (Ev.refresh (E.AUTH_REFRESH s1.msg s1.w s1.ct.ct_error).ok))
        have ew : (s1.op_msg (E.AUTH_REFRESH s1.msg s1.w s1.ct.ct_error)
            (Ev.refresh (E.AUTH_REFRESH s1.msg s1.w s1.ct.ct_error).ok)).w =
            (E.AUTH_REFRESH s1.msg s1.w s1.ct.ct_error).w := rfl
        have et : (s1.op_msg (E.AUTH_REFRESH s1.msg s1.w s1.ct.ct_error)
            (Ev.refresh (E.AUTH_REFRESH s1.msg s1.w s1.ct.ct_error).ok)).trace.countP
              Ev.is_skiprecord = s1.trace.countP Ev.is_skiprecord := by
          simp only [State.op_msg, List.countP_append, List.countP_cons, List.countP_nil,
            Ev.is_skiprecord, Bool.false_eq_true, if_false]
          omega
        rw [ew, et] at this
        omega
      · simp only [Outcome.state, State.op_msg, List.countP_append, List.countP_cons,
          List.countP_nil, Ev.is_skiprecord, Bool.false_eq_true, if_false]
        omega

theorem clnt_vc_call_skips (E : Env σ) (remaining : σ → Nat)
    (H : FiniteInbound E remaining) (e : Endian) (fuel : Nat) (a : call_args) (s : State σ) :
    (clnt_vc_call E e fuel a s).state.trace.countP Ev.is_skiprecord ≤
      s.trace.countP Ev.is_skiprecord + remaining s.w + 1 := by
  have hw : (call_entry a s).2.w = s.w := by
    unfold call_entry adopt_timeout cond_block_events_client
    dsimp only [State.log]
    split_ifs <;> rfl
  have ht : (call_entry a s).2.trace.countP Ev.is_skiprecord =
      s.trace.countP Ev.is_skiprecord := by
    unfold call_entry adopt_timeout cond_block_events_client
    dsimp only [State.log]
    split_ifs <;> simp [Ev.is_skiprecord]
  have h := call_again_skips E remaining H e a (shipnow_of a) s.ct.CT_FLAG_DUPLEX fuel 2
    (call_entry a s).2
  rw [hw, ht] at h
  unfold clnt_vc_call
  dsimp only
  cases hc : call_again E e a (shipnow_of a) s.ct.CT_FLAG_DUPLEX fuel 2 (call_entry a s).2 with
  | out_of_fuel s4 =>
    rw [hc] at h
    exact h
  | done r1 s4 =>
    rw [hc] at h
    simp only [Outcome.state] at h ⊢
    unfold call_exit cond_unblock_events_client
    dsimp only [State.log]
    split_ifs <;> simp [Ev.is_skiprecord] <;> omega

/-- The scripted stream is a finite inbound stream: its records are the
entries of the list. -/
theorem stream_env_finite : FiniteInbound stream_env List.length where
  record := by
    intro m w err h
    cases w with
    | nil => simp [stream_env] at h
    | cons x rest => cases x <;> simp [stream_env]
  putbytes := fun _ _ _ => le_refl _
  putint32 := fun _ _ _ => le_refl _
  marshall := fun _ _ => le_refl _
  wrap := fun _ _ _ _ => le_refl _
  endofrecord := fun _ _ _ => le_refl _
  dispatch := fun _ _ _ _ => le_refl _
  validate := fun _ _ _ => le_refl _
  unwrap := fun _ _ _ _ => le_refl _
  free_verf := fun _ _ => le_refl _
  refresh := fun _ _ _ => le_refl _

/-- C40: let the inbound stream hold finitely many records, counted by
`remaining`: a successful skip-record followed by the header decode consumes
at least one of them (so skip-record fails once none is left), and no other
collaborator operation adds one; the results of the auth operations and of
the dispatch callback, and what any operation does to the error record, are
arbitrary.  Then `clnt_vc_call` terminates: with more fuel for the receive
loop than records left it returns a status.  Every pass of the receive loop
that continues the loop (after a header-decode failure with no recorded
error, a stale reply, an intercepted CALL or a message of another direction)
has consumed a record; whatever the fuel, the call performs at most one
skip-record more than there were records; and it hands the header to the
record stream at most three times and refreshes at most twice, so the send
is restarted at most twice. -/
theorem call_terminates_on_finite_inbound (E : Env σ) (remaining : σ → Nat)
    (H : FiniteInbound E remaining) (e : Endian) (fuel : Nat) (a : call_args) (s : State σ)
    (hfuel : remaining s.w < fuel) :
    (∃ r, (clnt_vc_call E e fuel a s).result = some r) ∧
    (∀ (x_id : Nat) (duplex : Bool) (s0 s1 : State σ),
      recv_body E x_id duplex s0 = Step.next s1 → remaining s1.w < remaining s0.w) ∧
    (clnt_vc_call E e fuel a s).state.trace.countP Ev.is_skiprecord ≤
      s.trace.countP Ev.is_skiprecord + remaining s.w + 1 ∧
    ∃ l : List Ev, (clnt_vc_call E e fuel a s).state.trace = s.trace ++ l ∧
      l.countP Ev.is_putbytes ≤ 3 ∧ l.countP Ev.is_refresh ≤ 2 := by
  refine ⟨clnt_vc_call_terminates E remaining H e fuel a s hfuel,
    recv_body_next_remaining E remaining H,
    clnt_vc_call_skips E remaining H e fuel a s, ?_⟩
  obtain ⟨l, hl, c1, _, c3, _⟩ := clnt_vc_call_counts E e fuel a s
  exact ⟨l, hl, c1, c3⟩

theorem call_terminates_on_finite_inbound_witness :
    sample_stream.length < 4 ∧
    (∃ r, (clnt_vc_call stream_env Endian.big 4 sample_args
      (sample_state sample_stream)).result = some r) ∧
    (clnt_vc_call stream_env Endian.big 4 sample_args
        (sample_state sample_stream)).state.trace.countP Ev.is_skiprecord ≤
      (sample_state sample_stream).trace.countP Ev.is_skiprecord +
        (sample_state sample_stream).w.length + 1 :=
  ⟨by decide,
   (call_terminates_on_finite_inbound stream_env List.length stream_env_finite Endian.big 4
      sample_args (sample_state sample_stream) (by decide)).1,
   (call_terminates_on_finite_inbound stream_env List.length stream_env_finite Endian.big 4
      sample_args (sample_state sample_stream) (by decide)).2.2.1⟩

/-! ## A call with a non-zero timeout reads -/

theorem Adds.countP_le {P : Ev → Prop} {s1 s2 : State σ} (h : Adds P s1 s2) (p : Ev → Bool) :
    s1.trace.countP p ≤ s2.trace.countP p := by
  obtain ⟨l, hl, _⟩ := h
  rw [hl, List.countP_append]
  omega

/-- A receive loop that runs at least one pass performs a skip-record. -/
theorem recv_loop_reads (E : Env σ) (x_id : Nat) (duplex : Bool) (fuel : Nat) (s : State σ) :
    s.trace.countP Ev.is_skiprecord <
      (recv_loop E x_id duplex (fuel + 1) s).state.trace.countP Ev.is_skiprecord := by
  have hb := recv_body_skips E x_id duplex s
  unfold recv_loop
  cases hstep : recv_body E x_id duplex s with
  | next s1 =>
    rw [hstep] at hb
    simp only [Step.state] at hb
    have := (recv_loop_adds E x_id duplex fuel s1).countP_le Ev.is_skiprecord
    dsimp only
    omega
  | replied s1 =>
    rw [hstep] at hb
    simp only [Step.state] at hb
    simp only [RecvRes.state]
    omega
  | ret r s1 =>
    rw [hstep] at hb
    simp only [Step.state] at hb
    simp only [RecvRes.state]
    omega

theorem receive_reply_reads (E : Env σ) (a : call_args) (x_id : Nat) (duplex : Bool)
    (fuel : Nat) (s : State σ) :
    s.trace.countP Ev.is_skiprecord <
      (receive_reply E a x_id duplex (fuel + 1) s).state.trace.countP Ev.is_skiprecord := by
  have h1 := recv_loop_reads E x_id duplex fuel (s.set_x_op xdr_op.XDR_DECODE)
  have e1 : (s.set_x_op xdr_op.XDR_DECODE).trace = s.trace := rfl
  rw [e1] at h1
  unfold receive_reply
  cases hl : recv_loop E x_id duplex (fuel + 1) (s.set_x_op xdr_op.XDR_DECODE) with
  | out_of_fuel s3 =>
    rw [hl] at h1
    exact h1
  | ret r3 s3 =>
    rw [hl] at h1
    exact h1
  | replied s3 =>
    rw [hl] at h1
    simp only [RecvRes.state] at h1
    have h2 := (process_reply_adds E a s3).countP_le Ev.is_skiprecord
    dsimp only
    cases hp : process_reply E a s3 with
    | completed s4 =>
      rw [hp] at h2
      simp only [ReplyRes.state] at h2
      simp only [reply_outcome, AttemptRes.state]
      omega
    | unsuccessful s4 =>
      rw [hp] at h2
      simp only [ReplyRes.state] at h2
      simp only [reply_outcome, AttemptRes.state]
      omega

/-- The retry structure keeps the events of its first attempt. -/
theorem call_again_keeps_first_attempt (E : Env σ) (e : Endian) (a : call_args)
    (shipnow duplex : Bool) (fuel n : Nat) (s : State σ) (p : Ev → Bool) :
    (attempt E e a shipnow duplex fuel s).state.trace.countP p ≤
      (call_again E e a shipnow duplex fuel n s).state.trace.countP p := by
  cases n with
  | zero =>
    cases hatt : attempt E e a shipnow duplex fuel s with
    | done r s1 =>
      rw [call_again_of_done E e a shipnow duplex fuel 0 s s1 r hatt]
      exact le_refl _
    | out_of_fuel s1 =>
      rw [call_again_of_out_of_fuel E e a shipnow duplex fuel 0 s s1 hatt]
      exact le_refl _
    | unsuccessful s1 =>
      rw [call_again_zero_of_unsuccessful E e a shipnow duplex fuel s s1 hatt]
      exact le_refl _
  | succ n =>
    cases hatt : attempt E e a shipnow duplex fuel s with
    | done r s1 =>
      rw [call_again_of_done E e a shipnow duplex fuel (n + 1) s s1 r hatt]
      exact le_refl _
    | out_of_fuel s1 =>
      rw [call_again_of_out_of_fuel E e a shipnow duplex fuel (n + 1) s s1 hatt]
      exact le_refl _
    | unsuccessful s1 =>
      rw [call_again_succ_of_unsuccessful E e a shipnow duplex fuel n s s1 hatt]
      have h0 : s1.trace.countP p ≤ (s1.op_msg (E.AUTH_REFRESH s1.msg s1.w s1.ct.ct_error)
          (Ev.refresh (E.AUTH_REFRESH s1.msg s1.w s1.ct.ct_error).ok)).trace.countP p := by
        simp only [State.op_msg, List.countP_append]
        omega
      split_ifs
      · have := (call_again_adds_inner E e a shipnow duplex fuel n
          (s1.op_msg (E.AUTH_REFRESH s1.msg s1.w s1.ct.ct_error)
            (Ev.refresh (E.AUTH_REFRESH s1.msg s1.w s1.ct.ct_error).ok))).countP_le p
        simp only [AttemptRes.state]
        omega
      · simp only [AttemptRes.state, Outcome.state]
        exact h0

/-- A call with a non-zero timeout whose encode steps and end-of-record
succeed enters the receive loop: it performs a skip-record, whatever the wait
policy stored in the handle. -/
theorem call_reads_of_nonzero_timeout (E : Env σ) (e : Endian) (fuel : Nat) (a : call_args)
    (s : State σ)
    (htime : ¬ (a.timeout.tv_sec = 0 ∧ a.timeout.tv_usec = 0))
    (henc : (encode_call E a (begin_attempt e (call_entry a s).2)).1 = true)
    (hflush : (E.xdrrec_endofrecord true
      (encode_call E a (begin_attempt e (call_entry a s).2)).2.w
      (encode_call E a (begin_attempt e (call_entry a s).2)).2.ct.ct_error).ok = true) :
    s.trace.countP Ev.is_skiprecord <
      (clnt_vc_call E e (fuel + 1) a s).state.trace.countP Ev.is_skiprecord := by
  have hs : shipnow_of a = true := by
    unfold shipnow_of
    rw [if_neg (fun h => htime h.2)]
  have h1 := (call_entry_adds a s).countP_le Ev.is_skiprecord
  have h2 : (call_entry a s).2.trace.countP Ev.is_skiprecord ≤
      (sent_state E e a (call_entry a s).2).trace.countP Ev.is_skiprecord := by
    have := encode_call_skips E a (begin_attempt e (call_entry a s).2)
    have e0 : (begin_attempt e (call_entry a s).2).trace = (call_entry a s).2.trace := rfl
    rw [e0] at this
    simp only [sent_state, State.op, List.countP_append, this]
    omega
  have h3 := receive_reply_reads E a (attempt_x_id e (call_entry a s).2) s.ct.CT_FLAG_DUPLEX
    fuel (sent_state E e a (call_entry a s).2)
  rw [← attempt_awaits E e a s.ct.CT_FLAG_DUPLEX (fuel + 1) (call_entry a s).2 henc hflush
    htime] at h3
  have h4 := call_again_keeps_first_attempt E e a true s.ct.CT_FLAG_DUPLEX (fuel + 1) 2
    (call_entry a s).2 Ev.is_skiprecord
  unfold clnt_vc_call
  dsimp only
  rw [hs]
  cases hc : call_again E e a true s.ct.CT_FLAG_DUPLEX (fuel + 1) 2 (call_entry a s).2 with
  | out_of_fuel s4 =>
    rw [hc] at h4
    simp only [Outcome.state] at h4 ⊢
    omega
  | done r s4 =>
    rw [hc] at h4
    have h5 := (call_exit_adds (call_entry a s).1 s4).countP_le Ev.is_skiprecord
    simp only [Outcome.state] at h4 ⊢
    omega

/-- C37: whether a call batches or fails at once with `RPC_TIMEDOUT` is
decided by the results decoder and the timeout argument alone.  Take two
handles that differ only in the stored wait timeout and the
timeout-explicitly-set flag.  For a call with a zero timeout, which either
batches or fails at once with `RPC_TIMEDOUT` (or fails in its encode steps or
its end-of-record), both return the same status, add the same events to the
trace, none of them an event of the receive side, and end in states that
differ in the wait policy only; in particular, on a handle on which
`CLSET_TIMEOUT` stored the valid timeout of `i`, a call with a results decoder
and a zero timeout whose encode steps and end-of-record succeed returns
`RPC_TIMEDOUT` without an event of the receive side.  For a call with a
non-zero timeout whose encode steps and end-of-record succeed, neither branch
is taken on either handle: both calls enter the receive loop and perform a
skip-record. -/
theorem zero_timeout_branch_ignores_wait_policy (E : Env σ) (e : Endian) (fuel : Nat)
    (a : call_args) (s : State σ) (w : timeval) (b : Bool) (i : info_obj) :
    (a.timeout.tv_sec = 0 → a.timeout.tv_usec = 0 →
      ((clnt_vc_call E e fuel a (s.with_wait w b)).result =
          (clnt_vc_call E e fuel a s).result ∧
        (∃ r, (clnt_vc_call E e fuel a s).result = some r) ∧
        (clnt_vc_call E e fuel a (s.with_wait w b)).state.trace =
          (clnt_vc_call E e fuel a s).state.trace ∧
        (∃ l : List Ev, (clnt_vc_call E e fuel a s).state.trace = s.trace ++ l ∧
          l.countP Ev.is_inbound = 0) ∧
        ∃ w2, (clnt_vc_call E e fuel a (s.with_wait w b)).state =
          (clnt_vc_call E e fuel a s).state.with_wait w2 b) ∧
      (time_not_ok i.as_timeval = false → a.xdr_results ≠ none →
        (encode_call E a (begin_attempt e (call_entry a
          (clnt_vc_control e s clnt_req.CLSET_TIMEOUT (some i)).s).2)).1 = true →
        (E.xdrrec_endofrecord true
          (encode_call E a (begin_attempt e (call_entry a
            (clnt_vc_control e s clnt_req.CLSET_TIMEOUT (some i)).s).2)).2.w
          (encode_call E a (begin_attempt e (call_entry a
            (clnt_vc_control e s clnt_req.CLSET_TIMEOUT (some i)).s).2)).2.ct.ct_error).ok =
          true →
        (clnt_vc_control e s clnt_req.CLSET_TIMEOUT (some i)).s.ct.ct_wait = i.as_timeval ∧
        (clnt_vc_control e s clnt_req.CLSET_TIMEOUT (some i)).s.ct.ct_waitset = true ∧
        (clnt_vc_call E e fuel a
          (clnt_vc_control e s clnt_req.CLSET_TIMEOUT (some i)).s).result =
          some clnt_stat.RPC_TIMEDOUT ∧
        ∃ l : List Ev,
          (clnt_vc_call E e fuel a
            (clnt_vc_control e s clnt_req.CLSET_TIMEOUT (some i)).s).state.trace =
            (clnt_vc_control e s clnt_req.CLSET_TIMEOUT (some i)).s.trace ++ l ∧
          l.countP Ev.is_inbound = 0)) ∧
    (¬ (a.timeout.tv_sec = 0 ∧ a.timeout.tv_usec = 0) →
      (encode_call E a (begin_attempt e (call_entry a s).2)).1 = true →
      (E.xdrrec_endofrecord true
        (encode_call E a (begin_attempt e (call_entry a s).2)).2.w
        (encode_call E a (begin_attempt e (call_entry a s).2)).2.ct.ct_error).ok = true →
      s.trace.countP Ev.is_skiprecord <
        (clnt_vc_call E e (fuel + 1) a s).state.trace.countP Ev.is_skiprecord ∧
      (s.with_wait w b).trace.countP Ev.is_skiprecord <
        (clnt_vc_call E e (fuel + 1) a (s.with_wait w b)).state.trace.countP
          Ev.is_skiprecord) := by
  refine ⟨fun hsec husec => zero_timeout_call_with_wait E e fuel a s w b i hsec husec,
    fun htime henc hflush => ⟨call_reads_of_nonzero_timeout E e fuel a s htime henc hflush,
      ?_⟩⟩
  obtain ⟨_, w2, hentry⟩ := call_entry_with_wait a s w b
  apply call_reads_of_nonzero_timeout E e fuel a (s.with_wait w b) htime
  · rw [hentry, begin_attempt_with_wait, encode_call_with_wait]
    exact henc
  · rw [hentry, begin_attempt_with_wait, encode_call_with_wait]
    exact hflush

/-- The sample handle and the same handle with a stored timeout of 5 seconds
set through control: the call with a results decoder and a zero timeout
returns the same status on both, and `RPC_TIMEDOUT` after `CLSET_TIMEOUT`; the
call with a timeout of 25 seconds performs a skip-record on both. -/
theorem zero_timeout_branch_ignores_wait_policy_witness :
    ((clnt_vc_call (echo_env 0 0 0 true true) Endian.little 1 poll_args
        ((sample_state 0).with_wait { tv_sec := 5, tv_usec := 0 } true)).result =
      (clnt_vc_call (echo_env 0 0 0 true true) Endian.little 1 poll_args
        (sample_state 0)).result ∧
    (clnt_vc_call (echo_env 0 0 0 true true) Endian.little 1 poll_args
        (clnt_vc_control Endian.little (sample_state 0) clnt_req.CLSET_TIMEOUT
          (some (sample_info { tv_sec := 5, tv_usec := 0 } 0))).s).result =
      some clnt_stat.RPC_TIMEDOUT) ∧
    ((sample_state 0).with_wait { tv_sec := 5, tv_usec := 0 } true).trace.countP
        Ev.is_skiprecord <
      (clnt_vc_call (echo_env 0 0 0 true true) Endian.little (1 + 1) sample_args
        ((sample_state 0).with_wait { tv_sec := 5, tv_usec := 0 } true)).state.trace.countP
          Ev.is_skiprecord :=
  have h := (zero_timeout_branch_ignores_wait_policy (echo_env 0 0 0 true true) Endian.little 1
    poll_args (sample_state 0) { tv_sec := 5, tv_usec := 0 } true
    (sample_info { tv_sec := 5, tv_usec := 0 } 0)).1 rfl rfl
  ⟨⟨h.1.1, (h.2 (by decide) (by decide) (by decide) (by decide)).2.2.1⟩,
   ((zero_timeout_branch_ignores_wait_policy (echo_env 0 0 0 true true) Endian.little 1
    sample_args (sample_state 0) { tv_sec := 5, tv_usec := 0 } true
    (sample_info { tv_sec := 5, tv_usec := 0 } 0)).2 (by decide) (by decide) (by decide)).2⟩

end ClntVc

/-! # Theorems about the tracepoint generator -/

namespace trace_generator

/-! ## The format string -/

theorem lbrace_ne_rbrace : lbrace ≠ rbrace := by decide

theorem loop_skip (inParenthesis : Bool) (numArgs : Nat) (c : Char) (rest : List Char) :
    getNumArgsInFormatString.loop true inParenthesis numArgs (c :: rest) =
      getNumArgsInFormatString.loop false inParenthesis numArgs rest := by
  simp [getNumArgsInFormatString.loop]

/-- Two opening braces are passed over, inside a placeholder as well as
outside. -/
theorem loop_escape_open (inParenthesis : Bool) (numArgs : Nat) (rest : List Char) :
    getNumArgsInFormatString.loop false inParenthesis numArgs (lbrace :: lbrace :: rest) =
      getNumArgsInFormatString.loop false inParenthesis numArgs rest := by
  simp [getNumArgsInFormatString.loop]

/-- Two closing braces are passed over, inside a placeholder as well as
outside. -/
theorem loop_escape_close (inParenthesis : Bool) (numArgs : Nat) (rest : List Char) :
    getNumArgsInFormatString.loop false inParenthesis numArgs (rbrace :: rbrace :: rest) =
      getNumArgsInFormatString.loop false inParenthesis numArgs rest := by
  simp [getNumArgsInFormatString.loop, lbrace_ne_rbrace.symm]

theorem loop_open (numArgs : Nat) (rest : List Char)
    (h : rest.headD (Char.ofNat 0) ≠ lbrace) :
    getNumArgsInFormatString.loop false false numArgs (lbrace :: rest) =
      getNumArgsInFormatString.loop false true numArgs rest := by
  have h2 : rest.head?.getD (Char.ofNat 0) ≠ lbrace := by simpa using h
  simp [getNumArgsInFormatString.loop, h2]

theorem loop_close (numArgs : Nat) (rest : List Char)
    (h : rest.headD (Char.ofNat 0) ≠ rbrace) :
    getNumArgsInFormatString.loop false true numArgs (rbrace :: rest) =
      getNumArgsInFormatString.loop false false (numArgs + 1) rest := by
  have h2 : rest.head?.getD (Char.ofNat 0) ≠ rbrace := by simpa using h
  simp [getNumArgsInFormatString.loop, h2, lbrace_ne_rbrace.symm]

theorem loop_ordinary (numArgs : Nat) (c : Char) (rest : List Char) (h1 : c ≠ lbrace)
    (h2 : c ≠ rbrace) :
    getNumArgsInFormatString.loop false false numArgs (c :: rest) =
      getNumArgsInFormatString.loop false false numArgs rest := by
  simp [getNumArgsInFormatString.loop, h1, h2]

/-- Every format of the grammar is accepted by the loop with its number of
placeholders: from outside a placeholder, and after the opening brace of a
placeholder whose closing brace comes next. -/
theorem loop_of_spec_placeholders (N : Nat) : ∀ l : List Char, l.length ≤ N →
    (∀ n k, spec_placeholders l = some k →
      getNumArgsInFormatString.loop false false n l = Except.ok (n + k)) ∧
    (∀ n k, spec_placeholders l = some k →
      getNumArgsInFormatString.loop false true n (rbrace :: l) = Except.ok (n + 1 + k)) := by
  induction N with
  | zero =>
    intro l hl
    have hnil : l = [] := List.length_eq_zero.mp (Nat.le_zero.mp hl)
    subst hnil
    constructor
    · intro n k h
      simp [spec_placeholders] at h
      subst h
      simp [getNumArgsInFormatString.loop]
    · intro n k h
      simp [spec_placeholders] at h
      subst h
      rw [loop_close _ _ (by decide)]
      simp [getNumArgsInFormatString.loop]
  | succ N ih =>
    intro l hl
    have hA : ∀ n k, spec_placeholders l = some k →
        getNumArgsInFormatString.loop false false n l = Except.ok (n + k) := by
      intro n k h
      match l, hl, h with
      | [], _, h =>
        simp [spec_placeholders] at h
        subst h
        simp [getNumArgsInFormatString.loop]
      | [c], _, h =>
        rw [spec_placeholders] at h
        split_ifs at h with h1
        push_neg at h1
        simp only [Option.some.injEq] at h
        subst h
        rw [loop_ordinary _ _ _ h1.1 h1.2]
        simp [getNumArgsInFormatString.loop]
      | c :: d :: rest, hl, h =>
        have hr : rest.length ≤ N := by
          simp only [List.length_cons] at hl
          omega
        have hd : (d :: rest).length ≤ N := by
          simp only [List.length_cons] at hl ⊢
          omega
        rw [spec_placeholders] at h
        split_ifs at h with h1 h2 h3 h4
        · obtain ⟨rfl, rfl⟩ := h1
          rw [loop_escape_open]
          exact (ih rest hr).1 n k h
        · obtain ⟨rfl, rfl⟩ := h2
          rw [loop_escape_close]
          exact (ih rest hr).1 n k h
        · obtain ⟨rfl, rfl⟩ := h3
          obtain ⟨j, hj, rfl⟩ := Option.map_eq_some'.mp h
          rw [loop_open _ _ (by simpa using lbrace_ne_rbrace.symm), (ih rest hr).2 n j hj,
            Nat.add_assoc, Nat.add_comm 1 j]
        · push_neg at h4
          rw [loop_ordinary _ _ _ h4.1 h4.2]
          exact (ih (d :: rest) hd).1 n k h
    refine ⟨hA, ?_⟩
    intro n k h
    by_cases hh : l.headD (Char.ofNat 0) = rbrace
    · match l, hl, h, hh with
      | [], _, _, hh => exact absurd hh (by decide)
      | [c], _, h, hh =>
        simp only [List.headD_cons] at hh
        subst hh
        simp [spec_placeholders] at h
      | c :: d :: rest, hl, h, hh =>
        have hr : rest.length ≤ N := by
          simp only [List.length_cons] at hl
          omega
        simp only [List.headD_cons] at hh
        subst hh
        rw [spec_placeholders] at h
        split_ifs at h with h1 h2 h3 h4
        · exact absurd h1.1 lbrace_ne_rbrace.symm
        · obtain ⟨_, rfl⟩ := h2
          rw [loop_escape_close]
          exact (ih rest hr).2 n k h
        · exact absurd h3.1 lbrace_ne_rbrace.symm
        · exact absurd (Or.inr rfl) h4
    · rw [loop_close _ _ hh, hA (n + 1) k h]

/-- A format of the grammar is accepted by `getNumArgsInFormatString`, which
returns the number of its placeholders. -/
theorem getNumArgsInFormatString_of_spec (format : String) (k : Nat)
    (h : spec_placeholders format.data = some k) :
    getNumArgsInFormatString format = Except.ok k := by
  unfold getNumArgsInFormatString
  rw [(loop_of_spec_placeholders format.data.length format.data (Nat.le_refl _)).1 0 k h,
    Nat.zero_add]

/-- C27 fails on the code: for the format of the six characters opening,
closing, closing, opening, opening, closing brace, which is not a sequence of
ordinary characters, escaped braces and empty placeholders (after the first
placeholder comes a lone closing brace), `getNumArgsInFormatString` returns 1
instead of raising the invalid-format error: inside the placeholder it takes
the two closing braces and the two opening braces as escapes.  The formats of
the tests are treated as the claim says: the format with escaped braces has two
placeholders, and a placeholder with content, a lone opening brace and a lone
closing brace are invalid. -/
theorem escapes_inside_placeholder_accepted :
    getNumArgsInFormatString "\x7b\x7d\x7d\x7b\x7b\x7d" = Except.ok 1 ∧
    spec_placeholders "\x7b\x7d\x7d\x7b\x7b\x7d".data = none ∧
    "\x7b\x7d\x7d\x7b\x7b\x7d".data = [lbrace, rbrace, rbrace, lbrace, lbrace, rbrace] ∧
    getNumArgsInFormatString
        "Tracepoint with curly brackets: \x7b\x7bx\x7d\x7d \x7b\x7b\x7b\x7d\x7d\x7d, \x7b\x7d" =
      Except.ok 2 ∧
    spec_placeholders
        "Tracepoint with curly brackets: \x7b\x7bx\x7d\x7d \x7b\x7b\x7b\x7d\x7d\x7d, \x7b\x7d".data =
      some 2 ∧
    getNumArgsInFormatString "Invalid format \x7b0\x7d" =
      Except.error ParsingError.invalid_format ∧
    getNumArgsInFormatString "lone \x7b brace" = Except.error ParsingError.invalid_format ∧
    getNumArgsInFormatString "lone \x7d brace" = Except.error ParsingError.invalid_format := by
  decide

/-! ## The checks of `generateTracepointData` -/

theorem foldl_getNumLttngArgs (l : List TracepointArgument) (n : Nat) :
    l.foldl (fun numArgs arg => numArgs + arg.getNumLttngArgs) n =
      n + (l.map TracepointArgument.getNumLttngArgs).sum := by
  induction l generalizing n with
  | nil => simp
  | cons a l ih =>
    simp only [List.foldl_cons, List.map_cons, List.sum_cons]
    rw [ih]
    omega

theorem getNumLttngArgs_eq_weight (a : TracepointArgument) :
    a.getNumLttngArgs = if a.typeString ∈ variable_len_structs then 2 else 1 := by
  simp [TracepointArgument.getNumLttngArgs, variable_len_structs]

/-- The number of LTTNG arguments of a tracepoint: what the format counts for,
plus 2 for every other argument whose type is a variable length struct and 1
for every other argument that is not. -/
theorem getNumLttngArgs_cons (t : TracepointInfo) (formatArg : TracepointArgument)
    (rest : List TracepointArgument) (hargs : t.arguments_ = formatArg :: rest) :
    t.getNumLttngArgs = formatArg.getNumLttngArgs +
      (rest.map (fun a => if a.typeString ∈ variable_len_structs then 2 else 1)).sum := by
  unfold TracepointInfo.getNumLttngArgs
  rw [hargs, List.foldl_cons, foldl_getNumLttngArgs]
  have hw : TracepointArgument.getNumLttngArgs =
      fun a => if a.typeString ∈ variable_len_structs then 2 else 1 :=
    funext getNumLttngArgs_eq_weight
  rw [Nat.zero_add, ← hw]

/-- What `verifyTracepoint` does with a string literal format that
`getNumArgsInFormatString` accepts. -/
theorem verifyTracepoint_of_format (t : TracepointInfo) (formatArg : TracepointArgument)
    (rest : List TracepointArgument) (format : String) (numArgs : Nat)
    (hargs : t.arguments_ = formatArg :: rest) (hfmt : formatArg.value_ = some format)
    (hwf : getNumArgsInFormatString format = Except.ok numArgs) :
    t.verifyTracepoint =
      if numArgs ≠ rest.length then
        Except.error (ParsingError.wrong_number_of_arguments numArgs rest.length)
      else Except.ok () := by
  unfold TracepointInfo.verifyTracepoint
  rw [hargs]
  simp only [List.head?_cons, hfmt, hwf, List.length_cons, Nat.add_sub_cancel]

/-- What `generateTracepointData` returns for a string literal format that
`getNumArgsInFormatString` accepts: the wrong-number error when the counts
differ, else the too-many-arguments error when the LTTNG arguments exceed the
maximum, else the outcome of the text generation. -/
theorem generateTracepointData_of_format (t : TracepointInfo) (formatArg : TracepointArgument)
    (rest : List TracepointArgument) (format : String) (numArgs : Nat)
    (generate : Except String String)
    (hargs : t.arguments_ = formatArg :: rest) (hfmt : formatArg.value_ = some format)
    (hwf : getNumArgsInFormatString format = Except.ok numArgs) :
    t.generateTracepointData generate =
      if numArgs ≠ rest.length then
        Except.error (ParsingError.wrong_number_of_arguments numArgs rest.length)
      else if t.getNumLttngArgs > MAX_LTTNG_TRACE_ARGUMENTS then
        Except.error (ParsingError.too_many_arguments t.getNumLttngArgs)
      else
        try_generate generate := by
  unfold TracepointInfo.generateTracepointData
  rw [verifyTracepoint_of_format t formatArg rest format numArgs hargs hfmt hwf]
  split_ifs <;> rfl

/-- C28 as stated fails on the code: the tracepoint of the failure test
`too_many_arguments` has a well-formed format with ten placeholders and ten
arguments after the format, so the two numbers are equal, and
`generateTracepointData` raises a `ParsingError` all the same, the one for too
many arguments. -/
theorem equal_counts_still_rejected :
    too_many_arguments.arguments_.head?.bind TracepointArgument.value_ =
      some "Trace with too many arguments \x7b\x7d \x7b\x7d \x7b\x7d \x7b\x7d \x7b\x7d \x7b\x7d \x7b\x7d \x7b\x7d \x7b\x7d \x7b\x7d" ∧
    spec_placeholders
      "Trace with too many arguments \x7b\x7d \x7b\x7d \x7b\x7d \x7b\x7d \x7b\x7d \x7b\x7d \x7b\x7d \x7b\x7d \x7b\x7d \x7b\x7d".data =
      some 10 ∧
    too_many_arguments.arguments_.tail.length = 10 ∧
    too_many_arguments.generateTracepointData (Except.ok "") =
      Except.error (ParsingError.too_many_arguments 11) := by
  decide

/-- C28, amended: for a tracepoint whose format is a string literal of the
grammar with `numArgs` placeholders, `generateTracepointData` raises the
wrong-number-of-arguments error exactly when `numArgs` differs from the number
of arguments after the format, and then the error carries the two numbers;
with equal numbers no wrong-number-of-arguments error is raised (another
`ParsingError` may be). -/
theorem wrong_number_error_iff_counts_differ (t : TracepointInfo)
    (formatArg : TracepointArgument) (rest : List TracepointArgument) (format : String)
    (numArgs : Nat) (generate : Except String String)
    (hargs : t.arguments_ = formatArg :: rest) (hfmt : formatArg.value_ = some format)
    (hwf : spec_placeholders format.data = some numArgs) :
    ((∃ a b, t.generateTracepointData generate =
        Except.error (ParsingError.wrong_number_of_arguments a b)) ↔ numArgs ≠ rest.length) ∧
    (numArgs ≠ rest.length →
      t.generateTracepointData generate =
        Except.error (ParsingError.wrong_number_of_arguments numArgs rest.length)) ∧
    (numArgs = rest.length →
      ∀ a b, t.generateTracepointData generate ≠
        Except.error (ParsingError.wrong_number_of_arguments a b)) := by
  have hg := generateTracepointData_of_format t formatArg rest format numArgs generate hargs hfmt
    (getNumArgsInFormatString_of_spec format numArgs hwf)
  have hno : numArgs = rest.length →
      ∀ a b, t.generateTracepointData generate ≠
        Except.error (ParsingError.wrong_number_of_arguments a b) := by
    intro he a b
    rw [hg, if_neg (not_not.mpr he)]
    split_ifs
    · simp
    · cases generate <;> simp [try_generate]
  refine ⟨⟨?_, ?_⟩, ?_, hno⟩
  · rintro ⟨a, b, hab⟩ he
    exact hno he a b hab
  · intro hne
    exact ⟨numArgs, rest.length, by rw [hg, if_pos hne]⟩
  · intro hne
    rw [hg, if_pos hne]

/-- The tracepoint of the failure test `too_many_arguments_for_format`, with
two placeholders and three arguments, raises the wrong-number-of-arguments
error with the numbers 2 and 3. -/
theorem wrong_number_error_iff_counts_differ_witness :
    too_many_arguments_for_format.generateTracepointData (Except.ok "") =
      Except.error (ParsingError.wrong_number_of_arguments 2 3) :=
  (wrong_number_error_iff_counts_differ too_many_arguments_for_format
    (format_argument "arg1: \x7b\x7d, arg2: \x7b\x7d") [int_argument, int_argument, int_argument]
    "arg1: \x7b\x7d, arg2: \x7b\x7d" 2 (Except.ok "") rfl rfl (by decide)).2.1 (by decide)

/-- C29: for a tracepoint whose format is a string literal of the grammar (its
type is an array of characters, not a variable length struct) with as many
placeholders as there are arguments after it, `generateTracepointData` raises
the too-many-arguments error exactly when 1, for the format, plus the sum over
the other arguments of 2 for a variable length struct and 1 for anything else,
exceeds 10; with a total of at most 10, exactly 10 included, it returns the
outcome of the text generation. -/
theorem too_many_arguments_iff_total_exceeds_ten (t : TracepointInfo)
    (formatArg : TracepointArgument) (rest : List TracepointArgument) (format : String)
    (generate : Except String String)
    (hargs : t.arguments_ = formatArg :: rest) (hfmt : formatArg.value_ = some format)
    (hwf : spec_placeholders format.data = some rest.length)
    (htype : formatArg.typeString ∉ variable_len_structs) :
    ((∃ k, t.generateTracepointData generate =
        Except.error (ParsingError.too_many_arguments k)) ↔
      10 < 1 + (rest.map (fun a => if a.typeString ∈ variable_len_structs then 2 else 1)).sum) ∧
    (10 < 1 + (rest.map (fun a => if a.typeString ∈ variable_len_structs then 2 else 1)).sum →
      t.generateTracepointData generate =
        Except.error (ParsingError.too_many_arguments
          (1 + (rest.map (fun a => if a.typeString ∈ variable_len_structs then 2 else 1)).sum))) ∧
    (1 + (rest.map (fun a => if a.typeString ∈ variable_len_structs then 2 else 1)).sum ≤ 10 →
      t.generateTracepointData generate =
        try_generate generate) := by
  have hg := generateTracepointData_of_format t formatArg rest format rest.length generate hargs
    hfmt (getNumArgsInFormatString_of_spec format rest.length hwf)
  have hn := getNumLttngArgs_cons t formatArg rest hargs
  rw [getNumLttngArgs_eq_weight formatArg, if_neg htype] at hn
  rw [if_neg (not_not.mpr rfl), hn] at hg
  have hle : 1 + (rest.map (fun a => if a.typeString ∈ variable_len_structs then 2 else 1)).sum
      ≤ 10 → t.generateTracepointData generate =
        try_generate generate := by
    intro h
    rw [hg, if_neg (by simp only [MAX_LTTNG_TRACE_ARGUMENTS]; omega)]
  refine ⟨⟨?_, ?_⟩, ?_, hle⟩
  · rintro ⟨k, hk⟩
    by_contra hc
    rw [hle (by omega)] at hk
    cases generate <;> simp [try_generate] at hk
  · intro h
    exact ⟨_, by rw [hg, if_pos (by simp only [MAX_LTTNG_TRACE_ARGUMENTS]; omega)]⟩
  · intro h
    rw [hg, if_pos (by simp only [MAX_LTTNG_TRACE_ARGUMENTS]; omega)]

/-- The tracepoint `max_args` of the tests, the format and nine integers, has a
total of exactly 10 and is accepted; the tracepoint of the failure test with
the four variable length wrappers and two integers has a total of 11 and is
rejected. -/
theorem too_many_arguments_iff_total_exceeds_ten_witness :
    max_args.generateTracepointData (Except.ok "text") = Except.ok "text" ∧
    too_many_arguments_with_arrays.generateTracepointData (Except.ok "text") =
      Except.error (ParsingError.too_many_arguments 11) :=
  ⟨(too_many_arguments_iff_total_exceeds_ten max_args
      (format_argument
        "Tracepoint with max args: \x7b\x7d \x7b\x7d \x7b\x7d \x7b\x7d \x7b\x7d \x7b\x7d \x7b\x7d \x7b\x7d \x7b\x7d")
      (List.replicate 9 int_argument)
      "Tracepoint with max args: \x7b\x7d \x7b\x7d \x7b\x7d \x7b\x7d \x7b\x7d \x7b\x7d \x7b\x7d \x7b\x7d \x7b\x7d"
      (Except.ok "text") rfl rfl (by decide) (by decide)).2.2 (by decide),
    (too_many_arguments_iff_total_exceeds_ten too_many_arguments_with_arrays
      (format_argument
        "Trace with too many arguments \x7b\x7d \x7b\x7d \x7b\x7d \x7b\x7d \x7b\x7d \x7b\x7d")
      [wrapper_argument "lttng_generator_variable_len_int_arr",
       wrapper_argument "lttng_generator_variable_len_uint_arr",
       wrapper_argument "lttng_generator_variable_len_byte_arr",
       wrapper_argument "lttng_generator_variable_len_str",
       int_argument, int_argument]
      "Trace with too many arguments \x7b\x7d \x7b\x7d \x7b\x7d \x7b\x7d \x7b\x7d \x7b\x7d"
      (Except.ok "text") rfl rfl (by decide) (by decide)).2.1 (by decide)⟩

/-! ## The event map -/

theorem operator_ne_eq_false_iff (a b : TracepointLocation) :
    a.operator_ne b = false ↔ a = b := by
  cases a
  cases b
  simp [TracepointLocation.operator_ne, TracepointLocation.operator_eq, and_comm]

theorem operator_ne_iff (a b : TracepointLocation) : a.operator_ne b = true ↔ a ≠ b := by
  rw [← not_iff_not, Bool.not_eq_true, operator_ne_eq_false_iff, not_not]

theorem find_append {β : Type} (m : List (String × β)) (k key : String) (v : β) :
    unordered_map.find (m ++ [(k, v)]) key =
      if (unordered_map.find m key).isSome then unordered_map.find m key
      else if k = key then some v else none := by
  induction m with
  | nil => simp [unordered_map.find]
  | cons a t ih =>
    obtain ⟨k1, v1⟩ := a
    simp only [List.cons_append, unordered_map.find]
    by_cases h : k1 = key
    · simp [h]
    · simp only [if_neg h]
      exact ih

theorem find_insert {β : Type} (m : List (String × β)) (k key : String) (v : β) :
    unordered_map.find (unordered_map.insert m k v) key =
      if (unordered_map.find m key).isSome then unordered_map.find m key
      else if k = key then some v else none := by
  unfold unordered_map.insert
  by_cases h : (unordered_map.find m k).isSome
  · rw [if_pos h]
    by_cases hf : (unordered_map.find m key).isSome
    · rw [if_pos hf]
    · rw [if_neg hf]
      by_cases hk : k = key
      · subst hk
        exact absurd h hf
      · rw [if_neg hk]
        simpa using hf
  · rw [if_neg h]
    exact find_append m k key v

theorem find_assign {β : Type} (m : List (String × β)) (k key : String) (w : β) :
    unordered_map.find (unordered_map.assign m k w) key =
      if k = key then (unordered_map.find m key).map (fun _ => w)
      else unordered_map.find m key := by
  induction m with
  | nil => simp [unordered_map.find, unordered_map.assign]
  | cons a t ih =>
    obtain ⟨k1, v1⟩ := a
    simp only [unordered_map.assign]
    by_cases h1 : k1 = k
    · subst h1
      simp only [if_true, unordered_map.find]
      split_ifs <;> simp
    · simp only [if_neg h1, unordered_map.find]
      by_cases h2 : k1 = key
      · subst h2
        simp [Ne.symm h1]
      · simp only [if_neg h2]
        exact ih

theorem insert_of_find {β : Type} (m : List (String × β)) (k : String) (v w : β)
    (h : unordered_map.find m k = some w) : unordered_map.insert m k v = m := by
  simp [unordered_map.insert, h]

theorem find_insert_of_ne {β : Type} (m : List (String × β)) (k key : String) (v : β)
    (h : k ≠ key) :
    unordered_map.find (unordered_map.insert m k v) key = unordered_map.find m key := by
  rw [find_insert, if_neg h]
  cases unordered_map.find m key <;> simp

theorem find_insert_self {β : Type} (m : List (String × β)) (k : String) (v : β)
    (h : unordered_map.find m k = none) :
    unordered_map.find (unordered_map.insert m k v) k = some v := by
  rw [find_insert, h]
  simp

/-- A lookup of a pair the event map holds: the map stays as it is, and the
result is `EXISTING_EVENT` at an equal location and an exception at a
different one. -/
theorem lookupEvent_of_seen (m : EventMap) (p e : String) (loc l : TracepointLocation)
    (h : location_of m p e = some l) :
    (lookupEvent m p e loc).2 = m ∧
    (lookupEvent m p e loc).1 =
      if l = loc then Except.ok LookupEventResult.EXISTING_EVENT
      else Except.error "We found the same event twice in two different locations." := by
  unfold location_of at h
  cases hp : unordered_map.find m p with
  | none =>
    rw [hp] at h
    simp at h
  | some evs =>
    rw [hp] at h
    simp only [Option.some_bind] at h
    unfold lookupEvent
    simp only [insert_of_find m p [] evs hp, hp, Option.getD_some, h]
    by_cases hl : l = loc
    · simp [hl, (operator_ne_eq_false_iff loc loc).mpr rfl]
    · simp [hl, (operator_ne_iff l loc).mpr hl]

/-- A lookup of a pair the event map does not hold returns `NEW_EVENT` and
records the location for the pair; what the map holds for every other pair
stays as it is. -/
theorem lookupEvent_of_unseen (m : EventMap) (p e : String) (loc : TracepointLocation)
    (h : location_of m p e = none) :
    (lookupEvent m p e loc).1 = Except.ok LookupEventResult.NEW_EVENT ∧
    ∀ p2 e2, location_of (lookupEvent m p e loc).2 p2 e2 =
      if p2 = p ∧ e2 = e then some loc else location_of m p2 e2 := by
  have key : ∃ evs, unordered_map.find (unordered_map.insert m p []) p = some evs ∧
      unordered_map.find evs e = none ∧
      ∀ e2, unordered_map.find evs e2 = location_of m p e2 := by
    unfold location_of at h ⊢
    cases hp : unordered_map.find m p with
    | none =>
      refine ⟨[], find_insert_self m p [] hp, rfl, ?_⟩
      intro e2
      simp [hp, unordered_map.find]
    | some evs =>
      rw [hp] at h
      simp only [Option.some_bind] at h
      refine ⟨evs, ?_, h, ?_⟩
      · rw [insert_of_find m p [] evs hp, hp]
      · intro e2
        simp [hp]
  obtain ⟨evs, h1, h2, h3⟩ := key
  unfold lookupEvent
  simp only [h1, Option.getD_some, h2, true_and]
  intro p2 e2
  unfold location_of
  rw [find_assign]
  by_cases hp2 : p = p2
  · subst hp2
    rw [if_pos rfl, h1]
    simp only [Option.map_some', Option.some_bind, true_and]
    by_cases he2 : e = e2
    · subst he2
      rw [find_insert_self evs e loc h2, if_pos rfl]
    · rw [find_insert_of_ne evs e e2 loc he2, if_neg (Ne.symm he2), h3 e2]
      rfl
  · rw [if_neg hp2, find_insert_of_ne m p p2 [] hp2, if_neg (fun hc => hp2 hc.1.symm)]

theorem first_sighting_cons_ne (calls : List (String × String × TracepointLocation))
    (p1 e1 p e : String) (loc1 : TracepointLocation) (hne : ¬(p1 = p ∧ e1 = e)) :
    first_sighting ((p1, e1, loc1) :: calls) p e = first_sighting calls p e := by
  simp [first_sighting, List.find?_cons, hne]

theorem first_sighting_cons_self (calls : List (String × String × TracepointLocation))
    (p e : String) (loc1 : TracepointLocation) :
    first_sighting ((p, e, loc1) :: calls) p e = some loc1 := by
  simp [first_sighting, List.find?_cons]

/-- After a sequence of calls the event map holds for a pair what it held
before, and for a pair it did not hold the location of the first call that
looks the pair up. -/
theorem location_of_lookupEvents (calls : List (String × String × TracepointLocation)) :
    ∀ (m : EventMap) (p e : String),
      location_of (lookupEvents m calls).2 p e =
        if (location_of m p e).isSome then location_of m p e
        else first_sighting calls p e := by
  induction calls with
  | nil =>
    intro m p e
    cases h : location_of m p e <;> simp [lookupEvents, first_sighting, h]
  | cons c calls ih =>
    obtain ⟨p1, e1, loc1⟩ := c
    intro m p e
    simp only [lookupEvents]
    rw [ih]
    cases h1 : location_of m p1 e1 with
    | some l =>
      rw [(lookupEvent_of_seen m p1 e1 loc1 l h1).1]
      cases h : location_of m p e with
      | some l2 => rfl
      | none =>
        have hne : ¬(p1 = p ∧ e1 = e) := by
          rintro ⟨rfl, rfl⟩
          rw [h1] at h
          simp at h
        simp [first_sighting, List.find?_cons, hne]
    | none =>
      rw [(lookupEvent_of_unseen m p1 e1 loc1 h1).2 p e]
      by_cases hpe : p = p1 ∧ e = e1
      · obtain ⟨rfl, rfl⟩ := hpe
        simp [h1, first_sighting, List.find?_cons]
      · have hne : ¬(p1 = p ∧ e1 = e) := fun hc => hpe ⟨hc.1.symm, hc.2.symm⟩
        rw [if_neg hpe]
        cases h : location_of m p e with
        | some l2 => rfl
        | none => simp [first_sighting, List.find?_cons, hne]

theorem new_events_cons (c : String × String × TracepointLocation)
    (calls : List (String × String × TracepointLocation))
    (r : Except String LookupEventResult) (rs : List (Except String LookupEventResult))
    (p e : String) :
    new_events (c :: calls) (r :: rs) p e =
      (if c.1 = p ∧ c.2.1 = e ∧ r = Except.ok LookupEventResult.NEW_EVENT then 1 else 0) +
        new_events calls rs p e := by
  simp only [new_events, List.zip_cons_cons, List.filter_cons]
  split_ifs with h1 h2 h2
  · simp only [List.length_cons]
    omega
  · exact absurd (of_decide_eq_true h1) h2
  · exact absurd (decide_eq_true h2) h1
  · omega

/-- In a sequence of calls the lookups of a pair return `NEW_EVENT` once when
the event map did not hold the pair before and a call looks it up, and never
otherwise. -/
theorem new_events_lookupEvents (calls : List (String × String × TracepointLocation)) :
    ∀ (m : EventMap) (p e : String),
      new_events calls (lookupEvents m calls).1 p e =
        if (location_of m p e).isSome then 0
        else if (first_sighting calls p e).isSome then 1 else 0 := by
  induction calls with
  | nil =>
    intro m p e
    simp [lookupEvents, new_events, first_sighting]
  | cons c calls ih =>
    obtain ⟨p1, e1, loc1⟩ := c
    intro m p e
    simp only [lookupEvents]
    rw [new_events_cons, ih]
    cases h1 : location_of m p1 e1 with
    | some l =>
      obtain ⟨hm, hr⟩ := lookupEvent_of_seen m p1 e1 loc1 l h1
      rw [hm, hr]
      have hnot : ¬(p1 = p ∧ e1 = e ∧
          (if l = loc1 then Except.ok LookupEventResult.EXISTING_EVENT
            else Except.error "We found the same event twice in two different locations.") =
            (Except.ok LookupEventResult.NEW_EVENT : Except String LookupEventResult)) := by
        rintro ⟨_, _, h3⟩
        split_ifs at h3
        simp at h3
      rw [if_neg hnot, Nat.zero_add]
      cases h : location_of m p e with
      | some l2 => rfl
      | none =>
        have hne : ¬(p1 = p ∧ e1 = e) := by
          rintro ⟨rfl, rfl⟩
          rw [h1] at h
          simp at h
        rw [first_sighting_cons_ne calls p1 e1 p e loc1 hne]
    | none =>
      obtain ⟨hr, hm⟩ := lookupEvent_of_unseen m p1 e1 loc1 h1
      rw [hr, hm p e]
      by_cases hpe : p = p1 ∧ e = e1
      · obtain ⟨rfl, rfl⟩ := hpe
        simp [h1, first_sighting_cons_self]
      · have hne : ¬(p1 = p ∧ e1 = e) := fun hc => hpe ⟨hc.1.symm, hc.2.symm⟩
        rw [if_neg hpe, if_neg (fun hc => hne ⟨hc.1, hc.2.1⟩), Nat.zero_add]
        cases h : location_of m p e with
        | some l2 => rfl
        | none =>
          rw [first_sighting_cons_ne calls p1 e1 p e loc1 hne]

/-- C30: in every sequence of `lookupEvent` calls from the empty event map, the
map holds for each provider and event the location of the first call that
looks the pair up, and of the lookups of a pair exactly one returns
`NEW_EVENT` (none when no call looks the pair up), so the event is emitted
once.  From any event map `m`: a location the map holds for a pair is what it
holds after every further sequence of calls; the lookup of a pair the map does
not hold returns `NEW_EVENT` and records the location; the lookup of a pair
the map holds at an equal location returns `EXISTING_EVENT` and leaves the map
as it is; at a different location it throws and leaves the map as it is. -/
theorem event_map_keeps_first_sighting (m : EventMap)
    (calls : List (String × String × TracepointLocation)) (p e : String)
    (loc l : TracepointLocation) :
    location_of (lookupEvents [] calls).2 p e = first_sighting calls p e ∧
    new_events calls (lookupEvents [] calls).1 p e =
      (if (first_sighting calls p e).isSome then 1 else 0) ∧
    (location_of m p e = some l → location_of (lookupEvents m calls).2 p e = some l) ∧
    (location_of m p e = none →
      (lookupEvent m p e loc).1 = Except.ok LookupEventResult.NEW_EVENT ∧
      location_of (lookupEvent m p e loc).2 p e = some loc) ∧
    (location_of m p e = some l → l.operator_eq loc = true →
      (lookupEvent m p e loc).1 = Except.ok LookupEventResult.EXISTING_EVENT ∧
      (lookupEvent m p e loc).2 = m) ∧
    (location_of m p e = some l → l.operator_eq loc = false →
      (lookupEvent m p e loc).1 =
        Except.error "We found the same event twice in two different locations." ∧
      (lookupEvent m p e loc).2 = m) := by
  have hempty : location_of [] p e = none := rfl
  refine ⟨?_, ?_, ?_, ?_, ?_, ?_⟩
  · rw [location_of_lookupEvents, hempty]
    rfl
  · rw [new_events_lookupEvents, hempty]
    rfl
  · intro h
    rw [location_of_lookupEvents, h]
    rfl
  · intro h
    obtain ⟨h1, h2⟩ := lookupEvent_of_unseen m p e loc h
    exact ⟨h1, by rw [h2, if_pos ⟨rfl, rfl⟩]⟩
  · intro h heq
    obtain ⟨h1, h2⟩ := lookupEvent_of_seen m p e loc l h
    have hl : l = loc := by
      rw [← operator_ne_eq_false_iff]
      simp [TracepointLocation.operator_ne, heq]
    exact ⟨by rw [h2, if_pos hl], h1⟩
  · intro h hne
    obtain ⟨h1, h2⟩ := lookupEvent_of_seen m p e loc l h
    have hl : l ≠ loc := by
      rw [← operator_ne_iff]
      simp [TracepointLocation.operator_ne, hne]
    exact ⟨by rw [h2, if_neg hl], h1⟩

/-- The sample calls: the first lookup of the event of `prov1` returns
`NEW_EVENT`, the second, at the same location, `EXISTING_EVENT`, the third, at
another line, throws, and the map holds line 80 for the event throughout; the
lookup at line 91 on the map after the first call throws and leaves the map as
it is. -/
theorem event_map_keeps_first_sighting_witness :
    (lookupEvents [] sample_calls).1 =
      [Except.ok LookupEventResult.NEW_EVENT, Except.ok LookupEventResult.EXISTING_EVENT,
        Except.error "We found the same event twice in two different locations.",
        Except.ok LookupEventResult.NEW_EVENT] ∧
    location_of (lookupEvents [] sample_calls).2 "prov1" "event" =
      some { filePath_ := "test_code.c", line_ := 80 } ∧
    (lookupEvent (lookupEvents [] (sample_calls.take 1)).2 "prov1" "event"
        { filePath_ := "test_code.c", line_ := 91 }).1 =
      Except.error "We found the same event twice in two different locations." ∧
    (lookupEvent (lookupEvents [] (sample_calls.take 1)).2 "prov1" "event"
        { filePath_ := "test_code.c", line_ := 91 }).2 =
      (lookupEvents [] (sample_calls.take 1)).2 :=
  ⟨by decide,
    ((event_map_keeps_first_sighting [] sample_calls "prov1" "event"
      { filePath_ := "test_code.c", line_ := 91 }
      { filePath_ := "test_code.c", line_ := 80 }).1).trans (by decide),
    (event_map_keeps_first_sighting (lookupEvents [] (sample_calls.take 1)).2 sample_calls
      "prov1" "event" { filePath_ := "test_code.c", line_ := 91 }
      { filePath_ := "test_code.c", line_ := 80 }).2.2.2.2.2 (by decide) (by decide)⟩

/-! ## The relative header path -/

/-- An entry `P` never matches a header `P/R` whose `R` does not start with a
slash, as no canonical path does: the search goes on with the next entry. -/
theorem getRelativeHeaderPath_skips_directory (P R : List Nat) (rest : List (List Nat))
    (h : R.head? ≠ some (Char.toNat '/')) :
    getRelativeHeaderPath (P :: rest) (P ++ Char.toNat '/' :: R) =
      getRelativeHeaderPath rest (P ++ Char.toNat '/' :: R) := by
  rw [getRelativeHeaderPath]
  apply if_neg
  rintro ⟨_, _, h3⟩
  apply h
  rw [List.getD_append_right _ _ _ _ (by omega)] at h3
  cases R with
  | nil => simp at h3
  | cons c cs =>
    simp at h3
    simp [h3]

/-- C31 fails on the code: with the single entry `/usr/include` the header
`/usr/include/foo.h` comes back as the full path, not as `foo.h`, and with the
entry `/inc`, which is not a directory prefix of `/incX/foo.h`, the result is
`/foo.h`, not the full path: the function tests the character one place after
the slash that follows the entry.  An entry one character shorter than the
directory is the one that matches.  With a directory name that ends in a
two-byte character the index counts bytes: the entry `/usr/include` and the
header in the directory `/usr/include` followed by a small e with acute give
the full path. -/
theorem relative_header_path_off_by_one :
    getRelativeHeaderPath [utf8_bytes "/usr/include"] (utf8_bytes "/usr/include/foo.h") =
      utf8_bytes "/usr/include/foo.h" ∧
    getRelativeHeaderPath [utf8_bytes "/inc"] (utf8_bytes "/incX/foo.h") =
      utf8_bytes "/foo.h" ∧
    getRelativeHeaderPath [utf8_bytes "/usr/includ"] (utf8_bytes "/usr/include/foo.h") =
      utf8_bytes "/foo.h" ∧
    getRelativeHeaderPath [utf8_bytes "/usr/include"]
        (utf8_bytes "/usr/include\u00e9/foo.h") =
      utf8_bytes "/usr/include\u00e9/foo.h" := by
  decide

/-! ## The calling function in the format -/

theorem string_find_eq_none (pat s : List Char) (h : string_find pat s = none) :
    ¬ pat <:+: s := by
  induction s with
  | nil =>
    unfold string_find at h
    split_ifs at h with hp
    intro hi
    exact hp (List.eq_nil_of_infix_nil hi)
  | cons c rest ih =>
    unfold string_find at h
    split_ifs at h with hp
    rw [Option.map_eq_none'] at h
    rw [List.infix_cons_iff]
    rintro (hpre | hin)
    · exact hp (List.isPrefixOf_iff_prefix.mpr hpre)
    · exact ih h hin

theorem string_find_eq_some (pat s : List Char) (i : Nat) (h : string_find pat s = some i) :
    s = s.take i ++ pat ++ s.drop (i + pat.length) := by
  induction s generalizing i with
  | nil =>
    unfold string_find at h
    split_ifs at h with hp
    simp at h
    subst h
    simp [hp]
  | cons c rest ih =>
    unfold string_find at h
    split_ifs at h with hp
    · simp at h
      subst h
      obtain ⟨t, ht⟩ := List.isPrefixOf_iff_prefix.mp hp
      rw [← ht]
      simp
    · rw [Option.map_eq_some'] at h
      obtain ⟨j, hj, rfl⟩ := h
      have := ih j hj
      simp only [List.take_succ_cons, List.cons_append]
      rw [Nat.add_right_comm, List.drop_succ_cons]
      exact congrArg (List.cons c) this

theorem string_find_prefix (pre rest : List Char) (h : lbrace ∉ pre) :
    string_find FUNCTION_FORMAT (pre ++ FUNCTION_FORMAT ++ rest) = some pre.length := by
  induction pre with
  | nil =>
    simp [string_find, FUNCTION_FORMAT]
  | cons c pre ih =>
    have hc : c ≠ lbrace := fun hc => h (by simp [hc])
    have hp : lbrace ∉ pre := fun hp => h (by simp [hp])
    have hnp : ¬ FUNCTION_FORMAT.isPrefixOf (c :: (pre ++ FUNCTION_FORMAT ++ rest)) = true := by
      simp [FUNCTION_FORMAT, hc, Ne.symm hc]
    show string_find FUNCTION_FORMAT (c :: (pre ++ FUNCTION_FORMAT ++ rest)) = _
    rw [string_find, if_neg hnp, ih hp]
    rfl

theorem count_FUNCTION_FORMAT : FUNCTION_FORMAT.count lbrace = 1 := by decide

theorem string_find_of_not_mem (s : List Char) (h : lbrace ∉ s) :
    string_find FUNCTION_FORMAT s = none := by
  induction s with
  | nil => simp [string_find, FUNCTION_FORMAT]
  | cons c s ih =>
    have hc : c ≠ lbrace := fun hc => h (by simp [hc])
    have hp : lbrace ∉ s := fun hp => h (by simp [hp])
    have hnp : ¬ FUNCTION_FORMAT.isPrefixOf (c :: s) = true := by
      simp [FUNCTION_FORMAT, hc, Ne.symm hc]
    rw [string_find, if_neg hnp, ih hp]
    rfl

/-- With a function name that has no opening brace every pass of the loop
takes one opening brace away, so the loop ends, and it ends on a string in
which `find` sees no occurrence. -/
theorem loop_terminates (funcName : List Char) (hf : lbrace ∉ funcName) :
    ∀ (fuel : Nat) (out : List Char), out.count lbrace < fuel →
      ∃ r, insertCallingFunctionToFormat.loop funcName fuel out = some r ∧
        string_find FUNCTION_FORMAT r = none := by
  intro fuel
  induction fuel with
  | zero =>
    intro out h
    omega
  | succ fuel ih =>
    intro out h
    rw [insertCallingFunctionToFormat.loop]
    cases hfind : string_find FUNCTION_FORMAT out with
    | none => exact ⟨out, rfl, hfind⟩
    | some index =>
      dsimp only
      apply ih
      have hs := string_find_eq_some FUNCTION_FORMAT out index hfind
      have hc : out.count lbrace = (out.take index).count lbrace + 1 +
          (out.drop (index + FUNCTION_FORMAT.length)).count lbrace := by
        conv_lhs => rw [hs]
        rw [List.count_append, List.count_append, count_FUNCTION_FORMAT]
      rw [string_replace, List.count_append, List.count_append,
        List.count_eq_zero_of_not_mem hf]
      omega

theorem intercalate_nil (sep : List Char) : List.intercalate sep [] = [] := by
  simp [List.intercalate, List.intersperse]

theorem intercalate_singleton (sep p : List Char) : List.intercalate sep [p] = p := by
  simp [List.intercalate, List.intersperse]

theorem intercalate_cons_cons (sep p q : List Char) (ps : List (List Char)) :
    List.intercalate sep (p :: q :: ps) = p ++ sep ++ List.intercalate sep (q :: ps) := by
  simp [List.intercalate, List.intersperse]

/-- On a string in which every opening brace starts an occurrence of
`FUNCTION_FORMAT` the loop replaces the occurrences from left to right. -/
theorem loop_pieces (funcName : List Char) (hf : lbrace ∉ funcName) :
    ∀ (pieces : List (List Char)) (pre : List Char) (fuel : Nat),
      (∀ p ∈ pieces, lbrace ∉ p) → lbrace ∉ pre → pieces.length ≤ fuel → 0 < fuel →
      insertCallingFunctionToFormat.loop funcName fuel
          (pre ++ List.intercalate FUNCTION_FORMAT pieces) =
        some (pre ++ List.intercalate funcName pieces) := by
  intro pieces
  induction pieces with
  | nil =>
    intro pre fuel _ hpre _ hfuel
    obtain ⟨n, rfl⟩ : ∃ n, fuel = n + 1 := ⟨fuel - 1, by omega⟩
    rw [intercalate_nil, intercalate_nil, List.append_nil,
      insertCallingFunctionToFormat.loop, string_find_of_not_mem pre hpre]
  | cons p ps ih =>
    intro pre fuel hp hpre hfuel hpos
    obtain ⟨n, rfl⟩ : ∃ n, fuel = n + 1 := ⟨fuel - 1, by omega⟩
    have hp1 : lbrace ∉ p := hp p (by simp)
    cases ps with
    | nil =>
      have hnone : lbrace ∉ pre ++ p := by simp [hpre, hp1]
      rw [intercalate_singleton, intercalate_singleton,
        insertCallingFunctionToFormat.loop, string_find_of_not_mem _ hnone]
    | cons q qs =>
      have hpp : lbrace ∉ pre ++ p := by simp [hpre, hp1]
      rw [intercalate_cons_cons, intercalate_cons_cons, insertCallingFunctionToFormat.loop]
      have e1 : pre ++ (p ++ FUNCTION_FORMAT ++ List.intercalate FUNCTION_FORMAT (q :: qs)) =
          (pre ++ p) ++ FUNCTION_FORMAT ++ List.intercalate FUNCTION_FORMAT (q :: qs) := by
        simp
      rw [e1, string_find_prefix _ _ hpp]
      dsimp only
      have e2 : string_replace
          ((pre ++ p) ++ FUNCTION_FORMAT ++ List.intercalate FUNCTION_FORMAT (q :: qs))
          (pre ++ p).length FUNCTION_FORMAT.length funcName =
          (pre ++ p ++ funcName) ++ List.intercalate FUNCTION_FORMAT (q :: qs) := by
        unfold string_replace
        rw [List.append_assoc (pre ++ p), List.take_left, List.drop_append,
          List.drop_left]
      rw [e2, ih (pre ++ p ++ funcName) n (fun x hx => hp x (by simp [hx]))
        (by simp [hpre, hp1, hf]) (by simp at hfuel ⊢; omega) (by simp at hfuel; omega)]
      simp

/-- C35: for every format and every function name without an opening brace,
`insertCallingFunctionToFormat` returns once the loop may run more passes than
the format has opening braces, and `FUNCTION_FORMAT` does not occur in the
result; when the format is pieces without an opening brace joined by
`FUNCTION_FORMAT` (every opening brace starts an occurrence), the result is
the same pieces joined by the function name. -/
theorem calling_function_inserted (format funcName : String) (fuel : Nat)
    (hf : lbrace ∉ funcName.data) (hfuel : format.data.count lbrace < fuel) :
    ∃ out, insertCallingFunctionToFormat fuel format funcName = some out ∧
      ¬ FUNCTION_FORMAT <:+: out.data ∧
      ∀ pieces : List (List Char), (∀ p ∈ pieces, lbrace ∉ p) →
        format.data = List.intercalate FUNCTION_FORMAT pieces →
        out.data = List.intercalate funcName.data pieces := by
  obtain ⟨r, hr, hnone⟩ := loop_terminates funcName.data hf fuel format.data hfuel
  refine ⟨String.mk r, ?_, string_find_eq_none _ _ hnone, ?_⟩
  · simp [insertCallingFunctionToFormat, hr]
  · intro pieces hp hfmt
    have hlen : pieces.length ≤ fuel := by
      cases pieces with
      | nil => simp
      | cons p ps =>
        have hcount : (List.intercalate FUNCTION_FORMAT (p :: ps)).count lbrace = ps.length := by
          clear hfmt hr hnone
          induction ps generalizing p with
          | nil =>
            rw [intercalate_singleton]
            exact List.count_eq_zero_of_not_mem (hp p (by simp))
          | cons q qs ih =>
            rw [intercalate_cons_cons, List.count_append, List.count_append,
              List.count_eq_zero_of_not_mem (hp p (by simp)), count_FUNCTION_FORMAT,
              ih q (fun x hx => hp x (List.mem_cons_of_mem p hx)), List.length_cons]
            omega
        rw [hfmt, hcount] at hfuel
        simp only [List.length_cons]
        omega
    have h2 := loop_pieces funcName.data hf pieces [] fuel hp (by simp) hlen (by omega)
    rw [List.nil_append, List.nil_append, ← hfmt, hr] at h2
    exact Option.some.inj h2

/-- The format of the tracepoint `fnc_test` of the tests and the function name
`test_func`: the three occurrences are replaced. -/
theorem calling_function_inserted_witness :
    insertCallingFunctionToFormat 4 "fnc several times: \x7bfnc\x7d \x7bfnc\x7d \x7bfnc\x7d"
        "test_func" =
      some "fnc several times: test_func test_func test_func" ∧
    ∃ out,
      insertCallingFunctionToFormat 4 "fnc several times: \x7bfnc\x7d \x7bfnc\x7d \x7bfnc\x7d"
        "test_func" = some out ∧
      ¬ FUNCTION_FORMAT <:+: out.data :=
  ⟨by decide,
    (calling_function_inserted "fnc several times: \x7bfnc\x7d \x7bfnc\x7d \x7bfnc\x7d"
      "test_func" 4 (by decide) (by decide)).imp (fun _ h => ⟨h.1, h.2.1⟩)⟩

end trace_generator

/-! # Theorems about the atomic operations -/

namespace AbstractAtomic

theorem convert_add_convert (T : c_type) (x y : Int) :
    T.convert (x + T.convert (T.convert y)) = T.convert (x + y) := by
  cases T <;> simp only [c_type.convert, c_type.is_signed, c_type.bits] <;> norm_num <;> omega

theorem convert_sub_convert (T : c_type) (x y : Int) :
    T.convert (x - T.convert (T.convert y)) = T.convert (x - y) := by
  cases T <;> simp only [c_type.convert, c_type.is_signed, c_type.bits] <;> norm_num <;> omega

theorem convert_emod (T : c_type) (x : Int) : T.convert x % 2 ^ T.bits = x % 2 ^ T.bits := by
  cases T <;> simp only [c_type.convert, c_type.is_signed, c_type.bits] <;> norm_num <;> omega

theorem atomic_add_stored (T : c_type) (old a : Int) :
    (atomic_add T old a).ret = T.convert (old + a) ∧
    (atomic_add T old a).stored = T.convert (old + a) ∧
    (atomic_postadd T old a).ret = old ∧
    (atomic_postadd T old a).stored = T.convert (old + a) := by
  cases T <;>
    simp only [atomic_add, atomic_postadd, atomic_add_uint8_t, atomic_postadd_uint8_t,
      __atomic_add_fetch, __atomic_fetch_add, convert_add_convert, true_and, and_self]
  simp only [c_type.convert, c_type.is_signed, c_type.bits]
  norm_num
  omega

theorem atomic_sub_stored (T : c_type) (old a : Int) :
    (atomic_sub T old a).ret = T.convert (old - a) ∧
    (atomic_sub T old a).stored = T.convert (old - a) ∧
    (atomic_postsub T old a).ret = old ∧
    (atomic_postsub T old a).stored = T.convert (old - a) := by
  simp only [atomic_sub, atomic_postsub, __atomic_sub_fetch, __atomic_fetch_sub,
    convert_sub_convert, true_and, and_self]

theorem to_bits_natCast (T : c_type) (n : Nat) (h : n < 2 ^ T.bits) :
    T.to_bits (n : Int) = n := by
  unfold c_type.to_bits
  rw [Int.emod_eq_of_lt (Int.natCast_nonneg n) (by exact_mod_cast h), Int.toNat_natCast]

theorem convert_natCast (T : c_type) (n : Nat) (hT : T.has_bit_functions = true)
    (h : n < 2 ^ T.bits) : T.convert (n : Int) = n := by
  have hs : T.is_signed = false := by cases T <;> simp_all [c_type.has_bit_functions, c_type.is_signed]
  unfold c_type.convert
  rw [hs]
  simp only [Bool.false_eq_true, if_false]
  exact Int.emod_eq_of_lt (Int.natCast_nonneg n) (by exact_mod_cast h)

theorem to_bits_complement (T : c_type) (n : Nat) (hT : T.has_bit_functions = true)
    (h : n < 2 ^ T.bits) : T.to_bits (-(T.convert (n : Int)) - 1) = 2 ^ T.bits - 1 - n := by
  rw [convert_natCast T n hT h]
  unfold c_type.to_bits
  cases T <;> simp only [c_type.bits] at h ⊢ <;> norm_num at h ⊢ <;> omega

/-- What the bit mask functions return and leave stored. -/
theorem atomic_bits_stored (T : c_type) (m bits : Nat) (hT : T.has_bit_functions = true)
    (hm : m < 2 ^ T.bits) (hb : bits < 2 ^ T.bits) :
    (atomic_set_bits T m bits).ret = ((m ||| bits : Nat) : Int) ∧
    (atomic_set_bits T m bits).stored = ((m ||| bits : Nat) : Int) ∧
    (atomic_postset_bits T m bits).ret = m ∧
    (atomic_postset_bits T m bits).stored = ((m ||| bits : Nat) : Int) ∧
    (atomic_clear_bits T m bits).ret = ((m &&& (2 ^ T.bits - 1 - bits) : Nat) : Int) ∧
    (atomic_clear_bits T m bits).stored = ((m &&& (2 ^ T.bits - 1 - bits) : Nat) : Int) ∧
    (atomic_postclear_bits T m bits).ret = m ∧
    (atomic_postclear_bits T m bits).stored = ((m &&& (2 ^ T.bits - 1 - bits) : Nat) : Int) := by
  have h1 : T.to_bits (T.convert (bits : Int)) = bits := by
    rw [convert_natCast T bits hT hb, to_bits_natCast T bits hb]
  have h2 := to_bits_complement T bits hT hb
  have h3 := to_bits_natCast T m hm
  have hor : m ||| bits < 2 ^ T.bits := Nat.or_lt_two_pow hm hb
  have hand : m &&& (2 ^ T.bits - 1 - bits) < 2 ^ T.bits :=
    Nat.and_lt_two_pow m (by omega)
  simp only [atomic_set_bits, atomic_postset_bits, atomic_clear_bits, atomic_postclear_bits,
    __atomic_or_fetch, __atomic_fetch_or, __atomic_and_fetch, __atomic_fetch_and, h1, h2, h3,
    Int.ofNat_eq_coe, convert_natCast T _ hT hor, convert_natCast T _ hT hand, and_self]

/-- C32: in a sequential execution, for every integer type of
`abstract_atomic.h` and all operands, each pre-operation returns the value it
leaves stored, each post-operation returns the value stored before it, and
the two forms leave the same value stored: the value of the type congruent to
`old + a`, and to `old - a`, modulo `2 ^ bits`; increment and decrement are
addition and subtraction of 1; for the four unsigned types with bit mask
functions and values `m` and `bits` of the type, set leaves `m | bits` and
clear leaves `m & ~bits`. -/
theorem pre_and_post_operations (T : c_type) (old a : Int) (m bits : Nat) :
    ((atomic_add T old a).ret = (atomic_add T old a).stored ∧
      (atomic_postadd T old a).ret = old ∧
      (atomic_postadd T old a).stored = (atomic_add T old a).stored ∧
      (atomic_add T old a).stored = T.convert (old + a) ∧
      (atomic_add T old a).stored % 2 ^ T.bits = (old + a) % 2 ^ T.bits) ∧
    ((atomic_sub T old a).ret = (atomic_sub T old a).stored ∧
      (atomic_postsub T old a).ret = old ∧
      (atomic_postsub T old a).stored = (atomic_sub T old a).stored ∧
      (atomic_sub T old a).stored = T.convert (old - a) ∧
      (atomic_sub T old a).stored % 2 ^ T.bits = (old - a) % 2 ^ T.bits) ∧
    (atomic_inc T old = atomic_add T old 1 ∧ atomic_dec T old = atomic_sub T old 1 ∧
      atomic_postinc T old = atomic_postadd T old 1 ∧
      atomic_postdec T old = atomic_postsub T old 1) ∧
    (T.has_bit_functions = true → m < 2 ^ T.bits → bits < 2 ^ T.bits →
      ((atomic_set_bits T m bits).ret = (atomic_set_bits T m bits).stored ∧
        (atomic_postset_bits T m bits).ret = m ∧
        (atomic_postset_bits T m bits).stored = (atomic_set_bits T m bits).stored ∧
        (atomic_set_bits T m bits).stored = ((m ||| bits : Nat) : Int)) ∧
      ((atomic_clear_bits T m bits).ret = (atomic_clear_bits T m bits).stored ∧
        (atomic_postclear_bits T m bits).ret = m ∧
        (atomic_postclear_bits T m bits).stored = (atomic_clear_bits T m bits).stored ∧
        (atomic_clear_bits T m bits).stored =
          ((m &&& (2 ^ T.bits - 1 - bits) : Nat) : Int))) := by
  obtain ⟨a1, a2, a3, a4⟩ := atomic_add_stored T old a
  obtain ⟨s1, s2, s3, s4⟩ := atomic_sub_stored T old a
  refine ⟨⟨by rw [a1, a2], a3, by rw [a4, a2], a2, by rw [a2, convert_emod]⟩,
    ⟨by rw [s1, s2], s3, by rw [s4, s2], s2, by rw [s2, convert_emod]⟩,
    ⟨rfl, rfl, rfl, rfl⟩, ?_⟩
  intro hT hm hb
  obtain ⟨b1, b2, b3, b4, c1, c2, c3, c4⟩ := atomic_bits_stored T m bits hT hm hb
  exact ⟨⟨by rw [b1, b2], b3, by rw [b4, b2], b2⟩, ⟨by rw [c1, c2], c3, by rw [c4, c2], c2⟩⟩

/-- On a `uint8_t` holding 0xF0: setting the bits 0x3C leaves 0xFC and clearing
them leaves 0xC0; the post forms return 0xF0. -/
theorem pre_and_post_operations_witness :
    (atomic_set_bits c_type.uint8_t 240 60).stored = 252 ∧
    (atomic_postset_bits c_type.uint8_t 240 60).ret = 240 ∧
    (atomic_clear_bits c_type.uint8_t 240 60).stored = 192 ∧
    (atomic_postclear_bits c_type.uint8_t 240 60).ret = 240 :=
  have h := (pre_and_post_operations c_type.uint8_t 0 0 240 60).2.2.2 rfl (by decide) (by decide)
  ⟨h.1.2.2.2, h.1.2.1, h.2.2.2.2, h.2.2.1⟩

/-- C33: for every stored value `v` (every `uint8_t` value) and every addend
`a` in 0..255,
`atomic_add_uint8_t` stores and returns `(v + a) mod 256`, which is what
`atomic_postadd_uint8_t` leaves stored, although the addend reaches
`atomic_add_uint8_t` as the `int8_t` value `a - 256` when `a` is 128 or
more. -/
theorem add_uint8_through_int8 (v a : Int) (ha0 : 0 ≤ a) (ha1 : a < 256) :
    (atomic_add_uint8_t v a).stored = (v + a) % 256 ∧
    (atomic_add_uint8_t v a).ret = (v + a) % 256 ∧
    (atomic_postadd_uint8_t v a).stored = (v + a) % 256 ∧
    (atomic_postadd_uint8_t v a).ret = v ∧
    c_type.int8_t.convert a = (if a < 128 then a else a - 256) := by
  simp only [atomic_add_uint8_t, atomic_postadd_uint8_t, __atomic_add_fetch,
    __atomic_fetch_add, c_type.convert, c_type.is_signed, c_type.bits]
  norm_num
  constructor
  · omega
  · split_ifs <;> omega

/-- The value 100 and the addend 200, which arrives as -56: both functions
leave 44. -/
theorem add_uint8_through_int8_witness :
    (atomic_add_uint8_t 100 200).stored = 44 ∧ (atomic_add_uint8_t 100 200).ret = 44 ∧
    (atomic_postadd_uint8_t 100 200).stored = 44 ∧ c_type.int8_t.convert 200 = -56 :=
  have h := add_uint8_through_int8 100 200 (by decide) (by decide)
  ⟨h.1, h.2.1, h.2.2.1, h.2.2.2.2⟩

end AbstractAtomic
